import Mathlib

/-!
# RetroArch runtime orchestrator (retroarch.c)

A shallow embedding of the command dispatcher, the lifecycle states, startup
and shutdown, the save-state slot logic and the disk-control helpers of
`retroarch.c`, with theorems about them.

Conventions of the embedding:

* The three C globals `g_settings`, `g_extern` and `driver` are flattened into
  one record, `rarch_context`; each field keeps the name of the C member.
* Everything outside `retroarch.c` (the libretro core, `content.c`, the path
  helpers of `file_path.c`, the autosave threads, the file system) is reached
  through the record `externals`, over an abstract type of outside-world
  states.  Calls that mutate the outside world return the new world.
* Calls into the core's disk-control interface and into `save_state` /
  `load_state` are appended to `rarch_context.trace`, so that statements of the
  form "this callback is (not) invoked" or "in this order" can be expressed.
* `RARCH_LOG` / `RARCH_WARN` / `RARCH_ERR` write to the log stream only and are
  not part of the embedding.
* Commands and lifecycle states invoked from inside `retroarch.c`, and the calls
  of the outside functions reached through `externals.call`, are appended to
  `rarch_context.log` at the place of the call, with arguments and result.  So
  are the calls that make and release the autosave timers and their array
  (`calloc`, `autosave_new`, `autosave_free`, `free`, with the queries of the
  core's memory in between) and the list of shaders (`dir_list_new`,
  `dir_list_sort`, `dir_list_free`).
* Outside functions change the outside world only, never a member held in
  `rarch_context`.  Releasing the list of save files (`string_list_free`) has
  no effect in the embedding.
* `rarch_fail` and a failed `rarch_assert` do not return; they are recorded in
  `rarch_context.halted`, and the code after them does not run.
* Preprocessor switches are the boolean fields of `build_config`.
* `parse_input` and the functions of other files that fill in the context at
  startup (`config_load`, `init_libretro_sym`, `init_drivers_pre`) are the fields
  of `startup_steps`: arbitrary functions on contexts.
-/

namespace RetroArch

/-! ## C strings and machine integers -/

/-- A C string: the characters before the terminating NUL. -/
abbrev cstring := List Char

/-- The largest `unsigned` (32 bits). -/
def UINT_MAX : Nat := 4294967295

/-- The largest `int` (32 bits). -/
def INT_MAX : Int := 2147483647

/-- The smallest `int` (32 bits). -/
def INT_MIN : Int := -2147483648

/-- Conversion of a value to `unsigned`: reduction modulo 2^32. -/
def to_unsigned (n : Nat) : Nat := n % 4294967296

/-- Conversion of a value to `int`: two's-complement wrap-around into
`[-2^31, 2^31)`.  Also used for `state_slot++`, whose overflow at `INT_MAX`
is undefined in C and wraps on the usual targets. -/
def to_int (z : Int) : Int := (z + 2147483648) % 4294967296 - 2147483648

/-- Compile-time configuration: the preprocessor switches and the macros
whose definition is outside `retroarch.c`. -/
structure build_config where
  /-- Whether `HAVE_NETPLAY` is defined. -/
  HAVE_NETPLAY : Bool
  /-- Whether `HAVE_THREADS` is defined. -/
  HAVE_THREADS : Bool
  /-- Whether `HAVE_COMPRESSION` is defined. -/
  HAVE_COMPRESSION : Bool
  /-- Whether `HAVE_MENU` is defined. -/
  HAVE_MENU : Bool
  /-- Whether `HAVE_OVERLAY` is defined. -/
  HAVE_OVERLAY : Bool
  /-- Whether `HAVE_COMMAND` is defined. -/
  HAVE_COMMAND : Bool
  /-- Whether `HAVE_NETWORKING` is defined. -/
  HAVE_NETWORKING : Bool
  /-- Whether `HAVE_DYNAMIC` is defined. -/
  HAVE_DYNAMIC : Bool
  /-- Whether `GEKKO` is defined. -/
  GEKKO : Bool
  /-- Whether `HW_RVL` is defined. -/
  HW_RVL : Bool
  /-- Whether the compiler defines `__SSE__`. -/
  __SSE__ : Bool
  /-- Whether the compiler defines `__SSE2__`. -/
  __SSE2__ : Bool
  /-- Whether the compiler defines `__AVX__`. -/
  __AVX__ : Bool
  /-- The text of the macro `SALAMANDER_FILE`. -/
  SALAMANDER_FILE : cstring
  /-- The macro `MAX_USERS`. -/
  MAX_USERS : Nat
  /-- The text of the macro `RETRO_MSG_INIT_NETPLAY_FAILED`. -/
  RETRO_MSG_INIT_NETPLAY_FAILED : cstring
  /-- The macro `PATH_MAX_LENGTH`, the size of every path and message buffer. -/
  PATH_MAX_LENGTH : Nat
  /-- The largest `unsigned long` of the target. -/
  ULONG_MAX : Nat
deriving DecidableEq, Repr

/-! ## The C library functions used -/

/-- What `strlcpy(dst, src, size)` leaves in `dst`: at most `size - 1`
characters of `src`. -/
def strlcpy (src : cstring) (size : Nat) : cstring := src.take (size - 1)

/-- What `snprintf(dst, size, ...)` leaves in `dst`, given the fully formatted
text: at most `size - 1` characters of it. -/
def snprintf (size : Nat) (formatted : cstring) : cstring := formatted.take (size - 1)

/-- What `strlcat(dst, src, size)` leaves in `dst`: `dst` followed by as much of
`src` as fits in `size - 1` characters in all. -/
def strlcat (dst src : cstring) (size : Nat) : cstring :=
  dst ++ src.take (size - 1 - dst.length)

/-- The conversion `%u`. -/
def fmt_u (n : Nat) : cstring := Nat.toDigits 10 n

/-- The conversion `%d`. -/
def fmt_d (z : Int) : cstring :=
  if z < 0 then '-' :: Nat.toDigits 10 z.natAbs else Nat.toDigits 10 z.toNat

/-- The function `isdigit` of ctype.h. -/
def isdigit (c : Char) : Bool := decide ('0' ≤ c) && decide (c ≤ '9')

/-- The function `isspace` of ctype.h (C locale). -/
def isspace (c : Char) : Bool :=
  c = ' ' || c = '\t' || c = '\n' || c = '\x0b' || c = '\x0c' || c = '\r'

/-- The function `strstr(haystack, needle)`: the offset of the first occurrence of
`needle` in `haystack`, `none` for a null result. -/
def strstr : cstring → cstring → Option Nat
  | [], needle => if needle.isPrefixOf [] then some 0 else none
  | c :: cs, needle =>
    if needle.isPrefixOf (c :: cs) then some 0
    else (strstr cs needle).map (· + 1)

/-- The function `strrchr(s, c)` for a character `c` other than NUL: the offset of
the last occurrence of `c` in `s`, `none` for a null result. -/
def strrchr : cstring → Char → Option Nat
  | [], _ => none
  | x :: xs, c =>
    match strrchr xs c with
    | some i => some (i + 1)
    | none => if x = c then some 0 else none

/-- The value of a character as a digit in `strtoul`: `0-9`, then letters from
ten upwards. -/
def digit_value (c : Char) : Option Nat :=
  if '0' ≤ c ∧ c ≤ '9' then some (c.toNat - 48)
  else if 'a' ≤ c ∧ c ≤ 'z' then some (c.toNat - 97 + 10)
  else if 'A' ≤ c ∧ c ≤ 'Z' then some (c.toNat - 65 + 10)
  else none

/-- Whether `strtoul` accepts the character as a hexadecimal digit. -/
def is_hex_digit (c : Char) : Bool :=
  match digit_value c with
  | some d => decide (d < 16)
  | none => false

/-- The digit loop of `strtoul`: consumes the longest run of digits valid in
`base` and accumulates their value (unbounded; saturation is applied by
`strtoul`). -/
def strtoul_digits (base : Nat) : Nat → cstring → Nat
  | acc, [] => acc
  | acc, c :: cs =>
    match digit_value c with
    | some d => if d < base then strtoul_digits base (acc * base + d) cs else acc
    | none => acc

/-- The function `strtoul(s, NULL, 0)`: optional white space and sign, then a
hexadecimal number after `0x`, an octal number after a leading `0`, a decimal
number otherwise; the value saturates at `ULONG_MAX`, and a minus sign negates
it in `unsigned long`. -/
def strtoul (ulong_max : Nat) (s : cstring) : Nat :=
  let s1 := s.dropWhile isspace
  let negative : Bool := decide (s1.head? = some '-')
  let s2 := if s1.head? = some '-' ∨ s1.head? = some '+' then s1.tail else s1
  let hex : Bool :=
    decide (s2.head? = some '0')
      && (decide (s2[1]? = some 'x') || decide (s2[1]? = some 'X'))
      && (match s2[2]? with
          | some h => is_hex_digit h
          | none => false)
  let base := if hex then 16 else if s2.head? = some '0' then 8 else 10
  let s3 := if hex then s2.drop 2 else s2
  let v := strtoul_digits base 0 s3
  if v > ulong_max then ulong_max
  else if negative then (ulong_max + 1 - v) % (ulong_max + 1)
  else v

/-! ## Data model -/

/-- One entry of the message queue: text, priority, display duration in frames. -/
structure msg_queue_elem where
  msg : cstring
  prio : Nat
  duration : Nat
deriving DecidableEq, Repr

/-- Modelled from the spec: the message log (`msg_queue_t`, implemented outside
`retroarch.c`) is "an append-only queue of (text, priority, displayDurationFrames)"
that "supports clear".  The queue is the list of its entries. -/
abbrev msg_queue_t := List msg_queue_elem

/-- Modelled from the spec: `msg_queue_clear` removes every entry. -/
def msg_queue_clear (_queue : msg_queue_t) : msg_queue_t := []

/-- Modelled from the spec: `msg_queue_push` appends one entry. -/
def msg_queue_push (queue : msg_queue_t) (msg : cstring) (prio duration : Nat) : msg_queue_t :=
  queue ++ [⟨msg, prio, duration⟩]

/-- A call made into the core's disk-control interface or into the state
(de)serialisation routines of `content.c`, as recorded in the trace. -/
inductive core_call where
  | set_eject_state (ejected : Bool)
  | get_eject_state
  | get_image_index
  | set_image_index (index : Nat)
  | get_num_images
  | replace_image_index (index : Nat) (path : cstring)
  | add_image_index
  | save_state (path : cstring)
  | load_state (path : cstring)
deriving DecidableEq, Repr

/-- The opcodes of `rarch_main_command`: the members of `enum basic_event` that
have a case in its switch. -/
inductive rarch_cmd where
  | RARCH_CMD_LOAD_STATE
  | RARCH_CMD_SAVE_STATE
  | RARCH_CMD_CHEATS_DEINIT
  | RARCH_CMD_CHEATS_INIT
  | RARCH_CMD_REMAPPING_DEINIT
  | RARCH_CMD_REMAPPING_INIT
  | RARCH_CMD_REWIND_DEINIT
  | RARCH_CMD_REWIND_INIT
  | RARCH_CMD_AUTOSAVE_DEINIT
  | RARCH_CMD_AUTOSAVE_INIT
  | RARCH_CMD_AUDIO_STOP
  | RARCH_CMD_AUDIO_START
  | RARCH_CMD_OVERLAY_DEINIT
  | RARCH_CMD_OVERLAY_INIT
  | RARCH_CMD_DSP_FILTER_DEINIT
  | RARCH_CMD_DSP_FILTER_INIT
  | RARCH_CMD_GPU_RECORD_DEINIT
  | RARCH_CMD_RECORD_DEINIT
  | RARCH_CMD_RECORD_INIT
  | RARCH_CMD_HISTORY_DEINIT
  | RARCH_CMD_HISTORY_INIT
  | RARCH_CMD_CORE_INFO_DEINIT
  | RARCH_CMD_CORE_INFO_INIT
  | RARCH_CMD_CORE_DEINIT
  | RARCH_CMD_CORE_INIT
  | RARCH_CMD_VIDEO_SET_BLOCKING_STATE
  | RARCH_CMD_VIDEO_SET_NONBLOCKING_STATE
  | RARCH_CMD_DRIVERS_DEINIT
  | RARCH_CMD_DRIVERS_INIT
  | RARCH_CMD_SHADER_DIR_DEINIT
  | RARCH_CMD_SHADER_DIR_INIT
  | RARCH_CMD_SAVEFILES_DEINIT
  | RARCH_CMD_SAVEFILES_INIT
  | RARCH_CMD_MSG_QUEUE_DEINIT
  | RARCH_CMD_MSG_QUEUE_INIT
  | RARCH_CMD_BSV_MOVIE_DEINIT
  | RARCH_CMD_BSV_MOVIE_INIT
  | RARCH_CMD_NETPLAY_DEINIT
  | RARCH_CMD_NETPLAY_INIT
  | RARCH_CMD_NETWORK_DEINIT
  | RARCH_CMD_NETWORK_INIT
  | RARCH_CMD_COMMAND_DEINIT
  | RARCH_CMD_COMMAND_INIT
  | RARCH_CMD_TEMPORARY_CONTENT_DEINIT
  | RARCH_CMD_SUBSYSTEM_FULLPATHS_DEINIT
  | RARCH_CMD_LOG_FILE_DEINIT
  | RARCH_CMD_DISK_EJECT_TOGGLE
  | RARCH_CMD_DISK_NEXT
  | RARCH_CMD_DISK_PREV
  | RARCH_CMD_RUMBLE_STOP
  | RARCH_CMD_LOAD_CONTENT_PERSIST
  | RARCH_CMD_LOAD_CONTENT
  | RARCH_CMD_LOAD_CORE
  | RARCH_CMD_RESIZE_WINDOWED_SCALE
  | RARCH_CMD_MENU_TOGGLE
  | RARCH_CMD_CONTROLLERS_INIT
  | RARCH_CMD_RESET
  | RARCH_CMD_TAKE_SCREENSHOT
  | RARCH_CMD_PREPARE_DUMMY
  | RARCH_CMD_QUIT
  | RARCH_CMD_REINIT
  | RARCH_CMD_REWIND_TOGGLE
  | RARCH_CMD_AUTOSAVE_STATE
  | RARCH_CMD_AUDIO_MUTE_TOGGLE
  | RARCH_CMD_OVERLAY_NEXT
  | RARCH_CMD_VIDEO_APPLY_STATE_CHANGES
  | RARCH_CMD_VIDEO_SET_ASPECT_RATIO
  | RARCH_CMD_AUDIO_SET_NONBLOCKING_STATE
  | RARCH_CMD_AUDIO_SET_BLOCKING_STATE
  | RARCH_CMD_OVERLAY_SET_SCALE_FACTOR
  | RARCH_CMD_OVERLAY_SET_ALPHA_MOD
  | RARCH_CMD_AUDIO_REINIT
  | RARCH_CMD_RESET_CONTEXT
  | RARCH_CMD_QUIT_RETROARCH
  | RARCH_CMD_RESUME
  | RARCH_CMD_RESTART_RETROARCH
  | RARCH_CMD_MENU_SAVE_CONFIG
  | RARCH_CMD_SHADERS_APPLY_CHANGES
  | RARCH_CMD_PAUSE_CHECKS
  | RARCH_CMD_PAUSE_TOGGLE
  | RARCH_CMD_UNPAUSE
  | RARCH_CMD_PAUSE
  | RARCH_CMD_MENU_PAUSE_LIBRETRO
  | RARCH_CMD_SAVEFILES
  | RARCH_CMD_NETPLAY_FLIP_PLAYERS
  | RARCH_CMD_FULLSCREEN_TOGGLE
  | RARCH_CMD_GRAB_MOUSE_TOGGLE
  | RARCH_CMD_PERFCNT_REPORT_FRONTEND_LOG
deriving DecidableEq, Repr

/-- The lifecycle states of `rarch_main_set_state` (members of `enum
action_state`). -/
inductive rarch_action_state where
  | RARCH_ACTION_STATE_NONE
  | RARCH_ACTION_STATE_LOAD_CONTENT
  | RARCH_ACTION_STATE_MENU_RUNNING
  | RARCH_ACTION_STATE_MENU_RUNNING_FINISHED
  | RARCH_ACTION_STATE_QUIT
  | RARCH_ACTION_STATE_FORCE_QUIT
deriving DecidableEq, Repr

/-- A value passed to, or returned by, a function that is defined outside
`retroarch.c`: a null pointer, a pointer to an object (identified by a number), an
integer, a boolean, a string, or a symbolic enumeration constant. -/
inductive cval where
  | null
  | ptr (handle : Nat)
  | int (n : Int)
  | bool (b : Bool)
  | str (s : cstring)
  | enum (name : String)
deriving DecidableEq, Repr

/-- The object a returned value points to; `none` for a null pointer (and for
anything that is not a pointer). -/
def cval.to_handle : cval → Option Nat
  | cval.ptr h => some h
  | _ => none

/-- A handle as an argument: the pointer, or null. -/
def cval.of_handle : Option Nat → cval
  | some h => cval.ptr h
  | none => cval.null

/-- The truth value of a returned value, as C tests it: null, zero and `false`
are false. -/
def cval.to_bool : cval → Bool
  | cval.null => false
  | cval.ptr _ => true
  | cval.int n => n ≠ 0
  | cval.bool b => b
  | cval.str _ => true
  | cval.enum _ => true

/-- The functions defined outside `retroarch.c` that the subsystem commands
and the lifecycle states call, by their C names.  `menu_ctx_toggle`,
`frontend_content_loaded`, `video_set_nonblock_state`, `video_set_texture_enable`,
`audio_alive`, `audio_stop` and `audio_start` are the members `toggle` of
`driver.menu_ctx`, `content_loaded` of `driver.frontend_ctx`, `set_nonblock_state`
of `driver.video`, `set_texture_enable` of `driver.video_poke` and `alive`, `stop`,
`start` of `driver.audio`. -/
inductive extern_fn where
  | cheat_manager_free
  | input_remapping_load_file
  | state_manager_free
  | state_manager_new
  | state_manager_push_where
  | pretro_serialize
  | state_manager_push_do
  | input_overlay_free
  | input_overlay_new
  | rarch_dsp_filter_free
  | rarch_dsp_filter_new
  | recording_deinit
  | recording_init
  | content_playlist_free
  | content_playlist_init
  | core_info_list_free
  | core_info_list_new
  | pretro_unload_game
  | pretro_deinit
  | uninit_libretro_sym
  | pretro_init
  | init_content_file
  | load_ram_file
  | path_file_exists
  | retro_init_libretro_cbs
  | pretro_get_system_av_info
  | rarch_get_time_usec
  | uninit_drivers
  | init_drivers
  | msg_queue_free
  | msg_queue_new
  | bsv_movie_free
  | bsv_movie_init
  | netplay_free
  | netplay_new
  | retro_set_default_callbacks
  | network_deinit
  | network_init
  | rarch_cmd_free
  | rarch_cmd_new
  | remove
  | fclose
  | menu_ctx_toggle
  | menu_load_content
  | frontend_content_loaded
  | menu_apply_deferred_settings
  | driver_set_nonblock_state
  | video_set_nonblock_state
  | video_set_texture_enable
  | audio_alive
  | audio_stop
  | audio_start
  | input_driver_set_rumble_state
  | rarch_environment_cb
  | libretro_free_system_info
  | libretro_get_system_info
  | core_info_list_get_info
  | pretro_reset
  | pretro_set_controller_port_device
  | take_screenshot
  | input_poll
  | audio_driver_mute_toggle
  | input_overlay_next
  | input_overlay_set_scale_factor
  | input_overlay_set_alpha_mod
  | video_poke_apply_state_changes
  | video_poke_set_aspect_ratio
  | audio_set_nonblock_state
  | frontend_set_fork
  | fill_dated_filename
  | config_save_file
  | menu_shader_manager_apply_changes
  | retro_ctx_frame_cb
  | save_ram_file
  | netplay_flip_users
  | video_has_windowed
  | input_grab_mouse
  | video_poke_show_mouse
  | rarch_perf_log
  | rarch_get_cpu_features
  | calloc
  | free
  | autosave_new
  | autosave_free
  | pretro_get_memory_size
  | pretro_get_memory_data
  | dir_list_new
  | dir_list_sort
  | dir_list_free
deriving DecidableEq, Repr

/-- The pointers of `driver` that are set up outside `retroarch.c` and that the
embedded code tests for null before calling through them. -/
inductive driver_slot where
  /-- The test `driver.menu_ctx && driver.menu_ctx->toggle`. -/
  | menu_ctx_toggle
  /-- The test `driver.frontend_ctx && driver.frontend_ctx->content_loaded`. -/
  | frontend_content_loaded
  /-- The test `driver.video && driver.video->set_nonblock_state`. -/
  | video_set_nonblock_state
  /-- The test `driver.video_data && driver.video_poke &&
  driver.video_poke->set_texture_enable`. -/
  | video_set_texture_enable
  /-- The test `driver.audio_data`. -/
  | audio_data
  /-- The test `driver.video_data && driver.video_poke &&
  driver.video_poke->apply_state_changes`. -/
  | video_poke_apply_state_changes
  /-- The test `driver.video_data && driver.video_poke &&
  driver.video_poke->set_aspect_ratio`. -/
  | video_poke_set_aspect_ratio
  /-- The test `driver.audio && driver.audio->set_nonblock_state`. -/
  | audio_set_nonblock_state
  /-- The test `driver.frontend_ctx && driver.frontend_ctx->set_fork`. -/
  | frontend_set_fork
  /-- The test `driver.video`. -/
  | video
  /-- The test `driver.input && driver.input->grab_mouse`. -/
  | input_grab_mouse
  /-- The test `driver.video_poke && driver.video_poke->show_mouse`. -/
  | video_poke_show_mouse
  /-- The test `driver.retro_ctx.frame_cb`. -/
  | retro_ctx_frame_cb
deriving DecidableEq, Repr

/-- An entry of the call log: a command or a lifecycle state invoked from
inside `retroarch.c`, or a call of an outside function with its arguments and
the value it returned. -/
inductive rarch_call where
  | command (cmd : rarch_cmd)
  | set_state (state : rarch_action_state)
  | external (fn : extern_fn) (args : List cval) (ret : cval)
deriving DecidableEq, Repr

/-- A keyboard callback (`retro_keyboard_event_t`): null, the function
`menu_input_key_event` of the menu, or a callback registered by the core. -/
inductive retro_keyboard_event_t where
  | null
  | menu_input_key_event
  | core (id : Nat)
deriving DecidableEq, Repr

/-- The members of `menu_handle_t` that `retroarch.c` writes. -/
structure menu_handle_t where
  need_refresh : Bool
  load_no_content : Bool
deriving DecidableEq, Repr

/-- Why control left the normal flow: `rarch_fail(error_code, error)` jumps to
`g_extern.error_sjlj_context`, a failed `rarch_assert` stops the program. -/
inductive halt_reason where
  | rarch_fail (error_code : Int) (error : cstring)
  | rarch_assert
deriving DecidableEq, Repr

/-- The struct `retro_disk_control_callback` of libretro.h, over outside-world
states `σ`.  `get_num_images` is the member whose nullness `retroarch.c` tests to
decide whether the core has the disk-control capability, so it is optional; the
other members are only ever called, never tested.  The three `get_` callbacks
report on the core without changing it. -/
structure retro_disk_control_callback (σ : Type) where
  set_eject_state : Bool → σ → Bool × σ
  get_eject_state : σ → Bool
  get_image_index : σ → Nat
  set_image_index : Nat → σ → Bool × σ
  get_num_images : Option (σ → Nat)
  replace_image_index : Nat → cstring → σ → Bool × σ
  add_image_index : σ → Bool × σ

/-- The struct `retro_subsystem_memory_info` of libretro.h. -/
structure retro_subsystem_memory_info where
  extension : cstring
  type : Nat
deriving DecidableEq, Repr

/-- The struct `retro_subsystem_rom_info` of libretro.h, reduced to its memory
table (`memory`, `num_memory`). -/
structure retro_subsystem_rom_info where
  memory : List retro_subsystem_memory_info
deriving DecidableEq, Repr

/-- The struct `retro_subsystem_info` of libretro.h: identifier and ROM table
(`roms`, `num_roms`). -/
structure retro_subsystem_info where
  ident : cstring
  roms : List retro_subsystem_rom_info
deriving DecidableEq, Repr

/-- The constant `RETRO_MEMORY_SAVE_RAM` of libretro.h. -/
def RETRO_MEMORY_SAVE_RAM : Nat := 0

/-- The constant `RETRO_MEMORY_RTC` of libretro.h. -/
def RETRO_MEMORY_RTC : Nat := 1

/-- The struct `retro_controller_description` of libretro.h: the name of a
controller (`desc`, which may be null) and its device id. -/
structure retro_controller_description where
  desc : Option cstring
  id : Nat
deriving DecidableEq, Repr

/-- The struct `retro_controller_info` of libretro.h: the controllers a port
accepts (`types`, `num_types`). -/
structure retro_controller_info where
  types : List retro_controller_description
deriving DecidableEq, Repr

/-- The constant `RETRO_DEVICE_NONE` of libretro.h. -/
def RETRO_DEVICE_NONE : Nat := 0

/-- The constant `RETRO_DEVICE_JOYPAD` of libretro.h. -/
def RETRO_DEVICE_JOYPAD : Nat := 1

/-- The constant `RETRO_SIMD_SSE` of libretro.h. -/
def RETRO_SIMD_SSE : Nat := 1

/-- The constant `RETRO_SIMD_SSE2` of libretro.h. -/
def RETRO_SIMD_SSE2 : Nat := 2

/-- The constant `RETRO_SIMD_AVX` of libretro.h. -/
def RETRO_SIMD_AVX : Nat := 16

/-- The collaborators of `retroarch.c` that are defined in other files, over
outside-world states `σ` (core, file system, autosave threads). -/
structure externals (σ : Type) where
  /-- The core's `retro_serialize_size`. -/
  pretro_serialize_size : σ → Nat
  /-- The core's `retro_get_memory_size(type)`. -/
  pretro_get_memory_size : Nat → σ → Nat
  /-- The core's `retro_get_memory_data(type)`, an address. -/
  pretro_get_memory_data : Nat → σ → Nat
  /-- The function `save_state(path)` of content.c. -/
  save_state : cstring → σ → Bool × σ
  /-- The function `load_state(path)` of content.c. -/
  load_state : cstring → σ → Bool × σ
  /-- The result of `fill_pathname_noext(out, in_path, replace, size)`. -/
  fill_pathname_noext : cstring → cstring → Nat → cstring
  /-- The result of `fill_pathname(out, in_path, replace, size)`. -/
  fill_pathname : cstring → cstring → Nat → cstring
  /-- The result of `fill_pathname_dir(in_dir, in_basename, replace, size)`, left
  in `in_dir`. -/
  fill_pathname_dir : cstring → cstring → cstring → Nat → cstring
  /-- The result of `fill_pathname_basedir(out, in_path, size)`. -/
  fill_pathname_basedir : cstring → Nat → cstring
  /-- The result of `fill_pathname_base(out, in_path, size)`. -/
  fill_pathname_base : cstring → Nat → cstring
  /-- The result of `path_basedir(path)`, left in `path`. -/
  path_basedir : cstring → cstring
  /-- The function `path_is_directory(path)`. -/
  path_is_directory : cstring → σ → Bool
  /-- The function `dir_list_new(dir, NULL, false)`: the entries, `none` for a null
  result. -/
  dir_list_new : cstring → σ → Option (List cstring)
  /-- The function `libretro_find_subsystem_info(info, num_info, ident)`. -/
  libretro_find_subsystem_info :
    List retro_subsystem_info → cstring → Option retro_subsystem_info
  /-- Whether `string_list_new()` returns a list (non-null). -/
  string_list_new : σ → Bool
  /-- Whether `calloc(n, sizeof(autosave_t*))` returns a block (non-null). -/
  calloc : Nat → σ → Bool
  /-- The function `autosave_new(path, data, size, interval)`: the handle, `none` for
  a null result. -/
  autosave_new : cstring → Nat → Nat → Nat → σ → Option Nat × σ
  /-- The function `autosave_free(handle)`. -/
  autosave_free : Option Nat → σ → σ
  /-- The function `dir_list_new(dir, ext, false)` with a list of extensions `ext`:
  the entries, `none` for a null result. -/
  dir_list_new_ext : cstring → cstring → σ → Option (List cstring)
  /-- What `dir_list_sort(list, false)` leaves in `list`. -/
  dir_list_sort : List cstring → List cstring
  /-- The result of `fill_pathname_join(out, dir, path, size)`. -/
  fill_pathname_join : cstring → cstring → Nat → cstring
  /-- The result of `path_remove_extension(path)`, left in `path`. -/
  path_remove_extension : cstring → cstring
  /-- The function `libretro_find_controller_description(info, id)`: the entry
  found, `none` for a null result. -/
  libretro_find_controller_description :
    retro_controller_info → Nat → Option retro_controller_description
  /-- Whether a pointer of `driver` that is set up outside `retroarch.c` is
  non-null. -/
  has : driver_slot → σ → Bool
  /-- The other functions defined outside `retroarch.c`, by name: the value
  returned for these arguments and the world after the call. -/
  call : extern_fn → List cval → σ → cval × σ

/-- The runtime context: the members of `g_settings`, `g_extern` and `driver`
that the embedded functions read or write, the outside world, and the trace of
calls made so far. -/
structure rarch_context (σ : Type) where
  /-- The member `g_settings.state_slot` (an `int`). -/
  state_slot : Int
  /-- The member `g_settings.savestate_auto_index`. -/
  savestate_auto_index : Bool
  /-- The member `g_settings.autosave_interval` (an `unsigned`). -/
  autosave_interval : Nat
  /-- The member `g_settings.system_directory`. -/
  system_directory : cstring
  /-- The member `g_extern.fullpath`. -/
  fullpath : cstring
  /-- The member `g_extern.basename`. -/
  basename : cstring
  /-- The member `g_extern.savefile_name`. -/
  savefile_name : cstring
  /-- The member `g_extern.savestate_name`. -/
  savestate_name : cstring
  /-- The member `g_extern.cheatfile_name`. -/
  cheatfile_name : cstring
  /-- The member `g_extern.subsystem`. -/
  subsystem : cstring
  /-- The member `g_extern.ups_name`. -/
  ups_name : cstring
  /-- The member `g_extern.bps_name`. -/
  bps_name : cstring
  /-- The member `g_extern.ips_name`. -/
  ips_name : cstring
  /-- The member `g_extern.bsv.movie_path`. -/
  bsv_movie_path : cstring
  /-- The member `g_extern.has_set_save_path`. -/
  has_set_save_path : Bool
  /-- The member `g_extern.has_set_state_path`. -/
  has_set_state_path : Bool
  /-- The member `g_extern.bsv.movie`, the movie session handle (`none` is NULL). -/
  bsv_movie : Option Nat
  /-- The member `g_extern.rewind.state`, the rewind buffer handle (`none` is NULL). -/
  rewind_state : Option Nat
  /-- The member `g_extern.savefiles`: paths with their `attr.i` (`none` is NULL). -/
  savefiles : Option (List (cstring × Nat))
  /-- The member `g_extern.subsystem_fullpaths` (`none` is NULL). -/
  subsystem_fullpaths : Option (List cstring)
  /-- The member `g_extern.autosave`, an array of handles (`none` is NULL). -/
  autosave : Option (List (Option Nat))
  /-- The member `g_extern.num_autosave`. -/
  num_autosave : Nat
  /-- The member `g_extern.msg_queue`. -/
  msg_queue : msg_queue_t
  /-- The members `g_extern.system.special` and `g_extern.system.num_special`. -/
  special : List retro_subsystem_info
  /-- The member `g_extern.system.disk_control`. -/
  disk_control : retro_disk_control_callback σ
  /-- The member `driver.netplay_data`, the netplay handle (`none` is NULL). -/
  netplay_data : Option Nat
  /-- The member `g_settings.rewind_enable`. -/
  rewind_enable : Bool
  /-- The member `g_settings.rewind_buffer_size`. -/
  rewind_buffer_size : Nat
  /-- The member `g_settings.rewind_granularity` (an `unsigned`). -/
  rewind_granularity : Nat
  /-- The member `g_settings.menu.pause_libretro`. -/
  menu_pause_libretro : Bool
  /-- The member `g_settings.audio.mute_enable`. -/
  audio_mute_enable : Bool
  /-- The member `g_settings.audio.dsp_plugin`. -/
  audio_dsp_plugin : cstring
  /-- The member `g_settings.input.remap_binds_enable`. -/
  input_remap_binds_enable : Bool
  /-- The member `g_settings.input.remapping_path`. -/
  input_remapping_path : cstring
  /-- The member `g_settings.input.overlay`. -/
  input_overlay : cstring
  /-- The member `g_settings.input.overlay_enable`. -/
  input_overlay_enable : Bool
  /-- The member `g_settings.input.overlay_opacity` (a `float`, kept as its bits). -/
  input_overlay_opacity : Nat
  /-- The member `g_settings.input.overlay_scale` (a `float`, kept as its bits). -/
  input_overlay_scale : Nat
  /-- The member `g_settings.osk.overlay`. -/
  osk_overlay : cstring
  /-- The member `g_settings.osk.enable`. -/
  osk_enable : Bool
  /-- The member `g_settings.history_list_enable`. -/
  history_list_enable : Bool
  /-- The member `g_settings.content_history_path`. -/
  content_history_path : cstring
  /-- The member `g_settings.content_history_size`. -/
  content_history_size : Nat
  /-- The member `g_settings.libretro_directory`. -/
  libretro_directory : cstring
  /-- The member `g_settings.video.shader_dir`. -/
  video_shader_dir : cstring
  /-- The member `g_settings.stdin_cmd_enable`. -/
  stdin_cmd_enable : Bool
  /-- The member `g_settings.network_cmd_enable`. -/
  network_cmd_enable : Bool
  /-- The member `g_settings.network_cmd_port`. -/
  network_cmd_port : Nat
  /-- The member `g_settings.username`. -/
  username : cstring
  /-- The member `g_settings.savestate_auto_load`. -/
  savestate_auto_load : Bool
  /-- The member `g_extern.lifecycle_state`. -/
  lifecycle_state : Nat
  /-- The member `g_extern.is_menu`. -/
  is_menu : Bool
  /-- The member `g_extern.system.shutdown`. -/
  system_shutdown : Bool
  /-- The member `g_extern.system.key_event`. -/
  system_key_event : retro_keyboard_event_t
  /-- The member `g_extern.frontend_key_event`. -/
  frontend_key_event : retro_keyboard_event_t
  /-- The member `g_extern.system.frame_time_last`. -/
  system_frame_time_last : Int
  /-- Whether the member `g_extern.system.audio_callback.callback` is non-null. -/
  system_audio_callback : Bool
  /-- The member `g_extern.cheat`, the cheat manager (`none` is NULL). -/
  cheat : Option Nat
  /-- The member `g_extern.rewind.size`. -/
  rewind_size : Nat
  /-- The member `g_extern.audio_data.dsp`, the DSP filter (`none` is NULL). -/
  audio_data_dsp : Option Nat
  /-- The member `g_extern.audio_data.in_rate` (a `double`, kept as its bits). -/
  audio_data_in_rate : Nat
  /-- The member `g_extern.record_gpu_buffer` (`none` is NULL). -/
  record_gpu_buffer : Option Nat
  /-- The member `g_defaults.history`, the content history (`none` is NULL). -/
  history : Option Nat
  /-- The member `g_extern.core_info`, the core info list (`none` is NULL). -/
  core_info : Option Nat
  /-- The member `g_extern.shader_dir.list` (`none` is NULL). -/
  shader_dir_list : Option (List cstring)
  /-- The member `g_extern.shader_dir.ptr`. -/
  shader_dir_ptr : Nat
  /-- The member `g_extern.use_sram`. -/
  use_sram : Bool
  /-- The member `g_extern.sram_save_disable`. -/
  sram_save_disable : Bool
  /-- The member `g_extern.sram_load_disable`. -/
  sram_load_disable : Bool
  /-- The member `g_extern.netplay_enable`. -/
  netplay_enable : Bool
  /-- The member `g_extern.netplay_is_client`. -/
  netplay_is_client : Bool
  /-- The member `g_extern.netplay_is_spectate`. -/
  netplay_is_spectate : Bool
  /-- The member `g_extern.netplay_server`. -/
  netplay_server : cstring
  /-- The member `g_extern.netplay_port`. -/
  netplay_port : Nat
  /-- The member `g_extern.netplay_sync_frames`. -/
  netplay_sync_frames : Nat
  /-- The pointer `g_extern.msg_queue` (`none` is NULL); the entries of the queue
  it points to are in `msg_queue`. -/
  msg_queue_ptr : Option Nat
  /-- The member `g_extern.http.msg_queue` (`none` is NULL). -/
  http_msg_queue : Option Nat
  /-- The member `g_extern.nbio.msg_queue` (`none` is NULL). -/
  nbio_msg_queue : Option Nat
  /-- The member `g_extern.images.msg_queue` (`none` is NULL). -/
  images_msg_queue : Option Nat
  /-- The member `g_extern.bsv.movie_start_playback`. -/
  bsv_movie_start_playback : Bool
  /-- The member `g_extern.bsv.movie_start_recording`. -/
  bsv_movie_start_recording : Bool
  /-- The member `g_extern.bsv.movie_start_path`. -/
  bsv_movie_start_path : cstring
  /-- The member `g_extern.bsv.movie_playback`. -/
  bsv_movie_playback : Bool
  /-- The member `g_extern.temporary_content` (`none` is NULL). -/
  temporary_content : Option (List cstring)
  /-- The member `g_extern.log_file` (`none` is NULL). -/
  log_file : Option Nat
  /-- The member `g_extern.libretro_dummy`. -/
  libretro_dummy : Bool
  /-- The member `g_extern.libretro_no_content`. -/
  libretro_no_content : Bool
  /-- The member `g_extern.frame_limit.last_frame_time`. -/
  frame_limit_last_frame_time : Int
  /-- The member `driver.overlay`, the input overlay (`none` is NULL). -/
  overlay : Option Nat
  /-- The member `driver.overlay_state`, as a number that is 0 when every byte of
  the struct is 0. -/
  overlay_state : Nat
  /-- The member `driver.osk_enable`. -/
  driver_osk_enable : Bool
  /-- The member `driver.command`, the command interface (`none` is NULL). -/
  command : Option Nat
  /-- The member `driver.stdin_claimed`. -/
  stdin_claimed : Bool
  /-- The member `driver.nonblock_state`. -/
  nonblock_state : Bool
  /-- The member `driver.flushing_input`. -/
  flushing_input : Bool
  /-- The member `driver.audio_active`. -/
  audio_active : Bool
  /-- The member `g_settings.video.scale` (a `float`; the value converted from the
  `unsigned` is kept as that number). -/
  video_scale : Nat
  /-- The member `g_settings.video.fullscreen`. -/
  video_fullscreen : Bool
  /-- The member `g_settings.video.black_frame_insertion`. -/
  video_black_frame_insertion : Bool
  /-- The member `g_settings.video.aspect_ratio_idx`. -/
  video_aspect_ratio_idx : Nat
  /-- The member `g_settings.savestate_auto_save`. -/
  savestate_auto_save : Bool
  /-- The member `g_settings.input.libretro_device`, an array of `MAX_USERS`
  device ids, by port. -/
  input_libretro_device : Nat → Nat
  /-- The member `g_settings.libretro`, the path of the core. -/
  libretro : cstring
  /-- The member `g_settings.config_save_on_exit`. -/
  config_save_on_exit : Bool
  /-- The member `g_settings.menu_config_directory`. -/
  menu_config_directory : cstring
  /-- The member `g_defaults.core_dir`. -/
  defaults_core_dir : cstring
  /-- The member `g_extern.config_path`. -/
  config_path : cstring
  /-- The member `g_extern.block_config_read`. -/
  block_config_read : Bool
  /-- The member `g_extern.main_is_init`. -/
  main_is_init : Bool
  /-- The member `g_extern.error_in_init`. -/
  error_in_init : Bool
  /-- The member `g_extern.is_paused`. -/
  is_paused : Bool
  /-- The member `g_extern.pending.windowed_scale`. -/
  pending_windowed_scale : Nat
  /-- The member `g_extern.system.num_ports`. -/
  system_num_ports : Nat
  /-- The member `g_extern.system.ports`, an array of `num_ports` entries, by
  port. -/
  system_ports : Nat → retro_controller_info
  /-- The member `g_extern.system.hw_render_callback.cache_context`. -/
  hw_render_callback_cache_context : Bool
  /-- The member `g_extern.frame_cache.data`: null, a pointer, or the constant
  `RETRO_HW_FRAME_BUFFER_VALID`. -/
  frame_cache_data : cval
  /-- The member `g_extern.frame_cache.width`. -/
  frame_cache_width : Nat
  /-- The member `g_extern.frame_cache.height`. -/
  frame_cache_height : Nat
  /-- The member `g_extern.frame_cache.pitch`. -/
  frame_cache_pitch : Nat
  /-- The member `driver.video_active`. -/
  video_active : Bool
  /-- The member `driver.video_cache_context`. -/
  video_cache_context : Bool
  /-- The member `driver.video_cache_context_ack`. -/
  video_cache_context_ack : Bool
  /-- The member `driver.recording_data` (`none` is NULL). -/
  recording_data : Option Nat
  /-- The variable `grab_mouse_state`, static in the case
  `RARCH_CMD_GRAB_MOUSE_TOGGLE`. -/
  grab_mouse_state : Bool
  /-- The member `driver.menu`, which `menu_driver_resolve` returns (`none` is
  NULL). -/
  menu : Option menu_handle_t
  /-- Whether control has left the normal flow, and why (`none`: it has not). -/
  halted : Option halt_reason
  /-- The commands and lifecycle states invoked from inside `retroarch.c` and the
  calls of outside functions made by the subsystem commands and the lifecycle
  states, oldest first. -/
  log : List rarch_call
  /-- The state of everything outside `retroarch.c`. -/
  world : σ
  /-- The calls recorded so far, oldest first. -/
  trace : List core_call

/-! ## Save states (`rarch_load_state`, `rarch_save_state`, `main_state`) -/

section operations

variable {σ : Type}

/-- The path that `main_state` resolves from `g_extern.savestate_name` and
`g_settings.state_slot` (its first statement). -/
def main_state_path (cfg : build_config) (g : rarch_context σ) : cstring :=
  if g.state_slot > 0 then
    snprintf cfg.PATH_MAX_LENGTH (g.savestate_name ++ fmt_d g.state_slot)
  else if g.state_slot < 0 then
    snprintf cfg.PATH_MAX_LENGTH (g.savestate_name ++ ".auto".toList)
  else
    strlcpy g.savestate_name cfg.PATH_MAX_LENGTH

/-- The function `rarch_load_state(path, msg, sizeof_msg)`: the message written
to `msg` and the new context. -/
def rarch_load_state (ext : externals σ) (path : cstring) (sizeof_msg : Nat)
    (g : rarch_context σ) : cstring × rarch_context σ :=
  let r := ext.load_state path g.world
  let g1 := { g with world := r.2, trace := g.trace ++ [core_call.load_state path] }
  if !r.1 then
    (snprintf sizeof_msg ("Failed to load state from \"".toList ++ path ++ "\".".toList), g1)
  else if g1.state_slot < 0 then
    (snprintf sizeof_msg "Loaded state from slot #-1 (auto).".toList, g1)
  else
    (snprintf sizeof_msg
      ("Loaded state from slot #".toList ++ fmt_d g1.state_slot ++ ".".toList), g1)

/-- The function `rarch_save_state(path, msg, sizeof_msg)`: the message written
to `msg` and the new context. -/
def rarch_save_state (ext : externals σ) (path : cstring) (sizeof_msg : Nat)
    (g : rarch_context σ) : cstring × rarch_context σ :=
  let r := ext.save_state path g.world
  let g1 := { g with world := r.2, trace := g.trace ++ [core_call.save_state path] }
  if !r.1 then
    (snprintf sizeof_msg ("Failed to save state to \"".toList ++ path ++ "\".".toList), g1)
  else if g1.state_slot < 0 then
    (snprintf sizeof_msg "Saved state to slot #-1 (auto).".toList, g1)
  else
    (snprintf sizeof_msg
      ("Saved state to slot #".toList ++ fmt_d g1.state_slot ++ ".".toList), g1)

/-- The function `main_state(cmd)`.  It is only called with the two state
opcodes; for any other opcode `msg` would be pushed uninitialised, which is
rendered as the empty text. -/
def main_state (cfg : build_config) (ext : externals σ) (cmd : rarch_cmd)
    (g : rarch_context σ) : rarch_context σ :=
  let path := main_state_path cfg g
  let r : cstring × rarch_context σ :=
    if ext.pretro_serialize_size g.world ≠ 0 then
      if cmd = rarch_cmd.RARCH_CMD_SAVE_STATE then
        rarch_save_state ext path cfg.PATH_MAX_LENGTH g
      else if cmd = rarch_cmd.RARCH_CMD_LOAD_STATE then
        rarch_load_state ext path cfg.PATH_MAX_LENGTH g
      else ([], g)
    else
      (strlcpy "Core does not support save states.".toList cfg.PATH_MAX_LENGTH, g)
  { r.2 with msg_queue := msg_queue_push (msg_queue_clear r.2.msg_queue) r.1 2 180 }

/-! ## Disk control -/

/-- Record one call in the trace. -/
def record (c : core_call) (g : rarch_context σ) : rarch_context σ :=
  { g with trace := g.trace ++ [c] }

/-- The function `rarch_disk_control_set_eject(new_state, print_log)`. -/
def rarch_disk_control_set_eject (cfg : build_config) (new_state print_log : Bool)
    (g : rarch_context σ) : rarch_context σ :=
  match g.disk_control.get_num_images with
  | none => g
  | some _ =>
    let r := g.disk_control.set_eject_state new_state g.world
    let g1 := record (core_call.set_eject_state new_state) { g with world := r.2 }
    let msg : cstring :=
      if r.1 then
        snprintf cfg.PATH_MAX_LENGTH
          ((if new_state then "Ejected".toList else "Closed".toList)
            ++ " virtual disk tray.".toList)
      else
        snprintf cfg.PATH_MAX_LENGTH
          ("Failed to ".toList ++ (if new_state then "eject".toList else "close".toList)
            ++ " virtual disk tray.".toList)
    if msg ≠ [] then
      if print_log then
        { g1 with msg_queue := msg_queue_push (msg_queue_clear g1.msg_queue) msg 1 180 }
      else g1
    else g1

/-- The function `rarch_disk_control_set_index(idx)`. -/
def rarch_disk_control_set_index (cfg : build_config) (idx : Nat)
    (g : rarch_context σ) : rarch_context σ :=
  match g.disk_control.get_num_images with
  | none => g
  | some get_num_images =>
    let num_disks := to_unsigned (get_num_images g.world)
    let g1 := record core_call.get_num_images g
    let r := g1.disk_control.set_image_index idx g1.world
    let g2 := record (core_call.set_image_index idx) { g1 with world := r.2 }
    let msg : cstring :=
      if r.1 then
        if idx < num_disks then
          snprintf cfg.PATH_MAX_LENGTH
            ("Setting disk ".toList ++ fmt_u (to_unsigned (idx + 1)) ++ " of ".toList
              ++ fmt_u num_disks ++ " in tray.".toList)
        else strlcpy "Removed disk from tray.".toList cfg.PATH_MAX_LENGTH
      else
        if idx < num_disks then
          snprintf cfg.PATH_MAX_LENGTH
            ("Failed to set disk ".toList ++ fmt_u (to_unsigned (idx + 1)) ++ " of ".toList
              ++ fmt_u num_disks ++ ".".toList)
        else strlcpy "Failed to remove disk from tray.".toList cfg.PATH_MAX_LENGTH
    if msg ≠ [] then
      { g2 with msg_queue := msg_queue_push (msg_queue_clear g2.msg_queue) msg 1 180 }
    else g2

/-- The function `check_disk_eject(control)`; `control` always points to
`g_extern.system.disk_control`. -/
def check_disk_eject (cfg : build_config) (g : rarch_context σ) : rarch_context σ :=
  let new_state := !(g.disk_control.get_eject_state g.world)
  rarch_disk_control_set_eject cfg new_state true (record core_call.get_eject_state g)

/-- The function `check_disk_next(control)`.  `get_num_images` is the member
`control->get_num_images`, which the caller has found non-null. -/
def check_disk_next (cfg : build_config) (get_num_images : σ → Nat)
    (g : rarch_context σ) : rarch_context σ :=
  let num_disks := to_unsigned (get_num_images g.world)
  let current := to_unsigned (g.disk_control.get_image_index g.world)
  let g1 := record core_call.get_image_index (record core_call.get_num_images g)
  let disk_next_enable := num_disks ≠ 0 ∧ num_disks ≠ UINT_MAX
  if ¬ disk_next_enable then g1
  else
    let current := if current < num_disks - 1 then current + 1 else current
    rarch_disk_control_set_index cfg current g1

/-- The function `check_disk_prev(control)`.  `get_num_images` is the member
`control->get_num_images`, which the caller has found non-null. -/
def check_disk_prev (cfg : build_config) (get_num_images : σ → Nat)
    (g : rarch_context σ) : rarch_context σ :=
  let num_disks := to_unsigned (get_num_images g.world)
  let current := to_unsigned (g.disk_control.get_image_index g.world)
  let g1 := record core_call.get_image_index (record core_call.get_num_images g)
  let disk_prev_enable := num_disks ≠ 0 ∧ num_disks ≠ UINT_MAX
  if ¬ disk_prev_enable then g1
  else
    let current := if current > 0 then current - 1 else current
    rarch_disk_control_set_index cfg current g1

/-! ## Autosave -/

/-- The function `deinit_autosave`.  The loop reads the first `num_autosave`
entries of the array; `num_autosave` is zero whenever the array is null.  The
calls entered in the log are `autosave_free(g_extern.autosave[i])` for each of
these entries, null ones included, and `free(g_extern.autosave)` when the array
is not null; the array itself has no number in the embedding, so `free` is
logged without an argument. -/
def deinit_autosave (ext : externals σ) (g : rarch_context σ) : rarch_context σ :=
  let entries := (g.autosave.getD []).take g.num_autosave
  let w := entries.foldl (fun w h => ext.autosave_free h w) g.world
  let freed :=
    entries.map fun h =>
      rarch_call.external extern_fn.autosave_free [cval.of_handle h] cval.null
  let block :=
    if g.autosave.isSome then [rarch_call.external extern_fn.free [] cval.null] else []
  { g with world := w, autosave := none, num_autosave := 0, log := g.log ++ (freed ++ block) }

/-- The loop of `init_autosave` over `g_extern.savefiles`: the handles stored in
the (zero-initialised) array, the world after the calls to `autosave_new`, and
the calls made, in the order in which the source writes them: the size of the
memory for the test, then the address and the size for the arguments, then
`autosave_new`. -/
def init_autosave_loop (ext : externals σ) (interval : Nat) :
    List (cstring × Nat) → σ → List (Option Nat) × σ × List rarch_call
  | [], w => ([], w, [])
  | (path, type) :: rest, w =>
    let size := ext.pretro_get_memory_size type w
    let asked := rarch_call.external extern_fn.pretro_get_memory_size [cval.int type]
      (cval.int size)
    if size ≤ 0 then
      let r := init_autosave_loop ext interval rest w
      (none :: r.1, r.2.1, asked :: r.2.2)
    else
      let data := ext.pretro_get_memory_data type w
      let a := ext.autosave_new path data size interval w
      let r := init_autosave_loop ext interval rest a.2
      (a.1 :: r.1, r.2.1,
        asked
          :: rarch_call.external extern_fn.pretro_get_memory_data [cval.int type]
            (cval.ptr data)
          :: asked
          :: rarch_call.external extern_fn.autosave_new
            [cval.str path, cval.ptr data, cval.int size, cval.int interval]
            (cval.of_handle a.1)
          :: r.2.2)

/-- The function `init_autosave`.  The call of `calloc` is entered in the log
with the number of elements asked for and with whether a block was returned. -/
def init_autosave (ext : externals σ) (g : rarch_context σ) : rarch_context σ :=
  match g.savefiles with
  | none => g
  | some savefiles =>
    if g.autosave_interval < 1 then g
    else
      let block := ext.calloc savefiles.length g.world
      let asked := rarch_call.external extern_fn.calloc [cval.int savefiles.length]
        (cval.bool block)
      if !block then { g with autosave := none, log := g.log ++ [asked] }
      else
        let r := init_autosave_loop ext g.autosave_interval savefiles g.world
        { g with
          autosave := some r.1,
          num_autosave := savefiles.length,
          world := r.2.1,
          log := g.log ++ asked :: r.2.2 }

/-! ## The call log and failures -/

/-- Append one entry to the call log. -/
def log_call (c : rarch_call) (g : rarch_context σ) : rarch_context σ :=
  { g with log := g.log ++ [c] }

/-- A call of the outside function `fn`: the value it returns and the new context,
with the world as the function left it and the call entered in the log. -/
def extern_call (ext : externals σ) (fn : extern_fn) (args : List cval)
    (g : rarch_context σ) : cval × rarch_context σ :=
  let r := ext.call fn args g.world
  (r.1, { g with world := r.2, log := g.log ++ [rarch_call.external fn args r.1] })

/-- The statement `if (handle) free_fn(handle);` of the Deinit cases. -/
def free_handle (ext : externals σ) (free_fn : extern_fn) (handle : Option Nat)
    (g : rarch_context σ) : rarch_context σ :=
  match handle with
  | some h => (extern_call ext free_fn [cval.ptr h] g).2
  | none => g

/-- A call `rarch_main_command(cmd)` made from inside `retroarch.c`: the call is
entered in the log and `body`, the case of the opcode, runs. -/
def invoke (cmd : rarch_cmd) (body : rarch_context σ → Bool × rarch_context σ)
    (g : rarch_context σ) : Bool × rarch_context σ :=
  body (log_call (rarch_call.command cmd) g)

/-- A call `rarch_main_set_state(state)` made from inside `retroarch.c`: the call
is entered in the log and `body`, the case of the state, runs. -/
def enter (state : rarch_action_state) (body : rarch_context σ → rarch_context σ)
    (g : rarch_context σ) : rarch_context σ :=
  body (log_call (rarch_call.set_state state) g)

/-- The macro `rarch_fail(error_code, error)`: control jumps to
`g_extern.error_sjlj_context` and does not come back. -/
def rarch_fail (error_code : Int) (error : cstring) (g : rarch_context σ) :
    rarch_context σ :=
  { g with halted := some (halt_reason.rarch_fail error_code error) }

/-- The macro `rarch_assert(cond)`: when `cond` is false the program stops. -/
def rarch_assert (cond : Bool) (g : rarch_context σ) : rarch_context σ :=
  if cond then g else { g with halted := some halt_reason.rarch_assert }

/-- The rest of a case, `rest`, runs unless control has left the normal flow; in
that event the case returns nothing, which is rendered as `false`. -/
def unless_halted (g : rarch_context σ) (rest : rarch_context σ → Bool × rarch_context σ) :
    Bool × rarch_context σ :=
  if g.halted.isSome then (false, g) else rest g

/-! ## The cases of the dispatcher that the path helpers call -/

/-- The case `RARCH_CMD_SAVEFILES_DEINIT` of `rarch_main_command`. -/
def cmd_savefiles_deinit (g : rarch_context σ) : Bool × rarch_context σ :=
  (true, { g with savefiles := none })

/-- The case `RARCH_CMD_AUTOSAVE_DEINIT` of `rarch_main_command`. -/
def cmd_autosave_deinit (cfg : build_config) (ext : externals σ) (g : rarch_context σ) :
    Bool × rarch_context σ :=
  (true, if cfg.HAVE_THREADS then deinit_autosave ext g else g)

/-- The case `RARCH_CMD_AUTOSAVE_INIT` of `rarch_main_command`. -/
def cmd_autosave_init (cfg : build_config) (ext : externals σ) (g : rarch_context σ) :
    Bool × rarch_context σ :=
  let g1 := (invoke rarch_cmd.RARCH_CMD_AUTOSAVE_DEINIT (cmd_autosave_deinit cfg ext) g).2
  (true, if cfg.HAVE_THREADS then init_autosave ext g1 else g1)

/-! ## Content paths -/

/-- The function `set_basename(path)`. -/
def set_basename (cfg : build_config) (ext : externals σ) (path : cstring)
    (g : rarch_context σ) : rarch_context σ :=
  let fullpath := strlcpy path cfg.PATH_MAX_LENGTH
  let basename := strlcpy path cfg.PATH_MAX_LENGTH
  let basename :=
    if cfg.HAVE_COMPRESSION then
      ext.fill_pathname_dir (ext.path_basedir basename) path [] cfg.PATH_MAX_LENGTH
    else basename
  let basename :=
    match strrchr basename '.' with
    | some dst => basename.take dst
    | none => basename
  { g with fullpath := fullpath, basename := basename }

/-- The function `set_paths_redirect(path)`. -/
def set_paths_redirect (cfg : build_config) (ext : externals σ) (_path : cstring)
    (g : rarch_context σ) : rarch_context σ :=
  let g1 :=
    if ext.path_is_directory g.savefile_name g.world then
      { g with
        savefile_name :=
          ext.fill_pathname_dir g.savefile_name g.basename ".srm".toList cfg.PATH_MAX_LENGTH }
    else g
  let g2 :=
    if ext.path_is_directory g1.savestate_name g1.world then
      { g1 with
        savestate_name :=
          ext.fill_pathname_dir g1.savestate_name g1.basename ".state".toList
            cfg.PATH_MAX_LENGTH }
    else g1
  if ext.path_is_directory g2.cheatfile_name g2.world then
    { g2 with
      cheatfile_name :=
        ext.fill_pathname_dir g2.cheatfile_name g2.basename ".state".toList
          cfg.PATH_MAX_LENGTH }
  else g2

/-- The function `set_paths(path)`. -/
def set_paths (cfg : build_config) (ext : externals σ) (path : cstring)
    (g : rarch_context σ) : rarch_context σ :=
  let g1 := set_basename cfg ext path g
  let g2 :=
    if !g1.has_set_save_path then
      { g1 with
        savefile_name :=
          ext.fill_pathname_noext g1.basename ".srm".toList cfg.PATH_MAX_LENGTH }
    else g1
  let g3 :=
    if !g2.has_set_state_path then
      { g2 with
        savestate_name :=
          ext.fill_pathname_noext g2.basename ".state".toList cfg.PATH_MAX_LENGTH }
    else g2
  let g4 :=
    { g3 with
      cheatfile_name :=
        ext.fill_pathname_noext g3.basename ".cht".toList cfg.PATH_MAX_LENGTH }
  let g5 := set_paths_redirect cfg ext path g4
  if g5.system_directory ≠ [] then g5
  else { g5 with system_directory := ext.fill_pathname_basedir path cfg.PATH_MAX_LENGTH }

/-- The entries that the subsystem branch of `rarch_init_savefile_paths` appends
to `g_extern.savefiles`: for each of the first `num_content` ROMs, one path per
memory type.  `num_content` is the smaller of the two list lengths, which is
where `zip` stops. -/
def subsystem_savefiles (cfg : build_config) (ext : externals σ) (use_sram_dir : Bool)
    (savefile_name : cstring) (roms : List retro_subsystem_rom_info)
    (fullpaths : List cstring) : List (cstring × Nat) :=
  (roms.zip fullpaths).flatMap fun rf =>
    rf.1.memory.map fun mem =>
      let e := snprintf 32 ('.' :: mem.extension)
      let path :=
        if use_sram_dir then
          ext.fill_pathname_dir (strlcpy savefile_name cfg.PATH_MAX_LENGTH) rf.2 e
            cfg.PATH_MAX_LENGTH
        else ext.fill_pathname rf.2 e cfg.PATH_MAX_LENGTH
      (path, mem.type)

/-- The function `rarch_init_savefile_paths`; `none` when `rarch_assert` fails on
a null `string_list_new()`. -/
def rarch_init_savefile_paths (cfg : build_config) (ext : externals σ)
    (g : rarch_context σ) : Option (rarch_context σ) :=
  let g1 := (invoke rarch_cmd.RARCH_CMD_SAVEFILES_DEINIT cmd_savefiles_deinit g).2
  if !ext.string_list_new g1.world then none
  else
    let g2 := { g1 with savefiles := some [] }
    if g2.subsystem ≠ [] then
      let info := ext.libretro_find_subsystem_info g2.special g2.subsystem
      let roms := match info with
        | some i => i.roms
        | none => []
      let fullpaths := g2.subsystem_fullpaths.getD []
      let use_sram_dir := ext.path_is_directory g2.savefile_name g2.world
      let g3 :=
        { g2 with
          savefiles :=
            some (subsystem_savefiles cfg ext use_sram_dir g2.savefile_name roms fullpaths) }
      let g4 :=
        if !g3.has_set_save_path then
          { g3 with
            savefile_name :=
              ext.fill_pathname_noext g3.basename ".srm".toList cfg.PATH_MAX_LENGTH }
        else g3
      if ext.path_is_directory g4.savefile_name g4.world then
        some { g4 with
          savefile_name :=
            ext.fill_pathname_dir g4.savefile_name g4.basename ".srm".toList
              cfg.PATH_MAX_LENGTH }
      else some g4
    else
      let savefile_name_rtc :=
        ext.fill_pathname g2.savefile_name ".rtc".toList cfg.PATH_MAX_LENGTH
      some { g2 with
        savefiles :=
          some [(g2.savefile_name, RETRO_MEMORY_SAVE_RAM),
            (savefile_name_rtc, RETRO_MEMORY_RTC)] }

/-- The function `fill_pathnames`; `none` when `rarch_init_savefile_paths` fails
its assertion. -/
def fill_pathnames (cfg : build_config) (ext : externals σ)
    (g : rarch_context σ) : Option (rarch_context σ) :=
  match rarch_init_savefile_paths cfg ext g with
  | none => none
  | some g1 =>
    let g2 :=
      { g1 with
        bsv_movie_path := ext.fill_pathname g1.savefile_name [] cfg.PATH_MAX_LENGTH }
    if g2.basename = [] then some g2
    else
      let g3 :=
        if g2.ups_name = [] then
          { g2 with
            ups_name :=
              ext.fill_pathname_noext g2.basename ".ups".toList cfg.PATH_MAX_LENGTH }
        else g2
      let g4 :=
        if g3.bps_name = [] then
          { g3 with
            bps_name :=
              ext.fill_pathname_noext g3.basename ".bps".toList cfg.PATH_MAX_LENGTH }
        else g3
      if g4.ips_name = [] then
        some { g4 with
          ips_name :=
            ext.fill_pathname_noext g4.basename ".ips".toList cfg.PATH_MAX_LENGTH }
      else some g4

/-- The function `rarch_disk_control_append_image(path)`.  The result is `none`
when the function does not return: a call through the null pointer
`control->get_num_images`, or a failed assertion in `fill_pathnames`. -/
def rarch_disk_control_append_image (cfg : build_config) (ext : externals σ)
    (path : cstring) (g : rarch_context σ) : Option (rarch_context σ) :=
  let g1 := rarch_disk_control_set_eject cfg true false g
  let a := g1.disk_control.add_image_index g1.world
  let g2 := record core_call.add_image_index { g1 with world := a.2 }
  match g2.disk_control.get_num_images with
  | none => none
  | some get_num_images =>
    let new_idx := to_unsigned (get_num_images g2.world)
    let g3 := record core_call.get_num_images g2
    if new_idx = 0 then some g3
    else
      let new_idx := new_idx - 1
      let r := g3.disk_control.replace_image_index new_idx path g3.world
      let g4 := record (core_call.replace_image_index new_idx path) { g3 with world := r.2 }
      let msg := snprintf cfg.PATH_MAX_LENGTH ("Appended disk: ".toList ++ path)
      let g5 := { g4 with msg_queue := msg_queue_push (msg_queue_clear g4.msg_queue) msg 0 180 }
      let g6 := (invoke rarch_cmd.RARCH_CMD_AUTOSAVE_DEINIT (cmd_autosave_deinit cfg ext) g5).2
      let g7 : Option (rarch_context σ) :=
        if g6.subsystem = [] then fill_pathnames cfg ext (set_paths cfg ext path g6)
        else some g6
      match g7 with
      | none => none
      | some g7 =>
        let g8 := (invoke rarch_cmd.RARCH_CMD_AUTOSAVE_INIT (cmd_autosave_init cfg ext) g7).2
        some (rarch_disk_control_set_eject cfg false false g8)

/-! ## Save-state auto index -/

/-- The loop `while ((end > dir_elem) && isdigit(end[-1])) end--;` of
`set_savestate_auto_index`, on offsets into `dir_elem`: from the offset `e` of
`end`, the offset at which the loop stops. -/
def scan_digits_back (dir_elem : cstring) : Nat → Nat
  | 0 => 0
  | e + 1 => if isdigit (dir_elem.getD e '\x00') then scan_digits_back dir_elem e else e + 1

/-- One iteration of the loop of `set_savestate_auto_index` over the directory
listing: the new value of `max_idx`. -/
def auto_index_step (cfg : build_config) (ext : externals σ) (state_base : cstring)
    (max_idx : Nat) (dir_elem : cstring) : Nat :=
  let elem_base := ext.fill_pathname_base dir_elem cfg.PATH_MAX_LENGTH
  if strstr elem_base state_base ≠ some 0 then max_idx
  else
    let e := scan_digits_back dir_elem dir_elem.length
    let idx := to_unsigned (strtoul cfg.ULONG_MAX (dir_elem.drop e))
    if idx > max_idx then idx else max_idx

/-- The function `set_savestate_auto_index`. -/
def set_savestate_auto_index (cfg : build_config) (ext : externals σ)
    (g : rarch_context σ) : rarch_context σ :=
  if !g.savestate_auto_index then g
  else
    let state_dir := ext.fill_pathname_basedir g.savestate_name cfg.PATH_MAX_LENGTH
    let state_base := ext.fill_pathname_base g.savestate_name cfg.PATH_MAX_LENGTH
    match ext.dir_list_new state_dir g.world with
    | none => g
    | some dir_list =>
      let max_idx := dir_list.foldl (auto_index_step cfg ext state_base) 0
      { g with state_slot := to_int max_idx }

/-! ## Audio, video and rumble commands -/

/-- The case `RARCH_CMD_AUDIO_STOP` of `rarch_main_command`. -/
def cmd_audio_stop (ext : externals σ) (g : rarch_context σ) : Bool × rarch_context σ :=
  if !ext.has driver_slot.audio_data g.world then (false, g)
  else
    let alive := extern_call ext extern_fn.audio_alive [] g
    if !alive.1.to_bool then (false, alive.2)
    else (true, (extern_call ext extern_fn.audio_stop [] alive.2).2)

/-- The case `RARCH_CMD_AUDIO_START` of `rarch_main_command`. -/
def cmd_audio_start (ext : externals σ) (g : rarch_context σ) : Bool × rarch_context σ :=
  if !ext.has driver_slot.audio_data g.world then (false, g)
  else
    let alive := extern_call ext extern_fn.audio_alive [] g
    if alive.1.to_bool then (false, alive.2)
    else if alive.2.audio_mute_enable then (true, alive.2)
    else
      let started := extern_call ext extern_fn.audio_start [] alive.2
      if !started.1.to_bool then (true, { started.2 with audio_active := false })
      else (true, started.2)

/-- The case `RARCH_CMD_VIDEO_SET_BLOCKING_STATE` of `rarch_main_command`, into
which `RARCH_CMD_VIDEO_SET_NONBLOCKING_STATE` falls after setting the local
`boolean`; `boolean` is false when the case is entered directly. -/
def cmd_video_set_blocking_state (ext : externals σ) (boolean : Bool)
    (g : rarch_context σ) : Bool × rarch_context σ :=
  if ext.has driver_slot.video_set_nonblock_state g.world then
    (true, (extern_call ext extern_fn.video_set_nonblock_state [cval.bool boolean] g).2)
  else (true, g)

/-- The case `RARCH_CMD_RUMBLE_STOP` of `rarch_main_command`. -/
def cmd_rumble_stop (cfg : build_config) (ext : externals σ) (g : rarch_context σ) :
    Bool × rarch_context σ :=
  (true, (List.range cfg.MAX_USERS).foldl (fun g i =>
    (extern_call ext extern_fn.input_driver_set_rumble_state
      [cval.int i, cval.enum "RETRO_RUMBLE_WEAK", cval.int 0]
      (extern_call ext extern_fn.input_driver_set_rumble_state
        [cval.int i, cval.enum "RETRO_RUMBLE_STRONG", cval.int 0] g).2).2) g)

/-! ## The lifecycle state machine (`rarch_main_set_state`) -/

/-- The function `menu_driver_resolve()`, which exists when `HAVE_MENU` is
defined: the menu handle. -/
def menu_driver_resolve (cfg : build_config) (g : rarch_context σ) : Option menu_handle_t :=
  if cfg.HAVE_MENU then g.menu else none

/-- The case `RARCH_ACTION_STATE_MENU_RUNNING` of `rarch_main_set_state`. -/
def state_menu_running (cfg : build_config) (ext : externals σ) (g : rarch_context σ) :
    rarch_context σ :=
  if !cfg.HAVE_MENU then g
  else
    match menu_driver_resolve cfg g with
    | none => g
    | some menu =>
      let g1 :=
        if ext.has driver_slot.menu_ctx_toggle g.world then
          (extern_call ext extern_fn.menu_ctx_toggle [cval.bool true] g).2
        else g
      let g2 := (invoke rarch_cmd.RARCH_CMD_VIDEO_SET_BLOCKING_STATE
        (cmd_video_set_blocking_state ext false) g1).2
      let g3 := (invoke rarch_cmd.RARCH_CMD_RUMBLE_STOP (cmd_rumble_stop cfg ext) g2).2
      let g4 :=
        if g3.menu_pause_libretro then
          (invoke rarch_cmd.RARCH_CMD_AUDIO_STOP (cmd_audio_stop ext) g3).2
        else g3
      { g4 with
        frontend_key_event := g4.system_key_event,
        system_key_event := retro_keyboard_event_t.menu_input_key_event,
        menu := some { menu with need_refresh := true },
        system_frame_time_last := 0,
        is_menu := true }

/-- The case `RARCH_ACTION_STATE_LOAD_CONTENT` of `rarch_main_set_state`. -/
def state_load_content (cfg : build_config) (ext : externals σ) (g : rarch_context σ) :
    rarch_context σ :=
  let g1 :=
    if cfg.HAVE_MENU then
      let loaded := extern_call ext extern_fn.menu_load_content [] g
      if !loaded.1.to_bool then
        enter rarch_action_state.RARCH_ACTION_STATE_MENU_RUNNING
          (state_menu_running cfg ext) loaded.2
      else loaded.2
    else g
  if ext.has driver_slot.frontend_content_loaded g1.world then
    (extern_call ext extern_fn.frontend_content_loaded [] g1).2
  else g1

/-- The case `RARCH_ACTION_STATE_MENU_RUNNING_FINISHED` of
`rarch_main_set_state`. -/
def state_menu_running_finished (cfg : build_config) (ext : externals σ)
    (g : rarch_context σ) : rarch_context σ :=
  let g1 :=
    if cfg.HAVE_MENU then
      let g1 := (extern_call ext extern_fn.menu_apply_deferred_settings [] g).2
      let g2 :=
        if ext.has driver_slot.menu_ctx_toggle g1.world then
          (extern_call ext extern_fn.menu_ctx_toggle [cval.bool false] g1).2
        else g1
      let g3 := { g2 with is_menu := false }
      let g4 := (extern_call ext extern_fn.driver_set_nonblock_state
        [cval.bool g3.nonblock_state] g3).2
      let g5 :=
        if g4.menu_pause_libretro then
          (invoke rarch_cmd.RARCH_CMD_AUDIO_START (cmd_audio_start ext) g4).2
        else g4
      { g5 with
        flushing_input := true,
        system_key_event := g5.frontend_key_event }
    else g
  if ext.has driver_slot.video_set_texture_enable g1.world then
    (extern_call ext extern_fn.video_set_texture_enable [cval.bool false, cval.bool false]
      g1).2
  else g1

/-- The case `RARCH_ACTION_STATE_QUIT` of `rarch_main_set_state`. -/
def state_quit (cfg : build_config) (ext : externals σ) (g : rarch_context σ) :
    rarch_context σ :=
  enter rarch_action_state.RARCH_ACTION_STATE_MENU_RUNNING_FINISHED
    (state_menu_running_finished cfg ext) { g with system_shutdown := true }

/-- The case `RARCH_ACTION_STATE_FORCE_QUIT` of `rarch_main_set_state`. -/
def state_force_quit (cfg : build_config) (ext : externals σ) (g : rarch_context σ) :
    rarch_context σ :=
  enter rarch_action_state.RARCH_ACTION_STATE_QUIT (state_quit cfg ext)
    { g with lifecycle_state := 0 }

/-- The function `rarch_main_set_state(cmd)`.  Its argument is an `unsigned`; the
values outside `enum action_state` take the `default` label, which does what
`RARCH_ACTION_STATE_NONE` does. -/
def rarch_main_set_state (cfg : build_config) (ext : externals σ)
    (cmd : rarch_action_state) (g : rarch_context σ) : rarch_context σ :=
  match cmd with
  | rarch_action_state.RARCH_ACTION_STATE_MENU_RUNNING => state_menu_running cfg ext g
  | rarch_action_state.RARCH_ACTION_STATE_LOAD_CONTENT => state_load_content cfg ext g
  | rarch_action_state.RARCH_ACTION_STATE_MENU_RUNNING_FINISHED =>
    state_menu_running_finished cfg ext g
  | rarch_action_state.RARCH_ACTION_STATE_QUIT => state_quit cfg ext g
  | rarch_action_state.RARCH_ACTION_STATE_FORCE_QUIT => state_force_quit cfg ext g
  | rarch_action_state.RARCH_ACTION_STATE_NONE => g

/-! ## Cheats, remapping and rewind -/

/-- The case `RARCH_CMD_CHEATS_DEINIT` of `rarch_main_command`. -/
def cmd_cheats_deinit (ext : externals σ) (g : rarch_context σ) : Bool × rarch_context σ :=
  (true, { free_handle ext extern_fn.cheat_manager_free g.cheat g with cheat := none })

/-- The function `init_cheats`, whose body after the test is still to be
written in the source. -/
def init_cheats (cfg : build_config) (g : rarch_context σ) : rarch_context σ :=
  let allow_cheats := true
  let allow_cheats :=
    if cfg.HAVE_NETPLAY then allow_cheats && !g.netplay_data.isSome else allow_cheats
  let allow_cheats := allow_cheats && !g.bsv_movie.isSome
  if !allow_cheats then g else g

/-- The case `RARCH_CMD_CHEATS_INIT` of `rarch_main_command`. -/
def cmd_cheats_init (cfg : build_config) (ext : externals σ) (g : rarch_context σ) :
    Bool × rarch_context σ :=
  let g1 := (invoke rarch_cmd.RARCH_CMD_CHEATS_DEINIT (cmd_cheats_deinit ext) g).2
  (true, init_cheats cfg g1)

/-- The case `RARCH_CMD_REMAPPING_DEINIT` of `rarch_main_command`. -/
def cmd_remapping_deinit (g : rarch_context σ) : Bool × rarch_context σ :=
  (true, g)

/-- The function `init_remapping`. -/
def init_remapping (ext : externals σ) (g : rarch_context σ) : rarch_context σ :=
  if !g.input_remap_binds_enable then g
  else
    (extern_call ext extern_fn.input_remapping_load_file [cval.str g.input_remapping_path]
      g).2

/-- The case `RARCH_CMD_REMAPPING_INIT` of `rarch_main_command`. -/
def cmd_remapping_init (ext : externals σ) (g : rarch_context σ) : Bool × rarch_context σ :=
  let g1 := (invoke rarch_cmd.RARCH_CMD_REMAPPING_DEINIT cmd_remapping_deinit g).2
  (true, init_remapping ext g1)

/-- The case `RARCH_CMD_REWIND_DEINIT` of `rarch_main_command`. -/
def cmd_rewind_deinit (cfg : build_config) (ext : externals σ) (g : rarch_context σ) :
    Bool × rarch_context σ :=
  if cfg.HAVE_NETPLAY && g.netplay_data.isSome then (false, g)
  else
    (true,
      { free_handle ext extern_fn.state_manager_free g.rewind_state g with
        rewind_state := none })

/-- The function `init_rewind`.  The local `state` is what
`state_manager_push_where` stores through its second argument. -/
def init_rewind (cfg : build_config) (ext : externals σ) (g : rarch_context σ) :
    rarch_context σ :=
  if cfg.HAVE_NETPLAY && g.netplay_data.isSome then g
  else if !g.rewind_enable || g.rewind_state.isSome then g
  else if g.system_audio_callback then g
  else
    let g1 := { g with rewind_size := ext.pretro_serialize_size g.world }
    if g1.rewind_size = 0 then g1
    else
      let made := extern_call ext extern_fn.state_manager_new
        [cval.int g1.rewind_size, cval.int g1.rewind_buffer_size] g1
      let g2 := { made.2 with rewind_state := made.1.to_handle }
      let state := extern_call ext extern_fn.state_manager_push_where
        [cval.of_handle g2.rewind_state] g2
      let g3 := (extern_call ext extern_fn.pretro_serialize
        [state.1, cval.int state.2.rewind_size] state.2).2
      (extern_call ext extern_fn.state_manager_push_do [cval.of_handle g3.rewind_state] g3).2

/-- The case `RARCH_CMD_REWIND_INIT` of `rarch_main_command`. -/
def cmd_rewind_init (cfg : build_config) (ext : externals σ) (g : rarch_context σ) :
    Bool × rarch_context σ :=
  (true, init_rewind cfg ext g)

/-! ## Overlay, DSP filter, recording, history, core info -/

/-- The case `RARCH_CMD_OVERLAY_DEINIT` of `rarch_main_command`. -/
def cmd_overlay_deinit (cfg : build_config) (ext : externals σ) (g : rarch_context σ) :
    Bool × rarch_context σ :=
  if cfg.HAVE_OVERLAY then
    (true,
      { free_handle ext extern_fn.input_overlay_free g.overlay g with
        overlay := none,
        overlay_state := 0 })
  else (true, g)

/-- The case `RARCH_CMD_OVERLAY_INIT` of `rarch_main_command`. -/
def cmd_overlay_init (cfg : build_config) (ext : externals σ) (g : rarch_context σ) :
    Bool × rarch_context σ :=
  let g1 := (invoke rarch_cmd.RARCH_CMD_OVERLAY_DEINIT (cmd_overlay_deinit cfg ext) g).2
  if !cfg.HAVE_OVERLAY then (true, g1)
  else
    let no_path : Bool :=
      if g1.driver_osk_enable then decide (g1.osk_overlay = [])
      else decide (g1.input_overlay = [])
    if no_path then (true, g1)
    else
      let made := extern_call ext extern_fn.input_overlay_new
        [cval.str (if g1.driver_osk_enable then g1.osk_overlay else g1.input_overlay),
          cval.bool (if g1.driver_osk_enable then g1.osk_enable else g1.input_overlay_enable),
          cval.int g1.input_overlay_opacity, cval.int g1.input_overlay_scale] g1
      (true, { made.2 with overlay := made.1.to_handle })

/-- The case `RARCH_CMD_DSP_FILTER_DEINIT` of `rarch_main_command`. -/
def cmd_dsp_filter_deinit (ext : externals σ) (g : rarch_context σ) :
    Bool × rarch_context σ :=
  (true,
    { free_handle ext extern_fn.rarch_dsp_filter_free g.audio_data_dsp g with
      audio_data_dsp := none })

/-- The case `RARCH_CMD_DSP_FILTER_INIT` of `rarch_main_command`. -/
def cmd_dsp_filter_init (ext : externals σ) (g : rarch_context σ) :
    Bool × rarch_context σ :=
  let g1 := (invoke rarch_cmd.RARCH_CMD_DSP_FILTER_DEINIT (cmd_dsp_filter_deinit ext) g).2
  if g1.audio_dsp_plugin = [] then (true, g1)
  else
    let made := extern_call ext extern_fn.rarch_dsp_filter_new
      [cval.str g1.audio_dsp_plugin, cval.int g1.audio_data_in_rate] g1
    (true, { made.2 with audio_data_dsp := made.1.to_handle })

/-- The case `RARCH_CMD_GPU_RECORD_DEINIT` of `rarch_main_command`. -/
def cmd_gpu_record_deinit (g : rarch_context σ) : Bool × rarch_context σ :=
  (true, { g with record_gpu_buffer := none })

/-- The case `RARCH_CMD_RECORD_DEINIT` of `rarch_main_command`. -/
def cmd_record_deinit (ext : externals σ) (g : rarch_context σ) : Bool × rarch_context σ :=
  let r := extern_call ext extern_fn.recording_deinit [] g
  if !r.1.to_bool then (false, r.2) else (true, r.2)

/-- The case `RARCH_CMD_HISTORY_DEINIT` of `rarch_main_command`. -/
def cmd_history_deinit (ext : externals σ) (g : rarch_context σ) : Bool × rarch_context σ :=
  (true, { free_handle ext extern_fn.content_playlist_free g.history g with history := none })

/-- The case `RARCH_CMD_RECORD_INIT` of `rarch_main_command`. -/
def cmd_record_init (ext : externals σ) (g : rarch_context σ) : Bool × rarch_context σ :=
  let g1 := (invoke rarch_cmd.RARCH_CMD_HISTORY_DEINIT (cmd_history_deinit ext) g).2
  let r := extern_call ext extern_fn.recording_init [] g1
  if !r.1.to_bool then (false, r.2) else (true, r.2)

/-- The case `RARCH_CMD_HISTORY_INIT` of `rarch_main_command`. -/
def cmd_history_init (ext : externals σ) (g : rarch_context σ) : Bool × rarch_context σ :=
  let g1 := (invoke rarch_cmd.RARCH_CMD_HISTORY_DEINIT (cmd_history_deinit ext) g).2
  if !g1.history_list_enable then (false, g1)
  else
    let made := extern_call ext extern_fn.content_playlist_init
      [cval.str g1.content_history_path, cval.int g1.content_history_size] g1
    (true, { made.2 with history := made.1.to_handle })

/-- The case `RARCH_CMD_CORE_INFO_DEINIT` of `rarch_main_command`. -/
def cmd_core_info_deinit (ext : externals σ) (g : rarch_context σ) :
    Bool × rarch_context σ :=
  (true, { free_handle ext extern_fn.core_info_list_free g.core_info g with core_info := none })

/-- The case `RARCH_CMD_CORE_INFO_INIT` of `rarch_main_command`. -/
def cmd_core_info_init (ext : externals σ) (g : rarch_context σ) : Bool × rarch_context σ :=
  let g1 := (invoke rarch_cmd.RARCH_CMD_CORE_INFO_DEINIT (cmd_core_info_deinit ext) g).2
  if g1.libretro_directory ≠ [] ∧ g1.core_info.isNone then
    let made := extern_call ext extern_fn.core_info_list_new
      [cval.str g1.libretro_directory] g1
    (true, { made.2 with core_info := made.1.to_handle })
  else (true, g1)

/-! ## Drivers, shader directory, save files -/

/-- The case `RARCH_CMD_DRIVERS_DEINIT` of `rarch_main_command`. -/
def cmd_drivers_deinit (ext : externals σ) (g : rarch_context σ) : Bool × rarch_context σ :=
  (true, (extern_call ext extern_fn.uninit_drivers [cval.enum "DRIVERS_CMD_ALL"] g).2)

/-- The case `RARCH_CMD_DRIVERS_INIT` of `rarch_main_command`. -/
def cmd_drivers_init (ext : externals σ) (g : rarch_context σ) : Bool × rarch_context σ :=
  (true, (extern_call ext extern_fn.init_drivers [cval.enum "DRIVERS_CMD_ALL"] g).2)

/-- The case `RARCH_CMD_SHADER_DIR_DEINIT` of `rarch_main_command`.  The call
`dir_list_free(g_extern.shader_dir.list)` is entered in the log when the list is
not null; with a null list it does nothing and is left out, so that the case
leaves a context without a list as it is.  The list has no number in the
embedding, so the call is logged without an argument. -/
def cmd_shader_dir_deinit (g : rarch_context σ) : Bool × rarch_context σ :=
  let freed :=
    if g.shader_dir_list.isSome then [rarch_call.external extern_fn.dir_list_free [] cval.null]
    else []
  (true, { g with shader_dir_list := none, shader_dir_ptr := 0, log := g.log ++ freed })

/-- The case `RARCH_CMD_SHADER_DIR_INIT` of `rarch_main_command`.  The call of
`dir_list_new` is entered in the log with whether a list was returned, the call
of `dir_list_sort` with its flag. -/
def cmd_shader_dir_init (ext : externals σ) (g : rarch_context σ) : Bool × rarch_context σ :=
  let g1 := (invoke rarch_cmd.RARCH_CMD_SHADER_DIR_DEINIT cmd_shader_dir_deinit g).2
  if g1.video_shader_dir = [] then (false, g1)
  else
    let listed :=
      ext.dir_list_new_ext g1.video_shader_dir "cg|cgp|glsl|glslp".toList g1.world
    let g2 :=
      { g1 with
        shader_dir_list := listed,
        log := g1.log ++ [rarch_call.external extern_fn.dir_list_new
          [cval.str g1.video_shader_dir, cval.str "cg|cgp|glsl|glslp".toList, cval.bool false]
          (cval.bool listed.isSome)] }
    match g2.shader_dir_list with
    | none => (false, (invoke rarch_cmd.RARCH_CMD_SHADER_DIR_DEINIT cmd_shader_dir_deinit g2).2)
    | some list =>
      if list.length = 0 then
        (false, (invoke rarch_cmd.RARCH_CMD_SHADER_DIR_DEINIT cmd_shader_dir_deinit g2).2)
      else
        (true,
          { g2 with
            shader_dir_ptr := 0,
            shader_dir_list := some (ext.dir_list_sort list),
            log := g2.log ++ [rarch_call.external extern_fn.dir_list_sort [cval.bool false]
              cval.null] })

/-- The case `RARCH_CMD_SAVEFILES_INIT` of `rarch_main_command`. -/
def cmd_savefiles_init (cfg : build_config) (ext : externals σ) (g : rarch_context σ) :
    Bool × rarch_context σ :=
  let g1 :=
    { g with
      use_sram := g.use_sram && !g.sram_save_disable
        && (if cfg.HAVE_NETPLAY then !g.netplay_data.isSome || !g.netplay_is_client
          else true) }
  if g1.use_sram then
    (true, (invoke rarch_cmd.RARCH_CMD_AUTOSAVE_INIT (cmd_autosave_init cfg ext) g1).2)
  else (true, g1)

/-! ## Message queues, movie, netplay, network, command interface -/

/-- The case `RARCH_CMD_MSG_QUEUE_DEINIT` of `rarch_main_command`.  Freeing the
queue disposes of its entries. -/
def cmd_msg_queue_deinit (ext : externals σ) (g : rarch_context σ) :
    Bool × rarch_context σ :=
  match g.msg_queue_ptr with
  | some h =>
    (true,
      { (extern_call ext extern_fn.msg_queue_free [cval.ptr h] g).2 with
        msg_queue_ptr := none,
        msg_queue := [] })
  | none => (true, { g with msg_queue_ptr := none })

/-- The statement `rarch_assert(queue = msg_queue_new(8))`: the pointer stored in
`queue` and the new context. -/
def msg_queue_new_asserted (ext : externals σ) (g : rarch_context σ) :
    Option Nat × rarch_context σ :=
  let made := extern_call ext extern_fn.msg_queue_new [cval.int 8] g
  (made.1.to_handle, rarch_assert made.1.to_handle.isSome made.2)

/-- The case `RARCH_CMD_MSG_QUEUE_INIT` of `rarch_main_command`.  A queue that
`msg_queue_new` returns has no entries. -/
def cmd_msg_queue_init (cfg : build_config) (ext : externals σ) (g : rarch_context σ) :
    Bool × rarch_context σ :=
  let g1 := (invoke rarch_cmd.RARCH_CMD_MSG_QUEUE_DEINIT (cmd_msg_queue_deinit ext) g).2
  let g2 :=
    if g1.msg_queue_ptr.isNone then
      let made := msg_queue_new_asserted ext g1
      { made.2 with msg_queue_ptr := made.1, msg_queue := [] }
    else g1
  unless_halted g2 fun g2 =>
  let g3 :=
    if cfg.HAVE_NETWORKING && g2.http_msg_queue.isNone then
      let made := msg_queue_new_asserted ext g2
      { made.2 with http_msg_queue := made.1 }
    else g2
  unless_halted g3 fun g3 =>
  let g4 :=
    if g3.nbio_msg_queue.isNone then
      let made := msg_queue_new_asserted ext g3
      { made.2 with nbio_msg_queue := made.1 }
    else g3
  unless_halted g4 fun g4 =>
  let g5 :=
    if g4.images_msg_queue.isNone then
      let made := msg_queue_new_asserted ext g4
      { made.2 with images_msg_queue := made.1 }
    else g4
  unless_halted g5 fun g5 => (true, g5)

/-- The case `RARCH_CMD_BSV_MOVIE_DEINIT` of `rarch_main_command`. -/
def cmd_bsv_movie_deinit (ext : externals σ) (g : rarch_context σ) :
    Bool × rarch_context σ :=
  (true, { free_handle ext extern_fn.bsv_movie_free g.bsv_movie g with bsv_movie := none })

/-- The function `init_movie`. -/
def init_movie (cfg : build_config) (ext : externals σ) (g : rarch_context σ) :
    rarch_context σ :=
  if g.bsv_movie_start_playback then
    let made := extern_call ext extern_fn.bsv_movie_init
      [cval.str g.bsv_movie_start_path, cval.enum "RARCH_MOVIE_PLAYBACK"] g
    let g1 := { made.2 with bsv_movie := made.1.to_handle }
    if g1.bsv_movie.isNone then rarch_fail 1 "init_movie()".toList g1
    else
      { g1 with
        bsv_movie_playback := true,
        msg_queue := msg_queue_push g1.msg_queue "Starting movie playback.".toList 2 180,
        rewind_granularity := 1 }
  else if g.bsv_movie_start_recording then
    let msg := snprintf cfg.PATH_MAX_LENGTH
      ("Starting movie record to \"".toList ++ g.bsv_movie_start_path ++ "\".".toList)
    let g1 := { g with msg_queue := msg_queue_clear g.msg_queue }
    let made := extern_call ext extern_fn.bsv_movie_init
      [cval.str g1.bsv_movie_start_path, cval.enum "RARCH_MOVIE_RECORD"] g1
    let g2 := { made.2 with bsv_movie := made.1.to_handle }
    if g2.bsv_movie.isNone then
      { g2 with
        msg_queue :=
          msg_queue_push g2.msg_queue "Failed to start movie record.".toList 1 180 }
    else
      { g2 with
        msg_queue := msg_queue_push g2.msg_queue msg 1 180,
        rewind_granularity := 1 }
  else g

/-- The case `RARCH_CMD_BSV_MOVIE_INIT` of `rarch_main_command`. -/
def cmd_bsv_movie_init (cfg : build_config) (ext : externals σ) (g : rarch_context σ) :
    Bool × rarch_context σ :=
  let g1 := (invoke rarch_cmd.RARCH_CMD_BSV_MOVIE_DEINIT (cmd_bsv_movie_deinit ext) g).2
  unless_halted (init_movie cfg ext g1) fun g2 => (true, g2)

/-- The case `RARCH_CMD_NETPLAY_DEINIT` of `rarch_main_command`. -/
def cmd_netplay_deinit (cfg : build_config) (ext : externals σ) (g : rarch_context σ) :
    Bool × rarch_context σ :=
  if cfg.HAVE_NETPLAY then
    (true, { free_handle ext extern_fn.netplay_free g.netplay_data g with netplay_data := none })
  else (true, g)

/-- The macro `RARCH_DEFAULT_PORT`. -/
def RARCH_DEFAULT_PORT : Nat := 55435

/-- The function `init_netplay`, which exists when `HAVE_NETPLAY` is defined.
The local `cbs` is what `retro_set_default_callbacks` stores through its
argument. -/
def init_netplay (cfg : build_config) (ext : externals σ) (g : rarch_context σ) :
    Bool × rarch_context σ :=
  if !g.netplay_enable then (false, g)
  else if g.bsv_movie_start_playback then (false, g)
  else
    let cbs := extern_call ext extern_fn.retro_set_default_callbacks [] g
    let g1 :=
      if cbs.2.netplay_server ≠ [] then { cbs.2 with netplay_is_client := true } else cbs.2
    let made := extern_call ext extern_fn.netplay_new
      [if g1.netplay_is_client then cval.str g1.netplay_server else cval.null,
        cval.int (if g1.netplay_port ≠ 0 then g1.netplay_port else RARCH_DEFAULT_PORT),
        cval.int g1.netplay_sync_frames, cbs.1, cval.bool g1.netplay_is_spectate,
        cval.str g1.username] g1
    let g2 := { made.2 with netplay_data := made.1.to_handle }
    if g2.netplay_data.isSome then (true, g2)
    else
      let g3 := { g2 with netplay_is_client := false }
      if g3.msg_queue_ptr.isSome then
        (false,
          { g3 with
            msg_queue :=
              msg_queue_push g3.msg_queue cfg.RETRO_MSG_INIT_NETPLAY_FAILED 0 180 })
      else (false, g3)

/-- The case `RARCH_CMD_NETPLAY_INIT` of `rarch_main_command`. -/
def cmd_netplay_init (cfg : build_config) (ext : externals σ) (g : rarch_context σ) :
    Bool × rarch_context σ :=
  let g1 := (invoke rarch_cmd.RARCH_CMD_NETPLAY_DEINIT (cmd_netplay_deinit cfg ext) g).2
  if cfg.HAVE_NETPLAY then
    let r := init_netplay cfg ext g1
    if !r.1 then (false, r.2) else (true, r.2)
  else (true, g1)

/-- The case `RARCH_CMD_NETWORK_DEINIT` of `rarch_main_command`. -/
def cmd_network_deinit (cfg : build_config) (ext : externals σ) (g : rarch_context σ) :
    Bool × rarch_context σ :=
  if cfg.HAVE_NETWORKING then (true, (extern_call ext extern_fn.network_deinit [] g).2)
  else (true, g)

/-- The case `RARCH_CMD_NETWORK_INIT` of `rarch_main_command`. -/
def cmd_network_init (cfg : build_config) (ext : externals σ) (g : rarch_context σ) :
    Bool × rarch_context σ :=
  if cfg.HAVE_NETWORKING then (true, (extern_call ext extern_fn.network_init [] g).2)
  else (true, g)

/-- The case `RARCH_CMD_COMMAND_DEINIT` of `rarch_main_command`. -/
def cmd_command_deinit (cfg : build_config) (ext : externals σ) (g : rarch_context σ) :
    Bool × rarch_context σ :=
  if cfg.HAVE_COMMAND then
    (true, { free_handle ext extern_fn.rarch_cmd_free g.command g with command := none })
  else (true, g)

/-- The function `init_command`, which exists when `HAVE_COMMAND` is defined. -/
def init_command (ext : externals σ) (g : rarch_context σ) : rarch_context σ :=
  if !g.stdin_cmd_enable && !g.network_cmd_enable then g
  else
    let made := extern_call ext extern_fn.rarch_cmd_new
      [cval.bool (g.stdin_cmd_enable && !g.stdin_claimed), cval.bool g.network_cmd_enable,
        cval.int g.network_cmd_port] g
    { made.2 with command := made.1.to_handle }

/-- The case `RARCH_CMD_COMMAND_INIT` of `rarch_main_command`. -/
def cmd_command_init (cfg : build_config) (ext : externals σ) (g : rarch_context σ) :
    Bool × rarch_context σ :=
  let g1 := (invoke rarch_cmd.RARCH_CMD_COMMAND_DEINIT (cmd_command_deinit cfg ext) g).2
  if cfg.HAVE_COMMAND then (true, init_command ext g1) else (true, g1)

/-! ## Temporary content, subsystem paths, log file -/

/-- The function `free_temporary_content`, on the entries of the list. -/
def free_temporary_content (ext : externals σ) (temporary_content : List cstring)
    (g : rarch_context σ) : rarch_context σ :=
  temporary_content.foldl
    (fun g path => (extern_call ext extern_fn.remove [cval.str path] g).2) g

/-- The case `RARCH_CMD_TEMPORARY_CONTENT_DEINIT` of `rarch_main_command`. -/
def cmd_temporary_content_deinit (ext : externals σ) (g : rarch_context σ) :
    Bool × rarch_context σ :=
  let g1 :=
    match g.temporary_content with
    | some temporary_content => free_temporary_content ext temporary_content g
    | none => g
  (true, { g1 with temporary_content := none })

/-- The case `RARCH_CMD_SUBSYSTEM_FULLPATHS_DEINIT` of `rarch_main_command`. -/
def cmd_subsystem_fullpaths_deinit (g : rarch_context σ) : Bool × rarch_context σ :=
  (true, { g with subsystem_fullpaths := none })

/-- The case `RARCH_CMD_LOG_FILE_DEINIT` of `rarch_main_command`. -/
def cmd_log_file_deinit (ext : externals σ) (g : rarch_context σ) : Bool × rarch_context σ :=
  (true, { free_handle ext extern_fn.fclose g.log_file g with log_file := none })

/-! ## The core -/

/-- The function `deinit_core`. -/
def deinit_core (ext : externals σ) (g : rarch_context σ) : rarch_context σ :=
  let g1 := (extern_call ext extern_fn.pretro_unload_game [] g).2
  let g2 := (extern_call ext extern_fn.pretro_deinit [] g1).2
  let g3 := (invoke rarch_cmd.RARCH_CMD_DRIVERS_DEINIT (cmd_drivers_deinit ext) g2).2
  (extern_call ext extern_fn.uninit_libretro_sym [] g3).2

/-- The case `RARCH_CMD_CORE_DEINIT` of `rarch_main_command`. -/
def cmd_core_deinit (ext : externals σ) (g : rarch_context σ) : Bool × rarch_context σ :=
  (true, deinit_core ext g)

/-- The function `load_save_files`. -/
def load_save_files (ext : externals σ) (g : rarch_context σ) : Bool × rarch_context σ :=
  match g.savefiles with
  | none => (false, g)
  | some savefiles =>
    if g.sram_load_disable then (false, g)
    else
      (true, savefiles.foldl
        (fun g e =>
          (extern_call ext extern_fn.load_ram_file [cval.str e.1, cval.int e.2] g).2) g)

/-- The function `load_auto_state`. -/
def load_auto_state (cfg : build_config) (ext : externals σ) (g : rarch_context σ) :
    rarch_context σ :=
  if cfg.HAVE_NETPLAY && (g.netplay_enable && !g.netplay_is_spectate) then g
  else if !g.savestate_auto_load then g
  else
    let savestate_name_auto :=
      ext.fill_pathname_noext g.savestate_name ".auto".toList cfg.PATH_MAX_LENGTH
    let found := extern_call ext extern_fn.path_file_exists [cval.str savestate_name_auto] g
    if !found.1.to_bool then found.2
    else
      let ret := ext.load_state savestate_name_auto found.2.world
      let g1 :=
        { found.2 with
          world := ret.2,
          trace := found.2.trace ++ [core_call.load_state savestate_name_auto] }
      let msg := snprintf cfg.PATH_MAX_LENGTH
        ("Auto-loading savestate from \"".toList ++ savestate_name_auto ++ "\" ".toList
          ++ (if ret.1 then "succeeded".toList else "failed".toList) ++ ".".toList)
      { g1 with msg_queue := msg_queue_push g1.msg_queue msg 1 180 }

/-- The function `init_content`. -/
def init_content (cfg : build_config) (ext : externals σ) (g : rarch_context σ) :
    Bool × rarch_context σ :=
  if g.libretro_dummy then (true, g)
  else
    let g1 :=
      if !g.libretro_no_content then
        match fill_pathnames cfg ext g with
        | some g1 => g1
        | none => rarch_assert false g
      else g
    unless_halted g1 fun g1 =>
    let loaded := extern_call ext extern_fn.init_content_file [] g1
    if !loaded.1.to_bool then (false, loaded.2)
    else if loaded.2.libretro_no_content then (true, loaded.2)
    else
      let g2 := set_savestate_auto_index cfg ext loaded.2
      let g3 := (load_save_files ext g2).2
      let g4 := load_auto_state cfg ext g3
      let g5 := (invoke rarch_cmd.RARCH_CMD_BSV_MOVIE_INIT (cmd_bsv_movie_init cfg ext) g4).2
      unless_halted g5 fun g5 =>
      let g6 := (invoke rarch_cmd.RARCH_CMD_NETPLAY_INIT (cmd_netplay_init cfg ext) g5).2
      (true, g6)

/-- The function `init_system_av_info`.  The struct `g_extern.system.av_info`,
which the core fills in, belongs to the world. -/
def init_system_av_info (ext : externals σ) (g : rarch_context σ) : rarch_context σ :=
  let g1 := (extern_call ext extern_fn.pretro_get_system_av_info [] g).2
  let now := extern_call ext extern_fn.rarch_get_time_usec [] g1
  { now.2 with
    frame_limit_last_frame_time :=
      match now.1 with
      | cval.int n => n
      | _ => 0 }

/-- The function `init_core`.  Its first statement, `verify_api_version()`, only
writes to the log stream. -/
def init_core (cfg : build_config) (ext : externals σ) (g : rarch_context σ) :
    Bool × rarch_context σ :=
  let g1 := (extern_call ext extern_fn.pretro_init [] g).2
  let g2 := { g1 with use_sram := !g1.libretro_dummy && !g1.libretro_no_content }
  let r := init_content cfg ext g2
  unless_halted r.2 fun g3 =>
  if !r.1 then (false, g3)
  else
    let g4 := (extern_call ext extern_fn.retro_init_libretro_cbs [] g3).2
    (true, init_system_av_info ext g4)

/-- The case `RARCH_CMD_CORE_INIT` of `rarch_main_command`. -/
def cmd_core_init (cfg : build_config) (ext : externals σ) (g : rarch_context σ) :
    Bool × rarch_context σ :=
  let r := init_core cfg ext g
  if !r.1 then (false, r.2) else (true, r.2)

/-! ## Controllers -/

/-- One turn of the loop of `init_controllers`, for port `i`.  The local `ident`
is the name found for the device; after the fallback it is only written to the
log stream. -/
def init_controllers_port (ext : externals σ) (i : Nat) (g : rarch_context σ) :
    rarch_context σ :=
  let device := g.input_libretro_device i
  let desc : Option retro_controller_description :=
    if i < g.system_num_ports then
      ext.libretro_find_controller_description (g.system_ports i) device
    else none
  let ident : Option cstring :=
    match desc with
    | some d => d.desc
    | none => none
  let device :=
    if ident.isNone then
      if device ≠ RETRO_DEVICE_JOYPAD ∧ device ≠ RETRO_DEVICE_NONE then RETRO_DEVICE_JOYPAD
      else device
    else device
  if device = RETRO_DEVICE_NONE then
    (extern_call ext extern_fn.pretro_set_controller_port_device
      [cval.int i, cval.int device] g).2
  else if device = RETRO_DEVICE_JOYPAD then g
  else
    (extern_call ext extern_fn.pretro_set_controller_port_device
      [cval.int i, cval.int device] g).2

/-- The function `init_controllers`. -/
def init_controllers (cfg : build_config) (ext : externals σ) (g : rarch_context σ) :
    rarch_context σ :=
  (List.range cfg.MAX_USERS).foldl (fun g i => init_controllers_port ext i g) g

/-- The case `RARCH_CMD_CONTROLLERS_INIT` of `rarch_main_command`. -/
def cmd_controllers_init (cfg : build_config) (ext : externals σ) (g : rarch_context σ) :
    Bool × rarch_context σ :=
  (true, init_controllers cfg ext g)

/-- The case `RARCH_CMD_RESET` of `rarch_main_command`. -/
def cmd_reset (cfg : build_config) (ext : externals σ) (g : rarch_context σ) :
    Bool × rarch_context σ :=
  let g1 :=
    { g with msg_queue := msg_queue_push (msg_queue_clear g.msg_queue) "Reset.".toList 1 120 }
  let g2 := (extern_call ext extern_fn.pretro_reset [] g1).2
  (true, (invoke rarch_cmd.RARCH_CMD_CONTROLLERS_INIT (cmd_controllers_init cfg ext) g2).2)

/-! ## Saving: save files, automatic save state, screenshot -/

/-- The function `save_files`. -/
def save_files (ext : externals σ) (g : rarch_context σ) : rarch_context σ :=
  match g.savefiles with
  | none => g
  | some savefiles =>
    if !g.use_sram then g
    else
      savefiles.foldl
        (fun g e =>
          (extern_call ext extern_fn.save_ram_file [cval.str e.1, cval.int e.2] g).2) g

/-- The case `RARCH_CMD_SAVEFILES` of `rarch_main_command`. -/
def cmd_savefiles (ext : externals σ) (g : rarch_context σ) : Bool × rarch_context σ :=
  (true, save_files ext g)

/-- The function `save_auto_state`. -/
def save_auto_state (cfg : build_config) (ext : externals σ) (g : rarch_context σ) :
    Bool × rarch_context σ :=
  if !g.savestate_auto_save || g.libretro_dummy || g.libretro_no_content then (false, g)
  else
    let savestate_name_auto :=
      ext.fill_pathname_noext g.savestate_name ".auto".toList cfg.PATH_MAX_LENGTH
    let ret := ext.save_state savestate_name_auto g.world
    (true,
      { g with
        world := ret.2,
        trace := g.trace ++ [core_call.save_state savestate_name_auto] })

/-- The case `RARCH_CMD_AUTOSAVE_STATE` of `rarch_main_command`. -/
def cmd_autosave_state (cfg : build_config) (ext : externals σ) (g : rarch_context σ) :
    Bool × rarch_context σ :=
  (true, (save_auto_state cfg ext g).2)

/-- The case `RARCH_CMD_TAKE_SCREENSHOT` of `rarch_main_command`. -/
def cmd_take_screenshot (ext : externals σ) (g : rarch_context σ) : Bool × rarch_context σ :=
  let taken := extern_call ext extern_fn.take_screenshot [] g
  if !taken.1.to_bool then (false, taken.2) else (true, taken.2)

/-! ## Quitting, loading a core, loading content -/

/-- The case `RARCH_CMD_QUIT` of `rarch_main_command`. -/
def cmd_quit (cfg : build_config) (ext : externals σ) (g : rarch_context σ) :
    Bool × rarch_context σ :=
  (true, enter rarch_action_state.RARCH_ACTION_STATE_QUIT (state_quit cfg ext) g)

/-- The case `RARCH_CMD_QUIT_RETROARCH` of `rarch_main_command`. -/
def cmd_quit_retroarch (cfg : build_config) (ext : externals σ) (g : rarch_context σ) :
    Bool × rarch_context σ :=
  (true, enter rarch_action_state.RARCH_ACTION_STATE_FORCE_QUIT (state_force_quit cfg ext) g)

/-- The case `RARCH_CMD_RESUME` of `rarch_main_command`. -/
def cmd_resume (cfg : build_config) (ext : externals σ) (g : rarch_context σ) :
    Bool × rarch_context σ :=
  (true, enter rarch_action_state.RARCH_ACTION_STATE_MENU_RUNNING_FINISHED
    (state_menu_running_finished cfg ext) g)

/-- The case `RARCH_CMD_MENU_TOGGLE` of `rarch_main_command`. -/
def cmd_menu_toggle (cfg : build_config) (ext : externals σ) (g : rarch_context σ) :
    Bool × rarch_context σ :=
  if g.is_menu then
    (true, enter rarch_action_state.RARCH_ACTION_STATE_MENU_RUNNING_FINISHED
      (state_menu_running_finished cfg ext) g)
  else
    (true, enter rarch_action_state.RARCH_ACTION_STATE_MENU_RUNNING
      (state_menu_running cfg ext) g)

/-- The function `rarch_update_system_info(_info, load_no_content)`, as it is
called in the file: with `&g_extern.menu.info`, which belongs to the world, and
with the address of the member `load_no_content` of the menu handle `menu`.  What
`libretro_get_system_info` stores through `load_no_content` is the boolean the
call returns in the embedding; any other value leaves the member as it was. -/
def rarch_update_system_info (cfg : build_config) (ext : externals σ) (menu : menu_handle_t)
    (g : rarch_context σ) : Bool × rarch_context σ :=
  let dynamic : Bool × rarch_context σ :=
    if cfg.HAVE_DYNAMIC then
      let g1 := (extern_call ext extern_fn.libretro_free_system_info
        [cval.enum "&g_extern.menu.info"] g).2
      if g1.libretro = [] then (false, g1)
      else
        let got := extern_call ext extern_fn.libretro_get_system_info
          [cval.str g1.libretro, cval.enum "&g_extern.menu.info",
            cval.enum "&menu->load_no_content"] g1
        match got.1 with
        | cval.bool b => (true, { got.2 with menu := some { menu with load_no_content := b } })
        | _ => (true, got.2)
    else (true, g)
  if !dynamic.1 then (false, dynamic.2)
  else if !dynamic.2.core_info.isSome then (false, dynamic.2)
  else
    let found := extern_call ext extern_fn.core_info_list_get_info
      [cval.of_handle dynamic.2.core_info, cval.enum "g_extern.core_info_current",
        cval.str dynamic.2.libretro] dynamic.2
    if !found.1.to_bool then (false, found.2) else (true, found.2)

/-- The case `RARCH_CMD_LOAD_CORE` of `rarch_main_command`. -/
def cmd_load_core (cfg : build_config) (ext : externals σ) (g : rarch_context σ) :
    Bool × rarch_context σ :=
  let g1 :=
    if cfg.HAVE_MENU then
      match menu_driver_resolve cfg g with
      | some menu => (rarch_update_system_info cfg ext menu g).2
      | none => g
    else g
  if !cfg.HAVE_DYNAMIC then (true, (invoke rarch_cmd.RARCH_CMD_QUIT (cmd_quit cfg ext) g1).2)
  else (true, g1)

/-- The case `RARCH_CMD_LOAD_CONTENT_PERSIST` of `rarch_main_command`. -/
def cmd_load_content_persist (cfg : build_config) (ext : externals σ)
    (g : rarch_context σ) : Bool × rarch_context σ :=
  let g1 :=
    if cfg.HAVE_DYNAMIC then
      (invoke rarch_cmd.RARCH_CMD_LOAD_CORE (cmd_load_core cfg ext) g).2
    else g
  (true, enter rarch_action_state.RARCH_ACTION_STATE_LOAD_CONTENT
    (state_load_content cfg ext) g1)

/-- The case `RARCH_CMD_LOAD_CONTENT` of `rarch_main_command`. -/
def cmd_load_content (cfg : build_config) (ext : externals σ) (g : rarch_context σ) :
    Bool × rarch_context σ :=
  if cfg.HAVE_DYNAMIC then
    (true, (invoke rarch_cmd.RARCH_CMD_LOAD_CONTENT_PERSIST
      (cmd_load_content_persist cfg ext) g).2)
  else
    let g1 := (extern_call ext extern_fn.rarch_environment_cb
      [cval.enum "RETRO_ENVIRONMENT_SET_LIBRETRO_PATH", cval.str g.libretro] g).2
    let g2 := (extern_call ext extern_fn.rarch_environment_cb
      [cval.enum "RETRO_ENVIRONMENT_EXEC", cval.str g1.fullpath] g1).2
    (true, (invoke rarch_cmd.RARCH_CMD_QUIT (cmd_quit cfg ext) g2).2)

/-- The case `RARCH_CMD_PREPARE_DUMMY` of `rarch_main_command`. -/
def cmd_prepare_dummy (cfg : build_config) (ext : externals σ) (g : rarch_context σ) :
    Bool × rarch_context σ :=
  let menu := menu_driver_resolve cfg g
  let g1 := { g with fullpath := [] }
  let g2 :=
    if cfg.HAVE_MENU then
      match menu with
      | some menu => { g1 with menu := some { menu with load_no_content := false } }
      | none => g1
    else g1
  let g3 := enter rarch_action_state.RARCH_ACTION_STATE_LOAD_CONTENT
    (state_load_content cfg ext) g2
  (true, { g3 with system_shutdown := false })

/-! ## Reinitialising the drivers -/

/-- The case `RARCH_CMD_RESET_CONTEXT` of `rarch_main_command`. -/
def cmd_reset_context (ext : externals σ) (g : rarch_context σ) : Bool × rarch_context σ :=
  let g1 := (invoke rarch_cmd.RARCH_CMD_DRIVERS_DEINIT (cmd_drivers_deinit ext) g).2
  (true, (invoke rarch_cmd.RARCH_CMD_DRIVERS_INIT (cmd_drivers_init ext) g1).2)

/-- The case `RARCH_CMD_REINIT` of `rarch_main_command`.  `input_poll` is the
member `poll` of `driver.input`, called without a test. -/
def cmd_reinit (cfg : build_config) (ext : externals σ) (g : rarch_context σ) :
    Bool × rarch_context σ :=
  let g1 :=
    { g with
      video_cache_context := g.hw_render_callback_cache_context,
      video_cache_context_ack := false }
  let g2 := (invoke rarch_cmd.RARCH_CMD_RESET_CONTEXT (cmd_reset_context ext) g1).2
  let g3 := { g2 with video_cache_context := false }
  let g4 := (extern_call ext extern_fn.input_poll [] g3).2
  if cfg.HAVE_MENU then
    if g4.is_menu then
      (true, (invoke rarch_cmd.RARCH_CMD_VIDEO_SET_BLOCKING_STATE
        (cmd_video_set_blocking_state ext false) g4).2)
    else (true, g4)
  else (true, g4)

/-- The case `RARCH_CMD_AUDIO_REINIT` of `rarch_main_command`. -/
def cmd_audio_reinit (ext : externals σ) (g : rarch_context σ) : Bool × rarch_context σ :=
  let g1 := (extern_call ext extern_fn.uninit_drivers [cval.enum "DRIVER_AUDIO"] g).2
  (true, (extern_call ext extern_fn.init_drivers [cval.enum "DRIVER_AUDIO"] g1).2)

/-- The case `RARCH_CMD_RESIZE_WINDOWED_SCALE` of `rarch_main_command`. -/
def cmd_resize_windowed_scale (cfg : build_config) (ext : externals σ)
    (g : rarch_context σ) : Bool × rarch_context σ :=
  if g.pending_windowed_scale = 0 then (false, g)
  else
    let g1 := { g with video_scale := g.pending_windowed_scale }
    let g2 :=
      if !g1.video_fullscreen then
        (invoke rarch_cmd.RARCH_CMD_REINIT (cmd_reinit cfg ext) g1).2
      else g1
    (true, { g2 with pending_windowed_scale := 0 })

/-- The case `RARCH_CMD_FULLSCREEN_TOGGLE` of `rarch_main_command`.
`video_has_windowed` is the member `has_windowed` of `driver.video`. -/
def cmd_fullscreen_toggle (cfg : build_config) (ext : externals σ) (g : rarch_context σ) :
    Bool × rarch_context σ :=
  if !ext.has driver_slot.video g.world then (false, g)
  else
    let windowed := extern_call ext extern_fn.video_has_windowed [] g
    if !windowed.1.to_bool then (false, windowed.2)
    else
      let g1 := { windowed.2 with video_fullscreen := !windowed.2.video_fullscreen }
      (true, (invoke rarch_cmd.RARCH_CMD_REINIT (cmd_reinit cfg ext) g1).2)

/-! ## Rewind toggle, audio, overlay and video settings -/

/-- The case `RARCH_CMD_REWIND_TOGGLE` of `rarch_main_command`. -/
def cmd_rewind_toggle (cfg : build_config) (ext : externals σ) (g : rarch_context σ) :
    Bool × rarch_context σ :=
  if g.rewind_enable then
    (true, (invoke rarch_cmd.RARCH_CMD_REWIND_INIT (cmd_rewind_init cfg ext) g).2)
  else (true, (invoke rarch_cmd.RARCH_CMD_REWIND_DEINIT (cmd_rewind_deinit cfg ext) g).2)

/-- The case `RARCH_CMD_AUDIO_MUTE_TOGGLE` of `rarch_main_command`. -/
def cmd_audio_mute_toggle (ext : externals σ) (g : rarch_context σ) :
    Bool × rarch_context σ :=
  let msg := if !g.audio_mute_enable then "Audio muted.".toList else "Audio unmuted.".toList
  let toggled := extern_call ext extern_fn.audio_driver_mute_toggle [] g
  if !toggled.1.to_bool then (false, toggled.2)
  else
    (true,
      { toggled.2 with
        msg_queue := msg_queue_push (msg_queue_clear toggled.2.msg_queue) msg 1 180 })

/-- The case `RARCH_CMD_OVERLAY_NEXT` of `rarch_main_command`. -/
def cmd_overlay_next (cfg : build_config) (ext : externals σ) (g : rarch_context σ) :
    Bool × rarch_context σ :=
  if cfg.HAVE_OVERLAY then
    (true, (extern_call ext extern_fn.input_overlay_next
      [cval.of_handle g.overlay, cval.int g.input_overlay_opacity] g).2)
  else (true, g)

/-- The case `RARCH_CMD_OVERLAY_SET_SCALE_FACTOR` of `rarch_main_command`. -/
def cmd_overlay_set_scale_factor (cfg : build_config) (ext : externals σ)
    (g : rarch_context σ) : Bool × rarch_context σ :=
  if cfg.HAVE_OVERLAY then
    (true, (extern_call ext extern_fn.input_overlay_set_scale_factor
      [cval.of_handle g.overlay, cval.int g.input_overlay_scale] g).2)
  else (true, g)

/-- The case `RARCH_CMD_OVERLAY_SET_ALPHA_MOD` of `rarch_main_command`. -/
def cmd_overlay_set_alpha_mod (cfg : build_config) (ext : externals σ)
    (g : rarch_context σ) : Bool × rarch_context σ :=
  if cfg.HAVE_OVERLAY then
    (true, (extern_call ext extern_fn.input_overlay_set_alpha_mod
      [cval.of_handle g.overlay, cval.int g.input_overlay_opacity] g).2)
  else (true, g)

/-- The case `RARCH_CMD_VIDEO_APPLY_STATE_CHANGES` of `rarch_main_command`. -/
def cmd_video_apply_state_changes (ext : externals σ) (g : rarch_context σ) :
    Bool × rarch_context σ :=
  if ext.has driver_slot.video_poke_apply_state_changes g.world then
    (true, (extern_call ext extern_fn.video_poke_apply_state_changes [] g).2)
  else (true, g)

/-- The case `RARCH_CMD_VIDEO_SET_ASPECT_RATIO` of `rarch_main_command`. -/
def cmd_video_set_aspect_ratio (ext : externals σ) (g : rarch_context σ) :
    Bool × rarch_context σ :=
  if ext.has driver_slot.video_poke_set_aspect_ratio g.world then
    (true, (extern_call ext extern_fn.video_poke_set_aspect_ratio
      [cval.int g.video_aspect_ratio_idx] g).2)
  else (true, g)

/-- The case `RARCH_CMD_AUDIO_SET_BLOCKING_STATE` of `rarch_main_command`, into
which `RARCH_CMD_AUDIO_SET_NONBLOCKING_STATE` falls after setting the local
`boolean`; `boolean` is false when the case is entered directly. -/
def cmd_audio_set_blocking_state (ext : externals σ) (boolean : Bool)
    (g : rarch_context σ) : Bool × rarch_context σ :=
  if ext.has driver_slot.audio_set_nonblock_state g.world then
    (true, (extern_call ext extern_fn.audio_set_nonblock_state [cval.bool boolean] g).2)
  else (true, g)

/-- The case `RARCH_CMD_SHADERS_APPLY_CHANGES` of `rarch_main_command`. -/
def cmd_shaders_apply_changes (cfg : build_config) (ext : externals σ)
    (g : rarch_context σ) : Bool × rarch_context σ :=
  if cfg.HAVE_MENU then
    (true, (extern_call ext extern_fn.menu_shader_manager_apply_changes [] g).2)
  else (true, g)

/-- The case `RARCH_CMD_RESTART_RETROARCH` of `rarch_main_command`. -/
def cmd_restart_retroarch (cfg : build_config) (ext : externals σ) (g : rarch_context σ) :
    Bool × rarch_context σ :=
  let g1 :=
    if cfg.GEKKO && cfg.HW_RVL then
      { g with
        fullpath :=
          ext.fill_pathname_join g.defaults_core_dir cfg.SALAMANDER_FILE
            cfg.PATH_MAX_LENGTH }
    else g
  if ext.has driver_slot.frontend_set_fork g1.world then
    (true, (extern_call ext extern_fn.frontend_set_fork [cval.bool true, cval.bool false]
      g1).2)
  else (true, g1)

/-- The case `RARCH_CMD_NETPLAY_FLIP_PLAYERS` of `rarch_main_command`. -/
def cmd_netplay_flip_players (cfg : build_config) (ext : externals σ)
    (g : rarch_context σ) : Bool × rarch_context σ :=
  if cfg.HAVE_NETPLAY then
    match g.netplay_data with
    | none => (false, g)
    | some netplay =>
      (true, (extern_call ext extern_fn.netplay_flip_users [cval.ptr netplay] g).2)
  else (true, g)

/-- The case `RARCH_CMD_GRAB_MOUSE_TOGGLE` of `rarch_main_command`.
`input_grab_mouse` and `video_poke_show_mouse` are the members `grab_mouse` of
`driver.input` and `show_mouse` of `driver.video_poke`. -/
def cmd_grab_mouse_toggle (ext : externals σ) (g : rarch_context σ) :
    Bool × rarch_context σ :=
  if !ext.has driver_slot.input_grab_mouse g.world then (false, g)
  else
    let g1 := { g with grab_mouse_state := !g.grab_mouse_state }
    let g2 := (extern_call ext extern_fn.input_grab_mouse [cval.bool g1.grab_mouse_state]
      g1).2
    if ext.has driver_slot.video_poke_show_mouse g2.world then
      (true, (extern_call ext extern_fn.video_poke_show_mouse
        [cval.bool (!g2.grab_mouse_state)] g2).2)
    else (true, g2)

/-- The case `RARCH_CMD_PERFCNT_REPORT_FRONTEND_LOG` of `rarch_main_command`. -/
def cmd_perfcnt_report_frontend_log (ext : externals σ) (g : rarch_context σ) :
    Bool × rarch_context σ :=
  (true, (extern_call ext extern_fn.rarch_perf_log [] g).2)

/-! ## Pausing -/

/-- The constant `RETRO_HW_FRAME_BUFFER_VALID` of libretro.h, `((void*)-1)`. -/
def RETRO_HW_FRAME_BUFFER_VALID : cval := cval.enum "RETRO_HW_FRAME_BUFFER_VALID"

/-- The function `rarch_render_cached_frame`.  `retro_ctx_frame_cb` is the
member `frame_cb` of `driver.retro_ctx`. -/
def rarch_render_cached_frame (ext : externals σ) (g : rarch_context σ) : rarch_context σ :=
  let recording := g.recording_data
  let g1 := { g with recording_data := none }
  let g2 :=
    if ext.has driver_slot.retro_ctx_frame_cb g1.world then
      (extern_call ext extern_fn.retro_ctx_frame_cb
        [if g1.frame_cache_data = RETRO_HW_FRAME_BUFFER_VALID then cval.null
          else g1.frame_cache_data,
          cval.int g1.frame_cache_width, cval.int g1.frame_cache_height,
          cval.int g1.frame_cache_pitch] g1).2
    else g1
  { g2 with recording_data := recording }

/-- The case `RARCH_CMD_PAUSE_CHECKS` of `rarch_main_command`. -/
def cmd_pause_checks (ext : externals σ) (g : rarch_context σ) : Bool × rarch_context σ :=
  if g.is_paused then
    let g1 := (invoke rarch_cmd.RARCH_CMD_AUDIO_STOP (cmd_audio_stop ext) g).2
    if g1.video_black_frame_insertion then (true, rarch_render_cached_frame ext g1)
    else (true, g1)
  else (true, (invoke rarch_cmd.RARCH_CMD_AUDIO_START (cmd_audio_start ext) g).2)

/-- The case `RARCH_CMD_PAUSE_TOGGLE` of `rarch_main_command`. -/
def cmd_pause_toggle (ext : externals σ) (g : rarch_context σ) : Bool × rarch_context σ :=
  (true, (invoke rarch_cmd.RARCH_CMD_PAUSE_CHECKS (cmd_pause_checks ext)
    { g with is_paused := !g.is_paused }).2)

/-- The case `RARCH_CMD_UNPAUSE` of `rarch_main_command`. -/
def cmd_unpause (ext : externals σ) (g : rarch_context σ) : Bool × rarch_context σ :=
  (true, (invoke rarch_cmd.RARCH_CMD_PAUSE_CHECKS (cmd_pause_checks ext)
    { g with is_paused := false }).2)

/-- The case `RARCH_CMD_PAUSE` of `rarch_main_command`. -/
def cmd_pause (ext : externals σ) (g : rarch_context σ) : Bool × rarch_context σ :=
  (true, (invoke rarch_cmd.RARCH_CMD_PAUSE_CHECKS (cmd_pause_checks ext)
    { g with is_paused := true }).2)

/-- The case `RARCH_CMD_MENU_PAUSE_LIBRETRO` of `rarch_main_command`. -/
def cmd_menu_pause_libretro (ext : externals σ) (g : rarch_context σ) :
    Bool × rarch_context σ :=
  if g.is_menu then
    if g.menu_pause_libretro then
      (true, (invoke rarch_cmd.RARCH_CMD_AUDIO_STOP (cmd_audio_stop ext) g).2)
    else (true, (invoke rarch_cmd.RARCH_CMD_AUDIO_START (cmd_audio_start ext) g).2)
  else
    if g.menu_pause_libretro then
      (true, (invoke rarch_cmd.RARCH_CMD_AUDIO_START (cmd_audio_start ext) g).2)
    else (true, g)

/-! ## Saving a new configuration file -/

/-- The loop of `save_core_config` that looks for a file name not yet in use:
`config_dir/<core>.cfg`, then `config_dir/<core>-1.cfg` up to `-15`.  The result
is the first path that does not exist, `none` when the sixteen of them exist. -/
def save_core_config_loop (cfg : build_config) (ext : externals σ) (config_dir : cstring) :
    List Nat → rarch_context σ → Option cstring × rarch_context σ
  | [], g => (none, g)
  | i :: rest, g =>
    let config_name :=
      ext.path_remove_extension (ext.fill_pathname_base g.libretro cfg.PATH_MAX_LENGTH)
    let config_path := ext.fill_pathname_join config_dir config_name cfg.PATH_MAX_LENGTH
    let tmp :=
      if i ≠ 0 then snprintf 64 ('-' :: fmt_u i ++ ".cfg".toList)
      else strlcpy ".cfg".toList 64
    let config_path := strlcat config_path tmp cfg.PATH_MAX_LENGTH
    let found := extern_call ext extern_fn.path_file_exists [cval.str config_path] g
    if !found.1.to_bool then (some config_path, found.2)
    else save_core_config_loop cfg ext config_dir rest found.2

/-- The function `save_core_config`. -/
def save_core_config (cfg : build_config) (ext : externals σ) (g : rarch_context σ) :
    Bool × rarch_context σ :=
  let config_dir : Option cstring :=
    if g.menu_config_directory ≠ [] then
      some (strlcpy g.menu_config_directory cfg.PATH_MAX_LENGTH)
    else if g.config_path ≠ [] then
      some (ext.fill_pathname_basedir g.config_path cfg.PATH_MAX_LENGTH)
    else none
  match config_dir with
  | none =>
    (false,
      { g with
        msg_queue := msg_queue_push (msg_queue_clear g.msg_queue)
          "Config directory not set. Cannot save new config.".toList 1 180 })
  | some config_dir =>
    let inferred : Option cstring × rarch_context σ :=
      if g.libretro = [] then (none, g)
      else
        let core := extern_call ext extern_fn.path_file_exists [cval.str g.libretro] g
        if !core.1.to_bool then (none, core.2)
        else save_core_config_loop cfg ext config_dir (List.range 16) core.2
    let chosen : cstring × rarch_context σ :=
      match inferred.1 with
      | some config_path => (config_path, inferred.2)
      | none =>
        let dated := extern_call ext extern_fn.fill_dated_filename
          [cval.str "cfg".toList, cval.int cfg.PATH_MAX_LENGTH] inferred.2
        let config_name :=
          match dated.1 with
          | cval.str s => s
          | _ => []
        (ext.fill_pathname_join config_dir config_name cfg.PATH_MAX_LENGTH, dated.2)
    let saved := extern_call ext extern_fn.config_save_file [cval.str chosen.1] chosen.2
    let ret := saved.1.to_bool
    let g1 :=
      if ret then { saved.2 with config_path := strlcpy chosen.1 cfg.PATH_MAX_LENGTH }
      else saved.2
    let msg :=
      if ret then
        snprintf cfg.PATH_MAX_LENGTH
          ("Saved new config to \"".toList ++ chosen.1 ++ "\".".toList)
      else
        snprintf cfg.PATH_MAX_LENGTH
          ("Failed saving config to \"".toList ++ chosen.1 ++ "\".".toList)
    (ret, { g1 with msg_queue := msg_queue_push (msg_queue_clear g1.msg_queue) msg 1 180 })

/-- The case `RARCH_CMD_MENU_SAVE_CONFIG` of `rarch_main_command`. -/
def cmd_menu_save_config (cfg : build_config) (ext : externals σ) (g : rarch_context σ) :
    Bool × rarch_context σ :=
  let saved := save_core_config cfg ext g
  if !saved.1 then (false, saved.2) else (true, saved.2)

/-! ## The command dispatcher -/

/-- The function `rarch_main_command(cmd)`, on the opcodes of `rarch_cmd`: the
value returned and the new context.  In the disk cases `control` is the address
of `g_extern.system.disk_control`, so the test `if (!control)` never fires. -/
def rarch_main_command (cfg : build_config) (ext : externals σ) (cmd : rarch_cmd)
    (g : rarch_context σ) : Bool × rarch_context σ :=
  match cmd with
  | rarch_cmd.RARCH_CMD_LOAD_STATE =>
    if g.bsv_movie.isSome then (false, g)
    else if cfg.HAVE_NETPLAY && g.netplay_data.isSome then (false, g)
    else (true, main_state cfg ext cmd g)
  | rarch_cmd.RARCH_CMD_SAVE_STATE =>
    let g1 :=
      if g.savestate_auto_index then { g with state_slot := to_int (g.state_slot + 1) }
      else g
    (true, main_state cfg ext cmd g1)
  | rarch_cmd.RARCH_CMD_CHEATS_DEINIT => cmd_cheats_deinit ext g
  | rarch_cmd.RARCH_CMD_CHEATS_INIT => cmd_cheats_init cfg ext g
  | rarch_cmd.RARCH_CMD_REMAPPING_DEINIT => cmd_remapping_deinit g
  | rarch_cmd.RARCH_CMD_REMAPPING_INIT => cmd_remapping_init ext g
  | rarch_cmd.RARCH_CMD_REWIND_DEINIT => cmd_rewind_deinit cfg ext g
  | rarch_cmd.RARCH_CMD_REWIND_INIT => cmd_rewind_init cfg ext g
  | rarch_cmd.RARCH_CMD_AUTOSAVE_DEINIT => cmd_autosave_deinit cfg ext g
  | rarch_cmd.RARCH_CMD_AUTOSAVE_INIT => cmd_autosave_init cfg ext g
  | rarch_cmd.RARCH_CMD_AUDIO_STOP => cmd_audio_stop ext g
  | rarch_cmd.RARCH_CMD_AUDIO_START => cmd_audio_start ext g
  | rarch_cmd.RARCH_CMD_OVERLAY_DEINIT => cmd_overlay_deinit cfg ext g
  | rarch_cmd.RARCH_CMD_OVERLAY_INIT => cmd_overlay_init cfg ext g
  | rarch_cmd.RARCH_CMD_DSP_FILTER_DEINIT => cmd_dsp_filter_deinit ext g
  | rarch_cmd.RARCH_CMD_DSP_FILTER_INIT => cmd_dsp_filter_init ext g
  | rarch_cmd.RARCH_CMD_GPU_RECORD_DEINIT => cmd_gpu_record_deinit g
  | rarch_cmd.RARCH_CMD_RECORD_DEINIT => cmd_record_deinit ext g
  | rarch_cmd.RARCH_CMD_RECORD_INIT => cmd_record_init ext g
  | rarch_cmd.RARCH_CMD_HISTORY_DEINIT => cmd_history_deinit ext g
  | rarch_cmd.RARCH_CMD_HISTORY_INIT => cmd_history_init ext g
  | rarch_cmd.RARCH_CMD_CORE_INFO_DEINIT => cmd_core_info_deinit ext g
  | rarch_cmd.RARCH_CMD_CORE_INFO_INIT => cmd_core_info_init ext g
  | rarch_cmd.RARCH_CMD_CORE_DEINIT => cmd_core_deinit ext g
  | rarch_cmd.RARCH_CMD_CORE_INIT => cmd_core_init cfg ext g
  | rarch_cmd.RARCH_CMD_VIDEO_SET_BLOCKING_STATE => cmd_video_set_blocking_state ext false g
  | rarch_cmd.RARCH_CMD_VIDEO_SET_NONBLOCKING_STATE =>
    cmd_video_set_blocking_state ext true g
  | rarch_cmd.RARCH_CMD_DRIVERS_DEINIT => cmd_drivers_deinit ext g
  | rarch_cmd.RARCH_CMD_DRIVERS_INIT => cmd_drivers_init ext g
  | rarch_cmd.RARCH_CMD_SHADER_DIR_DEINIT => cmd_shader_dir_deinit g
  | rarch_cmd.RARCH_CMD_SHADER_DIR_INIT => cmd_shader_dir_init ext g
  | rarch_cmd.RARCH_CMD_SAVEFILES_DEINIT => cmd_savefiles_deinit g
  | rarch_cmd.RARCH_CMD_SAVEFILES_INIT => cmd_savefiles_init cfg ext g
  | rarch_cmd.RARCH_CMD_MSG_QUEUE_DEINIT => cmd_msg_queue_deinit ext g
  | rarch_cmd.RARCH_CMD_MSG_QUEUE_INIT => cmd_msg_queue_init cfg ext g
  | rarch_cmd.RARCH_CMD_BSV_MOVIE_DEINIT => cmd_bsv_movie_deinit ext g
  | rarch_cmd.RARCH_CMD_BSV_MOVIE_INIT => cmd_bsv_movie_init cfg ext g
  | rarch_cmd.RARCH_CMD_NETPLAY_DEINIT => cmd_netplay_deinit cfg ext g
  | rarch_cmd.RARCH_CMD_NETPLAY_INIT => cmd_netplay_init cfg ext g
  | rarch_cmd.RARCH_CMD_NETWORK_DEINIT => cmd_network_deinit cfg ext g
  | rarch_cmd.RARCH_CMD_NETWORK_INIT => cmd_network_init cfg ext g
  | rarch_cmd.RARCH_CMD_COMMAND_DEINIT => cmd_command_deinit cfg ext g
  | rarch_cmd.RARCH_CMD_COMMAND_INIT => cmd_command_init cfg ext g
  | rarch_cmd.RARCH_CMD_TEMPORARY_CONTENT_DEINIT => cmd_temporary_content_deinit ext g
  | rarch_cmd.RARCH_CMD_SUBSYSTEM_FULLPATHS_DEINIT => cmd_subsystem_fullpaths_deinit g
  | rarch_cmd.RARCH_CMD_LOG_FILE_DEINIT => cmd_log_file_deinit ext g
  | rarch_cmd.RARCH_CMD_DISK_EJECT_TOGGLE =>
    match g.disk_control.get_num_images with
    | some _ => (true, check_disk_eject cfg g)
    | none =>
      (true, { g with
        msg_queue := msg_queue_push (msg_queue_clear g.msg_queue)
          "Core does not support Disk Options.".toList 1 120 })
  | rarch_cmd.RARCH_CMD_DISK_NEXT =>
    match g.disk_control.get_num_images with
    | some get_num_images =>
      if !(g.disk_control.get_eject_state g.world) then
        (false, record core_call.get_eject_state g)
      else (true, check_disk_next cfg get_num_images (record core_call.get_eject_state g))
    | none =>
      (true, { g with
        msg_queue := msg_queue_push (msg_queue_clear g.msg_queue)
          "Core does not support Disk Options.".toList 1 120 })
  | rarch_cmd.RARCH_CMD_DISK_PREV =>
    match g.disk_control.get_num_images with
    | some get_num_images =>
      if !(g.disk_control.get_eject_state g.world) then
        (false, record core_call.get_eject_state g)
      else (true, check_disk_prev cfg get_num_images (record core_call.get_eject_state g))
    | none =>
      (true, { g with
        msg_queue := msg_queue_push (msg_queue_clear g.msg_queue)
          "Core does not support Disk Options.".toList 1 120 })
  | rarch_cmd.RARCH_CMD_RUMBLE_STOP => cmd_rumble_stop cfg ext g
  | rarch_cmd.RARCH_CMD_LOAD_CONTENT_PERSIST => cmd_load_content_persist cfg ext g
  | rarch_cmd.RARCH_CMD_LOAD_CONTENT => cmd_load_content cfg ext g
  | rarch_cmd.RARCH_CMD_LOAD_CORE => cmd_load_core cfg ext g
  | rarch_cmd.RARCH_CMD_RESIZE_WINDOWED_SCALE => cmd_resize_windowed_scale cfg ext g
  | rarch_cmd.RARCH_CMD_MENU_TOGGLE => cmd_menu_toggle cfg ext g
  | rarch_cmd.RARCH_CMD_CONTROLLERS_INIT => cmd_controllers_init cfg ext g
  | rarch_cmd.RARCH_CMD_RESET => cmd_reset cfg ext g
  | rarch_cmd.RARCH_CMD_TAKE_SCREENSHOT => cmd_take_screenshot ext g
  | rarch_cmd.RARCH_CMD_PREPARE_DUMMY => cmd_prepare_dummy cfg ext g
  | rarch_cmd.RARCH_CMD_QUIT => cmd_quit cfg ext g
  | rarch_cmd.RARCH_CMD_REINIT => cmd_reinit cfg ext g
  | rarch_cmd.RARCH_CMD_REWIND_TOGGLE => cmd_rewind_toggle cfg ext g
  | rarch_cmd.RARCH_CMD_AUTOSAVE_STATE => cmd_autosave_state cfg ext g
  | rarch_cmd.RARCH_CMD_AUDIO_MUTE_TOGGLE => cmd_audio_mute_toggle ext g
  | rarch_cmd.RARCH_CMD_OVERLAY_NEXT => cmd_overlay_next cfg ext g
  | rarch_cmd.RARCH_CMD_VIDEO_APPLY_STATE_CHANGES => cmd_video_apply_state_changes ext g
  | rarch_cmd.RARCH_CMD_VIDEO_SET_ASPECT_RATIO => cmd_video_set_aspect_ratio ext g
  | rarch_cmd.RARCH_CMD_AUDIO_SET_NONBLOCKING_STATE => cmd_audio_set_blocking_state ext true g
  | rarch_cmd.RARCH_CMD_AUDIO_SET_BLOCKING_STATE => cmd_audio_set_blocking_state ext false g
  | rarch_cmd.RARCH_CMD_OVERLAY_SET_SCALE_FACTOR => cmd_overlay_set_scale_factor cfg ext g
  | rarch_cmd.RARCH_CMD_OVERLAY_SET_ALPHA_MOD => cmd_overlay_set_alpha_mod cfg ext g
  | rarch_cmd.RARCH_CMD_AUDIO_REINIT => cmd_audio_reinit ext g
  | rarch_cmd.RARCH_CMD_RESET_CONTEXT => cmd_reset_context ext g
  | rarch_cmd.RARCH_CMD_QUIT_RETROARCH => cmd_quit_retroarch cfg ext g
  | rarch_cmd.RARCH_CMD_RESUME => cmd_resume cfg ext g
  | rarch_cmd.RARCH_CMD_RESTART_RETROARCH => cmd_restart_retroarch cfg ext g
  | rarch_cmd.RARCH_CMD_MENU_SAVE_CONFIG => cmd_menu_save_config cfg ext g
  | rarch_cmd.RARCH_CMD_SHADERS_APPLY_CHANGES => cmd_shaders_apply_changes cfg ext g
  | rarch_cmd.RARCH_CMD_PAUSE_CHECKS => cmd_pause_checks ext g
  | rarch_cmd.RARCH_CMD_PAUSE_TOGGLE => cmd_pause_toggle ext g
  | rarch_cmd.RARCH_CMD_UNPAUSE => cmd_unpause ext g
  | rarch_cmd.RARCH_CMD_PAUSE => cmd_pause ext g
  | rarch_cmd.RARCH_CMD_MENU_PAUSE_LIBRETRO => cmd_menu_pause_libretro ext g
  | rarch_cmd.RARCH_CMD_SAVEFILES => cmd_savefiles ext g
  | rarch_cmd.RARCH_CMD_NETPLAY_FLIP_PLAYERS => cmd_netplay_flip_players cfg ext g
  | rarch_cmd.RARCH_CMD_FULLSCREEN_TOGGLE => cmd_fullscreen_toggle cfg ext g
  | rarch_cmd.RARCH_CMD_GRAB_MOUSE_TOGGLE => cmd_grab_mouse_toggle ext g
  | rarch_cmd.RARCH_CMD_PERFCNT_REPORT_FRONTEND_LOG => cmd_perfcnt_report_frontend_log ext g

/-! ## The dispatcher on `unsigned` values -/

/-- The labels of the switch of `rarch_main_command`, in the order of the
cases. -/
def case_labels : List rarch_cmd :=
  [rarch_cmd.RARCH_CMD_LOAD_CONTENT_PERSIST, rarch_cmd.RARCH_CMD_LOAD_CONTENT,
    rarch_cmd.RARCH_CMD_LOAD_CORE, rarch_cmd.RARCH_CMD_LOAD_STATE,
    rarch_cmd.RARCH_CMD_RESIZE_WINDOWED_SCALE, rarch_cmd.RARCH_CMD_MENU_TOGGLE,
    rarch_cmd.RARCH_CMD_CONTROLLERS_INIT, rarch_cmd.RARCH_CMD_RESET,
    rarch_cmd.RARCH_CMD_SAVE_STATE, rarch_cmd.RARCH_CMD_TAKE_SCREENSHOT,
    rarch_cmd.RARCH_CMD_PREPARE_DUMMY, rarch_cmd.RARCH_CMD_QUIT, rarch_cmd.RARCH_CMD_REINIT,
    rarch_cmd.RARCH_CMD_CHEATS_DEINIT, rarch_cmd.RARCH_CMD_CHEATS_INIT,
    rarch_cmd.RARCH_CMD_REMAPPING_DEINIT, rarch_cmd.RARCH_CMD_REMAPPING_INIT,
    rarch_cmd.RARCH_CMD_REWIND_DEINIT, rarch_cmd.RARCH_CMD_REWIND_INIT,
    rarch_cmd.RARCH_CMD_REWIND_TOGGLE, rarch_cmd.RARCH_CMD_AUTOSAVE_DEINIT,
    rarch_cmd.RARCH_CMD_AUTOSAVE_INIT, rarch_cmd.RARCH_CMD_AUTOSAVE_STATE,
    rarch_cmd.RARCH_CMD_AUDIO_STOP, rarch_cmd.RARCH_CMD_AUDIO_START,
    rarch_cmd.RARCH_CMD_AUDIO_MUTE_TOGGLE, rarch_cmd.RARCH_CMD_OVERLAY_DEINIT,
    rarch_cmd.RARCH_CMD_OVERLAY_INIT, rarch_cmd.RARCH_CMD_OVERLAY_NEXT,
    rarch_cmd.RARCH_CMD_DSP_FILTER_DEINIT, rarch_cmd.RARCH_CMD_DSP_FILTER_INIT,
    rarch_cmd.RARCH_CMD_GPU_RECORD_DEINIT, rarch_cmd.RARCH_CMD_RECORD_DEINIT,
    rarch_cmd.RARCH_CMD_RECORD_INIT, rarch_cmd.RARCH_CMD_HISTORY_DEINIT,
    rarch_cmd.RARCH_CMD_HISTORY_INIT, rarch_cmd.RARCH_CMD_CORE_INFO_DEINIT,
    rarch_cmd.RARCH_CMD_CORE_INFO_INIT, rarch_cmd.RARCH_CMD_CORE_DEINIT,
    rarch_cmd.RARCH_CMD_CORE_INIT, rarch_cmd.RARCH_CMD_VIDEO_APPLY_STATE_CHANGES,
    rarch_cmd.RARCH_CMD_VIDEO_SET_NONBLOCKING_STATE,
    rarch_cmd.RARCH_CMD_VIDEO_SET_BLOCKING_STATE, rarch_cmd.RARCH_CMD_VIDEO_SET_ASPECT_RATIO,
    rarch_cmd.RARCH_CMD_AUDIO_SET_NONBLOCKING_STATE,
    rarch_cmd.RARCH_CMD_AUDIO_SET_BLOCKING_STATE, rarch_cmd.RARCH_CMD_OVERLAY_SET_SCALE_FACTOR,
    rarch_cmd.RARCH_CMD_OVERLAY_SET_ALPHA_MOD, rarch_cmd.RARCH_CMD_DRIVERS_DEINIT,
    rarch_cmd.RARCH_CMD_DRIVERS_INIT, rarch_cmd.RARCH_CMD_AUDIO_REINIT,
    rarch_cmd.RARCH_CMD_RESET_CONTEXT, rarch_cmd.RARCH_CMD_QUIT_RETROARCH,
    rarch_cmd.RARCH_CMD_RESUME, rarch_cmd.RARCH_CMD_RESTART_RETROARCH,
    rarch_cmd.RARCH_CMD_MENU_SAVE_CONFIG, rarch_cmd.RARCH_CMD_SHADERS_APPLY_CHANGES,
    rarch_cmd.RARCH_CMD_PAUSE_CHECKS, rarch_cmd.RARCH_CMD_PAUSE_TOGGLE,
    rarch_cmd.RARCH_CMD_UNPAUSE, rarch_cmd.RARCH_CMD_PAUSE,
    rarch_cmd.RARCH_CMD_MENU_PAUSE_LIBRETRO, rarch_cmd.RARCH_CMD_SHADER_DIR_DEINIT,
    rarch_cmd.RARCH_CMD_SHADER_DIR_INIT, rarch_cmd.RARCH_CMD_SAVEFILES,
    rarch_cmd.RARCH_CMD_SAVEFILES_DEINIT, rarch_cmd.RARCH_CMD_SAVEFILES_INIT,
    rarch_cmd.RARCH_CMD_MSG_QUEUE_DEINIT, rarch_cmd.RARCH_CMD_MSG_QUEUE_INIT,
    rarch_cmd.RARCH_CMD_BSV_MOVIE_DEINIT, rarch_cmd.RARCH_CMD_BSV_MOVIE_INIT,
    rarch_cmd.RARCH_CMD_NETPLAY_DEINIT, rarch_cmd.RARCH_CMD_NETWORK_DEINIT,
    rarch_cmd.RARCH_CMD_NETWORK_INIT, rarch_cmd.RARCH_CMD_NETPLAY_INIT,
    rarch_cmd.RARCH_CMD_NETPLAY_FLIP_PLAYERS, rarch_cmd.RARCH_CMD_FULLSCREEN_TOGGLE,
    rarch_cmd.RARCH_CMD_COMMAND_DEINIT, rarch_cmd.RARCH_CMD_COMMAND_INIT,
    rarch_cmd.RARCH_CMD_TEMPORARY_CONTENT_DEINIT,
    rarch_cmd.RARCH_CMD_SUBSYSTEM_FULLPATHS_DEINIT, rarch_cmd.RARCH_CMD_LOG_FILE_DEINIT,
    rarch_cmd.RARCH_CMD_DISK_EJECT_TOGGLE, rarch_cmd.RARCH_CMD_DISK_NEXT,
    rarch_cmd.RARCH_CMD_DISK_PREV, rarch_cmd.RARCH_CMD_RUMBLE_STOP,
    rarch_cmd.RARCH_CMD_GRAB_MOUSE_TOGGLE, rarch_cmd.RARCH_CMD_PERFCNT_REPORT_FRONTEND_LOG]

/-- The function `rarch_main_command(cmd)` on every value of its `unsigned`
parameter.  `basic_event_value` gives the value of each member of `enum
basic_event`, which is defined outside `retroarch.c`.  The switch has no
`default` label: a value that is no case label falls through to `return true`. -/
def rarch_main_command_unsigned (cfg : build_config) (ext : externals σ)
    (basic_event_value : rarch_cmd → Nat) (cmd : Nat) (g : rarch_context σ) :
    Bool × rarch_context σ :=
  match case_labels.find? (fun c => basic_event_value c = cmd) with
  | some c => rarch_main_command cfg ext c g
  | none => (true, g)

/-! ## Startup and shutdown -/

/-- The function `rarch_main_deinit`. -/
def rarch_main_deinit (cfg : build_config) (ext : externals σ) (g : rarch_context σ) :
    rarch_context σ :=
  let g1 := (invoke rarch_cmd.RARCH_CMD_NETPLAY_DEINIT (cmd_netplay_deinit cfg ext) g).2
  let g2 := (invoke rarch_cmd.RARCH_CMD_COMMAND_DEINIT (cmd_command_deinit cfg ext) g1).2
  let g3 :=
    if g2.use_sram then
      (invoke rarch_cmd.RARCH_CMD_AUTOSAVE_DEINIT (cmd_autosave_deinit cfg ext) g2).2
    else g2
  let g4 := (invoke rarch_cmd.RARCH_CMD_RECORD_DEINIT (cmd_record_deinit ext) g3).2
  let g5 := (invoke rarch_cmd.RARCH_CMD_SAVEFILES (cmd_savefiles ext) g4).2
  let g6 := (invoke rarch_cmd.RARCH_CMD_REWIND_DEINIT (cmd_rewind_deinit cfg ext) g5).2
  let g7 := (invoke rarch_cmd.RARCH_CMD_CHEATS_DEINIT (cmd_cheats_deinit ext) g6).2
  let g8 := (invoke rarch_cmd.RARCH_CMD_BSV_MOVIE_DEINIT (cmd_bsv_movie_deinit ext) g7).2
  let g9 := (invoke rarch_cmd.RARCH_CMD_AUTOSAVE_STATE (cmd_autosave_state cfg ext) g8).2
  let g10 := (invoke rarch_cmd.RARCH_CMD_CORE_DEINIT (cmd_core_deinit ext) g9).2
  let g11 := (invoke rarch_cmd.RARCH_CMD_TEMPORARY_CONTENT_DEINIT
    (cmd_temporary_content_deinit ext) g10).2
  let g12 := (invoke rarch_cmd.RARCH_CMD_SUBSYSTEM_FULLPATHS_DEINIT
    cmd_subsystem_fullpaths_deinit g11).2
  let g13 := (invoke rarch_cmd.RARCH_CMD_SAVEFILES_DEINIT cmd_savefiles_deinit g12).2
  { g13 with main_is_init := false }

/-- The function `init_state`. -/
def init_state (g : rarch_context σ) : rarch_context σ :=
  { g with video_active := true, audio_active := true }

/-- The function `validate_cpu_features`; the macro `FAIL_CPU` ends in
`rarch_fail(1, "validate_cpu_features()")`. -/
def validate_cpu_features (cfg : build_config) (ext : externals σ) (g : rarch_context σ) :
    rarch_context σ :=
  let got := extern_call ext extern_fn.rarch_get_cpu_features [] g
  let cpu : Nat :=
    match got.1 with
    | cval.int n => n.toNat
    | _ => 0
  if cfg.__SSE__ = true ∧ cpu &&& RETRO_SIMD_SSE = 0 then
    rarch_fail 1 "validate_cpu_features()".toList got.2
  else if cfg.__SSE2__ = true ∧ cpu &&& RETRO_SIMD_SSE2 = 0 then
    rarch_fail 1 "validate_cpu_features()".toList got.2
  else if cfg.__AVX__ = true ∧ cpu &&& RETRO_SIMD_AVX = 0 then
    rarch_fail 1 "validate_cpu_features()".toList got.2
  else got.2

/-- The steps of `rarch_main_init` that fill in the context before the core is
initialised and that are not embedded: `parse_input` and `init_system_info` of
`retroarch.c`, and `config_load`, `init_libretro_sym` and `init_drivers_pre`,
which are defined in other files and write to `g_settings`, `g_extern` and
`driver`.  Each is an arbitrary function on contexts, which may leave through
`rarch_fail`. -/
structure startup_steps (σ : Type) where
  /-- The function `parse_input(argc, argv)`. -/
  parse_input : List cstring → rarch_context σ → rarch_context σ
  /-- The function `config_load()`. -/
  config_load : rarch_context σ → rarch_context σ
  /-- The function `init_libretro_sym(dummy)`. -/
  init_libretro_sym : Bool → rarch_context σ → rarch_context σ
  /-- The function `init_system_info()`. -/
  init_system_info : rarch_context σ → rarch_context σ
  /-- The function `init_drivers_pre()`. -/
  init_drivers_pre : rarch_context σ → rarch_context σ

/-- A statement `step` in a sequence: it runs unless control has left the normal
flow. -/
def then_do (step : rarch_context σ → rarch_context σ) (g : rarch_context σ) :
    rarch_context σ :=
  if g.halted.isSome then g else step g

/-- The statements of `rarch_main_init` from `g_extern.error_in_init = true` to
`init_drivers_pre()`.  The block under `if (g_extern.verbosity)` writes to the log
stream only. -/
def rarch_main_init_startup (cfg : build_config) (ext : externals σ) (steps : startup_steps σ)
    (argv : List cstring) (g : rarch_context σ) : rarch_context σ :=
  let g1 := { g with error_in_init := true }
  let g2 := then_do (steps.parse_input argv) g1
  let g3 := then_do (validate_cpu_features cfg ext) g2
  let g4 := then_do steps.config_load g3
  let g5 := then_do (fun g => steps.init_libretro_sym g.libretro_dummy g) g4
  let g6 := then_do steps.init_system_info g5
  then_do steps.init_drivers_pre g6

/-- The statements of `rarch_main_init` after `setjmp` has returned 0: the value
returned and the new context.  When control leaves through `rarch_fail` or
`rarch_assert` nothing is returned here, which is rendered as 0 with the context
halted. -/
def rarch_main_init_run (cfg : build_config) (ext : externals σ) (steps : startup_steps σ)
    (argv : List cstring) (g : rarch_context σ) : Int × rarch_context σ :=
  let g6 := rarch_main_init_startup cfg ext steps argv g
  if g6.halted.isSome then (0, g6)
  else
    let core := invoke rarch_cmd.RARCH_CMD_CORE_INIT (cmd_core_init cfg ext) g6
    if core.2.halted.isSome then (0, core.2)
    else if !core.1 then
      let g7 := (invoke rarch_cmd.RARCH_CMD_CORE_DEINIT (cmd_core_deinit ext) core.2).2
      (1, { g7 with main_is_init := false })
    else
      let g7 := then_do (fun g =>
        (invoke rarch_cmd.RARCH_CMD_DRIVERS_INIT (cmd_drivers_init ext) g).2) core.2
      let g8 := then_do (fun g =>
        (invoke rarch_cmd.RARCH_CMD_COMMAND_INIT (cmd_command_init cfg ext) g).2) g7
      let g9 := then_do (fun g =>
        (invoke rarch_cmd.RARCH_CMD_REWIND_INIT (cmd_rewind_init cfg ext) g).2) g8
      let g10 := then_do (fun g =>
        (invoke rarch_cmd.RARCH_CMD_CONTROLLERS_INIT (cmd_controllers_init cfg ext) g).2) g9
      let g11 := then_do (fun g =>
        (invoke rarch_cmd.RARCH_CMD_RECORD_INIT (cmd_record_init ext) g).2) g10
      let g12 := then_do (fun g =>
        (invoke rarch_cmd.RARCH_CMD_CHEATS_INIT (cmd_cheats_init cfg ext) g).2) g11
      let g13 := then_do (fun g =>
        (invoke rarch_cmd.RARCH_CMD_REMAPPING_INIT (cmd_remapping_init ext) g).2) g12
      let g14 := then_do (fun g =>
        (invoke rarch_cmd.RARCH_CMD_SAVEFILES_INIT (cmd_savefiles_init cfg ext) g).2) g13
      (0, then_do (fun g => { g with error_in_init := false, main_is_init := true }) g14)

/-- The function `rarch_main_init(argc, argv)`: the value returned, `none` when
the function does not return, and the new context.  A `rarch_fail(error_code, ...)`
anywhere below comes back through `setjmp` with the value `error_code` (1 for
`error_code` 0), and the function returns it when it is positive.  With a negative
value the test `> 0` fails and the statements would run again; no `rarch_fail` of
the file passes one, and the embedding returns nothing in that case, as it does
after a failed `rarch_assert`. -/
def rarch_main_init (cfg : build_config) (ext : externals σ) (steps : startup_steps σ)
    (argv : List cstring) (g : rarch_context σ) : Option Int × rarch_context σ :=
  let r := rarch_main_init_run cfg ext steps argv (init_state g)
  match r.2.halted with
  | none => (some r.1, r.2)
  | some (halt_reason.rarch_fail error_code _) =>
    let sjlj_ret := if error_code = 0 then 1 else error_code
    if sjlj_ret > 0 then (some sjlj_ret, { r.2 with halted := none })
    else (none, r.2)
  | some halt_reason.rarch_assert => (none, r.2)

/-! ## Replacing the configuration file -/

/-- The function `rarch_replace_config(path)`. -/
def rarch_replace_config (cfg : build_config) (ext : externals σ) (path : cstring)
    (g : rarch_context σ) : Bool × rarch_context σ :=
  if path = g.config_path then (false, g)
  else
    let g1 :=
      if g.config_save_on_exit = true ∧ g.config_path ≠ [] then
        (extern_call ext extern_fn.config_save_file [cval.str g.config_path] g).2
      else g
    let g2 :=
      { g1 with
        config_path := strlcpy path cfg.PATH_MAX_LENGTH,
        block_config_read := false,
        libretro := [] }
    (true, (invoke rarch_cmd.RARCH_CMD_PREPARE_DUMMY (cmd_prepare_dummy cfg ext) g2).2)

end operations

/-! ## A concrete outside world

A small core with a disk tray, and simple path helpers, on which the embedding
can be evaluated. -/

/-- The state of the example core and file system. -/
structure sample_world where
  /-- The number of disk images the core holds. -/
  num_images : Nat
  /-- The index of the current image. -/
  image_index : Nat
  /-- Whether the tray is open. -/
  ejected : Bool
  /-- What `retro_serialize_size` reports. -/
  serialize_size : Nat
  /-- Whether `add_image_index` succeeds in adding an image. -/
  can_add_image : Bool
  /-- What listing any directory returns (`none`: the directory cannot be read). -/
  listing : Option (List cstring)
  /-- The paths that are directories. -/
  directories : List cstring
  /-- Whether `menu_load_content` succeeds. -/
  content_loads : Bool
deriving DecidableEq, Repr

/-- The final component of a path: what follows the last slash. -/
def sample_path_base (path : cstring) : cstring :=
  match strrchr path '/' with
  | some i => path.drop (i + 1)
  | none => path

/-- The directory of a path: everything up to and including the last slash. -/
def sample_path_dir (path : cstring) : cstring :=
  match strrchr path '/' with
  | some i => path.take (i + 1)
  | none => []

/-- The disk-control interface of the example core: every request succeeds,
except that `add_image_index` adds nothing when the core cannot add images. -/
def sample_disk_control : retro_disk_control_callback sample_world where
  set_eject_state := fun b w => (true, { w with ejected := b })
  get_eject_state := fun w => w.ejected
  get_image_index := fun w => w.image_index
  set_image_index := fun i w => (true, { w with image_index := i })
  get_num_images := some (fun w => w.num_images)
  replace_image_index := fun _ _ w => (true, w)
  add_image_index := fun w =>
    if w.can_add_image then (true, { w with num_images := w.num_images + 1 }) else (false, w)

/-- The disk-control interface of a core without the capability: the member
`get_num_images` is null. -/
def sample_no_disk_control : retro_disk_control_callback sample_world :=
  { sample_disk_control with get_num_images := none }

/-- What the outside functions of the example world return: every constructor
returns an object, except that a movie needs a path and that a netplay client
needs a host to connect to; the audio driver is not running; the other functions
succeed, `menu_load_content` as the world says. -/
def sample_call (fn : extern_fn) (args : List cval) (w : sample_world) : cval :=
  match fn with
  | extern_fn.state_manager_new => cval.ptr 1
  | extern_fn.input_overlay_new => cval.ptr 2
  | extern_fn.rarch_dsp_filter_new => cval.ptr 3
  | extern_fn.content_playlist_init => cval.ptr 4
  | extern_fn.core_info_list_new => cval.ptr 5
  | extern_fn.msg_queue_new => cval.ptr 6
  | extern_fn.bsv_movie_init =>
    if args.head? = some (cval.str []) then cval.null else cval.ptr 7
  | extern_fn.netplay_new =>
    if args.head? = some (cval.str []) then cval.null else cval.ptr 8
  | extern_fn.rarch_cmd_new => cval.ptr 9
  | extern_fn.state_manager_push_where => cval.ptr 10
  | extern_fn.retro_set_default_callbacks => cval.ptr 11
  | extern_fn.rarch_get_time_usec => cval.int 0
  | extern_fn.audio_alive => cval.bool false
  | extern_fn.menu_load_content => cval.bool w.content_loads
  | extern_fn.rarch_get_cpu_features => cval.int 19
  | extern_fn.fill_dated_filename => cval.str "RetroArch-0101-000000.cfg".toList
  | _ => cval.bool true

/-- The collaborators of the example world. -/
def sample_externals : externals sample_world where
  pretro_serialize_size := fun w => w.serialize_size
  pretro_get_memory_size := fun _ _ => 0
  pretro_get_memory_data := fun _ _ => 0
  save_state := fun _ w => (true, w)
  load_state := fun _ w => (true, w)
  fill_pathname_noext := fun in_path replace size => (in_path ++ replace).take (size - 1)
  fill_pathname := fun in_path replace size => (in_path ++ replace).take (size - 1)
  fill_pathname_dir := fun in_dir in_basename replace size =>
    (in_dir ++ '/' :: sample_path_base in_basename ++ replace).take (size - 1)
  fill_pathname_basedir := fun in_path size => (sample_path_dir in_path).take (size - 1)
  fill_pathname_base := fun in_path size => (sample_path_base in_path).take (size - 1)
  path_basedir := sample_path_dir
  path_is_directory := fun path w => decide (path ∈ w.directories)
  dir_list_new := fun _ w => w.listing
  libretro_find_subsystem_info := fun infos ident => infos.find? (fun i => i.ident = ident)
  string_list_new := fun _ => true
  calloc := fun _ _ => true
  autosave_new := fun _ _ _ _ w => (none, w)
  autosave_free := fun _ w => w
  dir_list_new_ext := fun _ _ w => w.listing
  dir_list_sort := fun list => list
  fill_pathname_join := fun dir path size => (dir ++ '/' :: path).take (size - 1)
  path_remove_extension := fun path =>
    match strrchr (sample_path_base path) '.' with
    | some i => path.take (path.length - (sample_path_base path).length + i)
    | none => path
  libretro_find_controller_description := fun info id => info.types.find? (fun t => t.id = id)
  has := fun _ _ => true
  call := fun fn args w => (sample_call fn args w, w)

/-- A build with every switch but compression, two users, 4096-byte buffers and
a 64-bit `unsigned long`. -/
def sample_config : build_config where
  HAVE_NETPLAY := true
  HAVE_THREADS := true
  HAVE_COMPRESSION := false
  HAVE_MENU := true
  HAVE_OVERLAY := true
  HAVE_COMMAND := true
  HAVE_NETWORKING := true
  HAVE_DYNAMIC := true
  GEKKO := false
  HW_RVL := false
  __SSE__ := true
  __SSE2__ := true
  __AVX__ := false
  SALAMANDER_FILE := "boot.dol".toList
  MAX_USERS := 2
  RETRO_MSG_INIT_NETPLAY_FAILED := "Failed to initialize netplay.".toList
  PATH_MAX_LENGTH := 4096
  ULONG_MAX := 18446744073709551615

/-- An example world: two disk images, the first one current, tray closed, a
core that supports serialisation. -/
def sample_core : sample_world where
  num_images := 2
  image_index := 0
  ejected := false
  serialize_size := 1024
  can_add_image := true
  listing := some []
  directories := []
  content_loads := true

/-- An example context for the content `/roms/game.bin`: slot 0, no movie, no
netplay, empty message queue and trace. -/
def sample_context : rarch_context sample_world where
  state_slot := 0
  savestate_auto_index := false
  autosave_interval := 0
  system_directory := "/system".toList
  fullpath := "/roms/game.bin".toList
  basename := "/roms/game".toList
  savefile_name := "/roms/game.srm".toList
  savestate_name := "/roms/game.state".toList
  cheatfile_name := "/roms/game.cht".toList
  subsystem := []
  ups_name := []
  bps_name := []
  ips_name := []
  bsv_movie_path := []
  has_set_save_path := false
  has_set_state_path := false
  bsv_movie := none
  rewind_state := none
  savefiles := none
  subsystem_fullpaths := none
  autosave := none
  num_autosave := 0
  msg_queue := []
  special := []
  disk_control := sample_disk_control
  netplay_data := none
  rewind_enable := false
  rewind_buffer_size := 20971520
  rewind_granularity := 4
  menu_pause_libretro := false
  audio_mute_enable := false
  audio_dsp_plugin := []
  input_remap_binds_enable := false
  input_remapping_path := []
  input_overlay := []
  input_overlay_enable := false
  input_overlay_opacity := 0
  input_overlay_scale := 0
  osk_overlay := []
  osk_enable := false
  history_list_enable := false
  content_history_path := []
  content_history_size := 0
  libretro_directory := []
  video_shader_dir := []
  stdin_cmd_enable := false
  network_cmd_enable := false
  network_cmd_port := 55355
  username := []
  savestate_auto_load := false
  lifecycle_state := 1
  is_menu := false
  system_shutdown := false
  system_key_event := retro_keyboard_event_t.core 1
  frontend_key_event := retro_keyboard_event_t.null
  system_frame_time_last := 0
  system_audio_callback := false
  cheat := none
  rewind_size := 0
  audio_data_dsp := none
  audio_data_in_rate := 0
  record_gpu_buffer := none
  history := none
  core_info := none
  shader_dir_list := none
  shader_dir_ptr := 0
  use_sram := false
  sram_save_disable := false
  sram_load_disable := false
  netplay_enable := false
  netplay_is_client := false
  netplay_is_spectate := false
  netplay_server := []
  netplay_port := 0
  netplay_sync_frames := 0
  msg_queue_ptr := some 0
  http_msg_queue := none
  nbio_msg_queue := none
  images_msg_queue := none
  bsv_movie_start_playback := false
  bsv_movie_start_recording := false
  bsv_movie_start_path := []
  bsv_movie_playback := false
  temporary_content := none
  log_file := none
  libretro_dummy := false
  libretro_no_content := false
  frame_limit_last_frame_time := 0
  overlay := none
  overlay_state := 0
  driver_osk_enable := false
  command := none
  stdin_claimed := false
  nonblock_state := false
  flushing_input := false
  audio_active := true
  video_scale := 3
  video_fullscreen := false
  video_black_frame_insertion := false
  video_aspect_ratio_idx := 0
  savestate_auto_save := false
  input_libretro_device := fun _ => RETRO_DEVICE_JOYPAD
  libretro := "/cores/sample_libretro.so".toList
  config_save_on_exit := false
  menu_config_directory := []
  defaults_core_dir := "/cores".toList
  config_path := "/config/retroarch.cfg".toList
  block_config_read := false
  main_is_init := true
  error_in_init := false
  is_paused := false
  pending_windowed_scale := 0
  system_num_ports := 0
  system_ports := fun _ => { types := [] }
  hw_render_callback_cache_context := false
  frame_cache_data := cval.null
  frame_cache_width := 0
  frame_cache_height := 0
  frame_cache_pitch := 0
  video_active := true
  video_cache_context := false
  video_cache_context_ack := false
  recording_data := none
  grab_mouse_state := false
  menu := some { need_refresh := false, load_no_content := false }
  halted := none
  log := []
  world := sample_core
  trace := []

/-- Startup steps that leave the context as it is: the example context already
holds what the command line and the configuration file put in it. -/
def sample_startup : startup_steps sample_world where
  parse_input := fun _ g => g
  config_load := fun g => g
  init_libretro_sym := fun _ g => g
  init_system_info := fun g => g
  init_drivers_pre := fun g => g

/-- The collaborators of the example world with the serialization size and the
results of the outside functions fixed, whatever the world. -/
def sample_deterministic_externals : externals sample_world :=
  { sample_externals with
    pretro_serialize_size := fun _ => 1024,
    dir_list_new_ext := fun _ _ _ => some ["crt.cg".toList],
    call := fun fn args w => (sample_call fn args sample_core, w) }

/-- The collaborators of the example world when the content file cannot be
loaded: `init_content_file` returns false. -/
def sample_externals_without_content : externals sample_world :=
  { sample_externals with
    call := fun fn args w =>
      if fn = extern_fn.init_content_file then (cval.bool false, w)
      else (sample_call fn args w, w) }

/-- The collaborators of the example world on a core with 8192 bytes of save RAM,
where every autosave timer can be created. -/
def sample_externals_with_save_ram : externals sample_world :=
  { sample_externals with
    pretro_get_memory_size := fun type _ => if type = RETRO_MEMORY_SAVE_RAM then 8192 else 0,
    autosave_new := fun _ _ _ _ w => (some 12, w) }

/-- The example context started with SRAM saving off and an autosave interval of
10 frames, before `rarch_main_init`. -/
def sample_context_sram_off : rarch_context sample_world :=
  { sample_context with
    sram_save_disable := true, autosave_interval := 10, main_is_init := false }

/-- The example context with playback of a movie requested, before
`rarch_main_init`; the movie has no path, so it cannot be opened. -/
def sample_context_playback : rarch_context sample_world :=
  { sample_context with bsv_movie_start_playback := true, main_is_init := false }

/-- The example context with the two save files of a content file and an
autosave interval of 10 frames. -/
def sample_context_with_savefiles : rarch_context sample_world :=
  { sample_context with
    savefiles := some [("/roms/game.srm".toList, RETRO_MEMORY_SAVE_RAM),
      ("/roms/game.rtc".toList, RETRO_MEMORY_RTC)],
    autosave_interval := 10 }

/-- The deterministic collaborators on a core with 8192 bytes of save RAM and no
clock, where every autosave timer can be created. -/
def sample_deterministic_externals_with_save_ram : externals sample_world :=
  { sample_deterministic_externals with
    pretro_get_memory_size := fun type _ => if type = RETRO_MEMORY_SAVE_RAM then 8192 else 0,
    autosave_new := fun _ _ _ _ w => (some 12, w) }

/-- The collaborators of the example world when the rewind buffer cannot be
allocated: `state_manager_new` returns null. -/
def sample_externals_without_rewind_buffer : externals sample_world :=
  { sample_externals with
    call := fun fn args w =>
      if fn = extern_fn.state_manager_new then (cval.null, w)
      else (sample_call fn args w, w) }

/-- A core that describes, for its one port, a joypad (id 1) and a mouse (id 2),
and a context with four configured devices: a mouse on port 0, nothing on port
1, an unknown device (id 5) on port 2 and a joypad on port 3. -/
def sample_context_with_controllers : rarch_context sample_world :=
  { sample_context with
    system_num_ports := 1,
    system_ports := fun _ =>
      { types := [⟨some "Joypad".toList, 1⟩, ⟨some "Mouse".toList, 2⟩] },
    input_libretro_device := fun i =>
      if i = 0 then 2 else if i = 1 then RETRO_DEVICE_NONE else if i = 2 then 5
      else RETRO_DEVICE_JOYPAD }

/-- A numbering of the opcodes for the examples: the cases of the switch are
numbered from 1 in their order, and 0 is left for `RARCH_CMD_NONE`. -/
def sample_basic_event_value (c : rarch_cmd) : Nat := case_labels.indexOf c + 1

/-! ## Vocabulary of the statements -/

section vocabulary

variable {σ : Type}

/-- The calls recorded between the context `before` and the later context
`after`. -/
def calls_made (before after : rarch_context σ) : List core_call :=
  after.trace.drop before.trace.length

/-- Whether a recorded call is a request that changes the core's disk state
(as opposed to one of the three queries) or a state (de)serialisation. -/
def core_call.is_request : core_call → Bool
  | core_call.get_eject_state => false
  | core_call.get_image_index => false
  | core_call.get_num_images => false
  | _ => true

/-- The index `check_disk_next` asks for, from the image count and the current
index. -/
def next_index (num_disks current : Nat) : Nat :=
  if current < num_disks - 1 then current + 1 else current

/-- The index `check_disk_prev` asks for, from the current index. -/
def prev_index (current : Nat) : Nat :=
  if current > 0 then current - 1 else current

/-- The context `r` has the same trace and the same disk-control interface as
`g`: no recorded call was made between them. -/
def same_disk (g r : rarch_context σ) : Prop :=
  r.trace = g.trace ∧ r.disk_control = g.disk_control

/-- What the slot number adds to the base path: the decimal digits of a
positive slot, `.auto` for a negative slot, nothing for slot 0. -/
def slot_suffix (slot : Int) : cstring :=
  if 0 < slot then Nat.toDigits 10 slot.toNat
  else if slot < 0 then ".auto".toList
  else []

/-- The trailing decimal digits of a file name: its longest suffix made of
digits. -/
def trailing_digits (name : cstring) : cstring :=
  (name.reverse.takeWhile isdigit).reverse

/-- A run of decimal digits read as a decimal number (0 for the empty run). -/
def decimal_value (digits : cstring) : Nat :=
  digits.foldl (fun acc c => 10 * acc + (c.toNat - 48)) 0

/-- The number formed by the trailing decimal digits of a file name. -/
def suffix_number (name : cstring) : Nat := decimal_value (trailing_digits name)

/-- Whether the base name of the listed file starts with the base name of the
save-state path. -/
def shares_base (cfg : build_config) (ext : externals σ) (savestate_name file : cstring) :
    Bool :=
  (ext.fill_pathname_base savestate_name cfg.PATH_MAX_LENGTH).isPrefixOf
    (ext.fill_pathname_base file cfg.PATH_MAX_LENGTH)

/-- The largest suffix number among the listed files that share the base name
of the save-state path, 0 when there is none. -/
def max_suffix (cfg : build_config) (ext : externals σ) (savestate_name : cstring)
    (files : List cstring) : Nat :=
  ((files.filter (shares_base cfg ext savestate_name)).map suffix_number).foldr max 0

/-- The entries added to the call log between the context `before` and the later
context `after`. -/
def calls_logged (before after : rarch_context σ) : List rarch_call :=
  after.log.drop before.log.length

/-- The context `r` has the lifecycle members of `g`: the flags and keyboard
callbacks that `rarch_main_set_state` writes, the menu handle and the setting
`pause_libretro`. -/
def same_lifecycle (g r : rarch_context σ) : Prop :=
  r.lifecycle_state = g.lifecycle_state ∧ r.is_menu = g.is_menu
    ∧ r.system_shutdown = g.system_shutdown ∧ r.system_key_event = g.system_key_event
    ∧ r.frontend_key_event = g.frontend_key_event ∧ r.menu = g.menu
    ∧ r.menu_pause_libretro = g.menu_pause_libretro

/-- The log of `r` continues the log of `g`. -/
def log_extends (g r : rarch_context σ) : Prop := ∃ l, r.log = g.log ++ l

/-- The handle-owning Deinit commands. -/
def deinit_commands : List rarch_cmd :=
  [rarch_cmd.RARCH_CMD_CHEATS_DEINIT, rarch_cmd.RARCH_CMD_REWIND_DEINIT,
    rarch_cmd.RARCH_CMD_DSP_FILTER_DEINIT, rarch_cmd.RARCH_CMD_GPU_RECORD_DEINIT,
    rarch_cmd.RARCH_CMD_HISTORY_DEINIT, rarch_cmd.RARCH_CMD_CORE_INFO_DEINIT,
    rarch_cmd.RARCH_CMD_SAVEFILES_DEINIT, rarch_cmd.RARCH_CMD_MSG_QUEUE_DEINIT,
    rarch_cmd.RARCH_CMD_BSV_MOVIE_DEINIT, rarch_cmd.RARCH_CMD_NETPLAY_DEINIT,
    rarch_cmd.RARCH_CMD_COMMAND_DEINIT, rarch_cmd.RARCH_CMD_TEMPORARY_CONTENT_DEINIT,
    rarch_cmd.RARCH_CMD_SUBSYSTEM_FULLPATHS_DEINIT, rarch_cmd.RARCH_CMD_LOG_FILE_DEINIT,
    rarch_cmd.RARCH_CMD_OVERLAY_DEINIT, rarch_cmd.RARCH_CMD_AUTOSAVE_DEINIT,
    rarch_cmd.RARCH_CMD_SHADER_DIR_DEINIT]

/-- The subsystem that a Deinit command releases is uninitialized: its handle is
null, and the members that the command resets along with the handle (the
overlay state, the autosave count, the shader index) are zero. -/
def uninitialized (cmd : rarch_cmd) (g : rarch_context σ) : Prop :=
  match cmd with
  | rarch_cmd.RARCH_CMD_CHEATS_DEINIT => g.cheat = none
  | rarch_cmd.RARCH_CMD_REWIND_DEINIT => g.rewind_state = none
  | rarch_cmd.RARCH_CMD_DSP_FILTER_DEINIT => g.audio_data_dsp = none
  | rarch_cmd.RARCH_CMD_GPU_RECORD_DEINIT => g.record_gpu_buffer = none
  | rarch_cmd.RARCH_CMD_HISTORY_DEINIT => g.history = none
  | rarch_cmd.RARCH_CMD_CORE_INFO_DEINIT => g.core_info = none
  | rarch_cmd.RARCH_CMD_SAVEFILES_DEINIT => g.savefiles = none
  | rarch_cmd.RARCH_CMD_MSG_QUEUE_DEINIT => g.msg_queue_ptr = none
  | rarch_cmd.RARCH_CMD_BSV_MOVIE_DEINIT => g.bsv_movie = none
  | rarch_cmd.RARCH_CMD_NETPLAY_DEINIT => g.netplay_data = none
  | rarch_cmd.RARCH_CMD_COMMAND_DEINIT => g.command = none
  | rarch_cmd.RARCH_CMD_TEMPORARY_CONTENT_DEINIT => g.temporary_content = none
  | rarch_cmd.RARCH_CMD_SUBSYSTEM_FULLPATHS_DEINIT => g.subsystem_fullpaths = none
  | rarch_cmd.RARCH_CMD_LOG_FILE_DEINIT => g.log_file = none
  | rarch_cmd.RARCH_CMD_OVERLAY_DEINIT => g.overlay = none ∧ g.overlay_state = 0
  | rarch_cmd.RARCH_CMD_AUTOSAVE_DEINIT => g.autosave = none ∧ g.num_autosave = 0
  | rarch_cmd.RARCH_CMD_SHADER_DIR_DEINIT => g.shader_dir_list = none ∧ g.shader_dir_ptr = 0
  | _ => True

/-- The Deinit command that goes with an Init command, by name. -/
def paired_deinit : rarch_cmd → Option rarch_cmd
  | rarch_cmd.RARCH_CMD_CHEATS_INIT => some rarch_cmd.RARCH_CMD_CHEATS_DEINIT
  | rarch_cmd.RARCH_CMD_REMAPPING_INIT => some rarch_cmd.RARCH_CMD_REMAPPING_DEINIT
  | rarch_cmd.RARCH_CMD_REWIND_INIT => some rarch_cmd.RARCH_CMD_REWIND_DEINIT
  | rarch_cmd.RARCH_CMD_AUTOSAVE_INIT => some rarch_cmd.RARCH_CMD_AUTOSAVE_DEINIT
  | rarch_cmd.RARCH_CMD_OVERLAY_INIT => some rarch_cmd.RARCH_CMD_OVERLAY_DEINIT
  | rarch_cmd.RARCH_CMD_DSP_FILTER_INIT => some rarch_cmd.RARCH_CMD_DSP_FILTER_DEINIT
  | rarch_cmd.RARCH_CMD_RECORD_INIT => some rarch_cmd.RARCH_CMD_RECORD_DEINIT
  | rarch_cmd.RARCH_CMD_HISTORY_INIT => some rarch_cmd.RARCH_CMD_HISTORY_DEINIT
  | rarch_cmd.RARCH_CMD_CORE_INFO_INIT => some rarch_cmd.RARCH_CMD_CORE_INFO_DEINIT
  | rarch_cmd.RARCH_CMD_CORE_INIT => some rarch_cmd.RARCH_CMD_CORE_DEINIT
  | rarch_cmd.RARCH_CMD_DRIVERS_INIT => some rarch_cmd.RARCH_CMD_DRIVERS_DEINIT
  | rarch_cmd.RARCH_CMD_SHADER_DIR_INIT => some rarch_cmd.RARCH_CMD_SHADER_DIR_DEINIT
  | rarch_cmd.RARCH_CMD_SAVEFILES_INIT => some rarch_cmd.RARCH_CMD_SAVEFILES_DEINIT
  | rarch_cmd.RARCH_CMD_MSG_QUEUE_INIT => some rarch_cmd.RARCH_CMD_MSG_QUEUE_DEINIT
  | rarch_cmd.RARCH_CMD_BSV_MOVIE_INIT => some rarch_cmd.RARCH_CMD_BSV_MOVIE_DEINIT
  | rarch_cmd.RARCH_CMD_NETPLAY_INIT => some rarch_cmd.RARCH_CMD_NETPLAY_DEINIT
  | rarch_cmd.RARCH_CMD_NETWORK_INIT => some rarch_cmd.RARCH_CMD_NETWORK_DEINIT
  | rarch_cmd.RARCH_CMD_COMMAND_INIT => some rarch_cmd.RARCH_CMD_COMMAND_DEINIT
  | _ => none

/-- The Init commands whose case starts with a call of the paired Deinit
command. -/
def init_commands_with_deinit : List rarch_cmd :=
  [rarch_cmd.RARCH_CMD_CHEATS_INIT, rarch_cmd.RARCH_CMD_REMAPPING_INIT,
    rarch_cmd.RARCH_CMD_AUTOSAVE_INIT, rarch_cmd.RARCH_CMD_OVERLAY_INIT,
    rarch_cmd.RARCH_CMD_DSP_FILTER_INIT, rarch_cmd.RARCH_CMD_HISTORY_INIT,
    rarch_cmd.RARCH_CMD_CORE_INFO_INIT, rarch_cmd.RARCH_CMD_SHADER_DIR_INIT,
    rarch_cmd.RARCH_CMD_MSG_QUEUE_INIT, rarch_cmd.RARCH_CMD_BSV_MOVIE_INIT,
    rarch_cmd.RARCH_CMD_NETPLAY_INIT, rarch_cmd.RARCH_CMD_COMMAND_INIT]

/-- The Deinit commands: the opcodes of `rarch_main_command` whose name ends in
`_DEINIT`. -/
def deinit_command_names : List rarch_cmd :=
  [rarch_cmd.RARCH_CMD_CHEATS_DEINIT, rarch_cmd.RARCH_CMD_REMAPPING_DEINIT,
    rarch_cmd.RARCH_CMD_REWIND_DEINIT, rarch_cmd.RARCH_CMD_AUTOSAVE_DEINIT,
    rarch_cmd.RARCH_CMD_OVERLAY_DEINIT, rarch_cmd.RARCH_CMD_DSP_FILTER_DEINIT,
    rarch_cmd.RARCH_CMD_GPU_RECORD_DEINIT, rarch_cmd.RARCH_CMD_RECORD_DEINIT,
    rarch_cmd.RARCH_CMD_HISTORY_DEINIT, rarch_cmd.RARCH_CMD_CORE_INFO_DEINIT,
    rarch_cmd.RARCH_CMD_CORE_DEINIT, rarch_cmd.RARCH_CMD_DRIVERS_DEINIT,
    rarch_cmd.RARCH_CMD_SHADER_DIR_DEINIT, rarch_cmd.RARCH_CMD_SAVEFILES_DEINIT,
    rarch_cmd.RARCH_CMD_MSG_QUEUE_DEINIT, rarch_cmd.RARCH_CMD_BSV_MOVIE_DEINIT,
    rarch_cmd.RARCH_CMD_NETPLAY_DEINIT, rarch_cmd.RARCH_CMD_NETWORK_DEINIT,
    rarch_cmd.RARCH_CMD_COMMAND_DEINIT, rarch_cmd.RARCH_CMD_TEMPORARY_CONTENT_DEINIT,
    rarch_cmd.RARCH_CMD_SUBSYSTEM_FULLPATHS_DEINIT, rarch_cmd.RARCH_CMD_LOG_FILE_DEINIT]

/-- The Init commands whose case does not start with a call of a Deinit
command. -/
def init_commands_without_deinit : List rarch_cmd :=
  [rarch_cmd.RARCH_CMD_REWIND_INIT, rarch_cmd.RARCH_CMD_CORE_INIT,
    rarch_cmd.RARCH_CMD_DRIVERS_INIT, rarch_cmd.RARCH_CMD_SAVEFILES_INIT,
    rarch_cmd.RARCH_CMD_NETWORK_INIT]

/-- How control can have left `RARCH_CMD_CORE_INIT`: not at all, through the
`rarch_fail(1, "init_movie()")` of `init_movie`, or through a failed assertion. -/
def core_init_exit (h : Option halt_reason) : Prop :=
  h = none ∨ h = some (halt_reason.rarch_fail 1 "init_movie()".toList)
    ∨ h = some halt_reason.rarch_assert

/-- The Init commands that own a handle. -/
def handle_init_commands : List rarch_cmd :=
  [rarch_cmd.RARCH_CMD_CHEATS_INIT, rarch_cmd.RARCH_CMD_REWIND_INIT,
    rarch_cmd.RARCH_CMD_AUTOSAVE_INIT, rarch_cmd.RARCH_CMD_OVERLAY_INIT,
    rarch_cmd.RARCH_CMD_DSP_FILTER_INIT, rarch_cmd.RARCH_CMD_HISTORY_INIT,
    rarch_cmd.RARCH_CMD_CORE_INFO_INIT, rarch_cmd.RARCH_CMD_SHADER_DIR_INIT,
    rarch_cmd.RARCH_CMD_MSG_QUEUE_INIT, rarch_cmd.RARCH_CMD_BSV_MOVIE_INIT,
    rarch_cmd.RARCH_CMD_NETPLAY_INIT, rarch_cmd.RARCH_CMD_COMMAND_INIT]

/-- The handle state of the subsystem of an Init command: for each handle the
command owns, whether it is non-null.  For `RARCH_CMD_AUTOSAVE_INIT` these are the
array `g_extern.autosave` and the timers in its first `num_autosave` entries. -/
def handle_state (cmd : rarch_cmd) (g : rarch_context σ) : List Bool :=
  match cmd with
  | rarch_cmd.RARCH_CMD_CHEATS_INIT => [g.cheat.isSome]
  | rarch_cmd.RARCH_CMD_REWIND_INIT => [g.rewind_state.isSome]
  | rarch_cmd.RARCH_CMD_AUTOSAVE_INIT =>
    g.autosave.isSome :: ((g.autosave.getD []).take g.num_autosave).map Option.isSome
  | rarch_cmd.RARCH_CMD_OVERLAY_INIT => [g.overlay.isSome]
  | rarch_cmd.RARCH_CMD_DSP_FILTER_INIT => [g.audio_data_dsp.isSome]
  | rarch_cmd.RARCH_CMD_HISTORY_INIT => [g.history.isSome]
  | rarch_cmd.RARCH_CMD_CORE_INFO_INIT => [g.core_info.isSome]
  | rarch_cmd.RARCH_CMD_SHADER_DIR_INIT => [g.shader_dir_list.isSome]
  | rarch_cmd.RARCH_CMD_MSG_QUEUE_INIT =>
    [g.msg_queue_ptr.isSome, g.http_msg_queue.isSome, g.nbio_msg_queue.isSome,
      g.images_msg_queue.isSome]
  | rarch_cmd.RARCH_CMD_BSV_MOVIE_INIT => [g.bsv_movie.isSome]
  | rarch_cmd.RARCH_CMD_NETPLAY_INIT => [g.netplay_data.isSome]
  | rarch_cmd.RARCH_CMD_COMMAND_INIT => [g.command.isSome]
  | _ => []

/-- The outside functions are deterministic functions of their arguments: what
they return does not depend on the state of the world.  This is asked of the
functions called by name, of the constructors `calloc`, `autosave_new` and
`dir_list_new`, and of the queries whose answers are passed to a constructor:
the serialization size and the size and address of the core's memory. -/
def deterministic (ext : externals σ) : Prop :=
  (∀ fn args w w', (ext.call fn args w).1 = (ext.call fn args w').1)
  ∧ (∀ w w', ext.pretro_serialize_size w = ext.pretro_serialize_size w')
  ∧ (∀ n w w', ext.calloc n w = ext.calloc n w')
  ∧ (∀ type w w', ext.pretro_get_memory_size type w = ext.pretro_get_memory_size type w')
  ∧ (∀ type w w', ext.pretro_get_memory_data type w = ext.pretro_get_memory_data type w')
  ∧ (∀ path data size interval w w',
      (ext.autosave_new path data size interval w).1
        = (ext.autosave_new path data size interval w').1)
  ∧ (∀ dir exts w w', ext.dir_list_new_ext dir exts w = ext.dir_list_new_ext dir exts w')

/-- Whether a logged call is a constructor that returned an object: one of the
constructors of the handles, with a non-null pointer returned, or `calloc` or
`dir_list_new`, logged with whether the result is non-null. -/
def rarch_call.is_allocation : rarch_call → Bool
  | rarch_call.external fn _ ret =>
    (decide (fn ∈ [extern_fn.state_manager_new, extern_fn.input_overlay_new,
      extern_fn.rarch_dsp_filter_new, extern_fn.content_playlist_init,
      extern_fn.core_info_list_new, extern_fn.msg_queue_new, extern_fn.bsv_movie_init,
      extern_fn.netplay_new, extern_fn.rarch_cmd_new, extern_fn.autosave_new])
        && ret.to_handle.isSome)
    || (decide (fn ∈ [extern_fn.calloc, extern_fn.dir_list_new]) && ret.to_bool)
  | _ => false

/-- Whether a logged call is a destructor that released an object: one of the
destructors, except `autosave_free` of a null timer, which releases nothing.
(The other destructors are only called with an object.) -/
def rarch_call.is_release : rarch_call → Bool
  | rarch_call.external fn args _ =>
    decide (fn ∈ [extern_fn.cheat_manager_free, extern_fn.state_manager_free,
      extern_fn.input_overlay_free, extern_fn.rarch_dsp_filter_free,
      extern_fn.content_playlist_free, extern_fn.core_info_list_free,
      extern_fn.msg_queue_free, extern_fn.bsv_movie_free, extern_fn.netplay_free,
      extern_fn.rarch_cmd_free, extern_fn.free, extern_fn.dir_list_free])
    || (decide (fn = extern_fn.autosave_free) && decide (args ≠ [cval.null]))
  | _ => false

/-- The number of objects that the logged calls allocated. -/
def allocations (l : List rarch_call) : Nat := (l.filter rarch_call.is_allocation).length

/-- The number of objects that the logged calls released. -/
def releases (l : List rarch_call) : Nat := (l.filter rarch_call.is_release).length

/-- Running an Init command a second time gives what the first run gave: the
second run returns, with the same value and the same handle state, and it
releases as many objects as it allocates. -/
def init_twice_same (cfg : build_config) (ext : externals σ) (cmd : rarch_cmd)
    (g : rarch_context σ) : Prop :=
  (rarch_main_command cfg ext cmd (rarch_main_command cfg ext cmd g).2).2.halted = none
  ∧ (rarch_main_command cfg ext cmd (rarch_main_command cfg ext cmd g).2).1
      = (rarch_main_command cfg ext cmd g).1
  ∧ handle_state cmd (rarch_main_command cfg ext cmd (rarch_main_command cfg ext cmd g).2).2
      = handle_state cmd (rarch_main_command cfg ext cmd g).2
  ∧ allocations (calls_logged (rarch_main_command cfg ext cmd g).2
        (rarch_main_command cfg ext cmd (rarch_main_command cfg ext cmd g).2).2)
      = releases (calls_logged (rarch_main_command cfg ext cmd g).2
        (rarch_main_command cfg ext cmd (rarch_main_command cfg ext cmd g).2).2)

/-- The command of a log entry, if the entry is a command. -/
def rarch_call.to_command : rarch_call → Option rarch_cmd
  | rarch_call.command cmd => some cmd
  | _ => none

/-- The commands executed through `rarch_main_command` between the context
`before` and the later context `after`, in order. -/
def commands_logged (before after : rarch_context σ) : List rarch_cmd :=
  (calls_logged before after).filterMap rarch_call.to_command

/-- Between the context `g` and the later context `r` the commands `cs` were
executed through `rarch_main_command`, in this order. -/
def executes (cs : List rarch_cmd) (g r : rarch_context σ) : Prop :=
  ∃ l, r.log = g.log ++ l ∧ l.filterMap rarch_call.to_command = cs

/-- The context `r` has the autosave members of `g`: `use_sram`, the array of
timers and its length. -/
def same_autosave (g r : rarch_context σ) : Prop :=
  r.use_sram = g.use_sram ∧ r.autosave = g.autosave ∧ r.num_autosave = g.num_autosave

/-- The context `r` has the configuration members of `g` that
`rarch_replace_config` writes: `config_path`, `block_config_read` and the path of
the core. -/
def same_config (g r : rarch_context σ) : Prop :=
  r.config_path = g.config_path ∧ r.block_config_read = g.block_config_read
    ∧ r.libretro = g.libretro

/-- Modelled from the spec's words: a path with "only the extension of its final
component removed".  The final component is what follows the last `/`; its
extension starts at its last `.`. -/
def without_final_extension (path : cstring) : cstring :=
  let start :=
    match strrchr path '/' with
    | some i => i + 1
    | none => 0
  match strrchr (path.drop start) '.' with
  | some dot => path.take (start + dot)
  | none => path

/-- The function called and the arguments passed, for a log entry that is a call
of an outside function. -/
def rarch_call.request : rarch_call → Option (extern_fn × List cval)
  | rarch_call.external fn args _ => some (fn, args)
  | _ => none

/-- Whether the core describes the device configured for port `i`: the port is
one of the `num_ports` ports and a controller description with a name is found
for the device id. -/
def controller_described (ext : externals σ) (g : rarch_context σ) (i : Nat) : Bool :=
  decide (i < g.system_num_ports)
    && (match ext.libretro_find_controller_description (g.system_ports i)
          (g.input_libretro_device i) with
        | some d => d.desc.isSome
        | none => false)

/-- Whether `init_controllers` connects the device configured for port `i`: it
is `RETRO_DEVICE_NONE`, or it is not `RETRO_DEVICE_JOYPAD` and the core describes
it. -/
def controller_connected (ext : externals σ) (g : rarch_context σ) (i : Nat) : Bool :=
  decide (g.input_libretro_device i = RETRO_DEVICE_NONE)
    || (decide (g.input_libretro_device i ≠ RETRO_DEVICE_JOYPAD)
        && controller_described ext g i)

end vocabulary

/-! ## The static call graph of `retroarch.c` -/

/-- The opcodes that have a case in the switch of `rarch_main_command` (members of
`enum basic_event`), in the order of the cases. -/
inductive basic_event where
  | RARCH_CMD_LOAD_CONTENT_PERSIST
  | RARCH_CMD_LOAD_CONTENT
  | RARCH_CMD_LOAD_CORE
  | RARCH_CMD_LOAD_STATE
  | RARCH_CMD_RESIZE_WINDOWED_SCALE
  | RARCH_CMD_MENU_TOGGLE
  | RARCH_CMD_CONTROLLERS_INIT
  | RARCH_CMD_RESET
  | RARCH_CMD_SAVE_STATE
  | RARCH_CMD_TAKE_SCREENSHOT
  | RARCH_CMD_PREPARE_DUMMY
  | RARCH_CMD_QUIT
  | RARCH_CMD_REINIT
  | RARCH_CMD_CHEATS_DEINIT
  | RARCH_CMD_CHEATS_INIT
  | RARCH_CMD_REMAPPING_DEINIT
  | RARCH_CMD_REMAPPING_INIT
  | RARCH_CMD_REWIND_DEINIT
  | RARCH_CMD_REWIND_INIT
  | RARCH_CMD_REWIND_TOGGLE
  | RARCH_CMD_AUTOSAVE_DEINIT
  | RARCH_CMD_AUTOSAVE_INIT
  | RARCH_CMD_AUTOSAVE_STATE
  | RARCH_CMD_AUDIO_STOP
  | RARCH_CMD_AUDIO_START
  | RARCH_CMD_AUDIO_MUTE_TOGGLE
  | RARCH_CMD_OVERLAY_DEINIT
  | RARCH_CMD_OVERLAY_INIT
  | RARCH_CMD_OVERLAY_NEXT
  | RARCH_CMD_DSP_FILTER_DEINIT
  | RARCH_CMD_DSP_FILTER_INIT
  | RARCH_CMD_GPU_RECORD_DEINIT
  | RARCH_CMD_RECORD_DEINIT
  | RARCH_CMD_RECORD_INIT
  | RARCH_CMD_HISTORY_DEINIT
  | RARCH_CMD_HISTORY_INIT
  | RARCH_CMD_CORE_INFO_DEINIT
  | RARCH_CMD_CORE_INFO_INIT
  | RARCH_CMD_CORE_DEINIT
  | RARCH_CMD_CORE_INIT
  | RARCH_CMD_VIDEO_APPLY_STATE_CHANGES
  | RARCH_CMD_VIDEO_SET_NONBLOCKING_STATE
  | RARCH_CMD_VIDEO_SET_BLOCKING_STATE
  | RARCH_CMD_VIDEO_SET_ASPECT_RATIO
  | RARCH_CMD_AUDIO_SET_NONBLOCKING_STATE
  | RARCH_CMD_AUDIO_SET_BLOCKING_STATE
  | RARCH_CMD_OVERLAY_SET_SCALE_FACTOR
  | RARCH_CMD_OVERLAY_SET_ALPHA_MOD
  | RARCH_CMD_DRIVERS_DEINIT
  | RARCH_CMD_DRIVERS_INIT
  | RARCH_CMD_AUDIO_REINIT
  | RARCH_CMD_RESET_CONTEXT
  | RARCH_CMD_QUIT_RETROARCH
  | RARCH_CMD_RESUME
  | RARCH_CMD_RESTART_RETROARCH
  | RARCH_CMD_MENU_SAVE_CONFIG
  | RARCH_CMD_SHADERS_APPLY_CHANGES
  | RARCH_CMD_PAUSE_CHECKS
  | RARCH_CMD_PAUSE_TOGGLE
  | RARCH_CMD_UNPAUSE
  | RARCH_CMD_PAUSE
  | RARCH_CMD_MENU_PAUSE_LIBRETRO
  | RARCH_CMD_SHADER_DIR_DEINIT
  | RARCH_CMD_SHADER_DIR_INIT
  | RARCH_CMD_SAVEFILES
  | RARCH_CMD_SAVEFILES_DEINIT
  | RARCH_CMD_SAVEFILES_INIT
  | RARCH_CMD_MSG_QUEUE_DEINIT
  | RARCH_CMD_MSG_QUEUE_INIT
  | RARCH_CMD_BSV_MOVIE_DEINIT
  | RARCH_CMD_BSV_MOVIE_INIT
  | RARCH_CMD_NETPLAY_DEINIT
  | RARCH_CMD_NETWORK_DEINIT
  | RARCH_CMD_NETWORK_INIT
  | RARCH_CMD_NETPLAY_INIT
  | RARCH_CMD_NETPLAY_FLIP_PLAYERS
  | RARCH_CMD_FULLSCREEN_TOGGLE
  | RARCH_CMD_COMMAND_DEINIT
  | RARCH_CMD_COMMAND_INIT
  | RARCH_CMD_TEMPORARY_CONTENT_DEINIT
  | RARCH_CMD_SUBSYSTEM_FULLPATHS_DEINIT
  | RARCH_CMD_LOG_FILE_DEINIT
  | RARCH_CMD_DISK_EJECT_TOGGLE
  | RARCH_CMD_DISK_NEXT
  | RARCH_CMD_DISK_PREV
  | RARCH_CMD_RUMBLE_STOP
  | RARCH_CMD_GRAB_MOUSE_TOGGLE
  | RARCH_CMD_PERFCNT_REPORT_FRONTEND_LOG
deriving DecidableEq, Repr

/-- The functions that `retroarch.c` defines, other than `rarch_main_command` and
`rarch_main_set_state`, in the order of their definitions. -/
inductive retroarch_fn where
  | rarch_render_cached_frame
  | print_features
  | print_compiler
  | print_help
  | set_basename
  | set_special_paths
  | set_paths_redirect
  | set_paths
  | parse_input
  | init_controllers
  | load_save_files
  | save_files
  | init_remapping
  | init_cheats
  | init_rewind
  | init_movie
  | init_netplay
  | init_command
  | init_autosave
  | deinit_autosave
  | set_savestate_auto_index
  | rarch_init_savefile_paths
  | fill_pathnames
  | load_auto_state
  | save_auto_state
  | rarch_load_state
  | rarch_save_state
  | main_state
  | rarch_disk_control_append_image
  | rarch_disk_control_set_eject
  | rarch_disk_control_set_index
  | check_disk_eject
  | check_disk_next
  | check_disk_prev
  | init_state
  | free_temporary_content
  | main_clear_state_extern
  | main_clear_state
  | rarch_main_state_new
  | rarch_main_state_free
  | init_system_info
  | verify_api_version
  | validate_cpu_features
  | init_system_av_info
  | deinit_core
  | init_content
  | init_core
  | rarch_main_init
  | rarch_main_init_wrap
  | save_core_config
  | rarch_main_deinit
  | rarch_playlist_load_content
  | rarch_defer_core
  | rarch_replace_config
  | rarch_update_system_info
deriving DecidableEq, Repr

/-- A node of the call graph: a case of `rarch_main_command`, a case of
`rarch_main_set_state`, or another function of the file. -/
inductive call_node where
  | command (cmd : basic_event)
  | state (state : rarch_action_state)
  | fn (f : retroarch_fn)
deriving DecidableEq, Repr

/-- The calls written in the body of a node, in the order of the source: the
opcodes passed to `rarch_main_command`, the states passed to
`rarch_main_set_state`, and the functions of the file called by name.  Calls under
any preprocessor switch are included; functions defined in other files are
left out.  A case that falls through into the next one has the calls of both. -/
def direct_calls : call_node → List call_node
  | call_node.fn retroarch_fn.print_help =>
    [call_node.fn retroarch_fn.print_compiler]
  | call_node.fn retroarch_fn.set_special_paths =>
    [call_node.fn retroarch_fn.set_basename]
  | call_node.fn retroarch_fn.set_paths =>
    [call_node.fn retroarch_fn.set_basename, call_node.fn retroarch_fn.set_paths_redirect]
  | call_node.fn retroarch_fn.parse_input =>
    [call_node.fn retroarch_fn.print_help, call_node.fn retroarch_fn.print_features,
      call_node.fn retroarch_fn.set_paths, call_node.fn retroarch_fn.set_special_paths]
  | call_node.fn retroarch_fn.rarch_init_savefile_paths =>
    [call_node.command basic_event.RARCH_CMD_SAVEFILES_DEINIT]
  | call_node.fn retroarch_fn.fill_pathnames =>
    [call_node.fn retroarch_fn.rarch_init_savefile_paths]
  | call_node.fn retroarch_fn.main_state =>
    [call_node.fn retroarch_fn.rarch_save_state, call_node.fn retroarch_fn.rarch_load_state]
  | call_node.fn retroarch_fn.rarch_disk_control_append_image =>
    [call_node.fn retroarch_fn.rarch_disk_control_set_eject,
      call_node.command basic_event.RARCH_CMD_AUTOSAVE_DEINIT,
      call_node.fn retroarch_fn.set_paths, call_node.fn retroarch_fn.fill_pathnames,
      call_node.command basic_event.RARCH_CMD_AUTOSAVE_INIT]
  | call_node.fn retroarch_fn.check_disk_eject =>
    [call_node.fn retroarch_fn.rarch_disk_control_set_eject]
  | call_node.fn retroarch_fn.check_disk_next =>
    [call_node.fn retroarch_fn.rarch_disk_control_set_index]
  | call_node.fn retroarch_fn.check_disk_prev =>
    [call_node.fn retroarch_fn.rarch_disk_control_set_index]
  | call_node.fn retroarch_fn.main_clear_state_extern =>
    [call_node.command basic_event.RARCH_CMD_TEMPORARY_CONTENT_DEINIT,
      call_node.command basic_event.RARCH_CMD_SUBSYSTEM_FULLPATHS_DEINIT,
      call_node.command basic_event.RARCH_CMD_RECORD_DEINIT,
      call_node.command basic_event.RARCH_CMD_LOG_FILE_DEINIT,
      call_node.command basic_event.RARCH_CMD_HISTORY_DEINIT]
  | call_node.fn retroarch_fn.main_clear_state =>
    [call_node.command basic_event.RARCH_CMD_DRIVERS_DEINIT,
      call_node.fn retroarch_fn.main_clear_state_extern,
      call_node.command basic_event.RARCH_CMD_DRIVERS_INIT,
      call_node.fn retroarch_fn.init_state]
  | call_node.fn retroarch_fn.rarch_main_state_new =>
    [call_node.fn retroarch_fn.main_clear_state,
      call_node.command basic_event.RARCH_CMD_MSG_QUEUE_INIT]
  | call_node.fn retroarch_fn.rarch_main_state_free =>
    [call_node.command basic_event.RARCH_CMD_MSG_QUEUE_DEINIT,
      call_node.command basic_event.RARCH_CMD_LOG_FILE_DEINIT,
      call_node.fn retroarch_fn.main_clear_state]
  | call_node.fn retroarch_fn.deinit_core =>
    [call_node.command basic_event.RARCH_CMD_DRIVERS_DEINIT]
  | call_node.fn retroarch_fn.init_content =>
    [call_node.fn retroarch_fn.fill_pathnames,
      call_node.fn retroarch_fn.set_savestate_auto_index,
      call_node.fn retroarch_fn.load_save_files, call_node.fn retroarch_fn.load_auto_state,
      call_node.command basic_event.RARCH_CMD_BSV_MOVIE_INIT,
      call_node.command basic_event.RARCH_CMD_NETPLAY_INIT]
  | call_node.fn retroarch_fn.init_core =>
    [call_node.fn retroarch_fn.verify_api_version, call_node.fn retroarch_fn.init_content,
      call_node.fn retroarch_fn.init_system_av_info]
  | call_node.fn retroarch_fn.rarch_main_init =>
    [call_node.fn retroarch_fn.init_state, call_node.fn retroarch_fn.parse_input,
      call_node.fn retroarch_fn.print_compiler,
      call_node.fn retroarch_fn.validate_cpu_features,
      call_node.fn retroarch_fn.init_system_info,
      call_node.command basic_event.RARCH_CMD_CORE_INIT,
      call_node.command basic_event.RARCH_CMD_DRIVERS_INIT,
      call_node.command basic_event.RARCH_CMD_COMMAND_INIT,
      call_node.command basic_event.RARCH_CMD_REWIND_INIT,
      call_node.command basic_event.RARCH_CMD_CONTROLLERS_INIT,
      call_node.command basic_event.RARCH_CMD_RECORD_INIT,
      call_node.command basic_event.RARCH_CMD_CHEATS_INIT,
      call_node.command basic_event.RARCH_CMD_REMAPPING_INIT,
      call_node.command basic_event.RARCH_CMD_SAVEFILES_INIT,
      call_node.command basic_event.RARCH_CMD_CORE_DEINIT]
  | call_node.state rarch_action_state.RARCH_ACTION_STATE_MENU_RUNNING =>
    [call_node.command basic_event.RARCH_CMD_VIDEO_SET_BLOCKING_STATE,
      call_node.command basic_event.RARCH_CMD_RUMBLE_STOP,
      call_node.command basic_event.RARCH_CMD_AUDIO_STOP]
  | call_node.state rarch_action_state.RARCH_ACTION_STATE_LOAD_CONTENT =>
    [call_node.state rarch_action_state.RARCH_ACTION_STATE_MENU_RUNNING]
  | call_node.state rarch_action_state.RARCH_ACTION_STATE_MENU_RUNNING_FINISHED =>
    [call_node.command basic_event.RARCH_CMD_AUDIO_START]
  | call_node.state rarch_action_state.RARCH_ACTION_STATE_QUIT =>
    [call_node.state rarch_action_state.RARCH_ACTION_STATE_MENU_RUNNING_FINISHED]
  | call_node.state rarch_action_state.RARCH_ACTION_STATE_FORCE_QUIT =>
    [call_node.state rarch_action_state.RARCH_ACTION_STATE_QUIT]
  | call_node.command basic_event.RARCH_CMD_LOAD_CONTENT_PERSIST =>
    [call_node.command basic_event.RARCH_CMD_LOAD_CORE,
      call_node.state rarch_action_state.RARCH_ACTION_STATE_LOAD_CONTENT]
  | call_node.command basic_event.RARCH_CMD_LOAD_CONTENT =>
    [call_node.command basic_event.RARCH_CMD_LOAD_CONTENT_PERSIST,
      call_node.command basic_event.RARCH_CMD_QUIT]
  | call_node.command basic_event.RARCH_CMD_LOAD_CORE =>
    [call_node.fn retroarch_fn.rarch_update_system_info,
      call_node.command basic_event.RARCH_CMD_QUIT]
  | call_node.command basic_event.RARCH_CMD_LOAD_STATE =>
    [call_node.fn retroarch_fn.main_state]
  | call_node.command basic_event.RARCH_CMD_RESIZE_WINDOWED_SCALE =>
    [call_node.command basic_event.RARCH_CMD_REINIT]
  | call_node.command basic_event.RARCH_CMD_MENU_TOGGLE =>
    [call_node.state rarch_action_state.RARCH_ACTION_STATE_MENU_RUNNING_FINISHED,
      call_node.state rarch_action_state.RARCH_ACTION_STATE_MENU_RUNNING]
  | call_node.command basic_event.RARCH_CMD_CONTROLLERS_INIT =>
    [call_node.fn retroarch_fn.init_controllers]
  | call_node.command basic_event.RARCH_CMD_RESET =>
    [call_node.command basic_event.RARCH_CMD_CONTROLLERS_INIT]
  | call_node.command basic_event.RARCH_CMD_SAVE_STATE =>
    [call_node.fn retroarch_fn.main_state]
  | call_node.command basic_event.RARCH_CMD_PREPARE_DUMMY =>
    [call_node.state rarch_action_state.RARCH_ACTION_STATE_LOAD_CONTENT]
  | call_node.command basic_event.RARCH_CMD_QUIT =>
    [call_node.state rarch_action_state.RARCH_ACTION_STATE_QUIT]
  | call_node.command basic_event.RARCH_CMD_REINIT =>
    [call_node.command basic_event.RARCH_CMD_RESET_CONTEXT,
      call_node.command basic_event.RARCH_CMD_VIDEO_SET_BLOCKING_STATE]
  | call_node.command basic_event.RARCH_CMD_CHEATS_INIT =>
    [call_node.command basic_event.RARCH_CMD_CHEATS_DEINIT,
      call_node.fn retroarch_fn.init_cheats]
  | call_node.command basic_event.RARCH_CMD_REMAPPING_INIT =>
    [call_node.command basic_event.RARCH_CMD_REMAPPING_DEINIT,
      call_node.fn retroarch_fn.init_remapping]
  | call_node.command basic_event.RARCH_CMD_REWIND_INIT =>
    [call_node.fn retroarch_fn.init_rewind]
  | call_node.command basic_event.RARCH_CMD_REWIND_TOGGLE =>
    [call_node.command basic_event.RARCH_CMD_REWIND_INIT,
      call_node.command basic_event.RARCH_CMD_REWIND_DEINIT]
  | call_node.command basic_event.RARCH_CMD_AUTOSAVE_DEINIT =>
    [call_node.fn retroarch_fn.deinit_autosave]
  | call_node.command basic_event.RARCH_CMD_AUTOSAVE_INIT =>
    [call_node.command basic_event.RARCH_CMD_AUTOSAVE_DEINIT,
      call_node.fn retroarch_fn.init_autosave]
  | call_node.command basic_event.RARCH_CMD_AUTOSAVE_STATE =>
    [call_node.fn retroarch_fn.save_auto_state]
  | call_node.command basic_event.RARCH_CMD_OVERLAY_INIT =>
    [call_node.command basic_event.RARCH_CMD_OVERLAY_DEINIT]
  | call_node.command basic_event.RARCH_CMD_DSP_FILTER_INIT =>
    [call_node.command basic_event.RARCH_CMD_DSP_FILTER_DEINIT]
  | call_node.command basic_event.RARCH_CMD_RECORD_INIT =>
    [call_node.command basic_event.RARCH_CMD_HISTORY_DEINIT]
  | call_node.command basic_event.RARCH_CMD_HISTORY_INIT =>
    [call_node.command basic_event.RARCH_CMD_HISTORY_DEINIT]
  | call_node.command basic_event.RARCH_CMD_CORE_INFO_INIT =>
    [call_node.command basic_event.RARCH_CMD_CORE_INFO_DEINIT]
  | call_node.command basic_event.RARCH_CMD_CORE_DEINIT =>
    [call_node.fn retroarch_fn.deinit_core]
  | call_node.command basic_event.RARCH_CMD_CORE_INIT =>
    [call_node.fn retroarch_fn.init_core]
  | call_node.command basic_event.RARCH_CMD_RESET_CONTEXT =>
    [call_node.command basic_event.RARCH_CMD_DRIVERS_DEINIT,
      call_node.command basic_event.RARCH_CMD_DRIVERS_INIT]
  | call_node.command basic_event.RARCH_CMD_QUIT_RETROARCH =>
    [call_node.state rarch_action_state.RARCH_ACTION_STATE_FORCE_QUIT]
  | call_node.command basic_event.RARCH_CMD_RESUME =>
    [call_node.state rarch_action_state.RARCH_ACTION_STATE_MENU_RUNNING_FINISHED]
  | call_node.command basic_event.RARCH_CMD_MENU_SAVE_CONFIG =>
    [call_node.fn retroarch_fn.save_core_config]
  | call_node.command basic_event.RARCH_CMD_PAUSE_CHECKS =>
    [call_node.command basic_event.RARCH_CMD_AUDIO_STOP,
      call_node.fn retroarch_fn.rarch_render_cached_frame,
      call_node.command basic_event.RARCH_CMD_AUDIO_START]
  | call_node.command basic_event.RARCH_CMD_PAUSE_TOGGLE =>
    [call_node.command basic_event.RARCH_CMD_PAUSE_CHECKS]
  | call_node.command basic_event.RARCH_CMD_UNPAUSE =>
    [call_node.command basic_event.RARCH_CMD_PAUSE_CHECKS]
  | call_node.command basic_event.RARCH_CMD_PAUSE =>
    [call_node.command basic_event.RARCH_CMD_PAUSE_CHECKS]
  | call_node.command basic_event.RARCH_CMD_MENU_PAUSE_LIBRETRO =>
    [call_node.command basic_event.RARCH_CMD_AUDIO_STOP,
      call_node.command basic_event.RARCH_CMD_AUDIO_START]
  | call_node.command basic_event.RARCH_CMD_SHADER_DIR_INIT =>
    [call_node.command basic_event.RARCH_CMD_SHADER_DIR_DEINIT]
  | call_node.command basic_event.RARCH_CMD_SAVEFILES =>
    [call_node.fn retroarch_fn.save_files]
  | call_node.command basic_event.RARCH_CMD_SAVEFILES_INIT =>
    [call_node.command basic_event.RARCH_CMD_AUTOSAVE_INIT]
  | call_node.command basic_event.RARCH_CMD_MSG_QUEUE_INIT =>
    [call_node.command basic_event.RARCH_CMD_MSG_QUEUE_DEINIT]
  | call_node.command basic_event.RARCH_CMD_BSV_MOVIE_INIT =>
    [call_node.command basic_event.RARCH_CMD_BSV_MOVIE_DEINIT,
      call_node.fn retroarch_fn.init_movie]
  | call_node.command basic_event.RARCH_CMD_NETPLAY_INIT =>
    [call_node.command basic_event.RARCH_CMD_NETPLAY_DEINIT,
      call_node.fn retroarch_fn.init_netplay]
  | call_node.command basic_event.RARCH_CMD_FULLSCREEN_TOGGLE =>
    [call_node.command basic_event.RARCH_CMD_REINIT]
  | call_node.command basic_event.RARCH_CMD_COMMAND_INIT =>
    [call_node.command basic_event.RARCH_CMD_COMMAND_DEINIT,
      call_node.fn retroarch_fn.init_command]
  | call_node.command basic_event.RARCH_CMD_TEMPORARY_CONTENT_DEINIT =>
    [call_node.fn retroarch_fn.free_temporary_content]
  | call_node.command basic_event.RARCH_CMD_DISK_EJECT_TOGGLE =>
    [call_node.fn retroarch_fn.check_disk_eject]
  | call_node.command basic_event.RARCH_CMD_DISK_NEXT =>
    [call_node.fn retroarch_fn.check_disk_next]
  | call_node.command basic_event.RARCH_CMD_DISK_PREV =>
    [call_node.fn retroarch_fn.check_disk_prev]
  | call_node.fn retroarch_fn.rarch_main_deinit =>
    [call_node.command basic_event.RARCH_CMD_NETPLAY_DEINIT,
      call_node.command basic_event.RARCH_CMD_COMMAND_DEINIT,
      call_node.command basic_event.RARCH_CMD_AUTOSAVE_DEINIT,
      call_node.command basic_event.RARCH_CMD_RECORD_DEINIT,
      call_node.command basic_event.RARCH_CMD_SAVEFILES,
      call_node.command basic_event.RARCH_CMD_REWIND_DEINIT,
      call_node.command basic_event.RARCH_CMD_CHEATS_DEINIT,
      call_node.command basic_event.RARCH_CMD_BSV_MOVIE_DEINIT,
      call_node.command basic_event.RARCH_CMD_AUTOSAVE_STATE,
      call_node.command basic_event.RARCH_CMD_CORE_DEINIT,
      call_node.command basic_event.RARCH_CMD_TEMPORARY_CONTENT_DEINIT,
      call_node.command basic_event.RARCH_CMD_SUBSYSTEM_FULLPATHS_DEINIT,
      call_node.command basic_event.RARCH_CMD_SAVEFILES_DEINIT]
  | call_node.fn retroarch_fn.rarch_playlist_load_content =>
    [call_node.command basic_event.RARCH_CMD_LOAD_CORE]
  | call_node.fn retroarch_fn.rarch_replace_config =>
    [call_node.command basic_event.RARCH_CMD_PREPARE_DUMMY]
  | _ => []

/-- A rank of the nodes: the length of the longest chain of calls that starts at
the node. -/
def call_rank : call_node → Nat
  | call_node.fn retroarch_fn.print_help => 1
  | call_node.fn retroarch_fn.set_special_paths => 1
  | call_node.fn retroarch_fn.set_paths => 1
  | call_node.fn retroarch_fn.parse_input => 2
  | call_node.fn retroarch_fn.rarch_init_savefile_paths => 1
  | call_node.fn retroarch_fn.fill_pathnames => 2
  | call_node.fn retroarch_fn.main_state => 1
  | call_node.fn retroarch_fn.rarch_disk_control_append_image => 3
  | call_node.fn retroarch_fn.check_disk_eject => 1
  | call_node.fn retroarch_fn.check_disk_next => 1
  | call_node.fn retroarch_fn.check_disk_prev => 1
  | call_node.fn retroarch_fn.main_clear_state_extern => 2
  | call_node.fn retroarch_fn.main_clear_state => 3
  | call_node.fn retroarch_fn.rarch_main_state_new => 4
  | call_node.fn retroarch_fn.rarch_main_state_free => 4
  | call_node.fn retroarch_fn.deinit_core => 1
  | call_node.fn retroarch_fn.init_content => 3
  | call_node.fn retroarch_fn.init_core => 4
  | call_node.fn retroarch_fn.rarch_main_init => 6
  | call_node.state rarch_action_state.RARCH_ACTION_STATE_MENU_RUNNING => 1
  | call_node.state rarch_action_state.RARCH_ACTION_STATE_LOAD_CONTENT => 2
  | call_node.state rarch_action_state.RARCH_ACTION_STATE_MENU_RUNNING_FINISHED => 1
  | call_node.state rarch_action_state.RARCH_ACTION_STATE_QUIT => 2
  | call_node.state rarch_action_state.RARCH_ACTION_STATE_FORCE_QUIT => 3
  | call_node.command basic_event.RARCH_CMD_LOAD_CONTENT_PERSIST => 5
  | call_node.command basic_event.RARCH_CMD_LOAD_CONTENT => 6
  | call_node.command basic_event.RARCH_CMD_LOAD_CORE => 4
  | call_node.command basic_event.RARCH_CMD_LOAD_STATE => 2
  | call_node.command basic_event.RARCH_CMD_RESIZE_WINDOWED_SCALE => 3
  | call_node.command basic_event.RARCH_CMD_MENU_TOGGLE => 2
  | call_node.command basic_event.RARCH_CMD_CONTROLLERS_INIT => 1
  | call_node.command basic_event.RARCH_CMD_RESET => 2
  | call_node.command basic_event.RARCH_CMD_SAVE_STATE => 2
  | call_node.command basic_event.RARCH_CMD_PREPARE_DUMMY => 3
  | call_node.command basic_event.RARCH_CMD_QUIT => 3
  | call_node.command basic_event.RARCH_CMD_REINIT => 2
  | call_node.command basic_event.RARCH_CMD_CHEATS_INIT => 1
  | call_node.command basic_event.RARCH_CMD_REMAPPING_INIT => 1
  | call_node.command basic_event.RARCH_CMD_REWIND_INIT => 1
  | call_node.command basic_event.RARCH_CMD_REWIND_TOGGLE => 2
  | call_node.command basic_event.RARCH_CMD_AUTOSAVE_DEINIT => 1
  | call_node.command basic_event.RARCH_CMD_AUTOSAVE_INIT => 2
  | call_node.command basic_event.RARCH_CMD_AUTOSAVE_STATE => 1
  | call_node.command basic_event.RARCH_CMD_OVERLAY_INIT => 1
  | call_node.command basic_event.RARCH_CMD_DSP_FILTER_INIT => 1
  | call_node.command basic_event.RARCH_CMD_RECORD_INIT => 1
  | call_node.command basic_event.RARCH_CMD_HISTORY_INIT => 1
  | call_node.command basic_event.RARCH_CMD_CORE_INFO_INIT => 1
  | call_node.command basic_event.RARCH_CMD_CORE_DEINIT => 2
  | call_node.command basic_event.RARCH_CMD_CORE_INIT => 5
  | call_node.command basic_event.RARCH_CMD_RESET_CONTEXT => 1
  | call_node.command basic_event.RARCH_CMD_QUIT_RETROARCH => 4
  | call_node.command basic_event.RARCH_CMD_RESUME => 2
  | call_node.command basic_event.RARCH_CMD_MENU_SAVE_CONFIG => 1
  | call_node.command basic_event.RARCH_CMD_PAUSE_CHECKS => 1
  | call_node.command basic_event.RARCH_CMD_PAUSE_TOGGLE => 2
  | call_node.command basic_event.RARCH_CMD_UNPAUSE => 2
  | call_node.command basic_event.RARCH_CMD_PAUSE => 2
  | call_node.command basic_event.RARCH_CMD_MENU_PAUSE_LIBRETRO => 1
  | call_node.command basic_event.RARCH_CMD_SHADER_DIR_INIT => 1
  | call_node.command basic_event.RARCH_CMD_SAVEFILES => 1
  | call_node.command basic_event.RARCH_CMD_SAVEFILES_INIT => 3
  | call_node.command basic_event.RARCH_CMD_MSG_QUEUE_INIT => 1
  | call_node.command basic_event.RARCH_CMD_BSV_MOVIE_INIT => 1
  | call_node.command basic_event.RARCH_CMD_NETPLAY_INIT => 1
  | call_node.command basic_event.RARCH_CMD_FULLSCREEN_TOGGLE => 3
  | call_node.command basic_event.RARCH_CMD_COMMAND_INIT => 1
  | call_node.command basic_event.RARCH_CMD_TEMPORARY_CONTENT_DEINIT => 1
  | call_node.command basic_event.RARCH_CMD_DISK_EJECT_TOGGLE => 2
  | call_node.command basic_event.RARCH_CMD_DISK_NEXT => 2
  | call_node.command basic_event.RARCH_CMD_DISK_PREV => 2
  | call_node.fn retroarch_fn.rarch_main_deinit => 3
  | call_node.fn retroarch_fn.rarch_playlist_load_content => 5
  | call_node.fn retroarch_fn.rarch_replace_config => 4
  | _ => 0

/-- The opcode of `enum basic_event` that an embedded opcode stands for. -/
def rarch_cmd.to_basic_event : rarch_cmd → basic_event
  | rarch_cmd.RARCH_CMD_LOAD_STATE => basic_event.RARCH_CMD_LOAD_STATE
  | rarch_cmd.RARCH_CMD_SAVE_STATE => basic_event.RARCH_CMD_SAVE_STATE
  | rarch_cmd.RARCH_CMD_CHEATS_DEINIT => basic_event.RARCH_CMD_CHEATS_DEINIT
  | rarch_cmd.RARCH_CMD_CHEATS_INIT => basic_event.RARCH_CMD_CHEATS_INIT
  | rarch_cmd.RARCH_CMD_REMAPPING_DEINIT => basic_event.RARCH_CMD_REMAPPING_DEINIT
  | rarch_cmd.RARCH_CMD_REMAPPING_INIT => basic_event.RARCH_CMD_REMAPPING_INIT
  | rarch_cmd.RARCH_CMD_REWIND_DEINIT => basic_event.RARCH_CMD_REWIND_DEINIT
  | rarch_cmd.RARCH_CMD_REWIND_INIT => basic_event.RARCH_CMD_REWIND_INIT
  | rarch_cmd.RARCH_CMD_AUTOSAVE_DEINIT => basic_event.RARCH_CMD_AUTOSAVE_DEINIT
  | rarch_cmd.RARCH_CMD_AUTOSAVE_INIT => basic_event.RARCH_CMD_AUTOSAVE_INIT
  | rarch_cmd.RARCH_CMD_AUDIO_STOP => basic_event.RARCH_CMD_AUDIO_STOP
  | rarch_cmd.RARCH_CMD_AUDIO_START => basic_event.RARCH_CMD_AUDIO_START
  | rarch_cmd.RARCH_CMD_OVERLAY_DEINIT => basic_event.RARCH_CMD_OVERLAY_DEINIT
  | rarch_cmd.RARCH_CMD_OVERLAY_INIT => basic_event.RARCH_CMD_OVERLAY_INIT
  | rarch_cmd.RARCH_CMD_DSP_FILTER_DEINIT => basic_event.RARCH_CMD_DSP_FILTER_DEINIT
  | rarch_cmd.RARCH_CMD_DSP_FILTER_INIT => basic_event.RARCH_CMD_DSP_FILTER_INIT
  | rarch_cmd.RARCH_CMD_GPU_RECORD_DEINIT => basic_event.RARCH_CMD_GPU_RECORD_DEINIT
  | rarch_cmd.RARCH_CMD_RECORD_DEINIT => basic_event.RARCH_CMD_RECORD_DEINIT
  | rarch_cmd.RARCH_CMD_RECORD_INIT => basic_event.RARCH_CMD_RECORD_INIT
  | rarch_cmd.RARCH_CMD_HISTORY_DEINIT => basic_event.RARCH_CMD_HISTORY_DEINIT
  | rarch_cmd.RARCH_CMD_HISTORY_INIT => basic_event.RARCH_CMD_HISTORY_INIT
  | rarch_cmd.RARCH_CMD_CORE_INFO_DEINIT => basic_event.RARCH_CMD_CORE_INFO_DEINIT
  | rarch_cmd.RARCH_CMD_CORE_INFO_INIT => basic_event.RARCH_CMD_CORE_INFO_INIT
  | rarch_cmd.RARCH_CMD_CORE_DEINIT => basic_event.RARCH_CMD_CORE_DEINIT
  | rarch_cmd.RARCH_CMD_CORE_INIT => basic_event.RARCH_CMD_CORE_INIT
  | rarch_cmd.RARCH_CMD_VIDEO_SET_BLOCKING_STATE => basic_event.RARCH_CMD_VIDEO_SET_BLOCKING_STATE
  | rarch_cmd.RARCH_CMD_VIDEO_SET_NONBLOCKING_STATE => basic_event.RARCH_CMD_VIDEO_SET_NONBLOCKING_STATE
  | rarch_cmd.RARCH_CMD_DRIVERS_DEINIT => basic_event.RARCH_CMD_DRIVERS_DEINIT
  | rarch_cmd.RARCH_CMD_DRIVERS_INIT => basic_event.RARCH_CMD_DRIVERS_INIT
  | rarch_cmd.RARCH_CMD_SHADER_DIR_DEINIT => basic_event.RARCH_CMD_SHADER_DIR_DEINIT
  | rarch_cmd.RARCH_CMD_SHADER_DIR_INIT => basic_event.RARCH_CMD_SHADER_DIR_INIT
  | rarch_cmd.RARCH_CMD_SAVEFILES_DEINIT => basic_event.RARCH_CMD_SAVEFILES_DEINIT
  | rarch_cmd.RARCH_CMD_SAVEFILES_INIT => basic_event.RARCH_CMD_SAVEFILES_INIT
  | rarch_cmd.RARCH_CMD_MSG_QUEUE_DEINIT => basic_event.RARCH_CMD_MSG_QUEUE_DEINIT
  | rarch_cmd.RARCH_CMD_MSG_QUEUE_INIT => basic_event.RARCH_CMD_MSG_QUEUE_INIT
  | rarch_cmd.RARCH_CMD_BSV_MOVIE_DEINIT => basic_event.RARCH_CMD_BSV_MOVIE_DEINIT
  | rarch_cmd.RARCH_CMD_BSV_MOVIE_INIT => basic_event.RARCH_CMD_BSV_MOVIE_INIT
  | rarch_cmd.RARCH_CMD_NETPLAY_DEINIT => basic_event.RARCH_CMD_NETPLAY_DEINIT
  | rarch_cmd.RARCH_CMD_NETPLAY_INIT => basic_event.RARCH_CMD_NETPLAY_INIT
  | rarch_cmd.RARCH_CMD_NETWORK_DEINIT => basic_event.RARCH_CMD_NETWORK_DEINIT
  | rarch_cmd.RARCH_CMD_NETWORK_INIT => basic_event.RARCH_CMD_NETWORK_INIT
  | rarch_cmd.RARCH_CMD_COMMAND_DEINIT => basic_event.RARCH_CMD_COMMAND_DEINIT
  | rarch_cmd.RARCH_CMD_COMMAND_INIT => basic_event.RARCH_CMD_COMMAND_INIT
  | rarch_cmd.RARCH_CMD_TEMPORARY_CONTENT_DEINIT => basic_event.RARCH_CMD_TEMPORARY_CONTENT_DEINIT
  | rarch_cmd.RARCH_CMD_SUBSYSTEM_FULLPATHS_DEINIT => basic_event.RARCH_CMD_SUBSYSTEM_FULLPATHS_DEINIT
  | rarch_cmd.RARCH_CMD_LOG_FILE_DEINIT => basic_event.RARCH_CMD_LOG_FILE_DEINIT
  | rarch_cmd.RARCH_CMD_DISK_EJECT_TOGGLE => basic_event.RARCH_CMD_DISK_EJECT_TOGGLE
  | rarch_cmd.RARCH_CMD_DISK_NEXT => basic_event.RARCH_CMD_DISK_NEXT
  | rarch_cmd.RARCH_CMD_DISK_PREV => basic_event.RARCH_CMD_DISK_PREV
  | rarch_cmd.RARCH_CMD_RUMBLE_STOP => basic_event.RARCH_CMD_RUMBLE_STOP
  | rarch_cmd.RARCH_CMD_LOAD_CONTENT_PERSIST => basic_event.RARCH_CMD_LOAD_CONTENT_PERSIST
  | rarch_cmd.RARCH_CMD_LOAD_CONTENT => basic_event.RARCH_CMD_LOAD_CONTENT
  | rarch_cmd.RARCH_CMD_LOAD_CORE => basic_event.RARCH_CMD_LOAD_CORE
  | rarch_cmd.RARCH_CMD_RESIZE_WINDOWED_SCALE => basic_event.RARCH_CMD_RESIZE_WINDOWED_SCALE
  | rarch_cmd.RARCH_CMD_MENU_TOGGLE => basic_event.RARCH_CMD_MENU_TOGGLE
  | rarch_cmd.RARCH_CMD_CONTROLLERS_INIT => basic_event.RARCH_CMD_CONTROLLERS_INIT
  | rarch_cmd.RARCH_CMD_RESET => basic_event.RARCH_CMD_RESET
  | rarch_cmd.RARCH_CMD_TAKE_SCREENSHOT => basic_event.RARCH_CMD_TAKE_SCREENSHOT
  | rarch_cmd.RARCH_CMD_PREPARE_DUMMY => basic_event.RARCH_CMD_PREPARE_DUMMY
  | rarch_cmd.RARCH_CMD_QUIT => basic_event.RARCH_CMD_QUIT
  | rarch_cmd.RARCH_CMD_REINIT => basic_event.RARCH_CMD_REINIT
  | rarch_cmd.RARCH_CMD_REWIND_TOGGLE => basic_event.RARCH_CMD_REWIND_TOGGLE
  | rarch_cmd.RARCH_CMD_AUTOSAVE_STATE => basic_event.RARCH_CMD_AUTOSAVE_STATE
  | rarch_cmd.RARCH_CMD_AUDIO_MUTE_TOGGLE => basic_event.RARCH_CMD_AUDIO_MUTE_TOGGLE
  | rarch_cmd.RARCH_CMD_OVERLAY_NEXT => basic_event.RARCH_CMD_OVERLAY_NEXT
  | rarch_cmd.RARCH_CMD_VIDEO_APPLY_STATE_CHANGES => basic_event.RARCH_CMD_VIDEO_APPLY_STATE_CHANGES
  | rarch_cmd.RARCH_CMD_VIDEO_SET_ASPECT_RATIO => basic_event.RARCH_CMD_VIDEO_SET_ASPECT_RATIO
  | rarch_cmd.RARCH_CMD_AUDIO_SET_NONBLOCKING_STATE => basic_event.RARCH_CMD_AUDIO_SET_NONBLOCKING_STATE
  | rarch_cmd.RARCH_CMD_AUDIO_SET_BLOCKING_STATE => basic_event.RARCH_CMD_AUDIO_SET_BLOCKING_STATE
  | rarch_cmd.RARCH_CMD_OVERLAY_SET_SCALE_FACTOR => basic_event.RARCH_CMD_OVERLAY_SET_SCALE_FACTOR
  | rarch_cmd.RARCH_CMD_OVERLAY_SET_ALPHA_MOD => basic_event.RARCH_CMD_OVERLAY_SET_ALPHA_MOD
  | rarch_cmd.RARCH_CMD_AUDIO_REINIT => basic_event.RARCH_CMD_AUDIO_REINIT
  | rarch_cmd.RARCH_CMD_RESET_CONTEXT => basic_event.RARCH_CMD_RESET_CONTEXT
  | rarch_cmd.RARCH_CMD_QUIT_RETROARCH => basic_event.RARCH_CMD_QUIT_RETROARCH
  | rarch_cmd.RARCH_CMD_RESUME => basic_event.RARCH_CMD_RESUME
  | rarch_cmd.RARCH_CMD_RESTART_RETROARCH => basic_event.RARCH_CMD_RESTART_RETROARCH
  | rarch_cmd.RARCH_CMD_MENU_SAVE_CONFIG => basic_event.RARCH_CMD_MENU_SAVE_CONFIG
  | rarch_cmd.RARCH_CMD_SHADERS_APPLY_CHANGES => basic_event.RARCH_CMD_SHADERS_APPLY_CHANGES
  | rarch_cmd.RARCH_CMD_PAUSE_CHECKS => basic_event.RARCH_CMD_PAUSE_CHECKS
  | rarch_cmd.RARCH_CMD_PAUSE_TOGGLE => basic_event.RARCH_CMD_PAUSE_TOGGLE
  | rarch_cmd.RARCH_CMD_UNPAUSE => basic_event.RARCH_CMD_UNPAUSE
  | rarch_cmd.RARCH_CMD_PAUSE => basic_event.RARCH_CMD_PAUSE
  | rarch_cmd.RARCH_CMD_MENU_PAUSE_LIBRETRO => basic_event.RARCH_CMD_MENU_PAUSE_LIBRETRO
  | rarch_cmd.RARCH_CMD_SAVEFILES => basic_event.RARCH_CMD_SAVEFILES
  | rarch_cmd.RARCH_CMD_NETPLAY_FLIP_PLAYERS => basic_event.RARCH_CMD_NETPLAY_FLIP_PLAYERS
  | rarch_cmd.RARCH_CMD_FULLSCREEN_TOGGLE => basic_event.RARCH_CMD_FULLSCREEN_TOGGLE
  | rarch_cmd.RARCH_CMD_GRAB_MOUSE_TOGGLE => basic_event.RARCH_CMD_GRAB_MOUSE_TOGGLE
  | rarch_cmd.RARCH_CMD_PERFCNT_REPORT_FRONTEND_LOG => basic_event.RARCH_CMD_PERFCNT_REPORT_FRONTEND_LOG

/-- The relation "the body of `a` calls `b`". -/
def calls (a b : call_node) : Prop := b ∈ direct_calls a

/-! ## General lemmas -/

section general

variable {σ : Type}

/-- In its range, a value converts to `int` unchanged. -/
theorem to_int_of_range (z : Int) (hlo : INT_MIN ≤ z) (hhi : z ≤ INT_MAX) : to_int z = z := by
  unfold to_int
  unfold INT_MIN at hlo
  unfold INT_MAX at hhi
  omega

/-- The calls made up to a context whose trace extends the earlier one. -/
theorem calls_made_append (g r : rarch_context σ) (l : List core_call)
    (h : r.trace = g.trace ++ l) : calls_made g r = l := by
  unfold calls_made
  rw [h]
  exact List.drop_left _ _

/-- A value that fits `int` converts to `unsigned` unchanged. -/
theorem to_unsigned_of_le (n : Nat) (h : (n : Int) ≤ INT_MAX) : to_unsigned n = n := by
  unfold to_unsigned
  unfold INT_MAX at h
  omega

end general

/-! ## Decimal digits -/

theorem digitChar_isdigit (d : Nat) (h : d < 10) : isdigit (Nat.digitChar d) = true := by
  interval_cases d <;> decide

theorem digitChar_toNat (d : Nat) (h : d < 10) : (Nat.digitChar d).toNat - 48 = d := by
  interval_cases d <;> decide

theorem digitChar_eq_zero (d : Nat) (h : d < 10) (h0 : Nat.digitChar d = '0') : d = 0 := by
  interval_cases d <;> first | rfl | (exfalso; revert h0; decide)

theorem decimal_value_append (l : cstring) (c : Char) :
    decimal_value (l ++ [c]) = 10 * decimal_value l + (c.toNat - 48) := by
  simp [decimal_value, List.foldl_append]

/-- What `Nat.toDigitsCore` produces with enough fuel: a non-empty run of digits in
front of the accumulator, whose decimal value is the number, without a leading
zero for a positive number, and no longer than the number's magnitude allows. -/
theorem toDigitsCore_spec : ∀ (fuel n : Nat) (ds : List Char), n < fuel →
    ∃ l : List Char, Nat.toDigitsCore 10 fuel n ds = l ++ ds ∧ decimal_value l = n ∧ l ≠ []
      ∧ (∀ c ∈ l, isdigit c = true) ∧ (0 < n → l.head? ≠ some '0')
      ∧ (∀ k, n < 10 ^ (k + 1) → l.length ≤ k + 1) := by
  intro fuel
  induction fuel with
  | zero => intro n ds h; omega
  | succ fuel ih =>
    intro n ds h
    have hmod : n % 10 < 10 := Nat.mod_lt _ (by decide)
    by_cases hq : n / 10 = 0
    · refine ⟨[Nat.digitChar (n % 10)], ?_, ?_, by simp, ?_, ?_, ?_⟩
      · simp [Nat.toDigitsCore, hq]
      · have h1 : n % 10 = n := by omega
        have h2 := digitChar_toNat _ hmod
        rw [h1] at h2
        simp [decimal_value, h2, h1]
      · intro c hc
        simp at hc
        subst hc
        exact digitChar_isdigit _ hmod
      · intro hpos hhead
        simp at hhead
        have := digitChar_eq_zero _ hmod hhead
        omega
      · intro k _; simp
    · have hlt : n / 10 < fuel := by omega
      obtain ⟨l, hl, hv, hne, hdig, hhead, hlen⟩ := ih (n / 10) (Nat.digitChar (n % 10) :: ds) hlt
      refine ⟨l ++ [Nat.digitChar (n % 10)], ?_, ?_, by simp, ?_, ?_, ?_⟩
      · simp [Nat.toDigitsCore, hq, hl]
      · rw [decimal_value_append, hv, digitChar_toNat _ hmod]; omega
      · intro c hc
        rcases List.mem_append.mp hc with hc | hc
        · exact hdig c hc
        · simp at hc; subst hc; exact digitChar_isdigit _ hmod
      · intro _
        have hpos : 0 < n / 10 := Nat.pos_of_ne_zero hq
        have := hhead hpos
        cases l with
        | nil => exact absurd rfl hne
        | cons a t => simpa using this
      · intro k hk
        cases k with
        | zero => omega
        | succ k =>
          have : n / 10 < 10 ^ (k + 1) := by
            rw [Nat.div_lt_iff_lt_mul (by decide)]
            calc n < 10 ^ (k + 1 + 1) := hk
              _ = 10 ^ (k + 1) * 10 := by ring
          have := hlen k this
          simp; omega

theorem toDigits_spec (n : Nat) :
    decimal_value (Nat.toDigits 10 n) = n ∧ Nat.toDigits 10 n ≠ []
      ∧ (∀ c ∈ Nat.toDigits 10 n, isdigit c = true)
      ∧ (0 < n → (Nat.toDigits 10 n).head? ≠ some '0')
      ∧ (∀ k, n < 10 ^ (k + 1) → (Nat.toDigits 10 n).length ≤ k + 1) := by
  obtain ⟨l, hl, h⟩ := toDigitsCore_spec (n + 1) n [] (Nat.lt_succ_self n)
  have : Nat.toDigits 10 n = l := by simp [Nat.toDigits, hl]
  rw [this]; exact h

theorem toDigits_injective (a b : Nat) (h : Nat.toDigits 10 a = Nat.toDigits 10 b) : a = b := by
  rw [← (toDigits_spec a).1, ← (toDigits_spec b).1, h]

theorem toDigits_length_le (n : Nat) (h : n ≤ 2147483647) : (Nat.toDigits 10 n).length ≤ 10 :=
  (toDigits_spec n).2.2.2.2 9 (by omega)

section slot_resolution

variable {σ : Type}

/-! ## Slot resolution -/

theorem snprintf_of_fits (size : Nat) (s : cstring) (h : s.length < size) :
    snprintf size s = s := by
  unfold snprintf
  exact List.take_of_length_le (by omega)

theorem strlcpy_of_fits (size : Nat) (s : cstring) (h : s.length < size) :
    strlcpy s size = s := by
  unfold strlcpy
  exact List.take_of_length_le (by omega)

/-- When nothing is truncated, `main_state` resolves the base path followed by
the slot's suffix. -/
theorem main_state_path_untruncated (cfg : build_config) (g : rarch_context σ)
    (hb : g.savestate_name.length + 10 < cfg.PATH_MAX_LENGTH)
    (hs : g.state_slot ≤ INT_MAX) :
    main_state_path cfg g = g.savestate_name ++ slot_suffix g.state_slot := by
  unfold main_state_path slot_suffix
  by_cases hpos : 0 < g.state_slot
  · have hlen : (Nat.toDigits 10 g.state_slot.toNat).length ≤ 10 := by
      apply toDigits_length_le
      unfold INT_MAX at hs
      omega
    have hfmt : fmt_d g.state_slot = Nat.toDigits 10 g.state_slot.toNat := by
      unfold fmt_d
      rw [if_neg (by omega)]
    simp only [gt_iff_lt, hpos, if_true, hfmt]
    apply snprintf_of_fits
    simp only [List.length_append]
    omega
  · by_cases hneg : g.state_slot < 0
    · simp only [gt_iff_lt, hpos, if_false, hneg, if_true]
      apply snprintf_of_fits
      simp only [List.length_append]
      have : ".auto".toList.length = 5 := by decide
      omega
    · simp only [gt_iff_lt, hpos, if_false, hneg, List.append_nil]
      apply strlcpy_of_fits
      omega

theorem auto_ne_digits (n : Nat) : ".auto".toList ≠ Nat.toDigits 10 n := by
  intro h
  have hd := (toDigits_spec n).2.2.1 '.' (by rw [← h]; decide)
  revert hd; decide

/-- Two slots have the same suffix exactly when they are equal or both
negative. -/
theorem slot_suffix_eq_iff (s1 s2 : Int) :
    slot_suffix s1 = slot_suffix s2 ↔ (s1 = s2 ∨ (s1 < 0 ∧ s2 < 0)) := by
  constructor
  · intro h
    unfold slot_suffix at h
    by_cases a : 0 < s1
    · rw [if_pos a] at h
      by_cases b : 0 < s2
      · rw [if_pos b] at h
        have := toDigits_injective _ _ h
        left; omega
      · rw [if_neg b] at h
        by_cases c : s2 < 0
        · rw [if_pos c] at h
          exact absurd h.symm (auto_ne_digits _)
        · rw [if_neg c] at h
          exact absurd h (toDigits_spec _).2.1
    · rw [if_neg a] at h
      by_cases b : 0 < s2
      · rw [if_pos b] at h
        by_cases c : s1 < 0
        · rw [if_pos c] at h
          exact absurd h (auto_ne_digits _)
        · rw [if_neg c] at h
          exact absurd h.symm (toDigits_spec _).2.1
      · rw [if_neg b] at h
        by_cases c : s1 < 0
        · by_cases d : s2 < 0
          · exact Or.inr ⟨c, d⟩
          · rw [if_pos c, if_neg d] at h
            exact absurd h (by decide)
        · by_cases d : s2 < 0
          · rw [if_neg c, if_pos d] at h
            exact absurd h (by decide)
          · left; omega
  · rintro (h | ⟨a, b⟩)
    · rw [h]
    · unfold slot_suffix
      rw [if_neg (by omega), if_pos a, if_neg (by omega), if_pos b]

end slot_resolution

/-- C1: whenever a movie session handle is non-null, or netplay is compiled in
and a netplay handle is non-null, `rarch_main_command(RARCH_CMD_LOAD_STATE)`
returns false and leaves the whole context unchanged: `main_state` is not
entered, nothing is deserialised (the trace is the same), and the message queue
and every other member are untouched. -/
theorem load_state_refused_when_immutable {σ : Type} (cfg : build_config) (ext : externals σ)
    (g : rarch_context σ)
    (h : g.bsv_movie.isSome = true ∨ (cfg.HAVE_NETPLAY = true ∧ g.netplay_data.isSome = true)) :
    rarch_main_command cfg ext rarch_cmd.RARCH_CMD_LOAD_STATE g = (false, g) := by
  unfold rarch_main_command
  rcases h with h | ⟨h1, h2⟩
  · simp [h]
  · by_cases hm : g.bsv_movie.isSome = true
    · simp [hm]
    · simp [hm, h1, h2]

/-- C1, at the example context with an active movie session. -/
theorem load_state_refused_when_immutable_witness :
    rarch_main_command sample_config sample_externals rarch_cmd.RARCH_CMD_LOAD_STATE
        { sample_context with bsv_movie := some 1 }
      = (false, { sample_context with bsv_movie := some 1 }) :=
  load_state_refused_when_immutable sample_config sample_externals
    { sample_context with bsv_movie := some 1 } (Or.inl rfl)

/-- C2: for a base save-state path short enough to leave room for the longest
suffix, and a slot number in the range of `int`, the path that `main_state`
resolves is the base followed by `.auto` for slot -1, exactly the base for
slot 0, and the base followed by the decimal digits of the slot for a positive
slot. -/
theorem main_state_path_resolution {σ : Type} (cfg : build_config) (g : rarch_context σ)
    (hb : g.savestate_name.length + 10 < cfg.PATH_MAX_LENGTH)
    (hs : g.state_slot ≤ INT_MAX) :
    (g.state_slot = -1 → main_state_path cfg g = g.savestate_name ++ ".auto".toList)
    ∧ (g.state_slot = 0 → main_state_path cfg g = g.savestate_name)
    ∧ (0 < g.state_slot →
        main_state_path cfg g = g.savestate_name ++ Nat.toDigits 10 g.state_slot.toNat) := by
  have h := main_state_path_untruncated cfg g hb hs
  refine ⟨?_, ?_, ?_⟩
  · intro h1
    rw [h, h1]
    rfl
  · intro h0
    rw [h, h0]
    exact List.append_nil _
  · intro hpos
    rw [h]
    unfold slot_suffix
    rw [if_pos hpos]

/-- C2, at the example context with slots -1, 0 and 12. -/
theorem main_state_path_resolution_witness :
    main_state_path sample_config { sample_context with state_slot := -1 }
        = "/roms/game.state.auto".toList
    ∧ main_state_path sample_config { sample_context with state_slot := 0 }
        = "/roms/game.state".toList
    ∧ main_state_path sample_config { sample_context with state_slot := 12 }
        = "/roms/game.state12".toList :=
  ⟨(main_state_path_resolution sample_config { sample_context with state_slot := -1 }
      (by decide) (by decide)).1 rfl,
   (main_state_path_resolution sample_config { sample_context with state_slot := 0 }
      (by decide) (by decide)).2.1 rfl,
   (main_state_path_resolution sample_config { sample_context with state_slot := 12 }
      (by decide) (by decide)).2.2 (by decide)⟩

/-- C3, refuted as stated: the distinct slots -1 and -2 resolve to the same
path, `/roms/game.state.auto`. -/
theorem main_state_path_negative_slots_collide :
    (-1 : Int) ≠ -2
    ∧ main_state_path sample_config { sample_context with state_slot := -1 }
      = main_state_path sample_config { sample_context with state_slot := -2 } := by
  decide

/-- C3, amended: for a base path short enough not to be truncated, two slot
numbers resolve to the same path exactly when they are equal or both negative
(every negative slot resolves to the `.auto` path); so resolution is injective on
the slots from -1 upwards. -/
theorem main_state_path_eq_iff {σ : Type} (cfg : build_config) (g : rarch_context σ)
    (s1 s2 : Int)
    (hb : g.savestate_name.length + 10 < cfg.PATH_MAX_LENGTH)
    (h1 : s1 ≤ INT_MAX) (h2 : s2 ≤ INT_MAX) :
    main_state_path cfg { g with state_slot := s1 }
        = main_state_path cfg { g with state_slot := s2 }
      ↔ (s1 = s2 ∨ (s1 < 0 ∧ s2 < 0)) := by
  rw [main_state_path_untruncated cfg { g with state_slot := s1 } hb h1,
    main_state_path_untruncated cfg { g with state_slot := s2 } hb h2]
  simp only [List.append_cancel_left_eq]
  exact slot_suffix_eq_iff s1 s2

/-- C3 amended, at the example context with slots 3 and 7. -/
theorem main_state_path_eq_iff_witness :
    main_state_path sample_config { sample_context with state_slot := 3 }
        = main_state_path sample_config { sample_context with state_slot := 7 }
      ↔ ((3 : Int) = 7 ∨ ((3 : Int) < 0 ∧ (7 : Int) < 0)) :=
  main_state_path_eq_iff sample_config sample_context 3 7 (by decide) (by decide) (by decide)

/-! ## Scanning for the largest suffix -/

/-- A digit character, seen as a number: its code lies between 48 and 57. -/
theorem isdigit_iff (c : Char) : isdigit c = true ↔ 48 ≤ c.toNat ∧ c.toNat ≤ 57 := by
  unfold isdigit
  simp only [Bool.and_eq_true, decide_eq_true_eq]
  constructor
  · rintro ⟨h1, h2⟩
    exact ⟨h1, h2⟩
  · rintro ⟨h1, h2⟩
    exact ⟨h1, h2⟩

/-- A digit character is a digit for `strtoul`, with its decimal value. -/
theorem digit_value_of_isdigit (c : Char) (h : isdigit c = true) :
    digit_value c = some (c.toNat - 48) := by
  unfold digit_value
  unfold isdigit at h
  simp only [Bool.and_eq_true, decide_eq_true_eq] at h
  rw [if_pos h]

/-- No digit character is white space. -/
theorem isspace_of_isdigit (c : Char) (h : isdigit c = true) : isspace c = false := by
  rw [isdigit_iff] at h
  unfold isspace
  simp only [Bool.or_eq_false_iff, decide_eq_false_iff_not]
  refine ⟨⟨⟨⟨⟨?_, ?_⟩, ?_⟩, ?_⟩, ?_⟩, ?_⟩ <;> intro hc <;> subst hc <;> revert h <;> decide

/-- The test `strstr(haystack, needle) == haystack` holds exactly when `needle` is an
initial segment of `haystack`. -/
theorem strstr_eq_zero_iff (haystack needle : cstring) :
    strstr haystack needle = some 0 ↔ needle.isPrefixOf haystack = true := by
  cases haystack with
  | nil =>
    unfold strstr
    split_ifs with h <;> simp [h]
  | cons c cs =>
    unfold strstr
    split_ifs with h
    · simp [h]
    · have hne : Option.map (fun x => x + 1) (strstr cs needle) ≠ some 0 := by
        intro hmap
        cases hs : strstr cs needle with
        | none => simp [hs] at hmap
        | some k => simp [hs] at hmap
      simp [h, hne]

/-- In base 10 the digit loop of `strtoul` reads a run of digits as a decimal number. -/
theorem strtoul_digits_decimal : ∀ (ds : cstring) (acc : Nat),
    (∀ c ∈ ds, isdigit c = true) →
    strtoul_digits 10 acc ds = ds.foldl (fun a c => 10 * a + (c.toNat - 48)) acc := by
  intro ds
  induction ds with
  | nil => intro acc _; rfl
  | cons c cs ih =>
    intro acc h
    have hc : isdigit c = true := h c (List.mem_cons_self _ _)
    have hlt : c.toNat - 48 < 10 := by
      have := (isdigit_iff c).mp hc
      omega
    unfold strtoul_digits
    rw [digit_value_of_isdigit c hc]
    simp only [hlt, if_true, List.foldl_cons]
    rw [ih _ (fun d hd => h d (List.mem_cons_of_mem _ hd)), Nat.mul_comm]

/-- On a run of decimal digits without a leading zero, whose decimal value fits
in `unsigned long`, `strtoul` with base 0 returns the decimal value. -/
theorem strtoul_of_decimal (ulong_max : Nat) (ds : cstring)
    (hdig : ∀ c ∈ ds, isdigit c = true) (hlead : ds.head? ≠ some '0')
    (hfit : decimal_value ds ≤ ulong_max) :
    strtoul ulong_max ds = decimal_value ds := by
  have hdrop : ds.dropWhile isspace = ds := by
    cases ds with
    | nil => rfl
    | cons c cs =>
      have := isspace_of_isdigit c (hdig c (List.mem_cons_self _ _))
      simp [List.dropWhile, this]
  have hminus : ds.head? ≠ some '-' := by
    cases ds with
    | nil => simp
    | cons c cs =>
      have := (isdigit_iff c).mp (hdig c (List.mem_cons_self _ _))
      simp only [List.head?_cons, ne_eq, Option.some.injEq]
      intro hc; subst hc; revert this; decide
  have hplus : ds.head? ≠ some '+' := by
    cases ds with
    | nil => simp
    | cons c cs =>
      have := (isdigit_iff c).mp (hdig c (List.mem_cons_self _ _))
      simp only [List.head?_cons, ne_eq, Option.some.injEq]
      intro hc; subst hc; revert this; decide
  unfold strtoul
  simp only [hdrop, hminus, hplus, hlead, or_self, if_false, decide_False, Bool.false_and,
    Bool.false_eq_true]
  rw [strtoul_digits_decimal ds 0 hdig]
  have : ¬ (List.foldl (fun a c => 10 * a + (c.toNat - 48)) 0 ds > ulong_max) := by
    unfold decimal_value at hfit
    omega
  rw [if_neg this]
  rfl

/-- Where the backward scan stops: the offset minus the length of the digit run
that ends there. -/
theorem scan_digits_back_eq (s : cstring) : ∀ e, e ≤ s.length →
    scan_digits_back s e = e - ((s.take e).reverse.takeWhile isdigit).length := by
  intro e
  induction e with
  | zero => intro _; rfl
  | succ e ih =>
    intro he
    have hlt : e < s.length := by omega
    have hget : s.getD e '\x00' = s[e] := by
      simp [List.getD, List.getElem?_eq_getElem hlt]
    have htake : s.take (e + 1) = s.take e ++ [s[e]] := by
      rw [List.take_succ, List.getElem?_eq_getElem hlt]
      rfl
    have hk : ((s.take e).reverse.takeWhile isdigit).length ≤ e := by
      calc ((s.take e).reverse.takeWhile isdigit).length
          ≤ (s.take e).reverse.length := (List.takeWhile_sublist _).length_le
        _ ≤ e := by simp
    unfold scan_digits_back
    rw [hget, htake, List.reverse_append, List.reverse_singleton, List.singleton_append,
      List.takeWhile_cons]
    by_cases hd : isdigit s[e] = true
    · simp only [hd, if_true, List.length_cons]
      rw [ih (by omega)]
      omega
    · simp only [hd, if_false, List.length_nil]
      simp

/-- The loop that walks back over the trailing digits stops at the start of the
longest digit suffix: what follows the final `end` is `trailing_digits`. -/
theorem drop_scan_digits_back (s : cstring) :
    s.drop (scan_digits_back s s.length) = trailing_digits s := by
  rw [scan_digits_back_eq s s.length (le_refl _), List.take_length]
  unfold trailing_digits
  have hsplit : s = (s.reverse.dropWhile isdigit).reverse
      ++ (s.reverse.takeWhile isdigit).reverse := by
    rw [← List.reverse_append, List.takeWhile_append_dropWhile, List.reverse_reverse]
  have hlen : s.length - (s.reverse.takeWhile isdigit).length
      = (s.reverse.dropWhile isdigit).reverse.length := by
    have := congrArg List.length hsplit
    simp only [List.length_append, List.length_reverse] at this
    simp only [List.length_reverse]
    omega
  rw [hlen]
  have h2 := List.drop_left (s.reverse.dropWhile isdigit).reverse
    (s.reverse.takeWhile isdigit).reverse
  rw [← hsplit] at h2
  exact h2

/-- The trailing digits are digits. -/
theorem trailing_digits_isdigit (s : cstring) : ∀ c ∈ trailing_digits s, isdigit c = true := by
  intro c hc
  unfold trailing_digits at hc
  rw [List.mem_reverse] at hc
  exact List.mem_takeWhile_imp hc

section auto_index

variable {σ : Type}

/-- One iteration of the scan, on a listed file that is either foreign or has a
well-formed suffix: the running maximum takes the file's suffix number into
account exactly when the file shares the base name. -/
theorem auto_index_step_eq (cfg : build_config) (ext : externals σ) (savestate_name : cstring)
    (hulong : UINT_MAX ≤ cfg.ULONG_MAX) (max_idx : Nat) (file : cstring)
    (hwf : shares_base cfg ext savestate_name file = true →
      (trailing_digits file).head? ≠ some '0' ∧ (suffix_number file : Int) ≤ INT_MAX) :
    auto_index_step cfg ext (ext.fill_pathname_base savestate_name cfg.PATH_MAX_LENGTH)
        max_idx file
      = if shares_base cfg ext savestate_name file = true
        then max (suffix_number file) max_idx else max_idx := by
  unfold auto_index_step
  simp only [ne_eq, strstr_eq_zero_iff]
  by_cases hs : shares_base cfg ext savestate_name file = true
  · have hs' := hs
    unfold shares_base at hs'
    obtain ⟨hlead, hfit⟩ := hwf hs
    have hval : strtoul cfg.ULONG_MAX (trailing_digits file) = suffix_number file := by
      apply strtoul_of_decimal _ _ (trailing_digits_isdigit file) hlead
      unfold suffix_number INT_MAX at hfit
      unfold UINT_MAX at hulong
      omega
    simp only [hs', not_true_eq_false, if_false, hs, if_true, drop_scan_digits_back, hval,
      to_unsigned_of_le _ hfit]
    split_ifs with h
    · exact (max_eq_left (le_of_lt h)).symm
    · exact (max_eq_right (not_lt.mp h)).symm
  · have hs' := hs
    unfold shares_base at hs'
    simp [hs', hs]

/-- The whole scan, on a listing whose matching files have well-formed suffixes:
the running maximum ends as the larger of its start and the largest suffix. -/
theorem auto_index_foldl (cfg : build_config) (ext : externals σ) (savestate_name : cstring)
    (hulong : UINT_MAX ≤ cfg.ULONG_MAX) : ∀ (files : List cstring) (max_idx : Nat),
    (∀ f ∈ files, shares_base cfg ext savestate_name f = true →
      (trailing_digits f).head? ≠ some '0' ∧ (suffix_number f : Int) ≤ INT_MAX) →
    files.foldl
        (auto_index_step cfg ext (ext.fill_pathname_base savestate_name cfg.PATH_MAX_LENGTH))
        max_idx
      = max max_idx (max_suffix cfg ext savestate_name files) := by
  intro files
  induction files with
  | nil => intro m _; simp [max_suffix]
  | cons f fs ih =>
    intro m hwf
    rw [List.foldl_cons, auto_index_step_eq cfg ext savestate_name hulong m f
      (hwf f (List.mem_cons_self _ _)), ih _ (fun x hx => hwf x (List.mem_cons_of_mem _ hx))]
    unfold max_suffix
    by_cases hs : shares_base cfg ext savestate_name f = true
    · simp only [hs, if_true, List.filter_cons_of_pos, List.map_cons, List.foldr_cons]
      rw [max_comm (suffix_number f) m, max_assoc]
    · rw [List.filter_cons_of_neg hs]
      simp [hs]

/-- The largest suffix fits `int` when every matching suffix does. -/
theorem max_suffix_le (cfg : build_config) (ext : externals σ) (savestate_name : cstring) :
    ∀ (files : List cstring),
    (∀ f ∈ files, shares_base cfg ext savestate_name f = true →
      (trailing_digits f).head? ≠ some '0' ∧ (suffix_number f : Int) ≤ INT_MAX) →
    (max_suffix cfg ext savestate_name files : Int) ≤ INT_MAX := by
  intro files
  induction files with
  | nil => intro _; simp [max_suffix, INT_MAX]
  | cons f fs ih =>
    intro hwf
    have ih' := ih (fun x hx => hwf x (List.mem_cons_of_mem _ hx))
    unfold max_suffix at ih' ⊢
    by_cases hs : shares_base cfg ext savestate_name f = true
    · have := (hwf f (List.mem_cons_self _ _) hs).2
      rw [List.filter_cons_of_pos hs, List.map_cons, List.foldr_cons]
      rcases max_cases (suffix_number f)
        (List.foldr max 0 (List.map suffix_number
          (List.filter (shares_base cfg ext savestate_name) fs))) with ⟨h, _⟩ | ⟨h, _⟩
      · rw [h]; exact this
      · rw [h]; exact ih'
    · rw [List.filter_cons_of_neg hs]
      exact ih'

end auto_index

/-- C4, refuted as stated: with the listing `game.state`, `game.state3`,
`game.state4294967296` the largest number formed by trailing digits is
4294967296, but `state_slot` becomes 3: the suffix 4294967296 is reduced to an
`unsigned` and reads as 0. -/
theorem auto_index_wraps_large_suffix :
    (set_savestate_auto_index sample_config sample_externals
      { sample_context with
        savestate_auto_index := true
        world := { sample_core with
          listing := some ["/roms/game.state".toList, "/roms/game.state3".toList,
            "/roms/game.state4294967296".toList] } }).state_slot = 3
    ∧ max_suffix sample_config sample_externals "/roms/game.state".toList
        ["/roms/game.state".toList, "/roms/game.state3".toList,
          "/roms/game.state4294967296".toList] = 4294967296 := by
  decide

/-- A listing on which the scan and the decimal reading differ for another
reason: `strtoul` is called with base 0, so the suffix `010` is read as the
octal number 8 and the slot found is 9, not 10. -/
theorem auto_index_reads_leading_zero_as_octal :
    (set_savestate_auto_index sample_config sample_externals
      { sample_context with
        savestate_auto_index := true
        world := { sample_core with
          listing := some ["/roms/game.state9".toList, "/roms/game.state010".toList] }
      }).state_slot = 9
    ∧ max_suffix sample_config sample_externals "/roms/game.state".toList
        ["/roms/game.state9".toList, "/roms/game.state010".toList] = 10 := by
  decide

/-- C4, amended: with `savestate_auto_index` enabled and a successful directory
listing, if for every listed file whose base name starts with the base name of
the save-state path the trailing decimal digits have no leading zero and denote
a number that fits `int`, then `set_savestate_auto_index` sets `state_slot` to the
maximum of those numbers (read as decimal numbers), 0 when there is none,
whatever `state_slot` held before. -/
theorem set_savestate_auto_index_max {σ : Type} (cfg : build_config) (ext : externals σ)
    (g : rarch_context σ) (files : List cstring) (previous_slot : Int)
    (hulong : UINT_MAX ≤ cfg.ULONG_MAX)
    (hauto : g.savestate_auto_index = true)
    (hlist : ext.dir_list_new
      (ext.fill_pathname_basedir g.savestate_name cfg.PATH_MAX_LENGTH) g.world = some files)
    (hwf : ∀ f ∈ files, shares_base cfg ext g.savestate_name f = true →
      (trailing_digits f).head? ≠ some '0' ∧ (suffix_number f : Int) ≤ INT_MAX) :
    (set_savestate_auto_index cfg ext { g with state_slot := previous_slot }).state_slot
      = (max_suffix cfg ext g.savestate_name files : Int) := by
  unfold set_savestate_auto_index
  simp only [hauto, Bool.not_true, Bool.false_eq_true, if_false, hlist]
  rw [auto_index_foldl cfg ext g.savestate_name hulong files 0 hwf, Nat.zero_max]
  apply to_int_of_range
  · unfold INT_MIN; omega
  · exact max_suffix_le cfg ext g.savestate_name files hwf

/-- C4 amended, on the listing `game.state`, `game.state3`, `game.state7`, starting
from slot 5: the slot found is 7. -/
theorem set_savestate_auto_index_max_witness :
    (set_savestate_auto_index sample_config sample_externals
      { sample_context with
        savestate_auto_index := true
        world := { sample_core with
          listing := some ["/roms/game.state".toList, "/roms/game.state3".toList,
            "/roms/game.state7".toList] }
        state_slot := 5 }).state_slot = 7 :=
  set_savestate_auto_index_max sample_config sample_externals
    { sample_context with
      savestate_auto_index := true
      world := { sample_core with
        listing := some ["/roms/game.state".toList, "/roms/game.state3".toList,
          "/roms/game.state7".toList] } }
    ["/roms/game.state".toList, "/roms/game.state3".toList, "/roms/game.state7".toList]
    5 (by decide) rfl rfl (by decide)

/-! ## Saving a state -/

section save_state

variable {σ : Type}

/-- What `main_state` does on `RARCH_CMD_SAVE_STATE`: it calls `save_state` once,
with the resolved path, when the core reports a non-zero serialisation size, and
not at all otherwise; it leaves one message in the queue; and it leaves the
slot and the session handles alone. -/
theorem main_state_save (cfg : build_config) (ext : externals σ) (g : rarch_context σ) :
    (main_state cfg ext rarch_cmd.RARCH_CMD_SAVE_STATE g).trace
        = g.trace ++ (if ext.pretro_serialize_size g.world ≠ 0
            then [core_call.save_state (main_state_path cfg g)] else [])
    ∧ (main_state cfg ext rarch_cmd.RARCH_CMD_SAVE_STATE g).state_slot = g.state_slot
    ∧ (main_state cfg ext rarch_cmd.RARCH_CMD_SAVE_STATE g).msg_queue.length = 1
    ∧ (main_state cfg ext rarch_cmd.RARCH_CMD_SAVE_STATE g).bsv_movie = g.bsv_movie
    ∧ (main_state cfg ext rarch_cmd.RARCH_CMD_SAVE_STATE g).netplay_data = g.netplay_data := by
  unfold main_state rarch_save_state
  by_cases hsize : ext.pretro_serialize_size g.world = 0
  · simp [hsize, msg_queue_push, msg_queue_clear]
  · by_cases hok : (ext.save_state (main_state_path cfg g) g.world).1 = true
    · by_cases hneg : g.state_slot < 0
      · simp [hsize, hok, hneg, msg_queue_push, msg_queue_clear]
      · simp [hsize, hok, hneg, msg_queue_push, msg_queue_clear]
    · simp [hsize, hok, msg_queue_push, msg_queue_clear]

end save_state

/-- C5, refuted as stated: with auto-indexing enabled on a core that reports
serialisation size 0, `RARCH_CMD_SAVE_STATE` moves the slot from 0 to 1 but saves
nothing: no call to `save_state` is made at all. -/
theorem save_state_skipped_without_serialization :
    (rarch_main_command sample_config sample_externals rarch_cmd.RARCH_CMD_SAVE_STATE
      { sample_context with
        savestate_auto_index := true
        world := { sample_core with serialize_size := 0 } }).2.trace = []
    ∧ (rarch_main_command sample_config sample_externals rarch_cmd.RARCH_CMD_SAVE_STATE
      { sample_context with
        savestate_auto_index := true
        world := { sample_core with serialize_size := 0 } }).2.state_slot = 1 := by
  decide

/-- C5, amended: for a slot value `s` in the range of `int` and below `INT_MAX`,
`RARCH_CMD_SAVE_STATE` with auto-indexing enabled leaves `state_slot = s + 1` and,
when the core reports a non-zero serialisation size, saves exactly once, to the
path resolved for slot `s + 1`; with auto-indexing disabled it leaves
`state_slot = s` and saves to the path resolved for `s`.  When the core reports
size 0 nothing is saved in either case. -/
theorem save_state_slot_and_path {σ : Type} (cfg : build_config) (ext : externals σ)
    (g : rarch_context σ) (hlo : INT_MIN ≤ g.state_slot) (hhi : g.state_slot < INT_MAX) :
    (g.savestate_auto_index = true →
      (rarch_main_command cfg ext rarch_cmd.RARCH_CMD_SAVE_STATE g).2.state_slot
          = g.state_slot + 1
      ∧ calls_made g (rarch_main_command cfg ext rarch_cmd.RARCH_CMD_SAVE_STATE g).2
          = if ext.pretro_serialize_size g.world ≠ 0
            then [core_call.save_state
              (main_state_path cfg { g with state_slot := g.state_slot + 1 })]
            else [])
    ∧ (g.savestate_auto_index = false →
      (rarch_main_command cfg ext rarch_cmd.RARCH_CMD_SAVE_STATE g).2.state_slot
          = g.state_slot
      ∧ calls_made g (rarch_main_command cfg ext rarch_cmd.RARCH_CMD_SAVE_STATE g).2
          = if ext.pretro_serialize_size g.world ≠ 0
            then [core_call.save_state (main_state_path cfg g)]
            else []) := by
  have hwrap : to_int (g.state_slot + 1) = g.state_slot + 1 :=
    to_int_of_range _ (by unfold INT_MIN at *; omega) (by unfold INT_MAX at *; omega)
  constructor
  · intro hauto
    have h := main_state_save cfg ext { g with state_slot := g.state_slot + 1 }
    have hcmd : (rarch_main_command cfg ext rarch_cmd.RARCH_CMD_SAVE_STATE g).2
        = main_state cfg ext rarch_cmd.RARCH_CMD_SAVE_STATE
            { g with state_slot := g.state_slot + 1 } := by
      simp [rarch_main_command, hauto, hwrap]
    rw [hcmd]
    exact ⟨h.2.1, calls_made_append _ _ _ h.1⟩
  · intro hauto
    have h := main_state_save cfg ext g
    have hcmd : (rarch_main_command cfg ext rarch_cmd.RARCH_CMD_SAVE_STATE g).2
        = main_state cfg ext rarch_cmd.RARCH_CMD_SAVE_STATE g := by
      simp [rarch_main_command, hauto]
    rw [hcmd]
    exact ⟨h.2.1, calls_made_append _ _ _ h.1⟩

/-- C5 amended, at the example context with slot 3: with auto-indexing the
slot becomes 4 and the state is saved to `/roms/game.state4`; without it the slot
stays 3 and the state is saved to `/roms/game.state3`. -/
theorem save_state_slot_and_path_witness :
    ((rarch_main_command sample_config sample_externals rarch_cmd.RARCH_CMD_SAVE_STATE
        { sample_context with savestate_auto_index := true, state_slot := 3 }).2.state_slot = 4
      ∧ calls_made { sample_context with savestate_auto_index := true, state_slot := 3 }
        (rarch_main_command sample_config sample_externals rarch_cmd.RARCH_CMD_SAVE_STATE
          { sample_context with savestate_auto_index := true, state_slot := 3 }).2
        = [core_call.save_state "/roms/game.state4".toList])
    ∧ ((rarch_main_command sample_config sample_externals rarch_cmd.RARCH_CMD_SAVE_STATE
        { sample_context with state_slot := 3 }).2.state_slot = 3
      ∧ calls_made { sample_context with state_slot := 3 }
        (rarch_main_command sample_config sample_externals rarch_cmd.RARCH_CMD_SAVE_STATE
          { sample_context with state_slot := 3 }).2
        = [core_call.save_state "/roms/game.state3".toList]) :=
  ⟨(save_state_slot_and_path sample_config sample_externals
      { sample_context with savestate_auto_index := true, state_slot := 3 }
      (by decide) (by decide)).1 rfl,
   (save_state_slot_and_path sample_config sample_externals
      { sample_context with state_slot := 3 } (by decide) (by decide)).2 rfl⟩

/-- C6, refuted as stated: with a movie session active, and likewise with a
netplay session active, `RARCH_CMD_SAVE_STATE` returns true, calls `save_state` and
replaces the content of the message queue. -/
theorem save_state_runs_during_movie_and_netplay :
    (rarch_main_command sample_config sample_externals rarch_cmd.RARCH_CMD_SAVE_STATE
        { sample_context with bsv_movie := some 1 }).1 = true
    ∧ (rarch_main_command sample_config sample_externals rarch_cmd.RARCH_CMD_SAVE_STATE
        { sample_context with bsv_movie := some 1 }).2.trace
        = [core_call.save_state "/roms/game.state".toList]
    ∧ (rarch_main_command sample_config sample_externals rarch_cmd.RARCH_CMD_SAVE_STATE
        { sample_context with bsv_movie := some 1 }).2.msg_queue
        = [⟨"Saved state to slot #0.".toList, 2, 180⟩]
    ∧ (rarch_main_command sample_config sample_externals rarch_cmd.RARCH_CMD_SAVE_STATE
        { sample_context with netplay_data := some 1 }).1 = true
    ∧ (rarch_main_command sample_config sample_externals rarch_cmd.RARCH_CMD_SAVE_STATE
        { sample_context with netplay_data := some 1 }).2.trace
        = [core_call.save_state "/roms/game.state".toList] := by
  decide

/-- C6, amended: save-state is not guarded.  In every context, whether or not a
movie or netplay session is active, `RARCH_CMD_SAVE_STATE` returns true, makes
exactly one call to `save_state` when the core reports a non-zero serialisation
size, leaves exactly one message in the queue, and leaves both session handles
as they were. -/
theorem save_state_is_unguarded {σ : Type} (cfg : build_config) (ext : externals σ)
    (g : rarch_context σ) :
    (rarch_main_command cfg ext rarch_cmd.RARCH_CMD_SAVE_STATE g).1 = true
    ∧ (ext.pretro_serialize_size g.world ≠ 0 →
        ∃ path, calls_made g (rarch_main_command cfg ext rarch_cmd.RARCH_CMD_SAVE_STATE g).2
          = [core_call.save_state path])
    ∧ (rarch_main_command cfg ext rarch_cmd.RARCH_CMD_SAVE_STATE g).2.msg_queue.length = 1
    ∧ (rarch_main_command cfg ext rarch_cmd.RARCH_CMD_SAVE_STATE g).2.bsv_movie = g.bsv_movie
    ∧ (rarch_main_command cfg ext rarch_cmd.RARCH_CMD_SAVE_STATE g).2.netplay_data
        = g.netplay_data := by
  by_cases hauto : g.savestate_auto_index = true
  · have h := main_state_save cfg ext { g with state_slot := to_int (g.state_slot + 1) }
    have hcmd : rarch_main_command cfg ext rarch_cmd.RARCH_CMD_SAVE_STATE g
        = (true, main_state cfg ext rarch_cmd.RARCH_CMD_SAVE_STATE
            { g with state_slot := to_int (g.state_slot + 1) }) := by
      simp [rarch_main_command, hauto]
    rw [hcmd]
    refine ⟨rfl, ?_, h.2.2.1, h.2.2.2.1, h.2.2.2.2⟩
    intro hsize
    have ht := h.1
    rw [if_pos hsize] at ht
    exact ⟨_, calls_made_append g _ _ ht⟩
  · have h := main_state_save cfg ext g
    have hcmd : rarch_main_command cfg ext rarch_cmd.RARCH_CMD_SAVE_STATE g
        = (true, main_state cfg ext rarch_cmd.RARCH_CMD_SAVE_STATE g) := by
      simp [rarch_main_command, hauto]
    rw [hcmd]
    refine ⟨rfl, ?_, h.2.2.1, h.2.2.2.1, h.2.2.2.2⟩
    intro hsize
    have ht := h.1
    rw [if_pos hsize] at ht
    exact ⟨_, calls_made_append g _ _ ht⟩

/-! ## Disk swapping -/

section disk_control

variable {σ : Type}

/-- The calls `rarch_disk_control_set_index` makes on a core with disk control:
one query of the image count, then the request itself. -/
theorem set_index_trace (cfg : build_config) (idx : Nat) (g : rarch_context σ)
    (f : σ → Nat) (hcap : g.disk_control.get_num_images = some f) :
    (rarch_disk_control_set_index cfg idx g).trace
      = g.trace ++ [core_call.get_num_images, core_call.set_image_index idx] := by
  unfold rarch_disk_control_set_index
  simp only [hcap]
  split_ifs <;> simp [record]

/-- The calls `check_disk_next` makes on a core with disk control. -/
theorem check_disk_next_trace (cfg : build_config) (g : rarch_context σ)
    (f : σ → Nat) (hcap : g.disk_control.get_num_images = some f) :
    (check_disk_next cfg f g).trace
      = g.trace ++ [core_call.get_num_images, core_call.get_image_index]
        ++ (if to_unsigned (f g.world) ≠ 0 ∧ to_unsigned (f g.world) ≠ UINT_MAX then
              [core_call.get_num_images,
               core_call.set_image_index
                (next_index (to_unsigned (f g.world))
                  (to_unsigned (g.disk_control.get_image_index g.world)))]
            else []) := by
  unfold check_disk_next
  by_cases hen : to_unsigned (f g.world) ≠ 0 ∧ to_unsigned (f g.world) ≠ UINT_MAX
  · rw [if_pos hen]
    simp only [hen, not_true_eq_false, if_false, ne_eq, not_false_eq_true, and_self]
    rw [set_index_trace cfg _ _ f (by simpa [record] using hcap)]
    simp [record, next_index]
  · rw [if_neg hen]
    simp only [hen, not_false_eq_true, if_true]
    simp [record]

/-- The calls `check_disk_prev` makes on a core with disk control. -/
theorem check_disk_prev_trace (cfg : build_config) (g : rarch_context σ)
    (f : σ → Nat) (hcap : g.disk_control.get_num_images = some f) :
    (check_disk_prev cfg f g).trace
      = g.trace ++ [core_call.get_num_images, core_call.get_image_index]
        ++ (if to_unsigned (f g.world) ≠ 0 ∧ to_unsigned (f g.world) ≠ UINT_MAX then
              [core_call.get_num_images,
               core_call.set_image_index
                (prev_index (to_unsigned (g.disk_control.get_image_index g.world)))]
            else []) := by
  unfold check_disk_prev
  by_cases hen : to_unsigned (f g.world) ≠ 0 ∧ to_unsigned (f g.world) ≠ UINT_MAX
  · rw [if_pos hen]
    simp only [hen, not_true_eq_false, if_false, ne_eq, not_false_eq_true, and_self]
    rw [set_index_trace cfg _ _ f (by simpa [record] using hcap)]
    simp [record, prev_index]
  · rw [if_neg hen]
    simp only [hen, not_false_eq_true, if_true]
    simp [record]

/-- The calls `RARCH_CMD_DISK_NEXT` makes on a core with disk control. -/
theorem disk_next_calls (cfg : build_config) (ext : externals σ) (g : rarch_context σ)
    (f : σ → Nat) (hcap : g.disk_control.get_num_images = some f) :
    calls_made g (rarch_main_command cfg ext rarch_cmd.RARCH_CMD_DISK_NEXT g).2
      = core_call.get_eject_state ::
        (if g.disk_control.get_eject_state g.world = true then
          [core_call.get_num_images, core_call.get_image_index]
          ++ (if to_unsigned (f g.world) ≠ 0 ∧ to_unsigned (f g.world) ≠ UINT_MAX then
              [core_call.get_num_images,
               core_call.set_image_index
                (next_index (to_unsigned (f g.world))
                  (to_unsigned (g.disk_control.get_image_index g.world)))]
            else [])
         else []) := by
  apply calls_made_append
  unfold rarch_main_command
  simp only [hcap]
  by_cases htray : g.disk_control.get_eject_state g.world = true
  · simp only [htray, Bool.not_true, Bool.false_eq_true, if_false]
    rw [check_disk_next_trace cfg _ f (by simpa [record] using hcap)]
    simp [record]
  · simp [htray, record]

/-- The calls `RARCH_CMD_DISK_PREV` makes on a core with disk control. -/
theorem disk_prev_calls (cfg : build_config) (ext : externals σ) (g : rarch_context σ)
    (f : σ → Nat) (hcap : g.disk_control.get_num_images = some f) :
    calls_made g (rarch_main_command cfg ext rarch_cmd.RARCH_CMD_DISK_PREV g).2
      = core_call.get_eject_state ::
        (if g.disk_control.get_eject_state g.world = true then
          [core_call.get_num_images, core_call.get_image_index]
          ++ (if to_unsigned (f g.world) ≠ 0 ∧ to_unsigned (f g.world) ≠ UINT_MAX then
              [core_call.get_num_images,
               core_call.set_image_index
                (prev_index (to_unsigned (g.disk_control.get_image_index g.world)))]
            else [])
         else []) := by
  apply calls_made_append
  unfold rarch_main_command
  simp only [hcap]
  by_cases htray : g.disk_control.get_eject_state g.world = true
  · simp only [htray, Bool.not_true, Bool.false_eq_true, if_false]
    rw [check_disk_prev_trace cfg _ f (by simpa [record] using hcap)]
    simp [record]
  · simp [htray, record]

end disk_control

/-- C7, refuted as stated: on a core with 2 images that reports current index
2 (no disk in the tray) with the tray open, `RARCH_CMD_DISK_NEXT` passes index 2
to `set_image_index`, outside `[0, 1]`. -/
theorem disk_next_passes_out_of_range_index :
    sample_disk_control.get_num_images.map
        (fun f => f { sample_core with ejected := true, image_index := 2 }) = some 2
    ∧ calls_made
        { sample_context with world := { sample_core with ejected := true, image_index := 2 } }
        (rarch_main_command sample_config sample_externals rarch_cmd.RARCH_CMD_DISK_NEXT
          { sample_context with
            world := { sample_core with ejected := true, image_index := 2 } }).2
      = [core_call.get_eject_state, core_call.get_num_images, core_call.get_image_index,
         core_call.get_num_images, core_call.set_image_index 2] := by
  decide

/-- C7, amended: on a core with disk control that reports image count `n` and
current index `c`, every index `RARCH_CMD_DISK_NEXT` passes to `set_image_index` is
below `n` provided `c < n`, and every index `RARCH_CMD_DISK_PREV` passes is below
`n` provided `c ≤ n`; and with the tray open, `n` different from `UINT_MAX` and
`c = n - 1`, `RARCH_CMD_DISK_NEXT` requests index `n - 1` again. -/
theorem disk_next_prev_index_in_range {σ : Type} (cfg : build_config) (ext : externals σ)
    (g : rarch_context σ) (f : σ → Nat) (hcap : g.disk_control.get_num_images = some f) :
    (to_unsigned (g.disk_control.get_image_index g.world) < to_unsigned (f g.world) →
      ∀ i, core_call.set_image_index i
          ∈ calls_made g (rarch_main_command cfg ext rarch_cmd.RARCH_CMD_DISK_NEXT g).2 →
        i < to_unsigned (f g.world))
    ∧ (to_unsigned (g.disk_control.get_image_index g.world) ≤ to_unsigned (f g.world) →
      ∀ i, core_call.set_image_index i
          ∈ calls_made g (rarch_main_command cfg ext rarch_cmd.RARCH_CMD_DISK_PREV g).2 →
        i < to_unsigned (f g.world))
    ∧ (g.disk_control.get_eject_state g.world = true →
      to_unsigned (f g.world) ≠ UINT_MAX →
      to_unsigned (g.disk_control.get_image_index g.world) + 1 = to_unsigned (f g.world) →
      core_call.set_image_index (to_unsigned (g.disk_control.get_image_index g.world))
        ∈ calls_made g (rarch_main_command cfg ext rarch_cmd.RARCH_CMD_DISK_NEXT g).2) := by
  refine ⟨?_, ?_, ?_⟩
  · intro hc i hi
    rw [disk_next_calls cfg ext g f hcap] at hi
    by_cases htray : g.disk_control.get_eject_state g.world = true
    · by_cases hen : to_unsigned (f g.world) ≠ 0 ∧ to_unsigned (f g.world) ≠ UINT_MAX
      · simp [htray, hen] at hi
        rw [hi]
        unfold next_index
        split <;> omega
      · simp [htray, hen] at hi
    · simp [htray] at hi
  · intro hc i hi
    rw [disk_prev_calls cfg ext g f hcap] at hi
    by_cases htray : g.disk_control.get_eject_state g.world = true
    · by_cases hen : to_unsigned (f g.world) ≠ 0 ∧ to_unsigned (f g.world) ≠ UINT_MAX
      · simp [htray, hen] at hi
        rw [hi]
        unfold prev_index
        have := hen.1
        split <;> omega
      · simp [htray, hen] at hi
    · simp [htray] at hi
  · intro htray hmax hlast
    rw [disk_next_calls cfg ext g f hcap]
    have hen : to_unsigned (f g.world) ≠ 0 ∧ to_unsigned (f g.world) ≠ UINT_MAX :=
      ⟨by omega, hmax⟩
    have hidx : next_index (to_unsigned (f g.world))
        (to_unsigned (g.disk_control.get_image_index g.world))
        = to_unsigned (g.disk_control.get_image_index g.world) := by
      unfold next_index
      rw [if_neg (by omega)]
    simp [htray, hen, hidx]

/-- C7 amended, at the example core with 2 images, current index 1, tray open:
whatever `RARCH_CMD_DISK_NEXT` and `RARCH_CMD_DISK_PREV` pass is below 2, and
`RARCH_CMD_DISK_NEXT` requests index 1 again. -/
theorem disk_next_prev_index_in_range_witness :
    (∀ i, core_call.set_image_index i
        ∈ calls_made
          { sample_context with world := { sample_core with ejected := true, image_index := 1 } }
          (rarch_main_command sample_config sample_externals rarch_cmd.RARCH_CMD_DISK_NEXT
            { sample_context with
              world := { sample_core with ejected := true, image_index := 1 } }).2 →
      i < 2)
    ∧ (∀ i, core_call.set_image_index i
        ∈ calls_made
          { sample_context with world := { sample_core with ejected := true, image_index := 1 } }
          (rarch_main_command sample_config sample_externals rarch_cmd.RARCH_CMD_DISK_PREV
            { sample_context with
              world := { sample_core with ejected := true, image_index := 1 } }).2 →
      i < 2)
    ∧ core_call.set_image_index 1
      ∈ calls_made
          { sample_context with world := { sample_core with ejected := true, image_index := 1 } }
          (rarch_main_command sample_config sample_externals rarch_cmd.RARCH_CMD_DISK_NEXT
            { sample_context with
              world := { sample_core with ejected := true, image_index := 1 } }).2 :=
  ⟨(disk_next_prev_index_in_range sample_config sample_externals
      { sample_context with world := { sample_core with ejected := true, image_index := 1 } }
      (fun w => w.num_images) rfl).1 (by decide),
   (disk_next_prev_index_in_range sample_config sample_externals
      { sample_context with world := { sample_core with ejected := true, image_index := 1 } }
      (fun w => w.num_images) rfl).2.1 (by decide),
   (disk_next_prev_index_in_range sample_config sample_externals
      { sample_context with world := { sample_core with ejected := true, image_index := 1 } }
      (fun w => w.num_images) rfl).2.2 rfl (by decide) (by decide)⟩

/-- C8: on a core with disk control that reports the tray closed,
`RARCH_CMD_DISK_NEXT` and `RARCH_CMD_DISK_PREV` return false and change nothing but
the trace, which gains the one query `get_eject_state`: `set_image_index` is not
called, the message queue is untouched and the current image index is what it
was. -/
theorem disk_next_prev_refused_when_tray_closed {σ : Type} (cfg : build_config)
    (ext : externals σ) (g : rarch_context σ) (f : σ → Nat) (cmd : rarch_cmd)
    (hcap : g.disk_control.get_num_images = some f)
    (hclosed : g.disk_control.get_eject_state g.world = false)
    (hcmd : cmd = rarch_cmd.RARCH_CMD_DISK_NEXT ∨ cmd = rarch_cmd.RARCH_CMD_DISK_PREV) :
    rarch_main_command cfg ext cmd g
        = (false, { g with trace := g.trace ++ [core_call.get_eject_state] })
    ∧ (∀ i, core_call.set_image_index i ∉ calls_made g (rarch_main_command cfg ext cmd g).2)
    ∧ (rarch_main_command cfg ext cmd g).2.msg_queue = g.msg_queue
    ∧ g.disk_control.get_image_index (rarch_main_command cfg ext cmd g).2.world
        = g.disk_control.get_image_index g.world := by
  have h : rarch_main_command cfg ext cmd g
      = (false, { g with trace := g.trace ++ [core_call.get_eject_state] }) := by
    rcases hcmd with h | h <;> subst h <;> simp [rarch_main_command, hcap, hclosed, record]
  rw [h]
  refine ⟨rfl, ?_, rfl, rfl⟩
  intro i hi
  rw [calls_made_append g _ [core_call.get_eject_state] rfl] at hi
  simp at hi

/-- C8, at the example context (tray closed). -/
theorem disk_next_prev_refused_when_tray_closed_witness :
    rarch_main_command sample_config sample_externals rarch_cmd.RARCH_CMD_DISK_NEXT sample_context
        = (false, { sample_context with trace := [] ++ [core_call.get_eject_state] })
    ∧ (∀ i, core_call.set_image_index i ∉ calls_made sample_context
        (rarch_main_command sample_config sample_externals rarch_cmd.RARCH_CMD_DISK_NEXT
          sample_context).2)
    ∧ (rarch_main_command sample_config sample_externals rarch_cmd.RARCH_CMD_DISK_NEXT
        sample_context).2.msg_queue = []
    ∧ sample_disk_control.get_image_index
        (rarch_main_command sample_config sample_externals rarch_cmd.RARCH_CMD_DISK_NEXT
          sample_context).2.world = 0 :=
  disk_next_prev_refused_when_tray_closed sample_config sample_externals sample_context
    (fun w => w.num_images) rarch_cmd.RARCH_CMD_DISK_NEXT rfl rfl (Or.inl rfl)

/-- C9: on a core without the disk-control capability (`get_num_images` null),
each of `RARCH_CMD_DISK_EJECT_TOGGLE`, `RARCH_CMD_DISK_NEXT` and `RARCH_CMD_DISK_PREV`
returns true and changes nothing but the message queue, which then holds exactly
the one message "Core does not support Disk Options."; no core callback is
invoked. -/
theorem disk_commands_without_capability {σ : Type} (cfg : build_config)
    (ext : externals σ) (g : rarch_context σ) (cmd : rarch_cmd)
    (hnone : g.disk_control.get_num_images = none)
    (hcmd : cmd = rarch_cmd.RARCH_CMD_DISK_EJECT_TOGGLE ∨ cmd = rarch_cmd.RARCH_CMD_DISK_NEXT
      ∨ cmd = rarch_cmd.RARCH_CMD_DISK_PREV) :
    rarch_main_command cfg ext cmd g
        = (true, { g with
            msg_queue := [⟨"Core does not support Disk Options.".toList, 1, 120⟩] })
    ∧ calls_made g (rarch_main_command cfg ext cmd g).2 = [] := by
  have h : rarch_main_command cfg ext cmd g
      = (true, { g with
          msg_queue := [⟨"Core does not support Disk Options.".toList, 1, 120⟩] }) := by
    rcases hcmd with h | h | h <;> subst h <;>
      simp [rarch_main_command, hnone, msg_queue_push, msg_queue_clear]
  rw [h]
  exact ⟨rfl, calls_made_append g _ [] (by simp)⟩

/-- C9, at the example context with a core that lacks disk control. -/
theorem disk_commands_without_capability_witness :
    rarch_main_command sample_config sample_externals rarch_cmd.RARCH_CMD_DISK_EJECT_TOGGLE
        { sample_context with disk_control := sample_no_disk_control }
        = (true, { sample_context with
            disk_control := sample_no_disk_control
            msg_queue := [⟨"Core does not support Disk Options.".toList, 1, 120⟩] })
    ∧ calls_made { sample_context with disk_control := sample_no_disk_control }
        (rarch_main_command sample_config sample_externals rarch_cmd.RARCH_CMD_DISK_EJECT_TOGGLE
          { sample_context with disk_control := sample_no_disk_control }).2 = [] :=
  disk_commands_without_capability sample_config sample_externals
    { sample_context with disk_control := sample_no_disk_control }
    rarch_cmd.RARCH_CMD_DISK_EJECT_TOGGLE rfl (Or.inl rfl)

/-! ## Appending a disk image -/

section append_image

variable {σ : Type}

/-- Nothing happens between a context and itself. -/
theorem same_disk_refl (g : rarch_context σ) : same_disk g g := ⟨rfl, rfl⟩

/-- Steps that make no recorded call compose. -/
theorem same_disk_trans {a b c : rarch_context σ} (h1 : same_disk a b) (h2 : same_disk b c) :
    same_disk a c :=
  ⟨h2.1.trans h1.1, h2.2.trans h1.2⟩

/-- The function `deinit_autosave` makes no recorded call. -/
theorem deinit_autosave_same_disk (ext : externals σ) (g : rarch_context σ) :
    same_disk g (deinit_autosave ext g) := ⟨rfl, rfl⟩

/-- The function `init_autosave` makes no recorded call. -/
theorem init_autosave_same_disk (ext : externals σ) (g : rarch_context σ) :
    same_disk g (init_autosave ext g) := by
  unfold init_autosave
  split
  · exact same_disk_refl g
  · dsimp only
    split_ifs <;> exact ⟨rfl, rfl⟩

/-- A conditional between two results that made no recorded call. -/
theorem same_disk_ite (g a b : rarch_context σ) (c : Prop) [Decidable c]
    (ha : same_disk g a) (hb : same_disk g b) : same_disk g (if c then a else b) := by
  split_ifs <;> assumption

/-- Entering a call in the log makes no recorded call. -/
theorem log_call_same_disk (c : rarch_call) (g : rarch_context σ) :
    same_disk g (log_call c g) := ⟨rfl, rfl⟩

/-- The two autosave commands, called from inside the file, make no recorded
call. -/
theorem autosave_commands_same_disk (cfg : build_config) (ext : externals σ)
    (g : rarch_context σ) :
    same_disk g (invoke rarch_cmd.RARCH_CMD_AUTOSAVE_DEINIT (cmd_autosave_deinit cfg ext) g).2
    ∧ same_disk g
      (invoke rarch_cmd.RARCH_CMD_AUTOSAVE_INIT (cmd_autosave_init cfg ext) g).2 := by
  have hd : ∀ g : rarch_context σ, same_disk g (cmd_autosave_deinit cfg ext g).2 := by
    intro g
    unfold cmd_autosave_deinit
    exact same_disk_ite _ _ _ _ (deinit_autosave_same_disk ext g) (same_disk_refl g)
  have hi : ∀ (c : rarch_cmd) (g : rarch_context σ),
      same_disk g (invoke c (cmd_autosave_deinit cfg ext) g).2 := by
    intro c g
    exact same_disk_trans (log_call_same_disk (rarch_call.command c) g) (hd _)
  constructor
  · exact hi _ g
  · have h1 := log_call_same_disk (rarch_call.command rarch_cmd.RARCH_CMD_AUTOSAVE_INIT) g
    have h2 := hi rarch_cmd.RARCH_CMD_AUTOSAVE_DEINIT
      (log_call (rarch_call.command rarch_cmd.RARCH_CMD_AUTOSAVE_INIT) g)
    refine same_disk_trans h1 (same_disk_trans h2 ?_)
    show same_disk _ (if cfg.HAVE_THREADS = true then _ else _)
    exact same_disk_ite _ _ _ _ (init_autosave_same_disk ext _) (same_disk_refl _)

/-- The function `set_basename` makes no recorded call. -/
theorem set_basename_same_disk (cfg : build_config) (ext : externals σ) (path : cstring)
    (g : rarch_context σ) : same_disk g (set_basename cfg ext path g) := ⟨rfl, rfl⟩

/-- The function `set_paths_redirect` makes no recorded call. -/
theorem set_paths_redirect_same_disk (cfg : build_config) (ext : externals σ) (path : cstring)
    (g : rarch_context σ) : same_disk g (set_paths_redirect cfg ext path g) := by
  unfold set_paths_redirect
  lift_lets
  intro g1 g2
  have h1 : same_disk g g1 := same_disk_ite _ _ _ _ ⟨rfl, rfl⟩ (same_disk_refl g)
  have h2 : same_disk g1 g2 := same_disk_ite _ _ _ _ ⟨rfl, rfl⟩ (same_disk_refl g1)
  exact same_disk_trans h1 (same_disk_trans h2 (same_disk_ite _ _ _ _ ⟨rfl, rfl⟩ (same_disk_refl g2)))

/-- The function `set_paths` makes no recorded call. -/
theorem set_paths_same_disk (cfg : build_config) (ext : externals σ) (path : cstring)
    (g : rarch_context σ) : same_disk g (set_paths cfg ext path g) := by
  unfold set_paths
  lift_lets
  intro g1 g2 g3 g4 g5
  have h1 : same_disk g g1 := set_basename_same_disk cfg ext path g
  have h2 : same_disk g1 g2 := same_disk_ite _ _ _ _ ⟨rfl, rfl⟩ (same_disk_refl g1)
  have h3 : same_disk g2 g3 := same_disk_ite _ _ _ _ ⟨rfl, rfl⟩ (same_disk_refl g2)
  have h4 : same_disk g3 g4 := ⟨rfl, rfl⟩
  have h5 : same_disk g4 g5 := set_paths_redirect_same_disk cfg ext path g4
  have h : same_disk g g5 := same_disk_trans h1 (same_disk_trans h2 (same_disk_trans h3 (same_disk_trans h4 h5)))
  exact same_disk_ite _ _ _ _ h (same_disk_trans h ⟨rfl, rfl⟩)
/-- The function `rarch_init_savefile_paths` makes no recorded call. -/
theorem init_savefile_paths_same_disk (cfg : build_config) (ext : externals σ)
    (g r : rarch_context σ) (h : rarch_init_savefile_paths cfg ext g = some r) :
    same_disk g r := by
  unfold rarch_init_savefile_paths invoke cmd_savefiles_deinit log_call at h
  simp only at h
  split_ifs at h <;> simp only [Option.some.injEq] at h <;> subst h <;> exact ⟨rfl, rfl⟩

/-- The function `fill_pathnames` makes no recorded call. -/
theorem fill_pathnames_same_disk (cfg : build_config) (ext : externals σ)
    (g r : rarch_context σ) (h : fill_pathnames cfg ext g = some r) :
    same_disk g r := by
  unfold fill_pathnames at h
  cases h1 : rarch_init_savefile_paths cfg ext g with
  | none => simp [h1] at h
  | some g1 =>
    have hs := init_savefile_paths_same_disk cfg ext g g1 h1
    simp only [h1] at h
    split_ifs at h <;> simp only [Option.some.injEq] at h <;> subst h <;>
      exact same_disk_trans hs ⟨rfl, rfl⟩

/-- What `rarch_disk_control_set_eject` does to the trace and the interface on a
core with disk control: the one request is recorded. -/
theorem set_eject_trace (cfg : build_config) (new_state print_log : Bool)
    (g : rarch_context σ) (f : σ → Nat) (hcap : g.disk_control.get_num_images = some f) :
    (rarch_disk_control_set_eject cfg new_state print_log g).trace
        = g.trace ++ [core_call.set_eject_state new_state]
    ∧ (rarch_disk_control_set_eject cfg new_state print_log g).disk_control = g.disk_control
    ∧ (rarch_disk_control_set_eject cfg new_state print_log g).world
        = (g.disk_control.set_eject_state new_state g.world).2 := by
  unfold rarch_disk_control_set_eject
  simp only [hcap]
  split_ifs <;> simp [record]

/-- The early return of `rarch_disk_control_append_image`: when the core reports
no image after `add_image_index`, the function returns right after the count
query, and the only tray request it has issued is the one that opened the
tray. -/
theorem append_image_early_return (cfg : build_config) (ext : externals σ) (path : cstring)
    (g : rarch_context σ) (f : σ → Nat) (hcap : g.disk_control.get_num_images = some f)
    (hzero : to_unsigned (f (g.disk_control.add_image_index
      (g.disk_control.set_eject_state true g.world).2).2) = 0) :
    ∃ r, rarch_disk_control_append_image cfg ext path g = some r
      ∧ calls_made g r = [core_call.set_eject_state true, core_call.add_image_index,
          core_call.get_num_images]
      ∧ r.world = (g.disk_control.add_image_index
          (g.disk_control.set_eject_state true g.world).2).2 := by
  obtain ⟨ht, hd, hw⟩ := set_eject_trace cfg true false g f hcap
  unfold rarch_disk_control_append_image
  simp only [record, hd, hcap, hw, hzero, if_true]
  refine ⟨_, rfl, ?_, rfl⟩
  apply calls_made_append
  simp [ht]

/-- The regular path of `rarch_disk_control_append_image`: when the core reports
at least one image after `add_image_index` and the function returns, the calls
it has made are, in this order: open the tray, add an image, query the count,
replace the last image by the path, close the tray. -/
theorem append_image_calls (cfg : build_config) (ext : externals σ) (path : cstring)
    (g r : rarch_context σ) (f : σ → Nat) (hcap : g.disk_control.get_num_images = some f)
    (hcount : to_unsigned (f (g.disk_control.add_image_index
      (g.disk_control.set_eject_state true g.world).2).2) ≠ 0)
    (hret : rarch_disk_control_append_image cfg ext path g = some r) :
    calls_made g r = [core_call.set_eject_state true, core_call.add_image_index,
      core_call.get_num_images,
      core_call.replace_image_index
        (to_unsigned (f (g.disk_control.add_image_index
          (g.disk_control.set_eject_state true g.world).2).2) - 1) path,
      core_call.set_eject_state false] := by
  obtain ⟨ht, hd, hw⟩ := set_eject_trace cfg true false g f hcap
  unfold rarch_disk_control_append_image at hret
  lift_lets at hret
  extract_lets g1 a g2 at hret
  have hd2 : g2.disk_control.get_num_images = some f := by
    simp only [g2, g1, record, hd, hcap]
  split at hret
  · exact absurd hret (by simp)
  · rename_i get_num_images heq
    rw [hd2] at heq
    cases heq
    lift_lets at hret
    extract_lets g3 msg new_idx new_idx1 r4 g4 g5 g6 g7 at hret
    have hw2 : g2.world = (g.disk_control.add_image_index
        (g.disk_control.set_eject_state true g.world).2).2 := by
      simp only [g2, a, g1, record, hd, hw]
    have hidx : new_idx = to_unsigned (f (g.disk_control.add_image_index
        (g.disk_control.set_eject_state true g.world).2).2) := by
      simp only [new_idx, hw2]
    have hne : ¬ new_idx = 0 := by rw [hidx]; exact hcount
    rw [if_neg hne] at hret
    have h5t : g5.trace = g.trace ++ [core_call.set_eject_state true,
        core_call.add_image_index, core_call.get_num_images,
        core_call.replace_image_index new_idx1 path] := by
      simp only [g5, g4, g3, g2, record, ht, g1]
      simp
    have h5d : g5.disk_control = g.disk_control := by
      simp only [g5, g4, g3, g2, record, hd, g1]
    have h56 : same_disk g5 g6 := (autosave_commands_same_disk cfg ext g5).1
    cases h7 : g7 with
    | none => rw [h7] at hret; exact absurd hret (by simp)
    | some g7v =>
      rw [h7] at hret
      simp only [Option.some.injEq] at hret
      have h67 : same_disk g6 g7v := by
        simp only [g7] at h7
        split_ifs at h7
        · exact same_disk_trans (set_paths_same_disk cfg ext path g6)
            (fill_pathnames_same_disk cfg ext _ _ h7)
        · simp only [Option.some.injEq] at h7
          rw [← h7]
          exact same_disk_refl g6
      have h78 := (autosave_commands_same_disk cfg ext g7v).2
      have h58 := same_disk_trans h56 (same_disk_trans h67 h78)
      have hcap8 : (invoke rarch_cmd.RARCH_CMD_AUTOSAVE_INIT (cmd_autosave_init cfg ext)
          g7v).2.disk_control.get_num_images = some f := by
        rw [h58.2, h5d, hcap]
      obtain ⟨hrt, -, -⟩ := set_eject_trace cfg false false _ f hcap8
      apply calls_made_append
      rw [← hret, hrt, h58.1, h5t]
      simp only [new_idx1, hidx, List.append_assoc, List.cons_append, List.nil_append]

end append_image

/-- C10, the failing input evaluated: on a core that holds no image and cannot
add one, `rarch_disk_control_append_image` returns after `set_eject_state(true)`,
`add_image_index` and the count query; it never issues `set_eject_state(false)`,
and the core's tray is left open. -/
theorem append_image_leaves_tray_open :
    (rarch_disk_control_append_image sample_config sample_externals "/roms/disk2.bin".toList
      { sample_context with
        world := { sample_core with num_images := 0, can_add_image := false } }).map
      (fun r => (r.trace, r.world.ejected))
    = some ([core_call.set_eject_state true, core_call.add_image_index,
        core_call.get_num_images], true) := by
  decide

/-! ## Lifecycle states -/

section lifecycle
variable {σ : Type}

theorem same_lifecycle_refl (g : rarch_context σ) : same_lifecycle g g :=
  ⟨rfl, rfl, rfl, rfl, rfl, rfl, rfl⟩

theorem same_lifecycle_trans {a b c : rarch_context σ} (h1 : same_lifecycle a b)
    (h2 : same_lifecycle b c) : same_lifecycle a c := by
  obtain ⟨a1, a2, a3, a4, a5, a6, a7⟩ := h1
  obtain ⟨b1, b2, b3, b4, b5, b6, b7⟩ := h2
  exact ⟨b1.trans a1, b2.trans a2, b3.trans a3, b4.trans a4, b5.trans a5, b6.trans a6,
    b7.trans a7⟩

theorem same_lifecycle_key_event {g r : rarch_context σ} (h : same_lifecycle g r) :
    r.system_key_event = g.system_key_event := h.2.2.2.1

theorem same_lifecycle_ite (g a b : rarch_context σ) (c : Prop) [Decidable c]
    (ha : same_lifecycle g a) (hb : same_lifecycle g b) :
    same_lifecycle g (if c then a else b) := by
  split_ifs <;> assumption

theorem extern_call_same_lifecycle (ext : externals σ) (fn : extern_fn) (args : List cval)
    (g : rarch_context σ) : same_lifecycle g (extern_call ext fn args g).2 :=
  ⟨rfl, rfl, rfl, rfl, rfl, rfl, rfl⟩

theorem log_call_same_lifecycle (c : rarch_call) (g : rarch_context σ) :
    same_lifecycle g (log_call c g) :=
  ⟨rfl, rfl, rfl, rfl, rfl, rfl, rfl⟩

theorem foldl_same_lifecycle {α : Type} (f : rarch_context σ → α → rarch_context σ)
    (hf : ∀ g a, same_lifecycle g (f g a)) (l : List α) (g : rarch_context σ) :
    same_lifecycle g (l.foldl f g) := by
  induction l generalizing g with
  | nil => exact same_lifecycle_refl g
  | cons a l ih => exact same_lifecycle_trans (hf g a) (ih (f g a))

theorem cmd_video_set_blocking_state_same_lifecycle (ext : externals σ) (boolean : Bool)
    (g : rarch_context σ) : same_lifecycle g (cmd_video_set_blocking_state ext boolean g).2 := by
  unfold cmd_video_set_blocking_state
  split_ifs
  · exact extern_call_same_lifecycle ext _ _ g
  · exact same_lifecycle_refl g

theorem cmd_rumble_stop_same_lifecycle (cfg : build_config) (ext : externals σ)
    (g : rarch_context σ) : same_lifecycle g (cmd_rumble_stop cfg ext g).2 := by
  unfold cmd_rumble_stop
  apply foldl_same_lifecycle
  intro g a
  exact same_lifecycle_trans (extern_call_same_lifecycle ext _ _ g)
    (extern_call_same_lifecycle ext _ _ _)

theorem cmd_audio_stop_same_lifecycle (ext : externals σ) (g : rarch_context σ) :
    same_lifecycle g (cmd_audio_stop ext g).2 := by
  unfold cmd_audio_stop
  dsimp only
  split_ifs <;> exact ⟨rfl, rfl, rfl, rfl, rfl, rfl, rfl⟩

theorem cmd_audio_start_same_lifecycle (ext : externals σ) (g : rarch_context σ) :
    same_lifecycle g (cmd_audio_start ext g).2 := by
  unfold cmd_audio_start
  dsimp only
  split_ifs <;> exact ⟨rfl, rfl, rfl, rfl, rfl, rfl, rfl⟩

theorem invoke_same_lifecycle (c : rarch_cmd)
    (body : rarch_context σ → Bool × rarch_context σ)
    (hb : ∀ g, same_lifecycle g (body g).2) (g : rarch_context σ) :
    same_lifecycle g (invoke c body g).2 :=
  same_lifecycle_trans (log_call_same_lifecycle _ g) (hb _)

/-- What `RARCH_ACTION_STATE_MENU_RUNNING_FINISHED` leaves in the lifecycle
members. -/
theorem state_menu_running_finished_members (cfg : build_config) (ext : externals σ)
    (g : rarch_context σ) :
    (state_menu_running_finished cfg ext g).lifecycle_state = g.lifecycle_state
    ∧ (state_menu_running_finished cfg ext g).system_shutdown = g.system_shutdown
    ∧ (cfg.HAVE_MENU = true →
        (state_menu_running_finished cfg ext g).is_menu = false
        ∧ (state_menu_running_finished cfg ext g).system_key_event = g.frontend_key_event)
    ∧ (cfg.HAVE_MENU = false → same_lifecycle g (state_menu_running_finished cfg ext g)) := by
  unfold state_menu_running_finished
  lift_lets
  intro a1 a2 a3 a4 a5 g1
  have e1 : same_lifecycle g a1 := extern_call_same_lifecycle ext _ _ g
  have e2 : same_lifecycle a1 a2 :=
    same_lifecycle_ite _ _ _ _ (extern_call_same_lifecycle ext _ _ _) (same_lifecycle_refl a1)
  have e4 : same_lifecycle a3 a4 := extern_call_same_lifecycle ext _ _ a3
  have e5 : same_lifecycle a4 a5 :=
    same_lifecycle_ite _ _ _ _
      (invoke_same_lifecycle _ _ (cmd_audio_start_same_lifecycle ext) a4)
      (same_lifecycle_refl a4)
  have e12 := same_lifecycle_trans e1 e2
  have e45 := same_lifecycle_trans e4 e5
  have hl : a5.lifecycle_state = g.lifecycle_state := e45.1.trans e12.1
  have hs : a5.system_shutdown = g.system_shutdown := e45.2.2.1.trans e12.2.2.1
  have hm5 : a5.is_menu = false := e45.2.1
  have hf : a5.frontend_key_event = g.frontend_key_event :=
    e45.2.2.2.2.1.trans e12.2.2.2.2.1
  have key : g1.lifecycle_state = g.lifecycle_state ∧ g1.system_shutdown = g.system_shutdown
      ∧ (cfg.HAVE_MENU = true →
          g1.is_menu = false ∧ g1.system_key_event = g.frontend_key_event)
      ∧ (cfg.HAVE_MENU = false → same_lifecycle g g1) := by
    by_cases hm : cfg.HAVE_MENU = true
    · have hg1 : g1 = { a5 with
          flushing_input := true,
          system_key_event := a5.frontend_key_event } := if_pos hm
      rw [hg1]
      exact ⟨hl, hs, fun _ => ⟨hm5, hf⟩, fun h => absurd hm (by simp [h])⟩
    · have hg1 : g1 = g := if_neg hm
      rw [hg1]
      exact ⟨rfl, rfl, fun h => absurd h hm, fun _ => same_lifecycle_refl g⟩
  have hlast : same_lifecycle g1
      (if ext.has driver_slot.video_set_texture_enable g1.world = true then
        (extern_call ext extern_fn.video_set_texture_enable [cval.bool false, cval.bool false]
          g1).2
      else g1) :=
    same_lifecycle_ite _ _ _ _ (extern_call_same_lifecycle ext _ _ _) (same_lifecycle_refl g1)
  obtain ⟨k1, k2, k3, k4⟩ := key
  obtain ⟨q1, q2, q3, q4, q5, q6, q7⟩ := hlast
  refine ⟨q1.trans k1, q3.trans k2, fun h => ⟨q2.trans (k3 h).1, q4.trans (k3 h).2⟩, fun h => ?_⟩
  exact same_lifecycle_trans (k4 h) ⟨q1, q2, q3, q4, q5, q6, q7⟩

/-- What `RARCH_ACTION_STATE_MENU_RUNNING` leaves in the lifecycle members when
the menu handle exists. -/
theorem state_menu_running_members (cfg : build_config) (ext : externals σ)
    (g : rarch_context σ) (h : (menu_driver_resolve cfg g).isSome) :
    (state_menu_running cfg ext g).is_menu = true
    ∧ (state_menu_running cfg ext g).frontend_key_event = g.system_key_event
    ∧ (state_menu_running cfg ext g).system_key_event
        = retro_keyboard_event_t.menu_input_key_event := by
  have hm : cfg.HAVE_MENU = true := by
    unfold menu_driver_resolve at h
    by_contra hc
    simp [hc] at h
  obtain ⟨menu, hmenu⟩ := Option.isSome_iff_exists.mp h
  unfold state_menu_running
  rw [hmenu]
  simp only [hm, Bool.not_true, Bool.false_eq_true, if_false]
  refine ⟨trivial, ?_, trivial⟩
  apply same_lifecycle_key_event
  refine same_lifecycle_trans ?_
    (same_lifecycle_ite _ _ _ _
      (invoke_same_lifecycle _ _ (cmd_audio_stop_same_lifecycle ext) _) (same_lifecycle_refl _))
  refine same_lifecycle_trans ?_
    (invoke_same_lifecycle _ _ (cmd_rumble_stop_same_lifecycle cfg ext) _)
  refine same_lifecycle_trans ?_
    (invoke_same_lifecycle _ _ (cmd_video_set_blocking_state_same_lifecycle ext false) _)
  exact same_lifecycle_ite _ _ _ _ (extern_call_same_lifecycle ext _ _ _) (same_lifecycle_refl g)

/-- In a build without the menu no lifecycle state writes `is_menu`. -/
theorem set_state_without_menu (cfg : build_config) (ext : externals σ)
    (state : rarch_action_state) (g : rarch_context σ) (hm : cfg.HAVE_MENU = false) :
    (rarch_main_set_state cfg ext state g).is_menu = g.is_menu := by
  have hfin : ∀ g : rarch_context σ, (state_menu_running_finished cfg ext g).is_menu = g.is_menu :=
    fun g => ((state_menu_running_finished_members cfg ext g).2.2.2 hm).2.1
  cases state with
  | RARCH_ACTION_STATE_NONE => rfl
  | RARCH_ACTION_STATE_MENU_RUNNING =>
    show (state_menu_running cfg ext g).is_menu = g.is_menu
    unfold state_menu_running
    simp [hm]
  | RARCH_ACTION_STATE_LOAD_CONTENT =>
    show (state_load_content cfg ext g).is_menu = g.is_menu
    unfold state_load_content
    simp only [hm, Bool.false_eq_true, if_false]
    split_ifs <;> rfl
  | RARCH_ACTION_STATE_MENU_RUNNING_FINISHED => exact hfin g
  | RARCH_ACTION_STATE_QUIT => exact hfin _
  | RARCH_ACTION_STATE_FORCE_QUIT => exact hfin _

/-- C11: for every starting context (in a build without the menu, one in which
the menu flag is clear, as no code of that build sets it),
`rarch_main_set_state(RARCH_ACTION_STATE_FORCE_QUIT)` ends with
`lifecycle_state = 0`, `is_menu = false` and `system.shutdown = true`. -/
theorem force_quit_clears_flags (cfg : build_config) (ext : externals σ)
    (g : rarch_context σ) (h : cfg.HAVE_MENU = true ∨ g.is_menu = false) :
    (rarch_main_set_state cfg ext rarch_action_state.RARCH_ACTION_STATE_FORCE_QUIT
      g).lifecycle_state = 0
    ∧ (rarch_main_set_state cfg ext rarch_action_state.RARCH_ACTION_STATE_FORCE_QUIT
      g).is_menu = false
    ∧ (rarch_main_set_state cfg ext rarch_action_state.RARCH_ACTION_STATE_FORCE_QUIT
      g).system_shutdown = true := by
  obtain ⟨h1, h2, h3, h4⟩ := state_menu_running_finished_members cfg ext
    (log_call (rarch_call.set_state rarch_action_state.RARCH_ACTION_STATE_MENU_RUNNING_FINISHED)
      { log_call (rarch_call.set_state rarch_action_state.RARCH_ACTION_STATE_QUIT)
          { g with lifecycle_state := 0 } with system_shutdown := true })
  refine ⟨h1, ?_, h2⟩
  by_cases hm : cfg.HAVE_MENU = true
  · exact (h3 hm).1
  · have hm2 : cfg.HAVE_MENU = false := by simpa using hm
    rcases h with h | h
    · exact absurd h hm
    · exact ((h4 hm2).2.1).trans h

end lifecycle

/-- C11 at an example: a context with the menu active. -/
theorem force_quit_clears_flags_witness :
    (sample_config.HAVE_MENU = true ∨ ({ sample_context with is_menu := true }).is_menu = false)
    ∧ (rarch_main_set_state sample_config sample_externals
        rarch_action_state.RARCH_ACTION_STATE_FORCE_QUIT
        { sample_context with is_menu := true }).lifecycle_state = 0
    ∧ (rarch_main_set_state sample_config sample_externals
        rarch_action_state.RARCH_ACTION_STATE_FORCE_QUIT
        { sample_context with is_menu := true }).is_menu = false
    ∧ (rarch_main_set_state sample_config sample_externals
        rarch_action_state.RARCH_ACTION_STATE_FORCE_QUIT
        { sample_context with is_menu := true }).system_shutdown = true :=
  ⟨Or.inl rfl,
    force_quit_clears_flags sample_config sample_externals
      { sample_context with is_menu := true } (Or.inl rfl)⟩

section lifecycle2
variable {σ : Type}

/-- C12: for every context in which the menu handle exists,
`rarch_main_set_state(MENU_RUNNING)` followed by
`rarch_main_set_state(MENU_RUNNING_FINISHED)` leaves `is_menu = false` and
`system.key_event` equal to its value before the first call, whatever that value
and whatever `is_menu` was. -/
theorem menu_running_then_finished_restores (cfg : build_config) (ext : externals σ)
    (g : rarch_context σ) (h : (menu_driver_resolve cfg g).isSome) :
    (rarch_main_set_state cfg ext rarch_action_state.RARCH_ACTION_STATE_MENU_RUNNING_FINISHED
      (rarch_main_set_state cfg ext rarch_action_state.RARCH_ACTION_STATE_MENU_RUNNING
        g)).is_menu = false
    ∧ (rarch_main_set_state cfg ext rarch_action_state.RARCH_ACTION_STATE_MENU_RUNNING_FINISHED
      (rarch_main_set_state cfg ext rarch_action_state.RARCH_ACTION_STATE_MENU_RUNNING
        g)).system_key_event = g.system_key_event := by
  have hm : cfg.HAVE_MENU = true := by
    unfold menu_driver_resolve at h
    by_contra hc
    simp [hc] at h
  obtain ⟨-, hf, -⟩ := state_menu_running_members cfg ext g h
  obtain ⟨-, -, h3, -⟩ := state_menu_running_finished_members cfg ext
    (state_menu_running cfg ext g)
  exact ⟨(h3 hm).1, (h3 hm).2.trans hf⟩

end lifecycle2

/-- C12 at an example: the menu is already active and the keyboard callback is
the menu's. -/
theorem menu_running_then_finished_restores_witness :
    (menu_driver_resolve sample_config
      { sample_context with
        is_menu := true,
        system_key_event := retro_keyboard_event_t.menu_input_key_event }).isSome
    ∧ (rarch_main_set_state sample_config sample_externals
        rarch_action_state.RARCH_ACTION_STATE_MENU_RUNNING_FINISHED
        (rarch_main_set_state sample_config sample_externals
          rarch_action_state.RARCH_ACTION_STATE_MENU_RUNNING
          { sample_context with
            is_menu := true,
            system_key_event := retro_keyboard_event_t.menu_input_key_event })).is_menu = false
    ∧ (rarch_main_set_state sample_config sample_externals
        rarch_action_state.RARCH_ACTION_STATE_MENU_RUNNING_FINISHED
        (rarch_main_set_state sample_config sample_externals
          rarch_action_state.RARCH_ACTION_STATE_MENU_RUNNING
          { sample_context with
            is_menu := true,
            system_key_event := retro_keyboard_event_t.menu_input_key_event })).system_key_event
        = retro_keyboard_event_t.menu_input_key_event :=
  ⟨rfl,
    menu_running_then_finished_restores sample_config sample_externals
      { sample_context with
        is_menu := true,
        system_key_event := retro_keyboard_event_t.menu_input_key_event } rfl⟩


/-! ## The call log -/

section logs
variable {σ : Type}

theorem log_extends_refl (g : rarch_context σ) : log_extends g g := ⟨[], by simp⟩

theorem log_extends_trans {a b c : rarch_context σ} (h1 : log_extends a b)
    (h2 : log_extends b c) : log_extends a c := by
  obtain ⟨l1, e1⟩ := h1
  obtain ⟨l2, e2⟩ := h2
  exact ⟨l1 ++ l2, by rw [e2, e1, List.append_assoc]⟩

theorem log_extends_ite (g a b : rarch_context σ) (c : Prop) [Decidable c]
    (ha : log_extends g a) (hb : log_extends g b) : log_extends g (if c then a else b) := by
  split_ifs <;> assumption

theorem log_extends_of_eq {g r : rarch_context σ} (h : r.log = g.log) : log_extends g r :=
  ⟨[], by simp [h]⟩

theorem extern_call_log_extends (ext : externals σ) (fn : extern_fn) (args : List cval)
    (g : rarch_context σ) : log_extends g (extern_call ext fn args g).2 := ⟨_, rfl⟩

theorem log_call_log_extends (c : rarch_call) (g : rarch_context σ) :
    log_extends g (log_call c g) := ⟨_, rfl⟩

theorem free_handle_log_extends (ext : externals σ) (fn : extern_fn) (h : Option Nat)
    (g : rarch_context σ) : log_extends g (free_handle ext fn h g) := by
  cases h with
  | none => exact log_extends_refl g
  | some h => exact extern_call_log_extends ext _ _ g

theorem foldl_log_extends {α : Type} (f : rarch_context σ → α → rarch_context σ)
    (hf : ∀ g a, log_extends g (f g a)) (l : List α) (g : rarch_context σ) :
    log_extends g (l.foldl f g) := by
  induction l generalizing g with
  | nil => exact log_extends_refl g
  | cons a l ih => exact log_extends_trans (hf g a) (ih (f g a))

theorem invoke_log_extends (c : rarch_cmd) (body : rarch_context σ → Bool × rarch_context σ)
    (hb : ∀ g, log_extends g (body g).2) (g : rarch_context σ) :
    log_extends g (invoke c body g).2 :=
  log_extends_trans (log_call_log_extends _ g) (hb _)

theorem cmd_video_set_blocking_state_log_extends (ext : externals σ) (boolean : Bool)
    (g : rarch_context σ) : log_extends g (cmd_video_set_blocking_state ext boolean g).2 := by
  unfold cmd_video_set_blocking_state
  split_ifs
  · exact extern_call_log_extends ext _ _ g
  · exact log_extends_refl g

theorem cmd_rumble_stop_log_extends (cfg : build_config) (ext : externals σ)
    (g : rarch_context σ) : log_extends g (cmd_rumble_stop cfg ext g).2 := by
  unfold cmd_rumble_stop
  apply foldl_log_extends
  intro g a
  exact log_extends_trans (extern_call_log_extends ext _ _ g)
    (extern_call_log_extends ext _ _ _)

theorem cmd_audio_stop_log_extends (ext : externals σ) (g : rarch_context σ) :
    log_extends g (cmd_audio_stop ext g).2 := by
  unfold cmd_audio_stop
  dsimp only
  split_ifs
  · exact log_extends_refl g
  · exact extern_call_log_extends ext _ _ g
  · exact log_extends_trans (extern_call_log_extends ext _ _ g)
      (extern_call_log_extends ext _ _ _)

theorem state_menu_running_log_extends (cfg : build_config) (ext : externals σ)
    (g : rarch_context σ) : log_extends g (state_menu_running cfg ext g) := by
  unfold state_menu_running
  by_cases hm : (!cfg.HAVE_MENU) = true
  · rw [if_pos hm]
    exact log_extends_refl g
  · rw [if_neg hm]
    cases hr : menu_driver_resolve cfg g with
    | none => exact log_extends_refl g
    | some menu =>
      simp -zeta only []
      lift_lets
      intro g1 g2 g3 g4
      have e1 : log_extends g g1 :=
        log_extends_ite _ _ _ _ (extern_call_log_extends ext _ _ _) (log_extends_refl g)
      have e2 : log_extends g1 g2 :=
        invoke_log_extends _ _ (cmd_video_set_blocking_state_log_extends ext false) g1
      have e3 : log_extends g2 g3 :=
        invoke_log_extends _ _ (cmd_rumble_stop_log_extends cfg ext) g2
      have e4 : log_extends g3 g4 :=
        log_extends_ite _ _ _ _ (invoke_log_extends _ _ (cmd_audio_stop_log_extends ext) g3)
          (log_extends_refl g3)
      exact log_extends_trans (log_extends_trans (log_extends_trans (log_extends_trans e1 e2) e3) e4)
        (log_extends_of_eq rfl)

/-- C13, amended: when the frontend provides `content_loaded`,
`rarch_main_set_state(LOAD_CONTENT)` calls it as its last action whatever
`menu_load_content` returned; when `menu_load_content` failed the machine enters
`MENU_RUNNING` first, and when it succeeded the two calls are all that happens. -/
theorem load_content_always_notifies (cfg : build_config) (ext : externals σ)
    (g : rarch_context σ)
    (hcb : ∀ w, ext.has driver_slot.frontend_content_loaded w = true) :
    (∃ ret,
      (rarch_main_set_state cfg ext rarch_action_state.RARCH_ACTION_STATE_LOAD_CONTENT
        g).log.getLast? = some (rarch_call.external extern_fn.frontend_content_loaded [] ret))
    ∧ (cfg.HAVE_MENU = true →
        (ext.call extern_fn.menu_load_content [] g.world).1.to_bool = false →
        ∃ rest,
          (rarch_main_set_state cfg ext rarch_action_state.RARCH_ACTION_STATE_LOAD_CONTENT
            g).log
          = g.log ++ rarch_call.external extern_fn.menu_load_content []
              (ext.call extern_fn.menu_load_content [] g.world).1
            :: rarch_call.set_state rarch_action_state.RARCH_ACTION_STATE_MENU_RUNNING :: rest)
    ∧ (cfg.HAVE_MENU = true →
        (ext.call extern_fn.menu_load_content [] g.world).1.to_bool = true →
        ∃ ret,
          (rarch_main_set_state cfg ext rarch_action_state.RARCH_ACTION_STATE_LOAD_CONTENT
            g).log
          = g.log ++ [rarch_call.external extern_fn.menu_load_content []
              (ext.call extern_fn.menu_load_content [] g.world).1,
            rarch_call.external extern_fn.frontend_content_loaded [] ret]) := by
  show (∃ ret, (state_load_content cfg ext g).log.getLast? = _)
    ∧ (_ → _ → ∃ rest, (state_load_content cfg ext g).log = _)
    ∧ (_ → _ → ∃ ret, (state_load_content cfg ext g).log = _)
  unfold state_load_content
  lift_lets
  intro loaded g1
  have hlast : (if ext.has driver_slot.frontend_content_loaded g1.world = true then
      (extern_call ext extern_fn.frontend_content_loaded [] g1).2 else g1)
      = (extern_call ext extern_fn.frontend_content_loaded [] g1).2 := if_pos (hcb _)
  rw [hlast]
  have hlog : (extern_call ext extern_fn.frontend_content_loaded [] g1).2.log
      = g1.log ++ [rarch_call.external extern_fn.frontend_content_loaded []
          (ext.call extern_fn.frontend_content_loaded [] g1.world).1] := rfl
  rw [hlog]
  refine ⟨⟨(ext.call extern_fn.frontend_content_loaded [] g1.world).1, by simp⟩, ?_, ?_⟩
  · intro hm hfail
    have hg1 : g1 = enter rarch_action_state.RARCH_ACTION_STATE_MENU_RUNNING
        (state_menu_running cfg ext) loaded.2 := by
      have hf : loaded.1.to_bool = false := hfail
      simp only [g1, hm, hf, if_true, Bool.not_false]
    obtain ⟨l, hl⟩ := state_menu_running_log_extends cfg ext
      (log_call (rarch_call.set_state rarch_action_state.RARCH_ACTION_STATE_MENU_RUNNING)
        loaded.2)
    refine ⟨l ++ [rarch_call.external extern_fn.frontend_content_loaded []
      (ext.call extern_fn.frontend_content_loaded [] g1.world).1], ?_⟩
    rw [hg1]
    unfold enter
    rw [hl]
    simp [log_call, loaded, extern_call]
  · intro hm hok
    have hg1 : g1 = loaded.2 := by
      have hf : loaded.1.to_bool = true := hok
      simp only [g1, hm, hf, if_true, Bool.not_true, Bool.false_eq_true, if_false]
    refine ⟨(ext.call extern_fn.frontend_content_loaded [] g1.world).1, ?_⟩
    rw [hg1]
    simp [loaded, extern_call]

end logs

/-- C13, the counterexample: in the example world with a failing
`menu_load_content`, `rarch_main_set_state(LOAD_CONTENT)` enters `MENU_RUNNING` and
then calls `content_loaded` all the same. -/
theorem load_content_notifies_after_failure :
    (rarch_main_set_state sample_config sample_externals
      rarch_action_state.RARCH_ACTION_STATE_LOAD_CONTENT
      { sample_context with world := { sample_core with content_loads := false } }).log
    = [rarch_call.external extern_fn.menu_load_content [] (cval.bool false),
      rarch_call.set_state rarch_action_state.RARCH_ACTION_STATE_MENU_RUNNING,
      rarch_call.external extern_fn.menu_ctx_toggle [cval.bool true] (cval.bool true),
      rarch_call.command rarch_cmd.RARCH_CMD_VIDEO_SET_BLOCKING_STATE,
      rarch_call.external extern_fn.video_set_nonblock_state [cval.bool false] (cval.bool true),
      rarch_call.command rarch_cmd.RARCH_CMD_RUMBLE_STOP,
      rarch_call.external extern_fn.input_driver_set_rumble_state
        [cval.int 0, cval.enum "RETRO_RUMBLE_STRONG", cval.int 0] (cval.bool true),
      rarch_call.external extern_fn.input_driver_set_rumble_state
        [cval.int 0, cval.enum "RETRO_RUMBLE_WEAK", cval.int 0] (cval.bool true),
      rarch_call.external extern_fn.input_driver_set_rumble_state
        [cval.int 1, cval.enum "RETRO_RUMBLE_STRONG", cval.int 0] (cval.bool true),
      rarch_call.external extern_fn.input_driver_set_rumble_state
        [cval.int 1, cval.enum "RETRO_RUMBLE_WEAK", cval.int 0] (cval.bool true),
      rarch_call.external extern_fn.frontend_content_loaded [] (cval.bool true)] := by
  decide

/-- C13, amended, at an example: the example world with a failing
`menu_load_content`. -/
theorem load_content_always_notifies_witness :
    (∀ w, sample_externals.has driver_slot.frontend_content_loaded w = true)
    ∧ (∃ ret,
      (rarch_main_set_state sample_config sample_externals
        rarch_action_state.RARCH_ACTION_STATE_LOAD_CONTENT
        { sample_context with world := { sample_core with content_loads := false } }).log.getLast?
        = some (rarch_call.external extern_fn.frontend_content_loaded [] ret)) :=
  ⟨fun _ => rfl,
    (load_content_always_notifies sample_config sample_externals
      { sample_context with world := { sample_core with content_loads := false } }
      (fun _ => rfl)).1⟩


/-! ## Releasing an uninitialized subsystem -/

section deinit
variable {σ : Type}

/-- C14, amended: for each of the seventeen handle-owning Deinit commands, in a
context in which the subsystem is uninitialized the command leaves the context
unchanged; it returns true, except `RARCH_CMD_REWIND_DEINIT` in a build with
netplay while a netplay session is active, which returns false. -/
theorem deinit_uninitialized_noop (cfg : build_config) (ext : externals σ) (cmd : rarch_cmd)
    (g : rarch_context σ) (hcmd : cmd ∈ deinit_commands) (hnull : uninitialized cmd g) :
    (rarch_main_command cfg ext cmd g).2 = g
    ∧ ((rarch_main_command cfg ext cmd g).1 = true
      ↔ ¬ (cmd = rarch_cmd.RARCH_CMD_REWIND_DEINIT ∧ cfg.HAVE_NETPLAY = true
        ∧ g.netplay_data.isSome)) := by
  simp only [deinit_commands, List.mem_cons, List.mem_singleton, List.not_mem_nil,
    or_false] at hcmd
  rcases hcmd with h | h | h | h | h | h | h | h | h | h | h | h | h | h | h | h | h <;>
    subst h <;> simp only [uninitialized] at hnull
  · cases g; simp_all [rarch_main_command, cmd_cheats_deinit, free_handle]
  · have e : ({ g with rewind_state := none } : rarch_context σ) = g := by
      cases g; simp_all
    have hres : rarch_main_command cfg ext rarch_cmd.RARCH_CMD_REWIND_DEINIT g
        = if (cfg.HAVE_NETPLAY && g.netplay_data.isSome) = true then (false, g)
          else (true, { g with rewind_state := none }) := by
      simp only [rarch_main_command, cmd_rewind_deinit, hnull, free_handle]
    rw [hres, e]
    by_cases hc : (cfg.HAVE_NETPLAY && g.netplay_data.isSome) = true
    · rw [if_pos hc]
      simp only [Bool.and_eq_true] at hc
      refine ⟨rfl, fun h => absurd h (by simp), fun h => absurd ⟨rfl, hc.1, hc.2⟩ h⟩
    · rw [if_neg hc]
      simp only [Bool.and_eq_true] at hc
      refine ⟨rfl, fun _ => ?_, fun _ => rfl⟩
      rintro ⟨-, h1, h2⟩
      exact hc ⟨h1, h2⟩
  · cases g; simp_all [rarch_main_command, cmd_dsp_filter_deinit, free_handle]
  · cases g; simp_all [rarch_main_command, cmd_gpu_record_deinit]
  · cases g; simp_all [rarch_main_command, cmd_history_deinit, free_handle]
  · cases g; simp_all [rarch_main_command, cmd_core_info_deinit, free_handle]
  · cases g; simp_all [rarch_main_command, cmd_savefiles_deinit]
  · cases g; simp_all [rarch_main_command, cmd_msg_queue_deinit]
  · cases g; simp_all [rarch_main_command, cmd_bsv_movie_deinit, free_handle]
  · cases g
    by_cases hn : cfg.HAVE_NETPLAY = true <;>
      simp_all [rarch_main_command, cmd_netplay_deinit, free_handle]
  · cases g
    by_cases hn : cfg.HAVE_COMMAND = true <;>
      simp_all [rarch_main_command, cmd_command_deinit, free_handle]
  · cases g; simp_all [rarch_main_command, cmd_temporary_content_deinit]
  · cases g; simp_all [rarch_main_command, cmd_subsystem_fullpaths_deinit]
  · cases g; simp_all [rarch_main_command, cmd_log_file_deinit, free_handle]
  · cases g
    by_cases hn : cfg.HAVE_OVERLAY = true <;>
      simp_all [rarch_main_command, cmd_overlay_deinit, free_handle]
  · cases g
    by_cases hn : cfg.HAVE_THREADS = true <;>
      simp_all [rarch_main_command, cmd_autosave_deinit, deinit_autosave]
  · cases g; simp_all [rarch_main_command, cmd_shader_dir_deinit]

end deinit

/-- C14, the counterexample: with no rewind buffer and a netplay session active,
`RARCH_CMD_REWIND_DEINIT` returns false. -/
theorem rewind_deinit_refused_during_netplay :
    ({ sample_context with netplay_data := some 8 }).rewind_state = none
    ∧ (rarch_main_command sample_config sample_externals rarch_cmd.RARCH_CMD_REWIND_DEINIT
        { sample_context with netplay_data := some 8 }).1 = false := by
  decide

/-- C14, amended, at an example: `RARCH_CMD_CHEATS_DEINIT` without a cheat
manager. -/
theorem deinit_uninitialized_noop_witness :
    rarch_cmd.RARCH_CMD_CHEATS_DEINIT ∈ deinit_commands
    ∧ uninitialized rarch_cmd.RARCH_CMD_CHEATS_DEINIT sample_context
    ∧ (rarch_main_command sample_config sample_externals rarch_cmd.RARCH_CMD_CHEATS_DEINIT
        sample_context).2 = sample_context :=
  ⟨by decide, rfl,
    (deinit_uninitialized_noop sample_config sample_externals rarch_cmd.RARCH_CMD_CHEATS_DEINIT
      sample_context (by decide) rfl).1⟩


/-! ## Init commands and their paired Deinit -/

section init_logs

variable {σ : Type}

theorem log_extends_ite_snd (g : rarch_context σ) (c : Prop) [Decidable c]
    (a b : Bool × rarch_context σ) (ha : log_extends g a.2) (hb : log_extends g b.2) :
    log_extends g (if c then a else b).2 := by
  split_ifs <;> assumption

theorem unless_halted_log_extends (g0 g : rarch_context σ)
    (rest : rarch_context σ → Bool × rarch_context σ) (h0 : log_extends g0 g)
    (hr : ∀ g, log_extends g (rest g).2) : log_extends g0 (unless_halted g rest).2 := by
  unfold unless_halted
  split_ifs
  · exact h0
  · exact log_extends_trans h0 (hr g)

theorem rarch_assert_log_extends (cond : Bool) (g : rarch_context σ) :
    log_extends g (rarch_assert cond g) := by
  unfold rarch_assert
  split_ifs
  · exact log_extends_refl g
  · exact log_extends_of_eq rfl

theorem init_cheats_eq (cfg : build_config) (g : rarch_context σ) : init_cheats cfg g = g := by
  unfold init_cheats
  simp

theorem init_remapping_log_extends (ext : externals σ) (g : rarch_context σ) :
    log_extends g (init_remapping ext g) := by
  unfold init_remapping
  split_ifs
  · exact log_extends_refl g
  · exact extern_call_log_extends ext _ _ g

theorem deinit_autosave_log_extends (ext : externals σ) (g : rarch_context σ) :
    log_extends g (deinit_autosave ext g) := ⟨_, rfl⟩

theorem init_autosave_log_extends (ext : externals σ) (g : rarch_context σ) :
    log_extends g (init_autosave ext g) := by
  unfold init_autosave
  split
  · exact log_extends_refl g
  · dsimp only
    split_ifs
    · exact log_extends_refl g
    · exact ⟨_, rfl⟩
    · exact ⟨_, rfl⟩

theorem cmd_autosave_deinit_log_extends (cfg : build_config) (ext : externals σ)
    (g : rarch_context σ) : log_extends g (cmd_autosave_deinit cfg ext g).2 := by
  unfold cmd_autosave_deinit
  exact log_extends_ite _ _ _ _ (deinit_autosave_log_extends ext g) (log_extends_refl g)

theorem cmd_cheats_deinit_log_extends (ext : externals σ) (g : rarch_context σ) :
    log_extends g (cmd_cheats_deinit ext g).2 :=
  log_extends_trans (free_handle_log_extends ext _ _ _) (log_extends_of_eq rfl)

theorem cmd_dsp_filter_deinit_log_extends (ext : externals σ) (g : rarch_context σ) :
    log_extends g (cmd_dsp_filter_deinit ext g).2 :=
  log_extends_trans (free_handle_log_extends ext _ _ _) (log_extends_of_eq rfl)

theorem cmd_history_deinit_log_extends (ext : externals σ) (g : rarch_context σ) :
    log_extends g (cmd_history_deinit ext g).2 :=
  log_extends_trans (free_handle_log_extends ext _ _ _) (log_extends_of_eq rfl)

theorem cmd_core_info_deinit_log_extends (ext : externals σ) (g : rarch_context σ) :
    log_extends g (cmd_core_info_deinit ext g).2 :=
  log_extends_trans (free_handle_log_extends ext _ _ _) (log_extends_of_eq rfl)

theorem cmd_bsv_movie_deinit_log_extends (ext : externals σ) (g : rarch_context σ) :
    log_extends g (cmd_bsv_movie_deinit ext g).2 :=
  log_extends_trans (free_handle_log_extends ext _ _ _) (log_extends_of_eq rfl)

/-- The Init cases that start with a nested Deinit: what follows the entry of the
nested call continues the log. -/
theorem cmd_cheats_init_log (cfg : build_config) (ext : externals σ) (g : rarch_context σ) :
    log_extends (log_call (rarch_call.command rarch_cmd.RARCH_CMD_CHEATS_DEINIT) g)
      (cmd_cheats_init cfg ext g).2 := by
  unfold cmd_cheats_init invoke
  dsimp only
  rw [init_cheats_eq]
  exact cmd_cheats_deinit_log_extends ext _

theorem cmd_remapping_init_log (ext : externals σ) (g : rarch_context σ) :
    log_extends (log_call (rarch_call.command rarch_cmd.RARCH_CMD_REMAPPING_DEINIT) g)
      (cmd_remapping_init ext g).2 := by
  unfold cmd_remapping_init invoke cmd_remapping_deinit
  exact init_remapping_log_extends ext _

theorem cmd_autosave_init_log (cfg : build_config) (ext : externals σ) (g : rarch_context σ) :
    log_extends (log_call (rarch_call.command rarch_cmd.RARCH_CMD_AUTOSAVE_DEINIT) g)
      (cmd_autosave_init cfg ext g).2 := by
  unfold cmd_autosave_init invoke
  refine log_extends_trans (cmd_autosave_deinit_log_extends cfg ext _) ?_
  exact log_extends_ite _ _ _ _ (init_autosave_log_extends ext _) (log_extends_refl _)

theorem cmd_overlay_deinit_log_extends (cfg : build_config) (ext : externals σ)
    (g : rarch_context σ) : log_extends g (cmd_overlay_deinit cfg ext g).2 := by
  unfold cmd_overlay_deinit
  refine log_extends_ite_snd _ _ _ _ ?_ (log_extends_refl g)
  exact log_extends_trans (free_handle_log_extends ext _ _ _) (log_extends_of_eq rfl)

theorem cmd_overlay_init_log (cfg : build_config) (ext : externals σ) (g : rarch_context σ) :
    log_extends (log_call (rarch_call.command rarch_cmd.RARCH_CMD_OVERLAY_DEINIT) g)
      (cmd_overlay_init cfg ext g).2 := by
  unfold cmd_overlay_init invoke
  refine log_extends_trans (cmd_overlay_deinit_log_extends cfg ext _) ?_
  dsimp only
  refine log_extends_ite_snd _ _ _ _ (log_extends_refl _) ?_
  refine log_extends_ite_snd _ _ _ _ (log_extends_refl _) ?_
  exact log_extends_trans (extern_call_log_extends ext _ _ _) (log_extends_of_eq rfl)

theorem cmd_dsp_filter_init_log (ext : externals σ) (g : rarch_context σ) :
    log_extends (log_call (rarch_call.command rarch_cmd.RARCH_CMD_DSP_FILTER_DEINIT) g)
      (cmd_dsp_filter_init ext g).2 := by
  unfold cmd_dsp_filter_init invoke
  refine log_extends_trans (cmd_dsp_filter_deinit_log_extends ext _) ?_
  dsimp only
  refine log_extends_ite_snd _ _ _ _ (log_extends_refl _) ?_
  exact log_extends_trans (extern_call_log_extends ext _ _ _) (log_extends_of_eq rfl)

theorem cmd_history_init_log (ext : externals σ) (g : rarch_context σ) :
    log_extends (log_call (rarch_call.command rarch_cmd.RARCH_CMD_HISTORY_DEINIT) g)
      (cmd_history_init ext g).2 := by
  unfold cmd_history_init invoke
  refine log_extends_trans (cmd_history_deinit_log_extends ext _) ?_
  dsimp only
  refine log_extends_ite_snd _ _ _ _ (log_extends_refl _) ?_
  exact log_extends_trans (extern_call_log_extends ext _ _ _) (log_extends_of_eq rfl)

theorem cmd_core_info_init_log (ext : externals σ) (g : rarch_context σ) :
    log_extends (log_call (rarch_call.command rarch_cmd.RARCH_CMD_CORE_INFO_DEINIT) g)
      (cmd_core_info_init ext g).2 := by
  unfold cmd_core_info_init invoke
  refine log_extends_trans (cmd_core_info_deinit_log_extends ext _) ?_
  dsimp only
  refine log_extends_ite_snd _ _ _ _ ?_ (log_extends_refl _)
  exact log_extends_trans (extern_call_log_extends ext _ _ _) (log_extends_of_eq rfl)

theorem cmd_shader_dir_init_log (ext : externals σ) (g : rarch_context σ) :
    log_extends (log_call (rarch_call.command rarch_cmd.RARCH_CMD_SHADER_DIR_DEINIT) g)
      (cmd_shader_dir_init ext g).2 := by
  have hd : ∀ x : rarch_context σ, log_extends x (cmd_shader_dir_deinit x).2 :=
    fun x => ⟨_, rfl⟩
  have hi : ∀ x : rarch_context σ,
      log_extends x (invoke rarch_cmd.RARCH_CMD_SHADER_DIR_DEINIT cmd_shader_dir_deinit x).2 :=
    fun x => log_extends_trans (log_call_log_extends _ x) (hd _)
  unfold cmd_shader_dir_init
  lift_lets
  intro g1 listed g2
  have h1 : log_extends (log_call (rarch_call.command rarch_cmd.RARCH_CMD_SHADER_DIR_DEINIT) g)
      g1 := hd _
  have h2 : log_extends g1 g2 := ⟨_, rfl⟩
  refine log_extends_ite_snd _ _ _ _ h1 ?_
  split
  · exact log_extends_trans (log_extends_trans h1 h2) (hi g2)
  · exact log_extends_ite_snd _ _ _ _ (log_extends_trans (log_extends_trans h1 h2) (hi g2))
      (log_extends_trans (log_extends_trans h1 h2) ⟨_, rfl⟩)

theorem cmd_msg_queue_deinit_log_extends (ext : externals σ) (g : rarch_context σ) :
    log_extends g (cmd_msg_queue_deinit ext g).2 := by
  unfold cmd_msg_queue_deinit
  split
  · exact ⟨_, rfl⟩
  · exact log_extends_of_eq rfl

theorem msg_queue_new_asserted_log_extends (ext : externals σ) (g : rarch_context σ) :
    log_extends g (msg_queue_new_asserted ext g).2 := by
  unfold msg_queue_new_asserted
  exact log_extends_trans (extern_call_log_extends ext _ _ g) (rarch_assert_log_extends _ _)

theorem cmd_msg_queue_init_log (cfg : build_config) (ext : externals σ) (g : rarch_context σ) :
    log_extends (log_call (rarch_call.command rarch_cmd.RARCH_CMD_MSG_QUEUE_DEINIT) g)
      (cmd_msg_queue_init cfg ext g).2 := by
  have hnew : ∀ g : rarch_context σ, log_extends g (msg_queue_new_asserted ext g).2 :=
    msg_queue_new_asserted_log_extends ext
  unfold cmd_msg_queue_init invoke
  refine unless_halted_log_extends _ _ _ ?_ fun g2 => ?_
  · refine log_extends_trans (cmd_msg_queue_deinit_log_extends ext _) ?_
    exact log_extends_ite _ _ _ _ (log_extends_trans (hnew _) (log_extends_of_eq rfl))
      (log_extends_refl _)
  refine unless_halted_log_extends _ _ _ ?_ fun g3 => ?_
  · exact log_extends_ite _ _ _ _ (log_extends_trans (hnew _) (log_extends_of_eq rfl))
      (log_extends_refl _)
  refine unless_halted_log_extends _ _ _ ?_ fun g4 => ?_
  · exact log_extends_ite _ _ _ _ (log_extends_trans (hnew _) (log_extends_of_eq rfl))
      (log_extends_refl _)
  refine unless_halted_log_extends _ _ _ ?_ fun g5 => log_extends_refl _
  exact log_extends_ite _ _ _ _ (log_extends_trans (hnew _) (log_extends_of_eq rfl))
    (log_extends_refl _)

theorem init_movie_log_extends (cfg : build_config) (ext : externals σ) (g : rarch_context σ) :
    log_extends g (init_movie cfg ext g) := by
  unfold init_movie
  dsimp only
  refine log_extends_ite _ _ _ _ ?_ (log_extends_ite _ _ _ _ ?_ (log_extends_refl g))
  · exact log_extends_ite _ _ _ _ ⟨_, rfl⟩ ⟨_, rfl⟩
  · exact log_extends_ite _ _ _ _ ⟨_, rfl⟩ ⟨_, rfl⟩

theorem cmd_bsv_movie_init_log (cfg : build_config) (ext : externals σ) (g : rarch_context σ) :
    log_extends (log_call (rarch_call.command rarch_cmd.RARCH_CMD_BSV_MOVIE_DEINIT) g)
      (cmd_bsv_movie_init cfg ext g).2 := by
  unfold cmd_bsv_movie_init invoke
  refine unless_halted_log_extends _ _ _ ?_ fun g2 => log_extends_refl _
  exact log_extends_trans (cmd_bsv_movie_deinit_log_extends ext _)
    (init_movie_log_extends cfg ext _)

theorem cmd_netplay_deinit_log_extends (cfg : build_config) (ext : externals σ)
    (g : rarch_context σ) : log_extends g (cmd_netplay_deinit cfg ext g).2 := by
  unfold cmd_netplay_deinit
  refine log_extends_ite_snd _ _ _ _ ?_ (log_extends_refl g)
  exact log_extends_trans (free_handle_log_extends ext _ _ _) (log_extends_of_eq rfl)

theorem init_netplay_log_extends (cfg : build_config) (ext : externals σ)
    (g : rarch_context σ) : log_extends g (init_netplay cfg ext g).2 := by
  unfold init_netplay
  refine log_extends_ite_snd _ _ _ _ (log_extends_refl g) ?_
  refine log_extends_ite_snd _ _ _ _ (log_extends_refl g) ?_
  lift_lets
  intro cbs s1 g1 made s2 g2 g3
  have e1 : log_extends g cbs.2 := extern_call_log_extends ext _ _ g
  have e2 : log_extends cbs.2 g1 :=
    log_extends_ite _ _ _ _ (log_extends_of_eq rfl) (log_extends_refl _)
  have e3 : log_extends g1 made.2 := extern_call_log_extends ext _ _ g1
  have e4 : log_extends made.2 g2 := log_extends_of_eq rfl
  have e5 : log_extends g2 g3 := log_extends_of_eq rfl
  have e : log_extends g g2 := log_extends_trans (log_extends_trans (log_extends_trans e1 e2) e3) e4
  refine log_extends_ite_snd _ _ _ _ e ?_
  exact log_extends_ite_snd _ _ _ _
    (log_extends_trans (log_extends_trans e e5) (log_extends_of_eq rfl))
    (log_extends_trans e e5)

theorem cmd_netplay_init_log (cfg : build_config) (ext : externals σ) (g : rarch_context σ) :
    log_extends (log_call (rarch_call.command rarch_cmd.RARCH_CMD_NETPLAY_DEINIT) g)
      (cmd_netplay_init cfg ext g).2 := by
  unfold cmd_netplay_init invoke
  refine log_extends_trans (cmd_netplay_deinit_log_extends cfg ext _) ?_
  dsimp only
  refine log_extends_ite_snd _ _ _ _ ?_ (log_extends_refl _)
  exact log_extends_ite_snd _ _ _ _ (init_netplay_log_extends cfg ext _)
    (init_netplay_log_extends cfg ext _)

theorem cmd_command_deinit_log_extends (cfg : build_config) (ext : externals σ)
    (g : rarch_context σ) : log_extends g (cmd_command_deinit cfg ext g).2 := by
  unfold cmd_command_deinit
  refine log_extends_ite_snd _ _ _ _ ?_ (log_extends_refl g)
  exact log_extends_trans (free_handle_log_extends ext _ _ _) (log_extends_of_eq rfl)

theorem init_command_log_extends (ext : externals σ) (g : rarch_context σ) :
    log_extends g (init_command ext g) := by
  unfold init_command
  exact log_extends_ite _ _ _ _ (log_extends_refl g) ⟨_, rfl⟩

theorem cmd_command_init_log (cfg : build_config) (ext : externals σ) (g : rarch_context σ) :
    log_extends (log_call (rarch_call.command rarch_cmd.RARCH_CMD_COMMAND_DEINIT) g)
      (cmd_command_init cfg ext g).2 := by
  unfold cmd_command_init invoke
  refine log_extends_trans (cmd_command_deinit_log_extends cfg ext _) ?_
  exact log_extends_ite_snd _ _ _ _ (init_command_log_extends ext _) (log_extends_refl _)

/-- The Init cases that start with a nested Deinit: everything else that the
case enters in the log comes after what the nested Deinit entered. -/
theorem cmd_cheats_init_after (cfg : build_config) (ext : externals σ) (g : rarch_context σ) :
    log_extends (invoke rarch_cmd.RARCH_CMD_CHEATS_DEINIT (cmd_cheats_deinit ext) g).2
      (cmd_cheats_init cfg ext g).2 := by
  unfold cmd_cheats_init
  dsimp only
  rw [init_cheats_eq]
  exact log_extends_refl _

theorem cmd_remapping_init_after (ext : externals σ) (g : rarch_context σ) :
    log_extends (invoke rarch_cmd.RARCH_CMD_REMAPPING_DEINIT cmd_remapping_deinit g).2
      (cmd_remapping_init ext g).2 := by
  unfold cmd_remapping_init
  exact init_remapping_log_extends ext _

theorem cmd_autosave_init_after (cfg : build_config) (ext : externals σ)
    (g : rarch_context σ) :
    log_extends (invoke rarch_cmd.RARCH_CMD_AUTOSAVE_DEINIT (cmd_autosave_deinit cfg ext) g).2
      (cmd_autosave_init cfg ext g).2 := by
  unfold cmd_autosave_init
  exact log_extends_ite _ _ _ _ (init_autosave_log_extends ext _) (log_extends_refl _)

theorem cmd_overlay_init_after (cfg : build_config) (ext : externals σ)
    (g : rarch_context σ) :
    log_extends (invoke rarch_cmd.RARCH_CMD_OVERLAY_DEINIT (cmd_overlay_deinit cfg ext) g).2
      (cmd_overlay_init cfg ext g).2 := by
  unfold cmd_overlay_init
  dsimp only
  refine log_extends_ite_snd _ _ _ _ (log_extends_refl _) ?_
  refine log_extends_ite_snd _ _ _ _ (log_extends_refl _) ?_
  exact log_extends_trans (extern_call_log_extends ext _ _ _) (log_extends_of_eq rfl)

theorem cmd_dsp_filter_init_after (ext : externals σ) (g : rarch_context σ) :
    log_extends (invoke rarch_cmd.RARCH_CMD_DSP_FILTER_DEINIT (cmd_dsp_filter_deinit ext) g).2
      (cmd_dsp_filter_init ext g).2 := by
  unfold cmd_dsp_filter_init
  dsimp only
  refine log_extends_ite_snd _ _ _ _ (log_extends_refl _) ?_
  exact log_extends_trans (extern_call_log_extends ext _ _ _) (log_extends_of_eq rfl)

theorem cmd_history_init_after (ext : externals σ) (g : rarch_context σ) :
    log_extends (invoke rarch_cmd.RARCH_CMD_HISTORY_DEINIT (cmd_history_deinit ext) g).2
      (cmd_history_init ext g).2 := by
  unfold cmd_history_init
  dsimp only
  refine log_extends_ite_snd _ _ _ _ (log_extends_refl _) ?_
  exact log_extends_trans (extern_call_log_extends ext _ _ _) (log_extends_of_eq rfl)

theorem cmd_core_info_init_after (ext : externals σ) (g : rarch_context σ) :
    log_extends (invoke rarch_cmd.RARCH_CMD_CORE_INFO_DEINIT (cmd_core_info_deinit ext) g).2
      (cmd_core_info_init ext g).2 := by
  unfold cmd_core_info_init
  dsimp only
  refine log_extends_ite_snd _ _ _ _ ?_ (log_extends_refl _)
  exact log_extends_trans (extern_call_log_extends ext _ _ _) (log_extends_of_eq rfl)

theorem cmd_shader_dir_init_after (ext : externals σ) (g : rarch_context σ) :
    log_extends (invoke rarch_cmd.RARCH_CMD_SHADER_DIR_DEINIT cmd_shader_dir_deinit g).2
      (cmd_shader_dir_init ext g).2 := by
  have hd : ∀ x : rarch_context σ, log_extends x (cmd_shader_dir_deinit x).2 :=
    fun x => ⟨_, rfl⟩
  have hi : ∀ x : rarch_context σ,
      log_extends x (invoke rarch_cmd.RARCH_CMD_SHADER_DIR_DEINIT cmd_shader_dir_deinit x).2 :=
    fun x => log_extends_trans (log_call_log_extends _ x) (hd _)
  unfold cmd_shader_dir_init
  lift_lets
  intro g1 listed g2
  have h2 : log_extends g1 g2 := ⟨_, rfl⟩
  refine log_extends_ite_snd _ _ _ _ (log_extends_refl _) ?_
  split
  · exact log_extends_trans h2 (hi g2)
  · exact log_extends_ite_snd _ _ _ _ (log_extends_trans h2 (hi g2))
      (log_extends_trans h2 ⟨_, rfl⟩)

theorem cmd_msg_queue_init_after (cfg : build_config) (ext : externals σ)
    (g : rarch_context σ) :
    log_extends (invoke rarch_cmd.RARCH_CMD_MSG_QUEUE_DEINIT (cmd_msg_queue_deinit ext) g).2
      (cmd_msg_queue_init cfg ext g).2 := by
  have hnew : ∀ g : rarch_context σ, log_extends g (msg_queue_new_asserted ext g).2 :=
    msg_queue_new_asserted_log_extends ext
  unfold cmd_msg_queue_init
  refine unless_halted_log_extends _ _ _ ?_ fun g2 => ?_
  · exact log_extends_ite _ _ _ _ (log_extends_trans (hnew _) (log_extends_of_eq rfl))
      (log_extends_refl _)
  refine unless_halted_log_extends _ _ _ ?_ fun g3 => ?_
  · exact log_extends_ite _ _ _ _ (log_extends_trans (hnew _) (log_extends_of_eq rfl))
      (log_extends_refl _)
  refine unless_halted_log_extends _ _ _ ?_ fun g4 => ?_
  · exact log_extends_ite _ _ _ _ (log_extends_trans (hnew _) (log_extends_of_eq rfl))
      (log_extends_refl _)
  refine unless_halted_log_extends _ _ _ ?_ fun g5 => log_extends_refl _
  exact log_extends_ite _ _ _ _ (log_extends_trans (hnew _) (log_extends_of_eq rfl))
    (log_extends_refl _)

theorem cmd_bsv_movie_init_after (cfg : build_config) (ext : externals σ)
    (g : rarch_context σ) :
    log_extends (invoke rarch_cmd.RARCH_CMD_BSV_MOVIE_DEINIT (cmd_bsv_movie_deinit ext) g).2
      (cmd_bsv_movie_init cfg ext g).2 := by
  unfold cmd_bsv_movie_init
  refine unless_halted_log_extends _ _ _ ?_ fun g2 => log_extends_refl _
  exact init_movie_log_extends cfg ext _

theorem cmd_netplay_init_after (cfg : build_config) (ext : externals σ)
    (g : rarch_context σ) :
    log_extends (invoke rarch_cmd.RARCH_CMD_NETPLAY_DEINIT (cmd_netplay_deinit cfg ext) g).2
      (cmd_netplay_init cfg ext g).2 := by
  unfold cmd_netplay_init
  dsimp only
  refine log_extends_ite_snd _ _ _ _ ?_ (log_extends_refl _)
  exact log_extends_ite_snd _ _ _ _ (init_netplay_log_extends cfg ext _)
    (init_netplay_log_extends cfg ext _)

theorem cmd_command_init_after (cfg : build_config) (ext : externals σ)
    (g : rarch_context σ) :
    log_extends (invoke rarch_cmd.RARCH_CMD_COMMAND_DEINIT (cmd_command_deinit cfg ext) g).2
      (cmd_command_init cfg ext g).2 := by
  unfold cmd_command_init
  exact log_extends_ite_snd _ _ _ _ (init_command_log_extends ext _) (log_extends_refl _)

/-- A case that enters nothing in the log does not start with a command. -/
theorem nothing_logged_first (g r : rarch_context σ) (h : r.log = g.log) (d : rarch_cmd)
    (rest : List rarch_call) (hd : r.log = g.log ++ rarch_call.command d :: rest) : False := by
  rw [h] at hd
  have := congrArg List.length hd
  simp at this

/-- The first entry that a case adds to the log is determined. -/
theorem first_entry_unique (g r : rarch_context σ) (e : rarch_call) (rest1 : List rarch_call)
    (h : r.log = g.log ++ e :: rest1) (d : rarch_cmd)
    (rest : List rarch_call) (hd : r.log = g.log ++ rarch_call.command d :: rest) :
    e = rarch_call.command d := by
  rw [h] at hd
  exact (List.cons.inj (List.append_cancel_left hd)).1

/-- What `init_rewind` enters first in the log, if anything, is the call of
`state_manager_new`. -/
theorem init_rewind_first (cfg : build_config) (ext : externals σ) (g : rarch_context σ) :
    (init_rewind cfg ext g).log = g.log
    ∨ ∃ args ret rest, (init_rewind cfg ext g).log
        = g.log ++ rarch_call.external extern_fn.state_manager_new args ret :: rest := by
  unfold init_rewind
  split_ifs
  · exact Or.inl rfl
  · exact Or.inl rfl
  · exact Or.inl rfl
  · lift_lets
    intro g1 made s1 g2 state g3
    split_ifs
    · exact Or.inl rfl
    · have e1 : made.2.log = g.log ++ [rarch_call.external extern_fn.state_manager_new
          [cval.int g1.rewind_size, cval.int g1.rewind_buffer_size] made.1] := rfl
      have e2 : log_extends made.2
          (extern_call ext extern_fn.state_manager_push_do [cval.of_handle g3.rewind_state]
            g3).2 :=
        log_extends_trans
          (log_extends_trans
            (log_extends_trans (log_extends_of_eq rfl : log_extends made.2 g2)
              (extern_call_log_extends ext _ _ g2))
            (extern_call_log_extends ext _ _ state.2))
          (extern_call_log_extends ext _ _ g3)
      obtain ⟨l, hl⟩ := e2
      exact Or.inr ⟨_, _, l, by rw [hl, e1, List.append_assoc]; rfl⟩

theorem rarch_init_savefile_paths_log_extends (cfg : build_config) (ext : externals σ)
    (g g1 : rarch_context σ) (h : rarch_init_savefile_paths cfg ext g = some g1) :
    log_extends g g1 := by
  unfold rarch_init_savefile_paths invoke cmd_savefiles_deinit log_call at h
  simp only at h
  split_ifs at h <;> simp only [Option.some.injEq] at h <;> subst h <;> exact ⟨_, rfl⟩

theorem fill_pathnames_log_extends (cfg : build_config) (ext : externals σ)
    (g g1 : rarch_context σ) (h : fill_pathnames cfg ext g = some g1) :
    log_extends g g1 := by
  unfold fill_pathnames at h
  cases h1 : rarch_init_savefile_paths cfg ext g with
  | none => simp [h1] at h
  | some g0 =>
    have e0 := rarch_init_savefile_paths_log_extends cfg ext g g0 h1
    simp only [h1] at h
    split_ifs at h <;> simp only [Option.some.injEq] at h <;> subst h <;>
      exact log_extends_trans e0 (log_extends_of_eq rfl)

theorem set_savestate_auto_index_log_extends (cfg : build_config) (ext : externals σ)
    (g : rarch_context σ) : log_extends g (set_savestate_auto_index cfg ext g) := by
  unfold set_savestate_auto_index
  split_ifs
  · exact log_extends_refl g
  · dsimp only
    split
    · exact log_extends_refl g
    · exact log_extends_of_eq rfl

theorem load_save_files_log_extends (ext : externals σ) (g : rarch_context σ) :
    log_extends g (load_save_files ext g).2 := by
  unfold load_save_files
  split
  · exact log_extends_refl g
  · split_ifs
    · exact log_extends_refl g
    · exact foldl_log_extends
        (fun g (e : cstring × Nat) =>
          (extern_call ext extern_fn.load_ram_file [cval.str e.1, cval.int e.2] g).2)
        (fun g e => extern_call_log_extends ext _ _ g) _ _

theorem load_auto_state_log_extends (cfg : build_config) (ext : externals σ)
    (g : rarch_context σ) : log_extends g (load_auto_state cfg ext g) := by
  unfold load_auto_state
  split_ifs
  · exact log_extends_refl g
  · exact log_extends_refl g
  · lift_lets
    intro savestate_name_auto found
    have h1 : log_extends g found.2 := extern_call_log_extends ext _ _ g
    refine log_extends_ite _ _ _ _ h1 ?_
    exact log_extends_trans h1 (log_extends_of_eq rfl)

theorem init_system_av_info_log_extends (ext : externals σ) (g : rarch_context σ) :
    log_extends g (init_system_av_info ext g) := by
  unfold init_system_av_info
  lift_lets
  intro g1 now
  exact log_extends_trans
    (log_extends_trans (extern_call_log_extends ext _ _ g) (extern_call_log_extends ext _ _ g1))
    (log_extends_of_eq rfl)

theorem init_content_log_extends (cfg : build_config) (ext : externals σ)
    (g : rarch_context σ) : log_extends g (init_content cfg ext g).2 := by
  unfold init_content
  refine log_extends_ite_snd _ _ _ _ (log_extends_refl g) ?_
  lift_lets
  intro g1
  have h1 : log_extends g g1 := by
    by_cases hn : (!g.libretro_no_content) = true
    · cases hf : fill_pathnames cfg ext g with
      | none =>
        have e : g1 = rarch_assert false g := by
          show (if _ then _ else _) = _
          rw [if_pos hn, hf]
        rw [e]
        exact rarch_assert_log_extends _ _
      | some x =>
        have e : g1 = x := by
          show (if _ then _ else _) = _
          rw [if_pos hn, hf]
        rw [e]
        exact fill_pathnames_log_extends cfg ext g x hf
    · have e : g1 = g := by
        show (if _ then _ else _) = _
        rw [if_neg hn]
      rw [e]
      exact log_extends_refl g
  refine unless_halted_log_extends _ _ _ h1 fun x => ?_
  lift_lets
  intro loaded g2 g3 g4 g5
  have hl : log_extends x loaded.2 := extern_call_log_extends ext _ _ x
  refine log_extends_ite_snd _ _ _ _ hl ?_
  refine log_extends_ite_snd _ _ _ _ hl ?_
  have h2 : log_extends loaded.2 g2 := set_savestate_auto_index_log_extends cfg ext _
  have h3 : log_extends g2 g3 := load_save_files_log_extends ext _
  have h4 : log_extends g3 g4 := load_auto_state_log_extends cfg ext _
  have h5 : log_extends g4 g5 :=
    log_extends_trans (log_call_log_extends _ _)
      (log_extends_trans (log_call_log_extends _ _) (cmd_bsv_movie_init_log cfg ext _))
  have h05 : log_extends x g5 :=
    log_extends_trans (log_extends_trans (log_extends_trans (log_extends_trans hl h2) h3) h4) h5
  refine unless_halted_log_extends _ _ _ h05 fun y => ?_
  exact log_extends_trans (log_call_log_extends _ _)
    (log_extends_trans (log_call_log_extends _ _) (cmd_netplay_init_log cfg ext _))

/-- What `RARCH_CMD_CORE_INIT` enters first in the log is the call of
`pretro_init`. -/
theorem cmd_core_init_first (cfg : build_config) (ext : externals σ) (g : rarch_context σ) :
    ∃ rest, (cmd_core_init cfg ext g).2.log
      = g.log ++ rarch_call.external extern_fn.pretro_init []
          (ext.call extern_fn.pretro_init [] g.world).1 :: rest := by
  have hcore : ∃ rest, (init_core cfg ext g).2.log
      = g.log ++ rarch_call.external extern_fn.pretro_init []
          (ext.call extern_fn.pretro_init [] g.world).1 :: rest := by
    have h : log_extends (extern_call ext extern_fn.pretro_init [] g).2
        (init_core cfg ext g).2 := by
      unfold init_core
      lift_lets
      intro g1 g2 r
      have h2 : log_extends g1 g2 := log_extends_of_eq rfl
      have hr : log_extends g2 r.2 := init_content_log_extends cfg ext g2
      refine unless_halted_log_extends _ _ _ (log_extends_trans h2 hr) fun x => ?_
      lift_lets
      intro g4
      refine log_extends_ite_snd _ _ _ _ (log_extends_refl x) ?_
      exact log_extends_trans (extern_call_log_extends ext _ _ x)
        (init_system_av_info_log_extends ext _)
    obtain ⟨l, hl⟩ := h
    exact ⟨l, by rw [hl]; simp [extern_call]⟩
  unfold cmd_core_init
  dsimp only
  split_ifs <;> exact hcore

/-- What `RARCH_CMD_SAVEFILES_INIT` enters first in the log, if anything, is the
command `RARCH_CMD_AUTOSAVE_INIT`. -/
theorem cmd_savefiles_init_first (cfg : build_config) (ext : externals σ)
    (g : rarch_context σ) :
    (cmd_savefiles_init cfg ext g).2.log = g.log
    ∨ ∃ rest, (cmd_savefiles_init cfg ext g).2.log
        = g.log ++ rarch_call.command rarch_cmd.RARCH_CMD_AUTOSAVE_INIT :: rest := by
  unfold cmd_savefiles_init
  lift_lets
  intro g1
  split_ifs
  · right
    have h : log_extends (log_call (rarch_call.command rarch_cmd.RARCH_CMD_AUTOSAVE_INIT) g1)
        (invoke rarch_cmd.RARCH_CMD_AUTOSAVE_INIT (cmd_autosave_init cfg ext) g1).2 :=
      log_extends_trans (log_call_log_extends _ _) (cmd_autosave_init_log cfg ext _)
    obtain ⟨l, hl⟩ := h
    exact ⟨l, by rw [hl]; simp [log_call]⟩
  · exact Or.inl rfl

/-- C16, amended: each of the twelve Init commands CHEATS, REMAPPING, AUTOSAVE,
OVERLAY, DSP_FILTER, HISTORY, CORE_INFO, SHADER_DIR, MSG_QUEUE, BSV_MOVIE, NETPLAY
and COMMAND executes its own paired Deinit command through `rarch_main_command`
before any initialization work: the nested call is the first entry that the
command adds to the call log, and everything else that the command enters in
the log comes after all that the nested Deinit, run on the context at entry,
has entered.  `RARCH_CMD_REWIND_INIT`, `RARCH_CMD_CORE_INIT`,
`RARCH_CMD_DRIVERS_INIT`, `RARCH_CMD_SAVEFILES_INIT` and `RARCH_CMD_NETWORK_INIT`
call no Deinit command first: what they enter first in the log, if anything, is
not a Deinit command. -/
theorem init_commands_deinit_first (cfg : build_config) (ext : externals σ)
    (cmd : rarch_cmd) (g : rarch_context σ) :
    (cmd ∈ init_commands_with_deinit →
      ∃ deinit, paired_deinit cmd = some deinit
        ∧ (∃ rest, (rarch_main_command cfg ext cmd g).2.log
            = g.log ++ rarch_call.command deinit :: rest)
        ∧ log_extends
            (rarch_main_command cfg ext deinit (log_call (rarch_call.command deinit) g)).2
            (rarch_main_command cfg ext cmd g).2)
    ∧ (cmd ∈ init_commands_without_deinit →
      ∀ d rest, (rarch_main_command cfg ext cmd g).2.log
          = g.log ++ rarch_call.command d :: rest → d ∉ deinit_command_names) := by
  have key : ∀ (d : rarch_cmd) (r : rarch_context σ),
      log_extends (log_call (rarch_call.command d) g) r →
      ∃ rest, r.log = g.log ++ rarch_call.command d :: rest := by
    rintro d r ⟨l, hl⟩
    exact ⟨l, by rw [hl]; simp [log_call]⟩
  constructor
  · intro hcmd
    simp only [init_commands_with_deinit, List.mem_cons, List.mem_singleton,
      List.not_mem_nil, or_false] at hcmd
    rcases hcmd with h | h | h | h | h | h | h | h | h | h | h | h <;> subst h
    · exact ⟨_, rfl, key _ _ (cmd_cheats_init_log cfg ext g), cmd_cheats_init_after cfg ext g⟩
    · exact ⟨_, rfl, key _ _ (cmd_remapping_init_log ext g), cmd_remapping_init_after ext g⟩
    · exact ⟨_, rfl, key _ _ (cmd_autosave_init_log cfg ext g),
        cmd_autosave_init_after cfg ext g⟩
    · exact ⟨_, rfl, key _ _ (cmd_overlay_init_log cfg ext g),
        cmd_overlay_init_after cfg ext g⟩
    · exact ⟨_, rfl, key _ _ (cmd_dsp_filter_init_log ext g), cmd_dsp_filter_init_after ext g⟩
    · exact ⟨_, rfl, key _ _ (cmd_history_init_log ext g), cmd_history_init_after ext g⟩
    · exact ⟨_, rfl, key _ _ (cmd_core_info_init_log ext g), cmd_core_info_init_after ext g⟩
    · exact ⟨_, rfl, key _ _ (cmd_shader_dir_init_log ext g), cmd_shader_dir_init_after ext g⟩
    · exact ⟨_, rfl, key _ _ (cmd_msg_queue_init_log cfg ext g),
        cmd_msg_queue_init_after cfg ext g⟩
    · exact ⟨_, rfl, key _ _ (cmd_bsv_movie_init_log cfg ext g),
        cmd_bsv_movie_init_after cfg ext g⟩
    · exact ⟨_, rfl, key _ _ (cmd_netplay_init_log cfg ext g),
        cmd_netplay_init_after cfg ext g⟩
    · exact ⟨_, rfl, key _ _ (cmd_command_init_log cfg ext g),
        cmd_command_init_after cfg ext g⟩
  · intro hcmd d rest hd
    simp only [init_commands_without_deinit, List.mem_cons, List.mem_singleton,
      List.not_mem_nil, or_false] at hcmd
    rcases hcmd with h | h | h | h | h <;> subst h
    · rcases init_rewind_first cfg ext g with h | ⟨args, ret, rest1, h⟩
      · exact (nothing_logged_first g _ h d rest hd).elim
      · exact absurd (first_entry_unique g _ _ rest1 h d rest hd) (by simp)
    · obtain ⟨rest1, h⟩ := cmd_core_init_first cfg ext g
      exact absurd (first_entry_unique g _ _ rest1 h d rest hd) (by simp)
    · have h : (cmd_drivers_init ext g).2.log
          = g.log ++ rarch_call.external extern_fn.init_drivers [cval.enum "DRIVERS_CMD_ALL"]
              (ext.call extern_fn.init_drivers [cval.enum "DRIVERS_CMD_ALL"] g.world).1
            :: [] := rfl
      exact absurd (first_entry_unique g _ _ [] h d rest hd) (by simp)
    · rcases cmd_savefiles_init_first cfg ext g with h | ⟨rest1, h⟩
      · exact (nothing_logged_first g _ h d rest hd).elim
      · have e := first_entry_unique g _ _ rest1 h d rest hd
        rw [← rarch_call.command.inj e]
        decide
    · by_cases hn : cfg.HAVE_NETWORKING = true
      · have h : (cmd_network_init cfg ext g).2.log
            = g.log ++ rarch_call.external extern_fn.network_init []
                (ext.call extern_fn.network_init [] g.world).1 :: [] := by
          simp [cmd_network_init, hn, extern_call]
        exact absurd (first_entry_unique g _ _ [] h d rest hd) (by simp)
      · have h : (cmd_network_init cfg ext g).2.log = g.log := by
          simp [cmd_network_init, hn]
        exact (nothing_logged_first g _ h d rest hd).elim

end init_logs

/-- C16, the counterexample: with rewind enabled, `RARCH_CMD_REWIND_INIT` goes
straight to `state_manager_new`; no `RARCH_CMD_REWIND_DEINIT` is entered in the
log. -/
theorem rewind_init_skips_deinit :
    (rarch_main_command sample_config sample_externals rarch_cmd.RARCH_CMD_REWIND_INIT
      { sample_context with rewind_enable := true }).2.log
    = [rarch_call.external extern_fn.state_manager_new [cval.int 1024, cval.int 20971520]
        (cval.ptr 1),
      rarch_call.external extern_fn.state_manager_push_where [cval.ptr 1] (cval.ptr 10),
      rarch_call.external extern_fn.pretro_serialize [cval.ptr 10, cval.int 1024]
        (cval.bool true),
      rarch_call.external extern_fn.state_manager_push_do [cval.ptr 1] (cval.bool true)] := by
  decide

/-- The other five Init commands that do not start with their own Deinit, in the
example world: `RARCH_CMD_RECORD_INIT` calls `RARCH_CMD_HISTORY_DEINIT`,
`RARCH_CMD_DRIVERS_INIT` and `RARCH_CMD_NETWORK_INIT` call their outside function
only, `RARCH_CMD_SAVEFILES_INIT` calls `RARCH_CMD_AUTOSAVE_INIT`, and
`RARCH_CMD_CORE_INIT` starts with `pretro_init` and never calls
`RARCH_CMD_CORE_DEINIT`. -/
theorem init_commands_without_own_deinit :
    (rarch_main_command sample_config sample_externals rarch_cmd.RARCH_CMD_RECORD_INIT
      sample_context).2.log
      = [rarch_call.command rarch_cmd.RARCH_CMD_HISTORY_DEINIT,
        rarch_call.external extern_fn.recording_init [] (cval.bool true)]
    ∧ (rarch_main_command sample_config sample_externals rarch_cmd.RARCH_CMD_DRIVERS_INIT
      sample_context).2.log
      = [rarch_call.external extern_fn.init_drivers [cval.enum "DRIVERS_CMD_ALL"]
        (cval.bool true)]
    ∧ (rarch_main_command sample_config sample_externals rarch_cmd.RARCH_CMD_NETWORK_INIT
      sample_context).2.log
      = [rarch_call.external extern_fn.network_init [] (cval.bool true)]
    ∧ (rarch_main_command sample_config sample_externals rarch_cmd.RARCH_CMD_SAVEFILES_INIT
      { sample_context with use_sram := true }).2.log
      = [rarch_call.command rarch_cmd.RARCH_CMD_AUTOSAVE_INIT,
        rarch_call.command rarch_cmd.RARCH_CMD_AUTOSAVE_DEINIT]
    ∧ (rarch_main_command sample_config sample_externals rarch_cmd.RARCH_CMD_CORE_INIT
      sample_context).2.log.head?
      = some (rarch_call.external extern_fn.pretro_init [] (cval.bool true))
    ∧ rarch_call.command rarch_cmd.RARCH_CMD_CORE_DEINIT
      ∉ (rarch_main_command sample_config sample_externals rarch_cmd.RARCH_CMD_CORE_INIT
        sample_context).2.log := by
  decide

/-- What `RARCH_CMD_AUTOSAVE_INIT` enters in the log, in the example world with
two save files on a core with save RAM and no clock: the nested Deinit, then the
array, the queries of the core's memory and the timer. -/
theorem autosave_init_log_example :
    (rarch_main_command sample_config sample_externals_with_save_ram
      rarch_cmd.RARCH_CMD_AUTOSAVE_INIT sample_context_with_savefiles).2.log
    = [rarch_call.command rarch_cmd.RARCH_CMD_AUTOSAVE_DEINIT,
      rarch_call.external extern_fn.calloc [cval.int 2] (cval.bool true),
      rarch_call.external extern_fn.pretro_get_memory_size [cval.int 0] (cval.int 8192),
      rarch_call.external extern_fn.pretro_get_memory_data [cval.int 0] (cval.ptr 0),
      rarch_call.external extern_fn.pretro_get_memory_size [cval.int 0] (cval.int 8192),
      rarch_call.external extern_fn.autosave_new
        [cval.str "/roms/game.srm".toList, cval.ptr 0, cval.int 8192, cval.int 10]
        (cval.ptr 12),
      rarch_call.external extern_fn.pretro_get_memory_size [cval.int 1] (cval.int 0)] := by
  decide

/-- C16, amended, at examples: `RARCH_CMD_AUTOSAVE_INIT` with two save files, and
`RARCH_CMD_REWIND_INIT` with rewind enabled. -/
theorem init_commands_deinit_first_witness :
    rarch_cmd.RARCH_CMD_AUTOSAVE_INIT ∈ init_commands_with_deinit
    ∧ (∃ deinit, paired_deinit rarch_cmd.RARCH_CMD_AUTOSAVE_INIT = some deinit
      ∧ (∃ rest, (rarch_main_command sample_config sample_externals_with_save_ram
            rarch_cmd.RARCH_CMD_AUTOSAVE_INIT sample_context_with_savefiles).2.log
          = sample_context_with_savefiles.log ++ rarch_call.command deinit :: rest)
      ∧ log_extends
          (rarch_main_command sample_config sample_externals_with_save_ram deinit
            (log_call (rarch_call.command deinit) sample_context_with_savefiles)).2
          (rarch_main_command sample_config sample_externals_with_save_ram
            rarch_cmd.RARCH_CMD_AUTOSAVE_INIT sample_context_with_savefiles).2)
    ∧ rarch_cmd.RARCH_CMD_REWIND_INIT ∈ init_commands_without_deinit
    ∧ ∀ d rest, (rarch_main_command sample_config sample_externals
          rarch_cmd.RARCH_CMD_REWIND_INIT
          { sample_context with rewind_enable := true }).2.log
        = ({ sample_context with rewind_enable := true } : rarch_context sample_world).log
          ++ rarch_call.command d :: rest → d ∉ deinit_command_names :=
  ⟨by decide,
    (init_commands_deinit_first sample_config sample_externals_with_save_ram
      rarch_cmd.RARCH_CMD_AUTOSAVE_INIT sample_context_with_savefiles).1 (by decide),
    by decide,
    (init_commands_deinit_first sample_config sample_externals
      rarch_cmd.RARCH_CMD_REWIND_INIT { sample_context with rewind_enable := true }).2
      (by decide)⟩


/-! ## Movie sessions and rewind -/

section movie
variable {σ : Type}

theorem calls_logged_append (g r : rarch_context σ) (l : List rarch_call)
    (h : r.log = g.log ++ l) : calls_logged g r = l := by
  unfold calls_logged
  rw [h]
  simp

/-- The context that `RARCH_CMD_BSV_MOVIE_INIT` leaves is the one that
`init_movie` leaves after the nested `RARCH_CMD_BSV_MOVIE_DEINIT`. -/
theorem cmd_bsv_movie_init_context (cfg : build_config) (ext : externals σ)
    (g : rarch_context σ) :
    (cmd_bsv_movie_init cfg ext g).2
      = init_movie cfg ext
        (invoke rarch_cmd.RARCH_CMD_BSV_MOVIE_DEINIT (cmd_bsv_movie_deinit ext) g).2 := by
  unfold cmd_bsv_movie_init unless_halted
  dsimp only
  split_ifs <;> rfl

/-- What the nested `RARCH_CMD_BSV_MOVIE_DEINIT` leaves: the handle is null, the
log has the command and, when there was a session, the call that frees it. -/
theorem invoke_bsv_movie_deinit (ext : externals σ) (g : rarch_context σ) :
    (invoke rarch_cmd.RARCH_CMD_BSV_MOVIE_DEINIT (cmd_bsv_movie_deinit ext) g).2.bsv_movie = none
    ∧ (invoke rarch_cmd.RARCH_CMD_BSV_MOVIE_DEINIT (cmd_bsv_movie_deinit ext)
        g).2.rewind_granularity = g.rewind_granularity
    ∧ (invoke rarch_cmd.RARCH_CMD_BSV_MOVIE_DEINIT (cmd_bsv_movie_deinit ext)
        g).2.halted = g.halted
    ∧ (invoke rarch_cmd.RARCH_CMD_BSV_MOVIE_DEINIT (cmd_bsv_movie_deinit ext)
        g).2.bsv_movie_start_playback = g.bsv_movie_start_playback
    ∧ (invoke rarch_cmd.RARCH_CMD_BSV_MOVIE_DEINIT (cmd_bsv_movie_deinit ext)
        g).2.bsv_movie_start_recording = g.bsv_movie_start_recording
    ∧ (invoke rarch_cmd.RARCH_CMD_BSV_MOVIE_DEINIT (cmd_bsv_movie_deinit ext)
        g).2.bsv_movie_start_path = g.bsv_movie_start_path
    ∧ (invoke rarch_cmd.RARCH_CMD_BSV_MOVIE_DEINIT (cmd_bsv_movie_deinit ext)
        g).2.msg_queue = g.msg_queue
    ∧ (g.bsv_movie = none →
        (invoke rarch_cmd.RARCH_CMD_BSV_MOVIE_DEINIT (cmd_bsv_movie_deinit ext) g).2.log
          = g.log ++ [rarch_call.command rarch_cmd.RARCH_CMD_BSV_MOVIE_DEINIT])
    ∧ (∀ h, g.bsv_movie = some h →
        (invoke rarch_cmd.RARCH_CMD_BSV_MOVIE_DEINIT (cmd_bsv_movie_deinit ext) g).2.log
          = g.log ++ [rarch_call.command rarch_cmd.RARCH_CMD_BSV_MOVIE_DEINIT,
            rarch_call.external extern_fn.bsv_movie_free [cval.ptr h]
              (ext.call extern_fn.bsv_movie_free [cval.ptr h] g.world).1]) := by
  unfold invoke cmd_bsv_movie_deinit
  cases hb : g.bsv_movie with
  | none =>
    refine ⟨rfl, ?_, ?_, ?_, ?_, ?_, ?_, ?_, ?_⟩ <;>
      simp [log_call, free_handle, hb]
  | some h =>
    refine ⟨rfl, ?_, ?_, ?_, ?_, ?_, ?_, ?_, ?_⟩ <;>
      simp [log_call, free_handle, hb, extern_call]

/-- What `init_movie` leaves, from a context without a session. -/
theorem init_movie_result (cfg : build_config) (ext : externals σ) (g : rarch_context σ)
    (hnone : g.bsv_movie = none) :
    ((init_movie cfg ext g).halted = none →
      ((init_movie cfg ext g).bsv_movie.isSome → (init_movie cfg ext g).rewind_granularity = 1))
    ∧ ((init_movie cfg ext g).log = g.log
        ∨ ∃ args ret, (init_movie cfg ext g).log
            = g.log ++ [rarch_call.external extern_fn.bsv_movie_init args ret]
          ∧ ((init_movie cfg ext g).halted = none →
              (init_movie cfg ext g).bsv_movie = ret.to_handle))
    ∧ (g.bsv_movie_start_playback = false → g.bsv_movie_start_recording = false →
        init_movie cfg ext g = g) := by
  by_cases hp : g.bsv_movie_start_playback = true
  · refine ⟨?_, Or.inr ⟨[cval.str g.bsv_movie_start_path, cval.enum "RARCH_MOVIE_PLAYBACK"],
      (ext.call extern_fn.bsv_movie_init
        [cval.str g.bsv_movie_start_path, cval.enum "RARCH_MOVIE_PLAYBACK"] g.world).1, ?_, ?_⟩,
      fun h => absurd hp (by simp [h])⟩ <;>
    cases hc : (ext.call extern_fn.bsv_movie_init
        [cval.str g.bsv_movie_start_path, cval.enum "RARCH_MOVIE_PLAYBACK"] g.world).1.to_handle <;>
    simp [init_movie, hp, extern_call, rarch_fail, hc]
  · have hp2 : g.bsv_movie_start_playback = false := by simpa using hp
    by_cases hr : g.bsv_movie_start_recording = true
    · refine ⟨?_, Or.inr ⟨[cval.str g.bsv_movie_start_path, cval.enum "RARCH_MOVIE_RECORD"],
        (ext.call extern_fn.bsv_movie_init
          [cval.str g.bsv_movie_start_path, cval.enum "RARCH_MOVIE_RECORD"] g.world).1, ?_, ?_⟩,
        fun _ h => absurd hr (by simp [h])⟩ <;>
      cases hc : (ext.call extern_fn.bsv_movie_init
          [cval.str g.bsv_movie_start_path, cval.enum "RARCH_MOVIE_RECORD"] g.world).1.to_handle <;>
      simp [init_movie, hp2, hr, extern_call, hc]
    · have hr2 : g.bsv_movie_start_recording = false := by simpa using hr
      refine ⟨fun _ hs => ?_, Or.inl ?_, fun _ _ => ?_⟩
      · simp [init_movie, hp2, hr2, hnone] at hs
      · simp [init_movie, hp2, hr2]
      · simp [init_movie, hp2, hr2]

/-- C18: after `rarch_main_command(RARCH_CMD_BSV_MOVIE_INIT)` returns, a non-null
session handle comes with `rewind_granularity = 1`; the calls made are the
nested `RARCH_CMD_BSV_MOVIE_DEINIT`, the release of the previous session if there
was one, and then at most one `bsv_movie_init`, whose result is the handle; and
when neither playback nor recording was requested the handle is null and
`rewind_granularity` is unchanged. -/
theorem bsv_movie_init_invariant (cfg : build_config) (ext : externals σ)
    (g : rarch_context σ)
    (hret : (rarch_main_command cfg ext rarch_cmd.RARCH_CMD_BSV_MOVIE_INIT g).2.halted = none) :
    ((rarch_main_command cfg ext rarch_cmd.RARCH_CMD_BSV_MOVIE_INIT g).2.bsv_movie.isSome →
      (rarch_main_command cfg ext rarch_cmd.RARCH_CMD_BSV_MOVIE_INIT g).2.rewind_granularity = 1)
    ∧ (∃ started,
        calls_logged g (rarch_main_command cfg ext rarch_cmd.RARCH_CMD_BSV_MOVIE_INIT g).2
          = rarch_call.command rarch_cmd.RARCH_CMD_BSV_MOVIE_DEINIT
            :: (g.bsv_movie.toList.map fun h =>
                rarch_call.external extern_fn.bsv_movie_free [cval.ptr h]
                  (ext.call extern_fn.bsv_movie_free [cval.ptr h] g.world).1)
            ++ started
        ∧ ((started = []
            ∧ (rarch_main_command cfg ext rarch_cmd.RARCH_CMD_BSV_MOVIE_INIT g).2.bsv_movie = none)
          ∨ ∃ args ret, started = [rarch_call.external extern_fn.bsv_movie_init args ret]
            ∧ (rarch_main_command cfg ext rarch_cmd.RARCH_CMD_BSV_MOVIE_INIT g).2.bsv_movie
              = ret.to_handle))
    ∧ (g.bsv_movie_start_playback = false → g.bsv_movie_start_recording = false →
        (rarch_main_command cfg ext rarch_cmd.RARCH_CMD_BSV_MOVIE_INIT g).2.bsv_movie = none
        ∧ (rarch_main_command cfg ext rarch_cmd.RARCH_CMD_BSV_MOVIE_INIT g).2.rewind_granularity
          = g.rewind_granularity) := by
  have hctx : (rarch_main_command cfg ext rarch_cmd.RARCH_CMD_BSV_MOVIE_INIT g).2
      = init_movie cfg ext
        (invoke rarch_cmd.RARCH_CMD_BSV_MOVIE_DEINIT (cmd_bsv_movie_deinit ext) g).2 :=
    cmd_bsv_movie_init_context cfg ext g
  rw [hctx] at hret ⊢
  obtain ⟨d1, d2, -, d4, d5, -, -, d8, d9⟩ := invoke_bsv_movie_deinit ext g
  obtain ⟨i1, i2, i3⟩ := init_movie_result cfg ext _ d1
  have hdlog : (invoke rarch_cmd.RARCH_CMD_BSV_MOVIE_DEINIT (cmd_bsv_movie_deinit ext) g).2.log
      = g.log ++ (rarch_call.command rarch_cmd.RARCH_CMD_BSV_MOVIE_DEINIT
        :: (g.bsv_movie.toList.map fun h =>
            rarch_call.external extern_fn.bsv_movie_free [cval.ptr h]
              (ext.call extern_fn.bsv_movie_free [cval.ptr h] g.world).1)) := by
    cases hb : g.bsv_movie with
    | none => rw [d8 hb]; rfl
    | some h => rw [d9 h hb]; rfl
  refine ⟨i1 hret, ?_, ?_⟩
  · rcases i2 with hl | ⟨args, ret, hl, hh⟩
    · refine ⟨[], ?_, Or.inl ⟨rfl, ?_⟩⟩
      · apply calls_logged_append
        rw [hl, hdlog]
        simp
      · by_cases hp : g.bsv_movie_start_playback = true
        · exfalso
          have hlen := congrArg List.length hl
          simp [init_movie, d4, hp, extern_call] at hlen
          split_ifs at hlen <;> simp [rarch_fail] at hlen
        · by_cases hr : g.bsv_movie_start_recording = true
          · exfalso
            have hp2 : g.bsv_movie_start_playback = false := by simpa using hp
            have hlen := congrArg List.length hl
            simp [init_movie, d4, d5, hp2, hr, extern_call] at hlen
            split_ifs at hlen <;> simp at hlen
          · have hp2 : g.bsv_movie_start_playback = false := by simpa using hp
            have hr2 : g.bsv_movie_start_recording = false := by simpa using hr
            rw [i3 (d4.trans hp2) (d5.trans hr2)]
            exact d1
    · refine ⟨[rarch_call.external extern_fn.bsv_movie_init args ret], ?_,
        Or.inr ⟨args, ret, rfl, hh hret⟩⟩
      apply calls_logged_append
      rw [hl, hdlog]
      simp
  · intro hp hr
    rw [i3 (d4.trans hp) (d5.trans hr)]
    exact ⟨d1, d2⟩

/-- C19: when recording is requested, playback is not, and `bsv_movie_init` fails
to open the file, `rarch_main_command(RARCH_CMD_BSV_MOVIE_INIT)` does not abort: it
returns true, the session handle is null, `rewind_granularity` is unchanged, and
the message queue holds the one message "Failed to start movie record." with
priority 1 and duration 180. -/
theorem bsv_movie_record_failure_not_fatal (cfg : build_config) (ext : externals σ)
    (g : rarch_context σ) (hrun : g.halted = none)
    (hplay : g.bsv_movie_start_playback = false)
    (hrec : g.bsv_movie_start_recording = true)
    (hfail : ∀ w, (ext.call extern_fn.bsv_movie_init
      [cval.str g.bsv_movie_start_path, cval.enum "RARCH_MOVIE_RECORD"] w).1.to_handle = none) :
    (rarch_main_command cfg ext rarch_cmd.RARCH_CMD_BSV_MOVIE_INIT g).1 = true
    ∧ (rarch_main_command cfg ext rarch_cmd.RARCH_CMD_BSV_MOVIE_INIT g).2.halted = none
    ∧ (rarch_main_command cfg ext rarch_cmd.RARCH_CMD_BSV_MOVIE_INIT g).2.bsv_movie = none
    ∧ (rarch_main_command cfg ext rarch_cmd.RARCH_CMD_BSV_MOVIE_INIT g).2.rewind_granularity
        = g.rewind_granularity
    ∧ (rarch_main_command cfg ext rarch_cmd.RARCH_CMD_BSV_MOVIE_INIT g).2.msg_queue
        = [⟨"Failed to start movie record.".toList, 1, 180⟩] := by
  show (cmd_bsv_movie_init cfg ext g).1 = true ∧ (cmd_bsv_movie_init cfg ext g).2.halted = none
    ∧ (cmd_bsv_movie_init cfg ext g).2.bsv_movie = none
    ∧ (cmd_bsv_movie_init cfg ext g).2.rewind_granularity = g.rewind_granularity
    ∧ (cmd_bsv_movie_init cfg ext g).2.msg_queue = _
  cases hb : g.bsv_movie with
  | none =>
    simp [cmd_bsv_movie_init, unless_halted, invoke, cmd_bsv_movie_deinit, free_handle, hb,
      log_call, init_movie, hplay, hrec, extern_call, hfail, hrun, msg_queue_push,
      msg_queue_clear]
  | some h =>
    simp [cmd_bsv_movie_init, unless_halted, invoke, cmd_bsv_movie_deinit, free_handle, hb,
      log_call, init_movie, hplay, hrec, extern_call, hfail, hrun, msg_queue_push,
      msg_queue_clear]

/-- The two guards of `init_rewind` and its test of the size, as one condition:
netplay is active, rewind is disabled, the core drives audio through its own
callback, or the core reports serialization size 0. -/
theorem init_rewind_unarmed (cfg : build_config) (ext : externals σ) (g : rarch_context σ)
    (h : ext.pretro_serialize_size g.world = 0 ∨ g.system_audio_callback = true
      ∨ g.rewind_enable = false ∨ (cfg.HAVE_NETPLAY = true ∧ g.netplay_data.isSome)) :
    init_rewind cfg ext g = g
    ∨ init_rewind cfg ext g = { g with rewind_size := ext.pretro_serialize_size g.world } := by
  unfold init_rewind
  by_cases h1 : (cfg.HAVE_NETPLAY && g.netplay_data.isSome) = true
  · left; rw [if_pos h1]
  · rw [if_neg h1]
    by_cases h2 : (!g.rewind_enable || g.rewind_state.isSome) = true
    · left; rw [if_pos h2]
    · rw [if_neg h2]
      by_cases h3 : g.system_audio_callback = true
      · left; rw [if_pos h3]
      · rw [if_neg h3]
        have hsize : ext.pretro_serialize_size g.world = 0 := by
          rcases h with h | h | h | h
          · exact h
          · exact absurd h h3
          · simp [h] at h2
          · simp [h.1, h.2] at h1
        right
        simp [hsize]

/-- C20: `rarch_main_command(RARCH_CMD_REWIND_INIT)` returns true for every
context, and when the core reports serialization size 0, or the core drives audio
through its own callback, or rewind is disabled, or a netplay session is active,
it leaves every member but `rewind.size` as it was: the rewind handle, the world
and the call log are unchanged, so nothing was allocated and no snapshot was
pushed. -/
theorem rewind_init_refusals (cfg : build_config) (ext : externals σ) (g : rarch_context σ) :
    (rarch_main_command cfg ext rarch_cmd.RARCH_CMD_REWIND_INIT g).1 = true
    ∧ (ext.pretro_serialize_size g.world = 0 ∨ g.system_audio_callback = true
        ∨ g.rewind_enable = false ∨ (cfg.HAVE_NETPLAY = true ∧ g.netplay_data.isSome) →
      { (rarch_main_command cfg ext rarch_cmd.RARCH_CMD_REWIND_INIT g).2 with
        rewind_size := g.rewind_size } = g) := by
  refine ⟨rfl, fun h => ?_⟩
  show { init_rewind cfg ext g with rewind_size := g.rewind_size } = g
  rcases init_rewind_unarmed cfg ext g h with e | e <;> rw [e]

end movie

/-- C18 at an example: recording to `/movies/run.bsv` while a session is open. -/
theorem bsv_movie_init_invariant_witness :
    (rarch_main_command sample_config sample_externals rarch_cmd.RARCH_CMD_BSV_MOVIE_INIT
      { sample_context with
        bsv_movie := some 3,
        bsv_movie_start_recording := true,
        bsv_movie_start_path := "/movies/run.bsv".toList }).2.halted = none
    ∧ ((rarch_main_command sample_config sample_externals rarch_cmd.RARCH_CMD_BSV_MOVIE_INIT
        { sample_context with
          bsv_movie := some 3,
          bsv_movie_start_recording := true,
          bsv_movie_start_path := "/movies/run.bsv".toList }).2.bsv_movie.isSome →
      (rarch_main_command sample_config sample_externals rarch_cmd.RARCH_CMD_BSV_MOVIE_INIT
        { sample_context with
          bsv_movie := some 3,
          bsv_movie_start_recording := true,
          bsv_movie_start_path := "/movies/run.bsv".toList }).2.rewind_granularity = 1) :=
  ⟨by decide,
    (bsv_movie_init_invariant sample_config sample_externals
      { sample_context with
        bsv_movie := some 3,
        bsv_movie_start_recording := true,
        bsv_movie_start_path := "/movies/run.bsv".toList } (by decide)).1⟩

/-- C19 at an example: recording requested with an empty path, which the example
`bsv_movie_init` refuses. -/
theorem bsv_movie_record_failure_not_fatal_witness :
    ({ sample_context with bsv_movie_start_recording := true }).halted = none
    ∧ (rarch_main_command sample_config sample_externals rarch_cmd.RARCH_CMD_BSV_MOVIE_INIT
        { sample_context with bsv_movie_start_recording := true }).1 = true
    ∧ (rarch_main_command sample_config sample_externals rarch_cmd.RARCH_CMD_BSV_MOVIE_INIT
        { sample_context with bsv_movie_start_recording := true }).2.msg_queue
        = [⟨"Failed to start movie record.".toList, 1, 180⟩] :=
  ⟨rfl,
    (bsv_movie_record_failure_not_fatal sample_config sample_externals
      { sample_context with bsv_movie_start_recording := true } rfl rfl rfl (fun _ => rfl)).1,
    (bsv_movie_record_failure_not_fatal sample_config sample_externals
      { sample_context with bsv_movie_start_recording := true } rfl rfl rfl
      (fun _ => rfl)).2.2.2.2⟩

/-- C20 at an example: rewind enabled on a core that reports serialization size
0. -/
theorem rewind_init_refusals_witness :
    (sample_externals.pretro_serialize_size
        ({ sample_context with
          rewind_enable := true,
          world := { sample_core with serialize_size := 0 } }).world = 0)
    ∧ { (rarch_main_command sample_config sample_externals rarch_cmd.RARCH_CMD_REWIND_INIT
          { sample_context with
            rewind_enable := true,
            world := { sample_core with serialize_size := 0 } }).2 with
        rewind_size := 0 }
      = { sample_context with
          rewind_enable := true,
          world := { sample_core with serialize_size := 0 } } :=
  ⟨rfl,
    (rewind_init_refusals sample_config sample_externals
      { sample_context with
        rewind_enable := true,
        world := { sample_core with serialize_size := 0 } }).2 (Or.inl rfl)⟩


/-! ## Running an Init command twice -/

section twice
variable {σ : Type}

theorem deterministic_results (ext : externals σ) (hdet : deterministic ext) (w0 : σ) :
    ∃ res : extern_fn → List cval → cval, ∀ fn args w, (ext.call fn args w).1 = res fn args :=
  ⟨fun fn args => (ext.call fn args w0).1, fun fn args w => hdet.1 fn args w w0⟩

/-- The statement `if (handle) free_fn(handle);` as an update of the world and the
log. -/
theorem free_handle_eq (ext : externals σ) (fn : extern_fn) (h : Option Nat)
    (g : rarch_context σ) :
    free_handle ext fn h g
      = { g with
          world :=
            (match h with
            | some x => (ext.call fn [cval.ptr x] g.world).2
            | none => g.world),
          log := g.log ++ h.toList.map fun x =>
            rarch_call.external fn [cval.ptr x] (ext.call fn [cval.ptr x] g.world).1 } := by
  cases h with
  | none => cases g; simp [free_handle]
  | some x => simp [free_handle, extern_call]

theorem overlay_init_twice (cfg : build_config) (ext : externals σ) (g : rarch_context σ)
    (hdet : deterministic ext) (hrun : g.halted = none) :
    init_twice_same cfg ext rarch_cmd.RARCH_CMD_OVERLAY_INIT g := by
  obtain ⟨res, hres⟩ := deterministic_results ext hdet g.world
  unfold init_twice_same
  by_cases ho : cfg.HAVE_OVERLAY = true
  · cases hnp : (if g.driver_osk_enable = true then decide (g.osk_overlay = [])
        else decide (g.input_overlay = [])) <;>
      cases h0 : g.overlay <;>
      cases hc : (res extern_fn.input_overlay_new
        [cval.str (if g.driver_osk_enable = true then g.osk_overlay else g.input_overlay),
          cval.bool (if g.driver_osk_enable = true then g.osk_enable else g.input_overlay_enable),
          cval.int g.input_overlay_opacity, cval.int g.input_overlay_scale]).to_handle <;>
      simp [rarch_main_command, cmd_overlay_init, cmd_overlay_deinit, invoke, log_call,
        free_handle_eq, extern_call, handle_state, calls_logged, allocations, releases,
        rarch_call.is_allocation, rarch_call.is_release, hres, ho, hnp, hrun, h0, hc]
  · have ho2 : cfg.HAVE_OVERLAY = false := by simpa using ho
    simp [rarch_main_command, cmd_overlay_init, cmd_overlay_deinit, invoke, log_call,
      handle_state, calls_logged, allocations, releases, ho2, hrun, rarch_call.is_allocation,
      rarch_call.is_release]

theorem cheats_init_twice (cfg : build_config) (ext : externals σ) (g : rarch_context σ)
    (hrun : g.halted = none) :
    init_twice_same cfg ext rarch_cmd.RARCH_CMD_CHEATS_INIT g := by
  unfold init_twice_same
  cases h0 : g.cheat <;>
    simp [rarch_main_command, cmd_cheats_init, cmd_cheats_deinit, init_cheats, invoke, log_call,
      free_handle_eq, handle_state, calls_logged, allocations, releases,
      rarch_call.is_allocation, rarch_call.is_release, hrun, h0]

theorem dsp_filter_init_twice (cfg : build_config) (ext : externals σ) (g : rarch_context σ)
    (hdet : deterministic ext) (hrun : g.halted = none) :
    init_twice_same cfg ext rarch_cmd.RARCH_CMD_DSP_FILTER_INIT g := by
  obtain ⟨res, hres⟩ := deterministic_results ext hdet g.world
  unfold init_twice_same
  by_cases hp : g.audio_dsp_plugin = [] <;> cases h0 : g.audio_data_dsp <;>
    cases hc : (res extern_fn.rarch_dsp_filter_new
      [cval.str g.audio_dsp_plugin, cval.int g.audio_data_in_rate]).to_handle <;>
    simp [rarch_main_command, cmd_dsp_filter_init, cmd_dsp_filter_deinit, invoke, log_call, free_handle_eq, extern_call, handle_state, calls_logged, allocations, releases,
        rarch_call.is_allocation, rarch_call.is_release, hres, hrun, hp, h0, hc]

theorem history_init_twice (cfg : build_config) (ext : externals σ) (g : rarch_context σ)
    (hdet : deterministic ext) (hrun : g.halted = none) :
    init_twice_same cfg ext rarch_cmd.RARCH_CMD_HISTORY_INIT g := by
  obtain ⟨res, hres⟩ := deterministic_results ext hdet g.world
  unfold init_twice_same
  cases hp : g.history_list_enable <;> cases h0 : g.history <;>
    cases hc : (res extern_fn.content_playlist_init
      [cval.str g.content_history_path, cval.int g.content_history_size]).to_handle <;>
    simp [rarch_main_command, cmd_history_init, cmd_history_deinit, invoke, log_call, free_handle_eq, extern_call, handle_state, calls_logged, allocations, releases,
        rarch_call.is_allocation, rarch_call.is_release, hres, hrun, hp, h0, hc]

theorem core_info_init_twice (cfg : build_config) (ext : externals σ) (g : rarch_context σ)
    (hdet : deterministic ext) (hrun : g.halted = none) :
    init_twice_same cfg ext rarch_cmd.RARCH_CMD_CORE_INFO_INIT g := by
  obtain ⟨res, hres⟩ := deterministic_results ext hdet g.world
  unfold init_twice_same
  by_cases hp : g.libretro_directory = [] <;> cases h0 : g.core_info <;>
    cases hc : (res extern_fn.core_info_list_new [cval.str g.libretro_directory]).to_handle <;>
    simp [rarch_main_command, cmd_core_info_init, cmd_core_info_deinit, invoke, log_call, free_handle_eq, extern_call, handle_state, calls_logged, allocations, releases,
        rarch_call.is_allocation, rarch_call.is_release, hres, hrun, hp, h0, hc]

theorem command_init_twice (cfg : build_config) (ext : externals σ) (g : rarch_context σ)
    (hdet : deterministic ext) (hrun : g.halted = none) :
    init_twice_same cfg ext rarch_cmd.RARCH_CMD_COMMAND_INIT g := by
  obtain ⟨res, hres⟩ := deterministic_results ext hdet g.world
  unfold init_twice_same
  cases ho : cfg.HAVE_COMMAND
  · simp [rarch_main_command, cmd_command_init, cmd_command_deinit, invoke, log_call, free_handle_eq, extern_call, handle_state, calls_logged, allocations, releases,
        rarch_call.is_allocation, rarch_call.is_release, hres, hrun, ho]
  · cases hp : (!g.stdin_cmd_enable && !g.network_cmd_enable) <;> cases h0 : g.command <;>
      cases hc : (res extern_fn.rarch_cmd_new
        [cval.bool (g.stdin_cmd_enable && !g.stdin_claimed), cval.bool g.network_cmd_enable,
          cval.int g.network_cmd_port]).to_handle <;>
      simp [rarch_main_command, cmd_command_init, cmd_command_deinit, init_command, invoke, log_call, free_handle_eq, extern_call, handle_state, calls_logged, allocations, releases,
        rarch_call.is_allocation, rarch_call.is_release, hres, hrun, ho,
        hp, h0, hc]

theorem bsv_movie_init_twice (cfg : build_config) (ext : externals σ) (g : rarch_context σ)
    (hdet : deterministic ext) (hrun : g.halted = none)
    (hret : (rarch_main_command cfg ext rarch_cmd.RARCH_CMD_BSV_MOVIE_INIT g).2.halted = none) :
    init_twice_same cfg ext rarch_cmd.RARCH_CMD_BSV_MOVIE_INIT g := by
  obtain ⟨res, hres⟩ := deterministic_results ext hdet g.world
  unfold init_twice_same
  revert hret
  cases hp : g.bsv_movie_start_playback
  · cases hr : g.bsv_movie_start_recording
    · cases h0 : g.bsv_movie <;>
        simp [rarch_main_command, cmd_bsv_movie_init, cmd_bsv_movie_deinit, init_movie,
          unless_halted, invoke, log_call, free_handle_eq, extern_call, handle_state, calls_logged, allocations, releases,
        rarch_call.is_allocation, rarch_call.is_release, hres, hrun, hp, hr, h0]
    · cases h0 : g.bsv_movie <;>
        cases hc2 : (res extern_fn.bsv_movie_init
          [cval.str g.bsv_movie_start_path, cval.enum "RARCH_MOVIE_RECORD"]).to_handle <;>
        simp [rarch_main_command, cmd_bsv_movie_init, cmd_bsv_movie_deinit, init_movie,
          unless_halted, invoke, log_call, free_handle_eq, extern_call, handle_state, calls_logged, allocations, releases,
        rarch_call.is_allocation, rarch_call.is_release, hres, hrun, hp, hr, h0, hc2]
  · cases h0 : g.bsv_movie <;>
      cases hc1 : (res extern_fn.bsv_movie_init
        [cval.str g.bsv_movie_start_path, cval.enum "RARCH_MOVIE_PLAYBACK"]).to_handle <;>
      simp [rarch_main_command, cmd_bsv_movie_init, cmd_bsv_movie_deinit, init_movie,
        unless_halted, rarch_fail, invoke, log_call, free_handle_eq, extern_call, handle_state, calls_logged, allocations, releases,
        rarch_call.is_allocation, rarch_call.is_release, hres, hrun, hp, h0, hc1]

theorem rewind_init_twice (cfg : build_config) (ext : externals σ) (g : rarch_context σ)
    (hdet : deterministic ext) (hrun : g.halted = none) :
    init_twice_same cfg ext rarch_cmd.RARCH_CMD_REWIND_INIT g := by
  obtain ⟨res, hres⟩ := deterministic_results ext hdet g.world
  have hsz : ∀ w, ext.pretro_serialize_size w = ext.pretro_serialize_size g.world :=
    fun w => hdet.2.1 w g.world
  unfold init_twice_same
  by_cases h1 : (cfg.HAVE_NETPLAY && g.netplay_data.isSome) = true
  · simp [rarch_main_command, cmd_rewind_init, init_rewind, handle_state, calls_logged,
      allocations, releases, h1, hrun]
  · by_cases h2 : (!g.rewind_enable || g.rewind_state.isSome) = true
    · simp [rarch_main_command, cmd_rewind_init, init_rewind, handle_state, calls_logged,
        allocations, releases, h1, h2, hrun]
    · by_cases h3 : g.system_audio_callback = true
      · simp [rarch_main_command, cmd_rewind_init, init_rewind, handle_state, calls_logged,
          allocations, releases, h1, h2, h3, hrun]
      · by_cases h4 : ext.pretro_serialize_size g.world = 0
        · simp [rarch_main_command, cmd_rewind_init, init_rewind, handle_state, calls_logged,
            allocations, releases, h1, h2, h3, h4, hrun]
        · simp only [Bool.or_eq_true, Bool.not_eq_true', not_or, Bool.not_eq_false] at h2
          cases hc : (res extern_fn.state_manager_new
            [cval.int (ext.pretro_serialize_size g.world),
              cval.int g.rewind_buffer_size]).to_handle <;>
            simp [rarch_main_command, cmd_rewind_init, init_rewind, invoke, log_call, free_handle_eq, extern_call, handle_state, calls_logged, allocations, releases,
        rarch_call.is_allocation, rarch_call.is_release, hres, hrun, h1, h2, h3, h4,
              hc, hsz]

theorem allocations_append (a b : List rarch_call) :
    allocations (a ++ b) = allocations a + allocations b := by
  simp [allocations]

theorem releases_append (a b : List rarch_call) :
    releases (a ++ b) = releases a + releases b := by
  simp [releases]

theorem to_handle_of_handle (h : Option Nat) : (cval.of_handle h).to_handle = h := by
  cases h <;> rfl

/-- The number of non-null handles in a list. -/
theorem live_cons (h : Option Nat) (l : List (Option Nat)) :
    ((h :: l).filter Option.isSome).length
      = (if h.isSome then 1 else 0) + (l.filter Option.isSome).length := by
  cases h <;> simp [Nat.add_comm]

/-- With deterministic outside functions the handles that the loop of
`init_autosave` stores do not depend on the world. -/
theorem init_autosave_loop_handles (ext : externals σ) (hdet : deterministic ext)
    (interval : Nat) (l : List (cstring × Nat)) (w w' : σ) :
    (init_autosave_loop ext interval l w).1 = (init_autosave_loop ext interval l w').1 := by
  induction l generalizing w w' with
  | nil => rfl
  | cons a l ih =>
    obtain ⟨path, type⟩ := a
    have hs := hdet.2.2.2.1 type w w'
    have hd := hdet.2.2.2.2.1 type w w'
    have hn := hdet.2.2.2.2.2.1 path (ext.pretro_get_memory_data type w')
      (ext.pretro_get_memory_size type w') interval w w'
    simp only [init_autosave_loop, hs, hd]
    split_ifs
    · exact congrArg (List.cons none) (ih w w')
    · rw [hn]
      exact congrArg (List.cons _) (ih _ _)

theorem init_autosave_loop_length (ext : externals σ) (interval : Nat)
    (l : List (cstring × Nat)) (w : σ) :
    (init_autosave_loop ext interval l w).1.length = l.length := by
  induction l generalizing w with
  | nil => rfl
  | cons a l ih =>
    obtain ⟨path, type⟩ := a
    simp only [init_autosave_loop]
    split_ifs <;> simp [ih]

/-- The loop of `init_autosave` allocates one object for each non-null handle it
stores, and releases nothing. -/
theorem init_autosave_loop_allocations (ext : externals σ) (interval : Nat)
    (l : List (cstring × Nat)) (w : σ) :
    allocations (init_autosave_loop ext interval l w).2.2
        = ((init_autosave_loop ext interval l w).1.filter Option.isSome).length
    ∧ releases (init_autosave_loop ext interval l w).2.2 = 0 := by
  induction l generalizing w with
  | nil => exact ⟨rfl, rfl⟩
  | cons a l ih =>
    obtain ⟨path, type⟩ := a
    simp only [init_autosave_loop]
    split_ifs
    · have h := ih w
      constructor
      · simpa [allocations, rarch_call.is_allocation, cval.to_handle, cval.to_bool] using h.1
      · simpa [releases, rarch_call.is_release] using h.2
    · have h := ih (ext.autosave_new path (ext.pretro_get_memory_data type w)
        (ext.pretro_get_memory_size type w) interval w).2
      constructor
      · cases hn : (ext.autosave_new path (ext.pretro_get_memory_data type w)
          (ext.pretro_get_memory_size type w) interval w).1 <;>
          simpa [allocations, rarch_call.is_allocation, cval.to_handle, cval.to_bool,
            cval.of_handle, hn] using h.1
      · simpa [releases, rarch_call.is_release] using h.2

/-- The calls `autosave_free` of `deinit_autosave` release one object for each
non-null handle, and allocate nothing. -/
theorem autosave_free_releases (entries : List (Option Nat)) :
    releases (entries.map fun h =>
        rarch_call.external extern_fn.autosave_free [cval.of_handle h] cval.null)
      = (entries.filter Option.isSome).length
    ∧ allocations (entries.map fun h =>
        rarch_call.external extern_fn.autosave_free [cval.of_handle h] cval.null) = 0 := by
  induction entries with
  | nil => exact ⟨rfl, rfl⟩
  | cons a l ih =>
    constructor
    · cases a <;>
        simp [releases, rarch_call.is_release, cval.of_handle] at ih ⊢ <;> exact ih.1
    · simp [allocations, rarch_call.is_allocation]

/-- What `RARCH_CMD_AUTOSAVE_INIT` leaves alone. -/
theorem autosave_init_frame (cfg : build_config) (ext : externals σ) (x : rarch_context σ) :
    (cmd_autosave_init cfg ext x).2.savefiles = x.savefiles
    ∧ (cmd_autosave_init cfg ext x).2.autosave_interval = x.autosave_interval
    ∧ (cmd_autosave_init cfg ext x).2.halted = x.halted := by
  unfold cmd_autosave_init invoke cmd_autosave_deinit
  dsimp only
  split_ifs
  · unfold init_autosave
    split
    · exact ⟨rfl, rfl, rfl⟩
    · dsimp only
      split_ifs <;> exact ⟨rfl, rfl, rfl⟩
  · exact ⟨rfl, rfl, rfl⟩

/-- The context after the nested `RARCH_CMD_AUTOSAVE_DEINIT`, in a build with
threads. -/
theorem autosave_init_deinit (cfg : build_config) (ext : externals σ) (x : rarch_context σ)
    (ht : cfg.HAVE_THREADS = true) :
    (cmd_autosave_init cfg ext x).2
      = init_autosave ext
          (deinit_autosave ext
            (log_call (rarch_call.command rarch_cmd.RARCH_CMD_AUTOSAVE_DEINIT) x)) := by
  simp [cmd_autosave_init, cmd_autosave_deinit, invoke, ht]

/-- The log after the nested `RARCH_CMD_AUTOSAVE_DEINIT`. -/
theorem deinit_autosave_logged (ext : externals σ) (x : rarch_context σ) :
    (deinit_autosave ext
      (log_call (rarch_call.command rarch_cmd.RARCH_CMD_AUTOSAVE_DEINIT) x)).log
      = x.log ++ (rarch_call.command rarch_cmd.RARCH_CMD_AUTOSAVE_DEINIT
          :: (((x.autosave.getD []).take x.num_autosave).map fun h =>
              rarch_call.external extern_fn.autosave_free [cval.of_handle h] cval.null)
            ++ (if x.autosave.isSome then [rarch_call.external extern_fn.free [] cval.null]
              else [])) := by
  simp [deinit_autosave, log_call]

/-- `RARCH_CMD_AUTOSAVE_INIT` without save files or without an interval: the
timers are released and none is made. -/
theorem autosave_init_idle (cfg : build_config) (ext : externals σ) (x : rarch_context σ)
    (ht : cfg.HAVE_THREADS = true) (hA : x.savefiles = none ∨ x.autosave_interval < 1) :
    (cmd_autosave_init cfg ext x).2.autosave = none
    ∧ (cmd_autosave_init cfg ext x).2.num_autosave = 0
    ∧ (cmd_autosave_init cfg ext x).2.log
      = x.log ++ (rarch_call.command rarch_cmd.RARCH_CMD_AUTOSAVE_DEINIT
          :: (((x.autosave.getD []).take x.num_autosave).map fun h =>
              rarch_call.external extern_fn.autosave_free [cval.of_handle h] cval.null)
            ++ (if x.autosave.isSome then [rarch_call.external extern_fn.free [] cval.null]
              else [])) := by
  have e : (cmd_autosave_init cfg ext x).2
      = deinit_autosave ext
          (log_call (rarch_call.command rarch_cmd.RARCH_CMD_AUTOSAVE_DEINIT) x) := by
    rw [autosave_init_deinit cfg ext x ht]
    unfold init_autosave
    have hs : (deinit_autosave ext
        (log_call (rarch_call.command rarch_cmd.RARCH_CMD_AUTOSAVE_DEINIT) x)).savefiles
          = x.savefiles := rfl
    have hi : (deinit_autosave ext
        (log_call (rarch_call.command rarch_cmd.RARCH_CMD_AUTOSAVE_DEINIT) x)).autosave_interval
          = x.autosave_interval := rfl
    rcases hA with h | h
    · rw [hs, h]
    · rw [hs]
      cases x.savefiles with
      | none => rfl
      | some l =>
        dsimp only
        rw [hi, if_pos h]
  rw [e]
  exact ⟨rfl, rfl, deinit_autosave_logged ext x⟩

/-- `RARCH_CMD_AUTOSAVE_INIT` when `calloc` returns null: the timers are released
and none is made. -/
theorem autosave_init_no_block (cfg : build_config) (ext : externals σ)
    (x : rarch_context σ) (l : List (cstring × Nat)) (ht : cfg.HAVE_THREADS = true)
    (hs : x.savefiles = some l) (hi : ¬ x.autosave_interval < 1)
    (hc : ∀ w, ext.calloc l.length w = false) :
    (cmd_autosave_init cfg ext x).2.autosave = none
    ∧ (cmd_autosave_init cfg ext x).2.num_autosave = 0
    ∧ (cmd_autosave_init cfg ext x).2.log
      = x.log ++ ((rarch_call.command rarch_cmd.RARCH_CMD_AUTOSAVE_DEINIT
          :: (((x.autosave.getD []).take x.num_autosave).map fun h =>
              rarch_call.external extern_fn.autosave_free [cval.of_handle h] cval.null)
            ++ (if x.autosave.isSome then [rarch_call.external extern_fn.free [] cval.null]
              else []))
          ++ [rarch_call.external extern_fn.calloc [cval.int l.length] (cval.bool false)]) := by
  rw [autosave_init_deinit cfg ext x ht]
  have hs2 : (deinit_autosave ext
      (log_call (rarch_call.command rarch_cmd.RARCH_CMD_AUTOSAVE_DEINIT) x)).savefiles
        = some l := hs
  have hi2 : ¬ (deinit_autosave ext
      (log_call (rarch_call.command rarch_cmd.RARCH_CMD_AUTOSAVE_DEINIT) x)).autosave_interval
        < 1 := hi
  have hl := deinit_autosave_logged ext x
  unfold init_autosave
  rw [hs2]
  dsimp only
  rw [if_neg hi2, hc]
  refine ⟨rfl, rfl, ?_⟩
  show _ ++ _ = _
  rw [hl, List.append_assoc]

/-- `RARCH_CMD_AUTOSAVE_INIT` when `calloc` returns a block: the array holds what
the loop stored. -/
theorem autosave_init_made (cfg : build_config) (ext : externals σ)
    (x : rarch_context σ) (l : List (cstring × Nat)) (ht : cfg.HAVE_THREADS = true)
    (hs : x.savefiles = some l) (hi : ¬ x.autosave_interval < 1)
    (hc : ∀ w, ext.calloc l.length w = true) :
    ∃ w,
      (cmd_autosave_init cfg ext x).2.autosave
        = some (init_autosave_loop ext x.autosave_interval l w).1
      ∧ (cmd_autosave_init cfg ext x).2.num_autosave = l.length
      ∧ (cmd_autosave_init cfg ext x).2.log
        = x.log ++ ((rarch_call.command rarch_cmd.RARCH_CMD_AUTOSAVE_DEINIT
            :: (((x.autosave.getD []).take x.num_autosave).map fun h =>
                rarch_call.external extern_fn.autosave_free [cval.of_handle h] cval.null)
              ++ (if x.autosave.isSome then [rarch_call.external extern_fn.free [] cval.null]
                else []))
            ++ rarch_call.external extern_fn.calloc [cval.int l.length] (cval.bool true)
              :: (init_autosave_loop ext x.autosave_interval l w).2.2) := by
  refine ⟨(deinit_autosave ext
      (log_call (rarch_call.command rarch_cmd.RARCH_CMD_AUTOSAVE_DEINIT) x)).world, ?_⟩
  rw [autosave_init_deinit cfg ext x ht]
  have hs2 : (deinit_autosave ext
      (log_call (rarch_call.command rarch_cmd.RARCH_CMD_AUTOSAVE_DEINIT) x)).savefiles
        = some l := hs
  have hi2 : ¬ (deinit_autosave ext
      (log_call (rarch_call.command rarch_cmd.RARCH_CMD_AUTOSAVE_DEINIT) x)).autosave_interval
        < 1 := hi
  have hl := deinit_autosave_logged ext x
  unfold init_autosave
  rw [hs2]
  dsimp only
  rw [if_neg hi2, hc]
  refine ⟨rfl, rfl, ?_⟩
  show _ ++ _ = _
  rw [hl, List.append_assoc]
  rfl

theorem handle_state_autosave (x : rarch_context σ) :
    handle_state rarch_cmd.RARCH_CMD_AUTOSAVE_INIT x
      = x.autosave.isSome :: ((x.autosave.getD []).take x.num_autosave).map Option.isSome :=
  rfl

theorem autosave_init_twice (cfg : build_config) (ext : externals σ) (g : rarch_context σ)
    (hdet : deterministic ext) (hrun : g.halted = none) :
    init_twice_same cfg ext rarch_cmd.RARCH_CMD_AUTOSAVE_INIT g := by
  have hf1 := autosave_init_frame cfg ext g
  have hf2 := autosave_init_frame cfg ext (cmd_autosave_init cfg ext g).2
  show (cmd_autosave_init cfg ext (cmd_autosave_init cfg ext g).2).2.halted = none
    ∧ (cmd_autosave_init cfg ext (cmd_autosave_init cfg ext g).2).1
        = (cmd_autosave_init cfg ext g).1
    ∧ handle_state rarch_cmd.RARCH_CMD_AUTOSAVE_INIT
        (cmd_autosave_init cfg ext (cmd_autosave_init cfg ext g).2).2
      = handle_state rarch_cmd.RARCH_CMD_AUTOSAVE_INIT (cmd_autosave_init cfg ext g).2
    ∧ allocations (calls_logged (cmd_autosave_init cfg ext g).2
        (cmd_autosave_init cfg ext (cmd_autosave_init cfg ext g).2).2)
      = releases (calls_logged (cmd_autosave_init cfg ext g).2
        (cmd_autosave_init cfg ext (cmd_autosave_init cfg ext g).2).2)
  refine ⟨hf2.2.2.trans (hf1.2.2.trans hrun), rfl, ?_⟩
  rw [handle_state_autosave, handle_state_autosave]
  cases ht : cfg.HAVE_THREADS
  · have e : ∀ x : rarch_context σ, (cmd_autosave_init cfg ext x).2
        = log_call (rarch_call.command rarch_cmd.RARCH_CMD_AUTOSAVE_DEINIT) x := by
      intro x
      simp [cmd_autosave_init, cmd_autosave_deinit, invoke, ht]
    rw [e (cmd_autosave_init cfg ext g).2]
    refine ⟨rfl, ?_⟩
    rw [calls_logged_append _ _ [rarch_call.command rarch_cmd.RARCH_CMD_AUTOSAVE_DEINIT] rfl]
    rfl
  · by_cases hA : g.savefiles = none ∨ g.autosave_interval < 1
    · obtain ⟨a1, n1, -⟩ := autosave_init_idle cfg ext g ht hA
      obtain ⟨a2, n2, l2⟩ := autosave_init_idle cfg ext (cmd_autosave_init cfg ext g).2 ht
        (by rw [hf1.1, hf1.2.1]; exact hA)
      rw [a2, n2, a1, n1, calls_logged_append _ _ _ l2, a1, n1]
      exact ⟨rfl, rfl⟩
    · obtain ⟨l, hs⟩ : ∃ l, g.savefiles = some l := by
        cases h : g.savefiles with
        | none => exact absurd (Or.inl h) hA
        | some l => exact ⟨l, rfl⟩
      have hi : ¬ g.autosave_interval < 1 := fun h => hA (Or.inr h)
      have hs' : (cmd_autosave_init cfg ext g).2.savefiles = some l := hf1.1.trans hs
      have hi' : ¬ (cmd_autosave_init cfg ext g).2.autosave_interval < 1 := by
        rw [hf1.2.1]
        exact hi
      cases hc : ext.calloc l.length g.world
      · have hc' : ∀ w, ext.calloc l.length w = false :=
          fun w => (hdet.2.2.1 l.length w g.world).trans hc
        obtain ⟨a1, n1, -⟩ := autosave_init_no_block cfg ext g l ht hs hi hc'
        obtain ⟨a2, n2, l2⟩ := autosave_init_no_block cfg ext (cmd_autosave_init cfg ext g).2 l
          ht hs' hi' hc'
        rw [a2, n2, a1, n1, calls_logged_append _ _ _ l2, a1, n1]
        exact ⟨rfl, rfl⟩
      · have hc' : ∀ w, ext.calloc l.length w = true :=
          fun w => (hdet.2.2.1 l.length w g.world).trans hc
        obtain ⟨w1, a1, n1, -⟩ := autosave_init_made cfg ext g l ht hs hi hc'
        obtain ⟨w2, a2, n2, l2⟩ := autosave_init_made cfg ext (cmd_autosave_init cfg ext g).2 l
          ht hs' hi' hc'
        rw [hf1.2.1] at a2 l2
        have hw := init_autosave_loop_handles ext hdet g.autosave_interval l w2 w1
        have hlen := init_autosave_loop_length ext g.autosave_interval l w1
        have hal := init_autosave_loop_allocations ext g.autosave_interval l w2
        rw [hw] at hal
        rw [a2, n2, a1, n1, calls_logged_append _ _ _ l2, a1, n1, hw]
        refine ⟨rfl, ?_⟩
        have htake : List.take l.length
            ((some (init_autosave_loop ext g.autosave_interval l w1).1).getD [])
              = (init_autosave_loop ext g.autosave_interval l w1).1 := by
          show List.take l.length (init_autosave_loop ext g.autosave_interval l w1).1 = _
          rw [← hlen, List.take_length]
        rw [htake]
        have hfree := autosave_free_releases (init_autosave_loop ext g.autosave_interval l w1).1
        rw [allocations_append, releases_append]
        have e1 : allocations (rarch_call.command rarch_cmd.RARCH_CMD_AUTOSAVE_DEINIT
            :: List.map (fun h =>
                rarch_call.external extern_fn.autosave_free [cval.of_handle h] cval.null)
              (init_autosave_loop ext g.autosave_interval l w1).1
            ++ (if (some (init_autosave_loop ext g.autosave_interval l w1).1).isSome = true
              then [rarch_call.external extern_fn.free [] cval.null] else [])) = 0 := by
          have := hfree.2
          simp only [allocations] at this ⊢
          simp [rarch_call.is_allocation, this]
        have e2 : releases (rarch_call.command rarch_cmd.RARCH_CMD_AUTOSAVE_DEINIT
            :: List.map (fun h =>
                rarch_call.external extern_fn.autosave_free [cval.of_handle h] cval.null)
              (init_autosave_loop ext g.autosave_interval l w1).1
            ++ (if (some (init_autosave_loop ext g.autosave_interval l w1).1).isSome = true
              then [rarch_call.external extern_fn.free [] cval.null] else []))
            = ((init_autosave_loop ext g.autosave_interval l w1).1.filter Option.isSome).length
              + 1 := by
          have := hfree.1
          simp only [releases] at this ⊢
          simp [rarch_call.is_release, this]
        have e3 : allocations (rarch_call.external extern_fn.calloc [cval.int l.length]
            (cval.bool true) :: (init_autosave_loop ext g.autosave_interval l w2).2.2)
            = ((init_autosave_loop ext g.autosave_interval l w1).1.filter Option.isSome).length
              + 1 := by
          have := hal.1
          simp only [allocations] at this ⊢
          simp [rarch_call.is_allocation, cval.to_bool, cval.to_handle, this]
        have e4 : releases (rarch_call.external extern_fn.calloc [cval.int l.length]
            (cval.bool true) :: (init_autosave_loop ext g.autosave_interval l w2).2.2) = 0 := by
          have := hal.2
          simp only [releases] at this ⊢
          simp [rarch_call.is_release, this]
        rw [e1, e2, e3, e4]
        omega

theorem shader_dir_init_twice (cfg : build_config) (ext : externals σ) (g : rarch_context σ)
    (hrun : g.halted = none) :
    init_twice_same cfg ext rarch_cmd.RARCH_CMD_SHADER_DIR_INIT g := by
  unfold init_twice_same
  by_cases hp : g.video_shader_dir = []
  · cases h0 : g.shader_dir_list <;>
      simp [rarch_main_command, cmd_shader_dir_init, cmd_shader_dir_deinit, invoke, log_call,
        handle_state, calls_logged, allocations, releases, rarch_call.is_allocation,
        rarch_call.is_release, hrun, hp, h0]
  · obtain ⟨pat, hpat⟩ : ∃ pat, "cg|cgp|glsl|glslp".toList = pat := ⟨_, rfl⟩
    have hpat2 := hpat
    simp only [String.toList] at hpat2
    cases hd : ext.dir_list_new_ext g.video_shader_dir pat g.world with
    | none =>
      cases h0 : g.shader_dir_list <;>
        simp [rarch_main_command, cmd_shader_dir_init, cmd_shader_dir_deinit, invoke, log_call,
          handle_state, calls_logged, allocations, releases, rarch_call.is_allocation,
          rarch_call.is_release, cval.to_bool, hrun, hp, hpat, hpat2, hd, h0]
    | some list =>
      cases list with
      | nil =>
        cases h0 : g.shader_dir_list <;>
          simp [rarch_main_command, cmd_shader_dir_init, cmd_shader_dir_deinit, invoke, log_call,
            handle_state, calls_logged, allocations, releases, rarch_call.is_allocation,
            rarch_call.is_release, cval.to_bool, hrun, hp, hpat, hpat2, hd, h0]
      | cons a l =>
        cases h0 : g.shader_dir_list <;>
          simp [rarch_main_command, cmd_shader_dir_init, cmd_shader_dir_deinit, invoke, log_call,
            handle_state, calls_logged, allocations, releases, rarch_call.is_allocation,
            rarch_call.is_release, cval.to_bool, hrun, hp, hpat, hpat2, hd, h0]

theorem msg_queue_init_first (cfg : build_config) (ext : externals σ) (g : rarch_context σ)
    (res : extern_fn → List cval → cval)
    (hres : ∀ fn args w, (ext.call fn args w).1 = res fn args) (hrun : g.halted = none)
    (hret : (cmd_msg_queue_init cfg ext g).2.halted = none) :
    (res extern_fn.msg_queue_new [cval.int 8]).to_handle.isSome
    ∧ (cmd_msg_queue_init cfg ext g).1 = true
    ∧ (cmd_msg_queue_init cfg ext g).2.msg_queue_ptr.isSome
    ∧ (cmd_msg_queue_init cfg ext g).2.nbio_msg_queue.isSome
    ∧ (cmd_msg_queue_init cfg ext g).2.images_msg_queue.isSome
    ∧ (cfg.HAVE_NETWORKING = true → (cmd_msg_queue_init cfg ext g).2.http_msg_queue.isSome) := by
  revert hret
  cases hc : (res extern_fn.msg_queue_new [cval.int 8]).to_handle with
  | none =>
    cases h0 : g.msg_queue_ptr <;>
      simp [cmd_msg_queue_init, cmd_msg_queue_deinit, msg_queue_new_asserted, rarch_assert,
        unless_halted, invoke, log_call, extern_call, hres, hrun, hc, h0]
  | some h =>
    cases ho : cfg.HAVE_NETWORKING <;> cases h0 : g.msg_queue_ptr <;>
      cases h1 : g.http_msg_queue <;> cases h2 : g.nbio_msg_queue <;>
      cases h3 : g.images_msg_queue <;>
      simp [cmd_msg_queue_init, cmd_msg_queue_deinit, msg_queue_new_asserted, rarch_assert,
        unless_halted, invoke, log_call, extern_call, hres, hrun, hc, ho, h0, h1, h2, h3]

theorem msg_queue_init_live (cfg : build_config) (ext : externals σ) (g : rarch_context σ)
    (res : extern_fn → List cval → cval)
    (hres : ∀ fn args w, (ext.call fn args w).1 = res fn args) (hrun : g.halted = none)
    (hc : (res extern_fn.msg_queue_new [cval.int 8]).to_handle.isSome)
    (h0 : g.msg_queue_ptr.isSome) (h2 : g.nbio_msg_queue.isSome)
    (h3 : g.images_msg_queue.isSome)
    (h1 : cfg.HAVE_NETWORKING = true → g.http_msg_queue.isSome) :
    (cmd_msg_queue_init cfg ext g).2.halted = none
    ∧ (cmd_msg_queue_init cfg ext g).1 = true
    ∧ handle_state rarch_cmd.RARCH_CMD_MSG_QUEUE_INIT (cmd_msg_queue_init cfg ext g).2
      = handle_state rarch_cmd.RARCH_CMD_MSG_QUEUE_INIT g
    ∧ allocations (calls_logged g (cmd_msg_queue_init cfg ext g).2)
      = releases (calls_logged g (cmd_msg_queue_init cfg ext g).2) := by
  obtain ⟨q, hq⟩ := Option.isSome_iff_exists.mp hc
  obtain ⟨a, ha⟩ := Option.isSome_iff_exists.mp h0
  obtain ⟨b, hb⟩ := Option.isSome_iff_exists.mp h2
  obtain ⟨c, hcc⟩ := Option.isSome_iff_exists.mp h3
  cases ho : cfg.HAVE_NETWORKING
  · simp [cmd_msg_queue_init, cmd_msg_queue_deinit, msg_queue_new_asserted, rarch_assert,
      unless_halted, invoke, log_call, free_handle_eq, extern_call, handle_state, calls_logged, allocations, releases,
        rarch_call.is_allocation, rarch_call.is_release, hres, hrun, hq, ha, hb, hcc, ho]
  · obtain ⟨d, hd⟩ := Option.isSome_iff_exists.mp (h1 ho)
    simp [cmd_msg_queue_init, cmd_msg_queue_deinit, msg_queue_new_asserted, rarch_assert,
      unless_halted, invoke, log_call, free_handle_eq, extern_call, handle_state, calls_logged, allocations, releases,
        rarch_call.is_allocation, rarch_call.is_release, hres, hrun, hq, ha, hb, hcc, hd, ho]

theorem msg_queue_init_twice (cfg : build_config) (ext : externals σ) (g : rarch_context σ)
    (hdet : deterministic ext) (hrun : g.halted = none)
    (hret : (rarch_main_command cfg ext rarch_cmd.RARCH_CMD_MSG_QUEUE_INIT g).2.halted = none) :
    init_twice_same cfg ext rarch_cmd.RARCH_CMD_MSG_QUEUE_INIT g := by
  obtain ⟨res, hres⟩ := deterministic_results ext hdet g.world
  obtain ⟨f1, f2, f3, f4, f5, f6⟩ := msg_queue_init_first cfg ext g res hres hrun hret
  obtain ⟨s1, s2, s3, s4⟩ := msg_queue_init_live cfg ext (cmd_msg_queue_init cfg ext g).2 res hres
    hret f1 f3 f4 f5 f6
  exact ⟨s1, s2.trans f2.symm, s3, s4⟩

theorem netplay_init_twice (cfg : build_config) (ext : externals σ) (g : rarch_context σ)
    (hdet : deterministic ext) (hrun : g.halted = none)
    (hnet : g.netplay_server ≠ [] ∨ g.netplay_is_client = false) :
    init_twice_same cfg ext rarch_cmd.RARCH_CMD_NETPLAY_INIT g := by
  obtain ⟨res, hres⟩ := deterministic_results ext hdet g.world
  unfold init_twice_same
  cases ho : cfg.HAVE_NETPLAY
  · simp [rarch_main_command, cmd_netplay_init, cmd_netplay_deinit, invoke, log_call, free_handle_eq, extern_call, handle_state, calls_logged, allocations, releases,
        rarch_call.is_allocation, rarch_call.is_release, hres, hrun, ho]
  · cases he : g.netplay_enable
    · cases h0 : g.netplay_data <;>
        simp [rarch_main_command, cmd_netplay_init, cmd_netplay_deinit, init_netplay, invoke, log_call, free_handle_eq, extern_call, handle_state, calls_logged, allocations, releases,
        rarch_call.is_allocation, rarch_call.is_release, hres, hrun,
          ho, he, h0]
    · cases hp : g.bsv_movie_start_playback
      · by_cases hs : g.netplay_server = []
        · have hcl : g.netplay_is_client = false := by
            rcases hnet with h | h
            · exact absurd hs h
            · exact h
          cases h0 : g.netplay_data <;> cases hq : g.msg_queue_ptr <;>
            cases hc : (res extern_fn.netplay_new
              [cval.null,
                cval.int (if g.netplay_port = 0 then (RARCH_DEFAULT_PORT : Int) else g.netplay_port),
                cval.int g.netplay_sync_frames,
                res extern_fn.retro_set_default_callbacks [],
                cval.bool g.netplay_is_spectate, cval.str g.username]).to_handle <;>
            simp [rarch_main_command, cmd_netplay_init, cmd_netplay_deinit, init_netplay, invoke, log_call, free_handle_eq, extern_call, handle_state, calls_logged, allocations, releases,
        rarch_call.is_allocation, rarch_call.is_release, hres, hrun,
              ho, he, hp, hs, hcl, h0, hq, hc]
        · cases h0 : g.netplay_data <;> cases hq : g.msg_queue_ptr <;>
            cases hc : (res extern_fn.netplay_new
              [cval.str g.netplay_server,
                cval.int (if g.netplay_port = 0 then (RARCH_DEFAULT_PORT : Int) else g.netplay_port),
                cval.int g.netplay_sync_frames,
                res extern_fn.retro_set_default_callbacks [],
                cval.bool g.netplay_is_spectate, cval.str g.username]).to_handle <;>
            simp [rarch_main_command, cmd_netplay_init, cmd_netplay_deinit, init_netplay, invoke, log_call, free_handle_eq, extern_call, handle_state, calls_logged, allocations, releases,
        rarch_call.is_allocation, rarch_call.is_release, hres, hrun,
              ho, he, hp, hs, h0, hq, hc]
      · cases h0 : g.netplay_data <;>
          simp [rarch_main_command, cmd_netplay_init, cmd_netplay_deinit, init_netplay, invoke, log_call, free_handle_eq, extern_call, handle_state, calls_logged, allocations, releases,
        rarch_call.is_allocation, rarch_call.is_release, hres, hrun,
            ho, he, hp, h0]

/-- C15, amended: for each of the twelve Init commands that own a handle, with
outside functions that are deterministic functions of their arguments, and for
`RARCH_CMD_NETPLAY_INIT` a context in which the client flag is not set without a
server address, running the command a second time after a first run that
returned gives the same return value and the same handle state as the first run
(each handle null or not; for `RARCH_CMD_AUTOSAVE_INIT` the array and each of its
timers), and the second run releases exactly as many objects as it allocates,
the timers, their array and the list of shaders included. -/
theorem init_twice_idempotent (cfg : build_config) (ext : externals σ) (cmd : rarch_cmd)
    (g : rarch_context σ) (hcmd : cmd ∈ handle_init_commands) (hdet : deterministic ext)
    (hnet : cmd = rarch_cmd.RARCH_CMD_NETPLAY_INIT →
      g.netplay_server ≠ [] ∨ g.netplay_is_client = false)
    (hrun : g.halted = none)
    (hret : (rarch_main_command cfg ext cmd g).2.halted = none) :
    init_twice_same cfg ext cmd g := by
  simp only [handle_init_commands, List.mem_cons, List.mem_singleton, List.not_mem_nil,
    or_false] at hcmd
  rcases hcmd with h | h | h | h | h | h | h | h | h | h | h | h <;> subst h
  · exact cheats_init_twice cfg ext g hrun
  · exact rewind_init_twice cfg ext g hdet hrun
  · exact autosave_init_twice cfg ext g hdet hrun
  · exact overlay_init_twice cfg ext g hdet hrun
  · exact dsp_filter_init_twice cfg ext g hdet hrun
  · exact history_init_twice cfg ext g hdet hrun
  · exact core_info_init_twice cfg ext g hdet hrun
  · exact shader_dir_init_twice cfg ext g hrun
  · exact msg_queue_init_twice cfg ext g hdet hrun hret
  · exact bsv_movie_init_twice cfg ext g hdet hrun hret
  · exact netplay_init_twice cfg ext g hdet hrun (hnet rfl)
  · exact command_init_twice cfg ext g hdet hrun

end twice

/-- The example collaborators are deterministic once the serialization size and
the results of the outside functions are fixed. -/
theorem sample_deterministic_externals_deterministic :
    deterministic sample_deterministic_externals :=
  ⟨fun _ _ _ _ => rfl, fun _ _ => rfl, fun _ _ _ => rfl, fun _ _ _ => rfl, fun _ _ _ => rfl,
    fun _ _ _ _ _ _ => rfl, fun _ _ _ _ => rfl⟩

/-- C15, the counterexample: netplay enabled, the client flag set and no server
address.  The first `RARCH_CMD_NETPLAY_INIT` asks `netplay_new` for a client of
the empty address, fails, returns false and clears the client flag; the second
asks for a server, succeeds and returns true with a session handle. -/
theorem netplay_init_twice_differs :
    (rarch_main_command sample_config sample_deterministic_externals
      rarch_cmd.RARCH_CMD_NETPLAY_INIT
      { sample_context with netplay_enable := true, netplay_is_client := true }).1 = false
    ∧ (rarch_main_command sample_config sample_deterministic_externals
      rarch_cmd.RARCH_CMD_NETPLAY_INIT
      { sample_context with netplay_enable := true, netplay_is_client := true }).2.netplay_data
      = none
    ∧ (rarch_main_command sample_config sample_deterministic_externals
      rarch_cmd.RARCH_CMD_NETPLAY_INIT
      (rarch_main_command sample_config sample_deterministic_externals
        rarch_cmd.RARCH_CMD_NETPLAY_INIT
        { sample_context with netplay_enable := true, netplay_is_client := true }).2).1 = true
    ∧ (rarch_main_command sample_config sample_deterministic_externals
      rarch_cmd.RARCH_CMD_NETPLAY_INIT
      (rarch_main_command sample_config sample_deterministic_externals
        rarch_cmd.RARCH_CMD_NETPLAY_INIT
        { sample_context with netplay_enable := true, netplay_is_client := true }).2).2.netplay_data
      = some 8 := by
  decide

/-- The example collaborators with save RAM are deterministic as well. -/
theorem sample_deterministic_externals_with_save_ram_deterministic :
    deterministic sample_deterministic_externals_with_save_ram :=
  ⟨fun _ _ _ _ => rfl, fun _ _ => rfl, fun _ _ _ => rfl, fun _ _ _ => rfl, fun _ _ _ => rfl,
    fun _ _ _ _ _ _ => rfl, fun _ _ _ _ => rfl⟩

/-- C15, amended, at examples: a netplay client of the host `peer`, and the
autosave timers of two save files on a core with save RAM and no clock, where
the second run releases the timer and the array of the first and makes them
anew. -/
theorem init_twice_idempotent_witness :
    rarch_cmd.RARCH_CMD_NETPLAY_INIT ∈ handle_init_commands
    ∧ deterministic sample_deterministic_externals
    ∧ init_twice_same sample_config sample_deterministic_externals
        rarch_cmd.RARCH_CMD_NETPLAY_INIT
        { sample_context with netplay_enable := true, netplay_server := "peer".toList }
    ∧ rarch_cmd.RARCH_CMD_AUTOSAVE_INIT ∈ handle_init_commands
    ∧ deterministic sample_deterministic_externals_with_save_ram
    ∧ init_twice_same sample_config sample_deterministic_externals_with_save_ram
        rarch_cmd.RARCH_CMD_AUTOSAVE_INIT sample_context_with_savefiles
    ∧ handle_state rarch_cmd.RARCH_CMD_AUTOSAVE_INIT
        (rarch_main_command sample_config sample_deterministic_externals_with_save_ram
          rarch_cmd.RARCH_CMD_AUTOSAVE_INIT sample_context_with_savefiles).2
      = [true, true, false]
    ∧ releases (calls_logged
        (rarch_main_command sample_config sample_deterministic_externals_with_save_ram
          rarch_cmd.RARCH_CMD_AUTOSAVE_INIT sample_context_with_savefiles).2
        (rarch_main_command sample_config sample_deterministic_externals_with_save_ram
          rarch_cmd.RARCH_CMD_AUTOSAVE_INIT
          (rarch_main_command sample_config sample_deterministic_externals_with_save_ram
            rarch_cmd.RARCH_CMD_AUTOSAVE_INIT sample_context_with_savefiles).2).2) = 2 :=
  ⟨by decide, sample_deterministic_externals_deterministic,
    init_twice_idempotent sample_config sample_deterministic_externals
      rarch_cmd.RARCH_CMD_NETPLAY_INIT
      { sample_context with netplay_enable := true, netplay_server := "peer".toList }
      (by decide) sample_deterministic_externals_deterministic (fun _ => Or.inl (by decide))
      rfl (by decide),
    by decide, sample_deterministic_externals_with_save_ram_deterministic,
    init_twice_idempotent sample_config sample_deterministic_externals_with_save_ram
      rarch_cmd.RARCH_CMD_AUTOSAVE_INIT sample_context_with_savefiles
      (by decide) sample_deterministic_externals_with_save_ram_deterministic
      (fun h => absurd h (by decide)) rfl (by decide),
    by decide, by decide⟩

/-! ## The call graph is acyclic -/

/-- Every call goes to a node of smaller rank. -/
theorem call_rank_decreases (n m : call_node) (h : m ∈ direct_calls n) :
    call_rank m < call_rank n := by
  have key : ∀ n : call_node, ∀ m ∈ direct_calls n, call_rank m < call_rank n := by
    intro n
    cases n with
    | command c => cases c <;> decide
    | state s => cases s <;> decide
    | fn f => cases f <;> decide
  exact key n m h

/-- A chain of calls goes to a node of smaller rank. -/
theorem call_rank_decreases_trans (n m : call_node) (h : Relation.TransGen calls n m) :
    call_rank m < call_rank n := by
  induction h with
  | single h => exact call_rank_decreases _ _ h
  | tail _ h ih => exact lt_trans (call_rank_decreases _ _ h) ih

/-- C17: the call graph among the cases of `rarch_main_command`, the cases of
`rarch_main_set_state` and the other functions of the file is acyclic: every
call goes to a node of smaller rank, so no opcode, no lifecycle state and no
helper reaches itself through a chain of calls, and the relation "is called by"
is well-founded. -/
theorem call_graph_acyclic :
    (∀ n m, calls n m → call_rank m < call_rank n)
    ∧ (∀ n, ¬ Relation.TransGen calls n n)
    ∧ WellFounded (fun m n => calls n m) := by
  refine ⟨call_rank_decreases, fun n h => ?_, ?_⟩
  · exact lt_irrefl _ (call_rank_decreases_trans n n h)
  · exact Subrelation.wf (fun {m n} h => call_rank_decreases n m h) (measure call_rank).wf

/-! ## Startup -/

section startup
variable {σ : Type}

theorem free_handle_halted (ext : externals σ) (fn : extern_fn) (h : Option Nat)
    (g : rarch_context σ) : (free_handle ext fn h g).halted = g.halted := by
  cases h <;> rfl

theorem foldl_halted {α : Type} (f : rarch_context σ → α → rarch_context σ)
    (hf : ∀ g a, (f g a).halted = g.halted) (l : List α) (g : rarch_context σ) :
    (l.foldl f g).halted = g.halted := by
  induction l generalizing g with
  | nil => rfl
  | cons a l ih => rw [List.foldl_cons, ih, hf]

theorem cmd_drivers_init_halted (ext : externals σ) (g : rarch_context σ) :
    (invoke rarch_cmd.RARCH_CMD_DRIVERS_INIT (cmd_drivers_init ext) g).2.halted = g.halted :=
  rfl

theorem cmd_command_init_halted (cfg : build_config) (ext : externals σ) (g : rarch_context σ) :
    (invoke rarch_cmd.RARCH_CMD_COMMAND_INIT (cmd_command_init cfg ext) g).2.halted
      = g.halted := by
  unfold invoke cmd_command_init cmd_command_deinit init_command invoke
  dsimp only
  split_ifs <;> simp [free_handle_halted, extern_call, log_call]

theorem cmd_rewind_init_halted (cfg : build_config) (ext : externals σ) (g : rarch_context σ) :
    (invoke rarch_cmd.RARCH_CMD_REWIND_INIT (cmd_rewind_init cfg ext) g).2.halted
      = g.halted := by
  unfold invoke cmd_rewind_init init_rewind
  dsimp only
  split_ifs <;> simp [extern_call, log_call]

theorem init_controllers_port_halted (ext : externals σ) (i : Nat) (g : rarch_context σ) :
    (init_controllers_port ext i g).halted = g.halted := by
  unfold init_controllers_port
  dsimp only
  split_ifs <;> simp [extern_call, log_call]

theorem cmd_controllers_init_halted (cfg : build_config) (ext : externals σ)
    (g : rarch_context σ) :
    (invoke rarch_cmd.RARCH_CMD_CONTROLLERS_INIT (cmd_controllers_init cfg ext) g).2.halted
      = g.halted := by
  unfold invoke cmd_controllers_init init_controllers
  exact foldl_halted _ (fun g i => init_controllers_port_halted ext i g) _ _

theorem cmd_record_init_halted (ext : externals σ) (g : rarch_context σ) :
    (invoke rarch_cmd.RARCH_CMD_RECORD_INIT (cmd_record_init ext) g).2.halted = g.halted := by
  unfold invoke cmd_record_init cmd_history_deinit invoke
  dsimp only
  split_ifs <;> simp [free_handle_halted, extern_call, log_call]

theorem cmd_cheats_init_halted (cfg : build_config) (ext : externals σ) (g : rarch_context σ) :
    (invoke rarch_cmd.RARCH_CMD_CHEATS_INIT (cmd_cheats_init cfg ext) g).2.halted
      = g.halted := by
  unfold invoke cmd_cheats_init cmd_cheats_deinit init_cheats invoke
  dsimp only
  split_ifs <;> simp [free_handle_halted, extern_call, log_call]

theorem cmd_remapping_init_halted (ext : externals σ) (g : rarch_context σ) :
    (invoke rarch_cmd.RARCH_CMD_REMAPPING_INIT (cmd_remapping_init ext) g).2.halted
      = g.halted := by
  unfold invoke cmd_remapping_init cmd_remapping_deinit init_remapping invoke
  dsimp only
  split_ifs <;> simp [extern_call, log_call]

theorem deinit_autosave_halted (ext : externals σ) (g : rarch_context σ) :
    (deinit_autosave ext g).halted = g.halted := rfl

theorem init_autosave_halted (ext : externals σ) (g : rarch_context σ) :
    (init_autosave ext g).halted = g.halted := by
  unfold init_autosave
  split
  · rfl
  · dsimp only
    split_ifs <;> rfl

theorem cmd_autosave_init_halted (cfg : build_config) (ext : externals σ)
    (g : rarch_context σ) :
    (invoke rarch_cmd.RARCH_CMD_AUTOSAVE_INIT (cmd_autosave_init cfg ext) g).2.halted
      = g.halted := by
  unfold invoke cmd_autosave_init cmd_autosave_deinit invoke
  dsimp only
  split_ifs <;> first | rfl | exact (init_autosave_halted ext _).trans rfl

theorem cmd_savefiles_init_halted (cfg : build_config) (ext : externals σ)
    (g : rarch_context σ) :
    (invoke rarch_cmd.RARCH_CMD_SAVEFILES_INIT (cmd_savefiles_init cfg ext) g).2.halted
      = g.halted := by
  unfold invoke cmd_savefiles_init
  dsimp only
  split_ifs <;> first | rfl | exact (cmd_autosave_init_halted cfg ext _).trans rfl

theorem then_do_of_running (step : rarch_context σ → rarch_context σ) (g : rarch_context σ)
    (h : g.halted = none) : then_do step g = step g := by
  simp [then_do, h]

theorem cmd_core_deinit_halted (ext : externals σ) (g : rarch_context σ) :
    (invoke rarch_cmd.RARCH_CMD_CORE_DEINIT (cmd_core_deinit ext) g).2.halted = g.halted := by
  simp [invoke, cmd_core_deinit, deinit_core, cmd_drivers_deinit, extern_call, log_call]

theorem cmd_core_deinit_log (ext : externals σ) (g : rarch_context σ) :
    commands_logged g (invoke rarch_cmd.RARCH_CMD_CORE_DEINIT (cmd_core_deinit ext) g).2
      = [rarch_cmd.RARCH_CMD_CORE_DEINIT, rarch_cmd.RARCH_CMD_DRIVERS_DEINIT] := by
  simp [commands_logged, calls_logged, invoke, cmd_core_deinit, deinit_core,
    cmd_drivers_deinit, extern_call, log_call, rarch_call.to_command]

/-- What the startup commands after `RARCH_CMD_CORE_INIT` leave, when control is
in the normal flow before them: control is still in the normal flow. -/
theorem later_startup_commands_halted (cfg : build_config) (ext : externals σ)
    (g : rarch_context σ) (h : g.halted = none) :
    (then_do (fun g =>
        (invoke rarch_cmd.RARCH_CMD_SAVEFILES_INIT (cmd_savefiles_init cfg ext) g).2)
      (then_do (fun g =>
        (invoke rarch_cmd.RARCH_CMD_REMAPPING_INIT (cmd_remapping_init ext) g).2)
      (then_do (fun g =>
        (invoke rarch_cmd.RARCH_CMD_CHEATS_INIT (cmd_cheats_init cfg ext) g).2)
      (then_do (fun g =>
        (invoke rarch_cmd.RARCH_CMD_RECORD_INIT (cmd_record_init ext) g).2)
      (then_do (fun g =>
        (invoke rarch_cmd.RARCH_CMD_CONTROLLERS_INIT (cmd_controllers_init cfg ext) g).2)
      (then_do (fun g =>
        (invoke rarch_cmd.RARCH_CMD_REWIND_INIT (cmd_rewind_init cfg ext) g).2)
      (then_do (fun g =>
        (invoke rarch_cmd.RARCH_CMD_COMMAND_INIT (cmd_command_init cfg ext) g).2)
      (then_do (fun g =>
        (invoke rarch_cmd.RARCH_CMD_DRIVERS_INIT (cmd_drivers_init ext) g).2)
        g)))))))).halted = none := by
  have h1 := (cmd_drivers_init_halted ext g).trans h
  rw [then_do_of_running _ g h]
  have h2 := (cmd_command_init_halted cfg ext _).trans h1
  rw [then_do_of_running _ _ h1]
  have h3 := (cmd_rewind_init_halted cfg ext _).trans h2
  rw [then_do_of_running _ _ h2]
  have h4 := (cmd_controllers_init_halted cfg ext _).trans h3
  rw [then_do_of_running _ _ h3]
  have h5 := (cmd_record_init_halted ext _).trans h4
  rw [then_do_of_running _ _ h4]
  have h6 := (cmd_cheats_init_halted cfg ext _).trans h5
  rw [then_do_of_running _ _ h5]
  have h7 := (cmd_remapping_init_halted ext _).trans h6
  rw [then_do_of_running _ _ h6]
  have h8 := (cmd_savefiles_init_halted cfg ext _).trans h7
  rw [then_do_of_running _ _ h7]
  exact h8

theorem set_savestate_auto_index_halted (cfg : build_config) (ext : externals σ)
    (g : rarch_context σ) : (set_savestate_auto_index cfg ext g).halted = g.halted := by
  unfold set_savestate_auto_index
  split_ifs
  · rfl
  · dsimp only
    split <;> rfl

theorem load_save_files_halted (ext : externals σ) (g : rarch_context σ) :
    (load_save_files ext g).2.halted = g.halted := by
  unfold load_save_files
  split
  · rfl
  · split_ifs
    · rfl
    · exact foldl_halted
        (fun g (e : cstring × Nat) =>
          (extern_call ext extern_fn.load_ram_file [cval.str e.1, cval.int e.2] g).2)
        (fun _ _ => rfl) _ _

theorem load_auto_state_halted (cfg : build_config) (ext : externals σ)
    (g : rarch_context σ) : (load_auto_state cfg ext g).halted = g.halted := by
  unfold load_auto_state
  split_ifs
  · rfl
  · rfl
  · dsimp only
    split_ifs <;> simp [extern_call]

theorem init_system_av_info_halted (ext : externals σ) (g : rarch_context σ) :
    (init_system_av_info ext g).halted = g.halted := by
  simp [init_system_av_info, extern_call]

theorem ite_snd_halted (c : Prop) [Decidable c] (a b : Bool × rarch_context σ)
    (x : Option halt_reason) (ha : a.2.halted = x) (hb : b.2.halted = x) :
    (if c then a else b).2.halted = x := by
  split_ifs <;> assumption

theorem ite_halted (c : Prop) [Decidable c] (a b : rarch_context σ)
    (x : Option halt_reason) (ha : a.halted = x) (hb : b.halted = x) :
    (if c then a else b).halted = x := by
  split_ifs <;> assumption

theorem rarch_init_savefile_paths_halted (cfg : build_config) (ext : externals σ)
    (g g1 : rarch_context σ) (h : rarch_init_savefile_paths cfg ext g = some g1) :
    g1.halted = g.halted := by
  unfold rarch_init_savefile_paths invoke cmd_savefiles_deinit log_call at h
  simp only at h
  split_ifs at h <;> simp only [Option.some.injEq] at h <;> subst h <;> rfl

theorem fill_pathnames_halted (cfg : build_config) (ext : externals σ)
    (g g1 : rarch_context σ) (h : fill_pathnames cfg ext g = some g1) :
    g1.halted = g.halted := by
  unfold fill_pathnames at h
  cases h1 : rarch_init_savefile_paths cfg ext g with
  | none => simp [h1] at h
  | some g0 =>
    have e0 := rarch_init_savefile_paths_halted cfg ext g g0 h1
    simp only [h1] at h
    split_ifs at h <;> simp only [Option.some.injEq] at h <;> subst h <;> exact e0

/-- The function `init_movie` leaves the normal flow only through
`rarch_fail(1, "init_movie()")`. -/
theorem init_movie_halted (cfg : build_config) (ext : externals σ) (g : rarch_context σ) :
    (init_movie cfg ext g).halted = g.halted
    ∨ (init_movie cfg ext g).halted
      = some (halt_reason.rarch_fail 1 "init_movie()".toList) := by
  unfold init_movie
  dsimp only
  split_ifs
  · exact Or.inr rfl
  · exact Or.inl rfl
  · exact Or.inl rfl
  · exact Or.inl rfl
  · exact Or.inl rfl

theorem cmd_bsv_movie_init_halted (cfg : build_config) (ext : externals σ)
    (g : rarch_context σ) :
    (invoke rarch_cmd.RARCH_CMD_BSV_MOVIE_INIT (cmd_bsv_movie_init cfg ext) g).2.halted
        = g.halted
    ∨ (invoke rarch_cmd.RARCH_CMD_BSV_MOVIE_INIT (cmd_bsv_movie_init cfg ext) g).2.halted
      = some (halt_reason.rarch_fail 1 "init_movie()".toList) := by
  unfold invoke
  rw [cmd_bsv_movie_init_context]
  have hd := (invoke_bsv_movie_deinit ext
    (log_call (rarch_call.command rarch_cmd.RARCH_CMD_BSV_MOVIE_INIT) g)).2.2.1
  rcases init_movie_halted cfg ext
    (invoke rarch_cmd.RARCH_CMD_BSV_MOVIE_DEINIT (cmd_bsv_movie_deinit ext)
      (log_call (rarch_call.command rarch_cmd.RARCH_CMD_BSV_MOVIE_INIT) g)).2 with h | h
  · exact Or.inl (h.trans hd)
  · exact Or.inr h

theorem init_netplay_halted (cfg : build_config) (ext : externals σ) (g : rarch_context σ) :
    (init_netplay cfg ext g).2.halted = g.halted := by
  unfold init_netplay
  refine ite_snd_halted _ _ _ _ rfl ?_
  refine ite_snd_halted _ _ _ _ rfl ?_
  lift_lets
  intro cbs s1 g1 made s2 g2 g3
  have e1 : cbs.2.halted = g.halted := rfl
  have e2 : g1.halted = g.halted := ite_halted _ _ _ _ e1 e1
  have e3 : made.2.halted = g.halted := e2
  have e4 : g2.halted = g.halted := e3
  have e5 : g3.halted = g.halted := e4
  refine ite_snd_halted _ _ _ _ e4 ?_
  exact ite_snd_halted _ _ _ _ e5 e5

theorem cmd_netplay_init_halted (cfg : build_config) (ext : externals σ)
    (g : rarch_context σ) :
    (invoke rarch_cmd.RARCH_CMD_NETPLAY_INIT (cmd_netplay_init cfg ext) g).2.halted
      = g.halted := by
  have hd : ∀ x : rarch_context σ,
      (invoke rarch_cmd.RARCH_CMD_NETPLAY_DEINIT (cmd_netplay_deinit cfg ext) x).2.halted
        = x.halted := by
    intro x
    unfold invoke cmd_netplay_deinit
    split_ifs
    · exact (free_handle_halted ext _ _ _).trans rfl
    · rfl
  unfold invoke cmd_netplay_init
  dsimp only
  split_ifs <;> first
    | exact (init_netplay_halted cfg ext _).trans (hd _)
    | exact hd _

theorem ite_snd_exit (c : Prop) [Decidable c] (a b : Bool × rarch_context σ)
    (ha : core_init_exit a.2.halted) (hb : core_init_exit b.2.halted) :
    core_init_exit (if c then a else b).2.halted := by
  split_ifs <;> assumption

theorem unless_halted_exit (g : rarch_context σ)
    (rest : rarch_context σ → Bool × rarch_context σ) (hg : core_init_exit g.halted)
    (hrest : g.halted = none → core_init_exit (rest g).2.halted) :
    core_init_exit (unless_halted g rest).2.halted := by
  unfold unless_halted
  split_ifs with h
  · exact hg
  · exact hrest (by simpa using h)

/-- The function `init_content` leaves the normal flow only through the
`rarch_fail(1, "init_movie()")` of `init_movie` or through the assertion of
`rarch_init_savefile_paths`. -/
theorem init_content_exit (cfg : build_config) (ext : externals σ) (g : rarch_context σ)
    (hrun : g.halted = none) : core_init_exit (init_content cfg ext g).2.halted := by
  unfold init_content
  refine ite_snd_exit _ _ _ (Or.inl hrun) ?_
  lift_lets
  intro g1
  have h1 : core_init_exit g1.halted := by
    by_cases hn : (!g.libretro_no_content) = true
    · cases hf : fill_pathnames cfg ext g with
      | none =>
        have e : g1 = rarch_assert false g := by
          show (if _ then _ else _) = _
          rw [if_pos hn, hf]
        rw [e]
        exact Or.inr (Or.inr rfl)
      | some x =>
        have e : g1 = x := by
          show (if _ then _ else _) = _
          rw [if_pos hn, hf]
        rw [e]
        exact Or.inl ((fill_pathnames_halted cfg ext g x hf).trans hrun)
    · have e : g1 = g := by
        show (if _ then _ else _) = _
        rw [if_neg hn]
      rw [e]
      exact Or.inl hrun
  refine unless_halted_exit g1 _ h1 fun hg1 => ?_
  beta_reduce
  lift_lets
  intro loaded g2 g3 g4 g5
  have hl : loaded.2.halted = none := hg1
  refine ite_snd_exit _ _ _ (Or.inl hl) ?_
  refine ite_snd_exit _ _ _ (Or.inl hl) ?_
  have h2 : g2.halted = none := (set_savestate_auto_index_halted cfg ext _).trans hl
  have h3 : g3.halted = none := (load_save_files_halted ext _).trans h2
  have h4 : g4.halted = none := (load_auto_state_halted cfg ext _).trans h3
  have h5 : core_init_exit g5.halted := by
    rcases cmd_bsv_movie_init_halted cfg ext g4 with h | h
    · exact Or.inl (h.trans h4)
    · exact Or.inr (Or.inl h)
  refine unless_halted_exit g5 _ h5 fun hg5 => ?_
  exact Or.inl ((cmd_netplay_init_halted cfg ext _).trans hg5)

theorem init_core_exit (cfg : build_config) (ext : externals σ) (g : rarch_context σ)
    (hrun : g.halted = none) : core_init_exit (init_core cfg ext g).2.halted := by
  unfold init_core
  lift_lets
  intro g1 g2 r
  have h2 : g2.halted = none := hrun
  refine unless_halted_exit r.2 _ (init_content_exit cfg ext g2 h2) fun hr => ?_
  refine ite_snd_exit _ _ _ (Or.inl hr) ?_
  exact Or.inl ((init_system_av_info_halted ext _).trans hr)

/-- The case `RARCH_CMD_CORE_INIT` leaves the normal flow only through the
`rarch_fail(1, "init_movie()")` of `init_movie` or through the assertion of
`rarch_init_savefile_paths`. -/
theorem cmd_core_init_exit (cfg : build_config) (ext : externals σ) (g : rarch_context σ)
    (hrun : g.halted = none) :
    core_init_exit
      (invoke rarch_cmd.RARCH_CMD_CORE_INIT (cmd_core_init cfg ext) g).2.halted := by
  have h := init_core_exit cfg ext
    (log_call (rarch_call.command rarch_cmd.RARCH_CMD_CORE_INIT) g) hrun
  unfold invoke cmd_core_init
  exact ite_snd_exit _ _ _ h h

/-- C21, amended: when the steps before it return, what `rarch_main_init` does
follows from how `RARCH_CMD_CORE_INIT` ends.  If the command returns true,
`rarch_main_init` returns 0 with `main_is_init` true.  If it returns false,
`rarch_main_init` returns 1 with `main_is_init` false, and what it does after
`RARCH_CMD_CORE_INIT` is `RARCH_CMD_CORE_DEINIT` (with its nested
`RARCH_CMD_DRIVERS_DEINIT`) and nothing else.  If the command does not return
because `init_movie` called `rarch_fail(1, "init_movie()")`, `rarch_main_init`
returns 1 at once: the context is the one that the failure left, no command is
executed after it and `main_is_init` is not written.  If an assertion failed,
`rarch_main_init` does not return.  There is no other case. -/
theorem rarch_main_init_result (cfg : build_config) (ext : externals σ)
    (steps : startup_steps σ) (argv : List cstring) (g : rarch_context σ)
    (hstart : (rarch_main_init_startup cfg ext steps argv (init_state g)).halted = none) :
    ((invoke rarch_cmd.RARCH_CMD_CORE_INIT (cmd_core_init cfg ext)
        (rarch_main_init_startup cfg ext steps argv (init_state g))).2.halted = none →
      (invoke rarch_cmd.RARCH_CMD_CORE_INIT (cmd_core_init cfg ext)
        (rarch_main_init_startup cfg ext steps argv (init_state g))).1 = true →
      (rarch_main_init cfg ext steps argv g).1 = some 0
      ∧ (rarch_main_init cfg ext steps argv g).2.main_is_init = true)
    ∧ ((invoke rarch_cmd.RARCH_CMD_CORE_INIT (cmd_core_init cfg ext)
        (rarch_main_init_startup cfg ext steps argv (init_state g))).2.halted = none →
      (invoke rarch_cmd.RARCH_CMD_CORE_INIT (cmd_core_init cfg ext)
        (rarch_main_init_startup cfg ext steps argv (init_state g))).1 = false →
      rarch_main_init cfg ext steps argv g
        = (some 1,
          { (invoke rarch_cmd.RARCH_CMD_CORE_DEINIT (cmd_core_deinit ext)
              (invoke rarch_cmd.RARCH_CMD_CORE_INIT (cmd_core_init cfg ext)
                (rarch_main_init_startup cfg ext steps argv (init_state g))).2).2 with
            main_is_init := false })
      ∧ (rarch_main_init cfg ext steps argv g).2.main_is_init = false
      ∧ commands_logged
          (invoke rarch_cmd.RARCH_CMD_CORE_INIT (cmd_core_init cfg ext)
            (rarch_main_init_startup cfg ext steps argv (init_state g))).2
          (rarch_main_init cfg ext steps argv g).2
        = [rarch_cmd.RARCH_CMD_CORE_DEINIT, rarch_cmd.RARCH_CMD_DRIVERS_DEINIT])
    ∧ ((invoke rarch_cmd.RARCH_CMD_CORE_INIT (cmd_core_init cfg ext)
        (rarch_main_init_startup cfg ext steps argv (init_state g))).2.halted
          = some (halt_reason.rarch_fail 1 "init_movie()".toList) →
      rarch_main_init cfg ext steps argv g
        = (some 1,
          { (invoke rarch_cmd.RARCH_CMD_CORE_INIT (cmd_core_init cfg ext)
              (rarch_main_init_startup cfg ext steps argv (init_state g))).2 with
            halted := none })
      ∧ (rarch_main_init cfg ext steps argv g).2.main_is_init
        = (invoke rarch_cmd.RARCH_CMD_CORE_INIT (cmd_core_init cfg ext)
            (rarch_main_init_startup cfg ext steps argv (init_state g))).2.main_is_init
      ∧ commands_logged
          (invoke rarch_cmd.RARCH_CMD_CORE_INIT (cmd_core_init cfg ext)
            (rarch_main_init_startup cfg ext steps argv (init_state g))).2
          (rarch_main_init cfg ext steps argv g).2 = [])
    ∧ ((invoke rarch_cmd.RARCH_CMD_CORE_INIT (cmd_core_init cfg ext)
        (rarch_main_init_startup cfg ext steps argv (init_state g))).2.halted
          = some halt_reason.rarch_assert →
      (rarch_main_init cfg ext steps argv g).1 = none)
    ∧ core_init_exit
        (invoke rarch_cmd.RARCH_CMD_CORE_INIT (cmd_core_init cfg ext)
          (rarch_main_init_startup cfg ext steps argv (init_state g))).2.halted := by
  have hrun : (invoke rarch_cmd.RARCH_CMD_CORE_INIT (cmd_core_init cfg ext)
        (rarch_main_init_startup cfg ext steps argv (init_state g))).2.halted = none →
      rarch_main_init_run cfg ext steps argv (init_state g)
      = if (invoke rarch_cmd.RARCH_CMD_CORE_INIT (cmd_core_init cfg ext)
          (rarch_main_init_startup cfg ext steps argv (init_state g))).1 = true then
          (0, then_do (fun g => { g with error_in_init := false, main_is_init := true })
            (then_do (fun g =>
              (invoke rarch_cmd.RARCH_CMD_SAVEFILES_INIT (cmd_savefiles_init cfg ext) g).2)
            (then_do (fun g =>
              (invoke rarch_cmd.RARCH_CMD_REMAPPING_INIT (cmd_remapping_init ext) g).2)
            (then_do (fun g =>
              (invoke rarch_cmd.RARCH_CMD_CHEATS_INIT (cmd_cheats_init cfg ext) g).2)
            (then_do (fun g =>
              (invoke rarch_cmd.RARCH_CMD_RECORD_INIT (cmd_record_init ext) g).2)
            (then_do (fun g =>
              (invoke rarch_cmd.RARCH_CMD_CONTROLLERS_INIT (cmd_controllers_init cfg ext) g).2)
            (then_do (fun g =>
              (invoke rarch_cmd.RARCH_CMD_REWIND_INIT (cmd_rewind_init cfg ext) g).2)
            (then_do (fun g =>
              (invoke rarch_cmd.RARCH_CMD_COMMAND_INIT (cmd_command_init cfg ext) g).2)
            (then_do (fun g =>
              (invoke rarch_cmd.RARCH_CMD_DRIVERS_INIT (cmd_drivers_init ext) g).2)
              (invoke rarch_cmd.RARCH_CMD_CORE_INIT (cmd_core_init cfg ext)
                (rarch_main_init_startup cfg ext steps argv (init_state g))).2)))))))))
        else
          (1, { (invoke rarch_cmd.RARCH_CMD_CORE_DEINIT (cmd_core_deinit ext)
              (invoke rarch_cmd.RARCH_CMD_CORE_INIT (cmd_core_init cfg ext)
                (rarch_main_init_startup cfg ext steps argv (init_state g))).2).2 with
            main_is_init := false }) := by
    intro hcore
    unfold rarch_main_init_run
    simp only [hstart, hcore, Option.isSome_none, Bool.false_eq_true, if_false]
    by_cases hc : (invoke rarch_cmd.RARCH_CMD_CORE_INIT (cmd_core_init cfg ext)
        (rarch_main_init_startup cfg ext steps argv (init_state g))).1 = true
    · simp [hc]
    · simp [hc]
  have hstop : ∀ h : halt_reason,
      (invoke rarch_cmd.RARCH_CMD_CORE_INIT (cmd_core_init cfg ext)
        (rarch_main_init_startup cfg ext steps argv (init_state g))).2.halted = some h →
      rarch_main_init_run cfg ext steps argv (init_state g)
        = (0, (invoke rarch_cmd.RARCH_CMD_CORE_INIT (cmd_core_init cfg ext)
            (rarch_main_init_startup cfg ext steps argv (init_state g))).2) := by
    intro h hcore
    unfold rarch_main_init_run
    simp only [hstart, hcore, Option.isSome_none, Option.isSome_some, Bool.false_eq_true,
      if_false, if_true]
  refine ⟨?_, ?_, ?_, ?_, cmd_core_init_exit cfg ext _ hstart⟩
  · intro hcore hc
    have hl := later_startup_commands_halted cfg ext _ hcore
    unfold rarch_main_init
    rw [hrun hcore, if_pos hc, then_do_of_running _ _ hl]
    dsimp only
    rw [hl]
    exact ⟨rfl, rfl⟩
  · intro hcore hc
    have hd := (cmd_core_deinit_halted ext _).trans hcore
    have hres : rarch_main_init cfg ext steps argv g
        = (some 1,
          { (invoke rarch_cmd.RARCH_CMD_CORE_DEINIT (cmd_core_deinit ext)
              (invoke rarch_cmd.RARCH_CMD_CORE_INIT (cmd_core_init cfg ext)
                (rarch_main_init_startup cfg ext steps argv (init_state g))).2).2 with
            main_is_init := false }) := by
      unfold rarch_main_init
      rw [hrun hcore, if_neg (by simp [hc])]
      dsimp only
      rw [hd]
    refine ⟨hres, ?_, ?_⟩
    · rw [hres]
    · rw [hres]
      exact cmd_core_deinit_log ext _
  · intro hcore
    have hres : rarch_main_init cfg ext steps argv g
        = (some 1,
          { (invoke rarch_cmd.RARCH_CMD_CORE_INIT (cmd_core_init cfg ext)
              (rarch_main_init_startup cfg ext steps argv (init_state g))).2 with
            halted := none }) := by
      unfold rarch_main_init
      rw [hstop _ hcore]
      dsimp only
      rw [hcore]
      rfl
    refine ⟨hres, ?_, ?_⟩
    · rw [hres]
    · rw [hres]
      simp [commands_logged, calls_logged]
  · intro hcore
    unfold rarch_main_init
    rw [hstop _ hcore]
    dsimp only
    rw [hcore]

end startup

/-- C21, the counterexample: playback of a movie that cannot be opened is
requested.  `RARCH_CMD_CORE_INIT` fails in `init_movie`, through
`rarch_fail(1, "init_movie()")`; `rarch_main_init` returns 1, and the commands it
has executed are those of `RARCH_CMD_CORE_INIT` up to the failure:
`RARCH_CMD_CORE_DEINIT` is not among them. -/
theorem rarch_main_init_fatal_skips_core_deinit :
    (rarch_main_init_startup sample_config sample_externals sample_startup []
      (init_state sample_context_playback)).halted = none
    ∧ (invoke rarch_cmd.RARCH_CMD_CORE_INIT (cmd_core_init sample_config sample_externals)
        (rarch_main_init_startup sample_config sample_externals sample_startup []
          (init_state sample_context_playback))).2.halted
      = some (halt_reason.rarch_fail 1 "init_movie()".toList)
    ∧ (rarch_main_init sample_config sample_externals sample_startup []
        sample_context_playback).1 = some 1
    ∧ commands_logged sample_context_playback
        (rarch_main_init sample_config sample_externals sample_startup []
          sample_context_playback).2
      = [rarch_cmd.RARCH_CMD_CORE_INIT, rarch_cmd.RARCH_CMD_SAVEFILES_DEINIT,
        rarch_cmd.RARCH_CMD_BSV_MOVIE_INIT, rarch_cmd.RARCH_CMD_BSV_MOVIE_DEINIT]
    ∧ rarch_cmd.RARCH_CMD_CORE_DEINIT
      ∉ commands_logged sample_context_playback
        (rarch_main_init sample_config sample_externals sample_startup []
          sample_context_playback).2 := by
  decide

/-- C21, amended, at examples: the example context with a content file that
cannot be loaded, and with a movie that cannot be opened. -/
theorem rarch_main_init_result_witness :
    (rarch_main_init_startup sample_config sample_externals_without_content sample_startup []
      (init_state sample_context)).halted = none
    ∧ (rarch_main_init sample_config sample_externals_without_content sample_startup []
        sample_context).1 = some 1
    ∧ (rarch_main_init sample_config sample_externals_without_content sample_startup []
        sample_context).2.main_is_init = false
    ∧ (rarch_main_init sample_config sample_externals sample_startup []
        sample_context_playback).1 = some 1 :=
  ⟨by decide,
    (congrArg Prod.fst ((rarch_main_init_result sample_config sample_externals_without_content
      sample_startup [] sample_context (by decide)).2.1 (by decide) (by decide)).1 : _),
    ((rarch_main_init_result sample_config sample_externals_without_content
      sample_startup [] sample_context (by decide)).2.1 (by decide) (by decide)).2.1,
    (congrArg Prod.fst ((rarch_main_init_result sample_config sample_externals
      sample_startup [] sample_context_playback (by decide)).2.2.1 (by decide)).1 : _)⟩

/-! ## Shutdown -/

section teardown
variable {σ : Type}

theorem executes_refl (g : rarch_context σ) : executes [] g g := ⟨[], by simp, rfl⟩

theorem executes_trans {cs1 cs2 : List rarch_cmd} {a b c : rarch_context σ}
    (h1 : executes cs1 a b) (h2 : executes cs2 b c) : executes (cs1 ++ cs2) a c := by
  obtain ⟨l1, e1, f1⟩ := h1
  obtain ⟨l2, e2, f2⟩ := h2
  exact ⟨l1 ++ l2, by rw [e2, e1, List.append_assoc], by rw [List.filterMap_append, f1, f2]⟩

theorem executes_commands_logged {cs : List rarch_cmd} {g r : rarch_context σ}
    (h : executes cs g r) : commands_logged g r = cs := by
  obtain ⟨l, e, f⟩ := h
  unfold commands_logged
  rw [calls_logged_append g r l e, f]

theorem same_autosave_refl (g : rarch_context σ) : same_autosave g g := ⟨rfl, rfl, rfl⟩

theorem same_autosave_trans {a b c : rarch_context σ}
    (h1 : same_autosave a b) (h2 : same_autosave b c) : same_autosave a c :=
  ⟨h2.1.trans h1.1, h2.2.1.trans h1.2.1, h2.2.2.trans h1.2.2⟩

theorem extern_call_executes (ext : externals σ) (fn : extern_fn) (args : List cval)
    (g : rarch_context σ) :
    executes [] g (extern_call ext fn args g).2 ∧ same_autosave g (extern_call ext fn args g).2 :=
  ⟨⟨[rarch_call.external fn args (ext.call fn args g.world).1], rfl, rfl⟩, rfl, rfl, rfl⟩

theorem free_handle_executes (ext : externals σ) (fn : extern_fn) (h : Option Nat)
    (g : rarch_context σ) :
    executes [] g (free_handle ext fn h g) ∧ same_autosave g (free_handle ext fn h g) := by
  cases h with
  | none => exact ⟨executes_refl g, same_autosave_refl g⟩
  | some x => exact extern_call_executes ext fn [cval.ptr x] g

theorem foldl_executes {α : Type} (f : rarch_context σ → α → rarch_context σ)
    (hf : ∀ g a, executes [] g (f g a) ∧ same_autosave g (f g a)) (l : List α)
    (g : rarch_context σ) :
    executes [] g (l.foldl f g) ∧ same_autosave g (l.foldl f g) := by
  induction l generalizing g with
  | nil => exact ⟨executes_refl g, same_autosave_refl g⟩
  | cons a l ih =>
    rw [List.foldl_cons]
    exact ⟨executes_trans (hf g a).1 (ih _).1, same_autosave_trans (hf g a).2 (ih _).2⟩

theorem invoke_executes (cmd : rarch_cmd) (body : rarch_context σ → Bool × rarch_context σ)
    (cs : List rarch_cmd) (g : rarch_context σ)
    (h : ∀ x, executes cs x (body x).2) : executes (cmd :: cs) g (invoke cmd body g).2 := by
  obtain ⟨l, e, f⟩ := h (log_call (rarch_call.command cmd) g)
  refine ⟨rarch_call.command cmd :: l, ?_, ?_⟩
  · unfold invoke
    rw [e]
    simp [log_call]
  · simp [rarch_call.to_command, f]

theorem invoke_same_autosave (cmd : rarch_cmd)
    (body : rarch_context σ → Bool × rarch_context σ) (g : rarch_context σ)
    (h : ∀ x, same_autosave x (body x).2) : same_autosave g (invoke cmd body g).2 :=
  same_autosave_trans (a := g) (b := log_call (rarch_call.command cmd) g) ⟨rfl, rfl, rfl⟩ (h _)

theorem cmd_netplay_deinit_executes (cfg : build_config) (ext : externals σ)
    (g : rarch_context σ) :
    executes [] g (cmd_netplay_deinit cfg ext g).2
      ∧ same_autosave g (cmd_netplay_deinit cfg ext g).2 := by
  unfold cmd_netplay_deinit
  split_ifs
  · exact free_handle_executes ext _ _ g
  · exact ⟨executes_refl g, same_autosave_refl g⟩

theorem cmd_command_deinit_executes (cfg : build_config) (ext : externals σ)
    (g : rarch_context σ) :
    executes [] g (cmd_command_deinit cfg ext g).2
      ∧ same_autosave g (cmd_command_deinit cfg ext g).2 := by
  unfold cmd_command_deinit
  split_ifs
  · exact free_handle_executes ext _ _ g
  · exact ⟨executes_refl g, same_autosave_refl g⟩

theorem cmd_autosave_deinit_executes (cfg : build_config) (ext : externals σ)
    (g : rarch_context σ) : executes [] g (cmd_autosave_deinit cfg ext g).2 := by
  unfold cmd_autosave_deinit
  dsimp only
  split_ifs
  · refine ⟨_, rfl, ?_⟩
    rw [List.filterMap_append, List.filterMap_map]
    have h1 : ∀ l : List (Option Nat),
        l.filterMap (rarch_call.to_command ∘ fun h =>
          rarch_call.external extern_fn.autosave_free [cval.of_handle h] cval.null) = [] := by
      intro l
      induction l with
      | nil => rfl
      | cons a l ih => simp [rarch_call.to_command]
    rw [h1]
    split_ifs <;> rfl
  · exact executes_refl g

theorem cmd_record_deinit_executes (ext : externals σ) (g : rarch_context σ) :
    executes [] g (cmd_record_deinit ext g).2
      ∧ same_autosave g (cmd_record_deinit ext g).2 := by
  unfold cmd_record_deinit
  dsimp only
  split_ifs <;> exact extern_call_executes ext _ _ g

theorem cmd_savefiles_executes (ext : externals σ) (g : rarch_context σ) :
    executes [] g (cmd_savefiles ext g).2 ∧ same_autosave g (cmd_savefiles ext g).2 := by
  unfold cmd_savefiles save_files
  dsimp only
  split
  · exact ⟨executes_refl g, same_autosave_refl g⟩
  · split_ifs
    · exact ⟨executes_refl g, same_autosave_refl g⟩
    · exact foldl_executes _ (fun g e => extern_call_executes ext _ _ g) _ g

theorem cmd_rewind_deinit_executes (cfg : build_config) (ext : externals σ)
    (g : rarch_context σ) :
    executes [] g (cmd_rewind_deinit cfg ext g).2
      ∧ same_autosave g (cmd_rewind_deinit cfg ext g).2 := by
  unfold cmd_rewind_deinit
  split_ifs
  · exact ⟨executes_refl g, same_autosave_refl g⟩
  · exact free_handle_executes ext _ _ g

theorem cmd_cheats_deinit_executes (ext : externals σ) (g : rarch_context σ) :
    executes [] g (cmd_cheats_deinit ext g).2
      ∧ same_autosave g (cmd_cheats_deinit ext g).2 :=
  free_handle_executes ext _ _ g

theorem cmd_bsv_movie_deinit_executes (ext : externals σ) (g : rarch_context σ) :
    executes [] g (cmd_bsv_movie_deinit ext g).2
      ∧ same_autosave g (cmd_bsv_movie_deinit ext g).2 :=
  free_handle_executes ext _ _ g

theorem cmd_autosave_state_executes (cfg : build_config) (ext : externals σ)
    (g : rarch_context σ) :
    executes [] g (cmd_autosave_state cfg ext g).2
      ∧ same_autosave g (cmd_autosave_state cfg ext g).2 := by
  unfold cmd_autosave_state save_auto_state
  dsimp only
  split_ifs
  · exact ⟨executes_refl g, same_autosave_refl g⟩
  · exact ⟨⟨[], by simp, rfl⟩, rfl, rfl, rfl⟩

theorem cmd_drivers_deinit_executes (ext : externals σ) (g : rarch_context σ) :
    executes [] g (cmd_drivers_deinit ext g).2
      ∧ same_autosave g (cmd_drivers_deinit ext g).2 :=
  extern_call_executes ext _ _ g

theorem cmd_core_deinit_executes (ext : externals σ) (g : rarch_context σ) :
    executes [rarch_cmd.RARCH_CMD_DRIVERS_DEINIT] g (cmd_core_deinit ext g).2
      ∧ same_autosave g (cmd_core_deinit ext g).2 := by
  unfold cmd_core_deinit deinit_core
  dsimp only
  have h1 := extern_call_executes ext extern_fn.pretro_unload_game [] g
  have h2 := extern_call_executes ext extern_fn.pretro_deinit []
    (extern_call ext extern_fn.pretro_unload_game [] g).2
  have h3e := invoke_executes rarch_cmd.RARCH_CMD_DRIVERS_DEINIT (cmd_drivers_deinit ext) []
    (extern_call ext extern_fn.pretro_deinit []
      (extern_call ext extern_fn.pretro_unload_game [] g).2).2
    (fun x => (cmd_drivers_deinit_executes ext x).1)
  have h3s := invoke_same_autosave rarch_cmd.RARCH_CMD_DRIVERS_DEINIT (cmd_drivers_deinit ext)
    (extern_call ext extern_fn.pretro_deinit []
      (extern_call ext extern_fn.pretro_unload_game [] g).2).2
    (fun x => (cmd_drivers_deinit_executes ext x).2)
  have h4 := extern_call_executes ext extern_fn.uninit_libretro_sym []
    (invoke rarch_cmd.RARCH_CMD_DRIVERS_DEINIT (cmd_drivers_deinit ext)
      (extern_call ext extern_fn.pretro_deinit []
        (extern_call ext extern_fn.pretro_unload_game [] g).2).2).2
  exact ⟨executes_trans h1.1 (executes_trans h2.1 (executes_trans h3e h4.1)),
    same_autosave_trans h1.2 (same_autosave_trans h2.2 (same_autosave_trans h3s h4.2))⟩

theorem cmd_temporary_content_deinit_executes (ext : externals σ) (g : rarch_context σ) :
    executes [] g (cmd_temporary_content_deinit ext g).2
      ∧ same_autosave g (cmd_temporary_content_deinit ext g).2 := by
  unfold cmd_temporary_content_deinit free_temporary_content
  dsimp only
  split
  · exact foldl_executes _ (fun g e => extern_call_executes ext _ _ g) _ g
  · exact ⟨executes_refl g, same_autosave_refl g⟩

theorem cmd_subsystem_fullpaths_deinit_executes (g : rarch_context σ) :
    executes [] g (cmd_subsystem_fullpaths_deinit g).2
      ∧ same_autosave g (cmd_subsystem_fullpaths_deinit g).2 :=
  ⟨executes_refl g, same_autosave_refl g⟩

theorem cmd_savefiles_deinit_executes (g : rarch_context σ) :
    executes [] g (cmd_savefiles_deinit g).2 ∧ same_autosave g (cmd_savefiles_deinit g).2 :=
  ⟨executes_refl g, same_autosave_refl g⟩

/-- The commands `rarch_main_deinit` executes after the test of `use_sram`, and
that they leave the autosave members alone. -/
theorem main_deinit_tail (cfg : build_config) (ext : externals σ) (g3 : rarch_context σ) :
    executes
      [rarch_cmd.RARCH_CMD_RECORD_DEINIT, rarch_cmd.RARCH_CMD_SAVEFILES,
        rarch_cmd.RARCH_CMD_REWIND_DEINIT, rarch_cmd.RARCH_CMD_CHEATS_DEINIT,
        rarch_cmd.RARCH_CMD_BSV_MOVIE_DEINIT, rarch_cmd.RARCH_CMD_AUTOSAVE_STATE,
        rarch_cmd.RARCH_CMD_CORE_DEINIT, rarch_cmd.RARCH_CMD_DRIVERS_DEINIT,
        rarch_cmd.RARCH_CMD_TEMPORARY_CONTENT_DEINIT,
        rarch_cmd.RARCH_CMD_SUBSYSTEM_FULLPATHS_DEINIT, rarch_cmd.RARCH_CMD_SAVEFILES_DEINIT]
      g3
      (invoke rarch_cmd.RARCH_CMD_SAVEFILES_DEINIT cmd_savefiles_deinit
        (invoke rarch_cmd.RARCH_CMD_SUBSYSTEM_FULLPATHS_DEINIT cmd_subsystem_fullpaths_deinit
        (invoke rarch_cmd.RARCH_CMD_TEMPORARY_CONTENT_DEINIT (cmd_temporary_content_deinit ext)
        (invoke rarch_cmd.RARCH_CMD_CORE_DEINIT (cmd_core_deinit ext)
        (invoke rarch_cmd.RARCH_CMD_AUTOSAVE_STATE (cmd_autosave_state cfg ext)
        (invoke rarch_cmd.RARCH_CMD_BSV_MOVIE_DEINIT (cmd_bsv_movie_deinit ext)
        (invoke rarch_cmd.RARCH_CMD_CHEATS_DEINIT (cmd_cheats_deinit ext)
        (invoke rarch_cmd.RARCH_CMD_REWIND_DEINIT (cmd_rewind_deinit cfg ext)
        (invoke rarch_cmd.RARCH_CMD_SAVEFILES (cmd_savefiles ext)
        (invoke rarch_cmd.RARCH_CMD_RECORD_DEINIT (cmd_record_deinit ext)
          g3).2).2).2).2).2).2).2).2).2).2
    ∧ same_autosave g3
      (invoke rarch_cmd.RARCH_CMD_SAVEFILES_DEINIT cmd_savefiles_deinit
        (invoke rarch_cmd.RARCH_CMD_SUBSYSTEM_FULLPATHS_DEINIT cmd_subsystem_fullpaths_deinit
        (invoke rarch_cmd.RARCH_CMD_TEMPORARY_CONTENT_DEINIT (cmd_temporary_content_deinit ext)
        (invoke rarch_cmd.RARCH_CMD_CORE_DEINIT (cmd_core_deinit ext)
        (invoke rarch_cmd.RARCH_CMD_AUTOSAVE_STATE (cmd_autosave_state cfg ext)
        (invoke rarch_cmd.RARCH_CMD_BSV_MOVIE_DEINIT (cmd_bsv_movie_deinit ext)
        (invoke rarch_cmd.RARCH_CMD_CHEATS_DEINIT (cmd_cheats_deinit ext)
        (invoke rarch_cmd.RARCH_CMD_REWIND_DEINIT (cmd_rewind_deinit cfg ext)
        (invoke rarch_cmd.RARCH_CMD_SAVEFILES (cmd_savefiles ext)
        (invoke rarch_cmd.RARCH_CMD_RECORD_DEINIT (cmd_record_deinit ext)
          g3).2).2).2).2).2).2).2).2).2).2 := by
  have e4 := invoke_executes rarch_cmd.RARCH_CMD_RECORD_DEINIT (cmd_record_deinit ext) [] g3
    (fun x => (cmd_record_deinit_executes ext x).1)
  have s4 := invoke_same_autosave rarch_cmd.RARCH_CMD_RECORD_DEINIT (cmd_record_deinit ext) g3
    (fun x => (cmd_record_deinit_executes ext x).2)
  have e5 := invoke_executes rarch_cmd.RARCH_CMD_SAVEFILES (cmd_savefiles ext) [] _
    (fun x => (cmd_savefiles_executes ext x).1) |> executes_trans e4
  have s5 := invoke_same_autosave rarch_cmd.RARCH_CMD_SAVEFILES (cmd_savefiles ext) _
    (fun x => (cmd_savefiles_executes ext x).2) |> same_autosave_trans s4
  have e6 := invoke_executes rarch_cmd.RARCH_CMD_REWIND_DEINIT (cmd_rewind_deinit cfg ext) [] _
    (fun x => (cmd_rewind_deinit_executes cfg ext x).1) |> executes_trans e5
  have s6 := invoke_same_autosave rarch_cmd.RARCH_CMD_REWIND_DEINIT (cmd_rewind_deinit cfg ext) _
    (fun x => (cmd_rewind_deinit_executes cfg ext x).2) |> same_autosave_trans s5
  have e7 := invoke_executes rarch_cmd.RARCH_CMD_CHEATS_DEINIT (cmd_cheats_deinit ext) [] _
    (fun x => (cmd_cheats_deinit_executes ext x).1) |> executes_trans e6
  have s7 := invoke_same_autosave rarch_cmd.RARCH_CMD_CHEATS_DEINIT (cmd_cheats_deinit ext) _
    (fun x => (cmd_cheats_deinit_executes ext x).2) |> same_autosave_trans s6
  have e8 := invoke_executes rarch_cmd.RARCH_CMD_BSV_MOVIE_DEINIT (cmd_bsv_movie_deinit ext) [] _
    (fun x => (cmd_bsv_movie_deinit_executes ext x).1) |> executes_trans e7
  have s8 := invoke_same_autosave rarch_cmd.RARCH_CMD_BSV_MOVIE_DEINIT (cmd_bsv_movie_deinit ext) _
    (fun x => (cmd_bsv_movie_deinit_executes ext x).2) |> same_autosave_trans s7
  have e9 := invoke_executes rarch_cmd.RARCH_CMD_AUTOSAVE_STATE (cmd_autosave_state cfg ext) [] _
    (fun x => (cmd_autosave_state_executes cfg ext x).1) |> executes_trans e8
  have s9 := invoke_same_autosave rarch_cmd.RARCH_CMD_AUTOSAVE_STATE
    (cmd_autosave_state cfg ext) _
    (fun x => (cmd_autosave_state_executes cfg ext x).2) |> same_autosave_trans s8
  have e10 := invoke_executes rarch_cmd.RARCH_CMD_CORE_DEINIT (cmd_core_deinit ext)
    [rarch_cmd.RARCH_CMD_DRIVERS_DEINIT] _
    (fun x => (cmd_core_deinit_executes ext x).1) |> executes_trans e9
  have s10 := invoke_same_autosave rarch_cmd.RARCH_CMD_CORE_DEINIT (cmd_core_deinit ext) _
    (fun x => (cmd_core_deinit_executes ext x).2) |> same_autosave_trans s9
  have e11 := invoke_executes rarch_cmd.RARCH_CMD_TEMPORARY_CONTENT_DEINIT
    (cmd_temporary_content_deinit ext) [] _
    (fun x => (cmd_temporary_content_deinit_executes ext x).1) |> executes_trans e10
  have s11 := invoke_same_autosave rarch_cmd.RARCH_CMD_TEMPORARY_CONTENT_DEINIT
    (cmd_temporary_content_deinit ext) _
    (fun x => (cmd_temporary_content_deinit_executes ext x).2) |> same_autosave_trans s10
  have e12 := invoke_executes rarch_cmd.RARCH_CMD_SUBSYSTEM_FULLPATHS_DEINIT
    cmd_subsystem_fullpaths_deinit [] _
    (fun x => (cmd_subsystem_fullpaths_deinit_executes x).1) |> executes_trans e11
  have s12 := invoke_same_autosave rarch_cmd.RARCH_CMD_SUBSYSTEM_FULLPATHS_DEINIT
    cmd_subsystem_fullpaths_deinit _
    (fun x => (cmd_subsystem_fullpaths_deinit_executes x).2) |> same_autosave_trans s11
  have e13 := invoke_executes rarch_cmd.RARCH_CMD_SAVEFILES_DEINIT cmd_savefiles_deinit [] _
    (fun x => (cmd_savefiles_deinit_executes x).1) |> executes_trans e12
  have s13 := invoke_same_autosave rarch_cmd.RARCH_CMD_SAVEFILES_DEINIT cmd_savefiles_deinit _
    (fun x => (cmd_savefiles_deinit_executes x).2) |> same_autosave_trans s12
  exact ⟨e13, s13⟩

/-- The two commands `rarch_main_deinit` starts with. -/
theorem main_deinit_head (cfg : build_config) (ext : externals σ) (g : rarch_context σ) :
    executes [rarch_cmd.RARCH_CMD_NETPLAY_DEINIT, rarch_cmd.RARCH_CMD_COMMAND_DEINIT] g
      (invoke rarch_cmd.RARCH_CMD_COMMAND_DEINIT (cmd_command_deinit cfg ext)
        (invoke rarch_cmd.RARCH_CMD_NETPLAY_DEINIT (cmd_netplay_deinit cfg ext) g).2).2
    ∧ same_autosave g
      (invoke rarch_cmd.RARCH_CMD_COMMAND_DEINIT (cmd_command_deinit cfg ext)
        (invoke rarch_cmd.RARCH_CMD_NETPLAY_DEINIT (cmd_netplay_deinit cfg ext) g).2).2 := by
  have e1 := invoke_executes rarch_cmd.RARCH_CMD_NETPLAY_DEINIT (cmd_netplay_deinit cfg ext) [] g
    (fun x => (cmd_netplay_deinit_executes cfg ext x).1)
  have s1 := invoke_same_autosave rarch_cmd.RARCH_CMD_NETPLAY_DEINIT
    (cmd_netplay_deinit cfg ext) g (fun x => (cmd_netplay_deinit_executes cfg ext x).2)
  have e2 := invoke_executes rarch_cmd.RARCH_CMD_COMMAND_DEINIT (cmd_command_deinit cfg ext) [] _
    (fun x => (cmd_command_deinit_executes cfg ext x).1) |> executes_trans e1
  have s2 := invoke_same_autosave rarch_cmd.RARCH_CMD_COMMAND_DEINIT
    (cmd_command_deinit cfg ext) _
    (fun x => (cmd_command_deinit_executes cfg ext x).2) |> same_autosave_trans s1
  exact ⟨e2, s2⟩

/-- The commands `rarch_main_deinit` executes, in order: `RARCH_CMD_AUTOSAVE_DEINIT`
is among them, before `RARCH_CMD_CORE_DEINIT`, exactly when `use_sram` is set on
entry; when it is not set, the autosave timers are left as they were. -/
theorem main_deinit_commands (cfg : build_config) (ext : externals σ) (g : rarch_context σ) :
    commands_logged g (rarch_main_deinit cfg ext g)
      = [rarch_cmd.RARCH_CMD_NETPLAY_DEINIT, rarch_cmd.RARCH_CMD_COMMAND_DEINIT]
        ++ (if g.use_sram then [rarch_cmd.RARCH_CMD_AUTOSAVE_DEINIT] else [])
        ++ [rarch_cmd.RARCH_CMD_RECORD_DEINIT, rarch_cmd.RARCH_CMD_SAVEFILES,
          rarch_cmd.RARCH_CMD_REWIND_DEINIT, rarch_cmd.RARCH_CMD_CHEATS_DEINIT,
          rarch_cmd.RARCH_CMD_BSV_MOVIE_DEINIT, rarch_cmd.RARCH_CMD_AUTOSAVE_STATE,
          rarch_cmd.RARCH_CMD_CORE_DEINIT, rarch_cmd.RARCH_CMD_DRIVERS_DEINIT,
          rarch_cmd.RARCH_CMD_TEMPORARY_CONTENT_DEINIT,
          rarch_cmd.RARCH_CMD_SUBSYSTEM_FULLPATHS_DEINIT,
          rarch_cmd.RARCH_CMD_SAVEFILES_DEINIT]
    ∧ (g.use_sram = false →
      (rarch_main_deinit cfg ext g).autosave = g.autosave
      ∧ (rarch_main_deinit cfg ext g).num_autosave = g.num_autosave) := by
  have hh := main_deinit_head cfg ext g
  have hsram := hh.2.1
  by_cases hs : g.use_sram = true
  · have e3 := invoke_executes rarch_cmd.RARCH_CMD_AUTOSAVE_DEINIT
      (cmd_autosave_deinit cfg ext) []
      (invoke rarch_cmd.RARCH_CMD_COMMAND_DEINIT (cmd_command_deinit cfg ext)
        (invoke rarch_cmd.RARCH_CMD_NETPLAY_DEINIT (cmd_netplay_deinit cfg ext) g).2).2
      (fun x => cmd_autosave_deinit_executes cfg ext x)
    have ht := main_deinit_tail cfg ext
      (invoke rarch_cmd.RARCH_CMD_AUTOSAVE_DEINIT (cmd_autosave_deinit cfg ext)
        (invoke rarch_cmd.RARCH_CMD_COMMAND_DEINIT (cmd_command_deinit cfg ext)
          (invoke rarch_cmd.RARCH_CMD_NETPLAY_DEINIT (cmd_netplay_deinit cfg ext) g).2).2).2
    have hall := executes_trans (executes_trans hh.1 e3) ht.1
    refine ⟨?_, fun h => absurd hs (by simp [h])⟩
    rw [if_pos hs]
    refine executes_commands_logged ?_
    obtain ⟨l, e, f⟩ := hall
    refine ⟨l, ?_, f⟩
    unfold rarch_main_deinit
    simp only [hsram, hs, if_true]
    exact e
  · have ht := main_deinit_tail cfg ext
      (invoke rarch_cmd.RARCH_CMD_COMMAND_DEINIT (cmd_command_deinit cfg ext)
        (invoke rarch_cmd.RARCH_CMD_NETPLAY_DEINIT (cmd_netplay_deinit cfg ext) g).2).2
    have hall := executes_trans hh.1 ht.1
    have sall := same_autosave_trans hh.2 ht.2
    have hrun : rarch_main_deinit cfg ext g
        = { (invoke rarch_cmd.RARCH_CMD_SAVEFILES_DEINIT cmd_savefiles_deinit
        (invoke rarch_cmd.RARCH_CMD_SUBSYSTEM_FULLPATHS_DEINIT cmd_subsystem_fullpaths_deinit
        (invoke rarch_cmd.RARCH_CMD_TEMPORARY_CONTENT_DEINIT (cmd_temporary_content_deinit ext)
        (invoke rarch_cmd.RARCH_CMD_CORE_DEINIT (cmd_core_deinit ext)
        (invoke rarch_cmd.RARCH_CMD_AUTOSAVE_STATE (cmd_autosave_state cfg ext)
        (invoke rarch_cmd.RARCH_CMD_BSV_MOVIE_DEINIT (cmd_bsv_movie_deinit ext)
        (invoke rarch_cmd.RARCH_CMD_CHEATS_DEINIT (cmd_cheats_deinit ext)
        (invoke rarch_cmd.RARCH_CMD_REWIND_DEINIT (cmd_rewind_deinit cfg ext)
        (invoke rarch_cmd.RARCH_CMD_SAVEFILES (cmd_savefiles ext)
        (invoke rarch_cmd.RARCH_CMD_RECORD_DEINIT (cmd_record_deinit ext)
          (invoke rarch_cmd.RARCH_CMD_COMMAND_DEINIT (cmd_command_deinit cfg ext)
            (invoke rarch_cmd.RARCH_CMD_NETPLAY_DEINIT (cmd_netplay_deinit cfg ext)
              g).2).2).2).2).2).2).2).2).2).2).2).2 with
          main_is_init := false } := by
      unfold rarch_main_deinit
      simp only [hsram, hs, if_false, Bool.false_eq_true]
    rw [hrun]
    refine ⟨?_, fun _ => ⟨sall.2.1, sall.2.2⟩⟩
    rw [if_neg hs]
    exact executes_commands_logged hall

end teardown

/-- C22, the failing input: the example content started with SRAM saving off
(`sram_save_disable`) and an autosave interval of 10, on a core with save RAM.
`rarch_main_init` returns 0 and leaves `use_sram` false and no timer.  Appending
the disk image `/roms/disk2.bin` runs `RARCH_CMD_AUTOSAVE_INIT`, which creates a
timer.  `rarch_main_deinit` then skips `RARCH_CMD_AUTOSAVE_DEINIT`, executes
`RARCH_CMD_CORE_DEINIT`, and leaves the timer in place. -/
theorem main_deinit_leaves_autosave_running :
    (rarch_main_init sample_config sample_externals_with_save_ram sample_startup []
      sample_context_sram_off).1 = some 0
    ∧ (rarch_main_init sample_config sample_externals_with_save_ram sample_startup []
      sample_context_sram_off).2.use_sram = false
    ∧ (rarch_main_init sample_config sample_externals_with_save_ram sample_startup []
      sample_context_sram_off).2.num_autosave = 0
    ∧ ∃ g, rarch_disk_control_append_image sample_config sample_externals_with_save_ram
        "/roms/disk2.bin".toList
        (rarch_main_init sample_config sample_externals_with_save_ram sample_startup []
          sample_context_sram_off).2 = some g
      ∧ g.use_sram = false ∧ g.num_autosave = 2 ∧ g.autosave = some [some 12, none]
      ∧ commands_logged g (rarch_main_deinit sample_config sample_externals_with_save_ram g)
        = [rarch_cmd.RARCH_CMD_NETPLAY_DEINIT, rarch_cmd.RARCH_CMD_COMMAND_DEINIT,
            rarch_cmd.RARCH_CMD_RECORD_DEINIT, rarch_cmd.RARCH_CMD_SAVEFILES,
            rarch_cmd.RARCH_CMD_REWIND_DEINIT, rarch_cmd.RARCH_CMD_CHEATS_DEINIT,
            rarch_cmd.RARCH_CMD_BSV_MOVIE_DEINIT, rarch_cmd.RARCH_CMD_AUTOSAVE_STATE,
            rarch_cmd.RARCH_CMD_CORE_DEINIT, rarch_cmd.RARCH_CMD_DRIVERS_DEINIT,
            rarch_cmd.RARCH_CMD_TEMPORARY_CONTENT_DEINIT,
            rarch_cmd.RARCH_CMD_SUBSYSTEM_FULLPATHS_DEINIT,
            rarch_cmd.RARCH_CMD_SAVEFILES_DEINIT]
      ∧ (rarch_main_deinit sample_config sample_externals_with_save_ram g).num_autosave = 2
      ∧ (rarch_main_deinit sample_config sample_externals_with_save_ram g).autosave
        = some [some 12, none] :=
  ⟨by decide, by decide, by decide, _, rfl, by decide, by decide, by decide, by decide,
    by decide, by decide⟩

/-! ## Reinitialising the drivers -/

section reinit
variable {σ : Type}

theorem cmd_drivers_init_executes (ext : externals σ) (g : rarch_context σ) :
    executes [] g (cmd_drivers_init ext g).2 :=
  (extern_call_executes ext _ _ g).1

theorem cmd_reset_context_executes (ext : externals σ) (g : rarch_context σ) :
    executes [rarch_cmd.RARCH_CMD_DRIVERS_DEINIT, rarch_cmd.RARCH_CMD_DRIVERS_INIT] g
      (cmd_reset_context ext g).2 :=
  executes_trans
    (invoke_executes rarch_cmd.RARCH_CMD_DRIVERS_DEINIT (cmd_drivers_deinit ext) [] g
      (fun x => (cmd_drivers_deinit_executes ext x).1))
    (invoke_executes rarch_cmd.RARCH_CMD_DRIVERS_INIT (cmd_drivers_init ext) [] _
      (fun x => cmd_drivers_init_executes ext x))

theorem cmd_video_set_blocking_state_executes (ext : externals σ) (boolean : Bool)
    (g : rarch_context σ) : executes [] g (cmd_video_set_blocking_state ext boolean g).2 := by
  unfold cmd_video_set_blocking_state
  split_ifs
  · exact (extern_call_executes ext _ _ g).1
  · exact executes_refl g

/-- C23: `RARCH_CMD_RESET_CONTEXT` executes `RARCH_CMD_DRIVERS_DEINIT` and then
`RARCH_CMD_DRIVERS_INIT` through `rarch_main_command`, and no other command.
`RARCH_CMD_REINIT` sets `video_cache_context` to the core's `cache_context`, then
executes `RARCH_CMD_RESET_CONTEXT`, which leaves the member set, then clears it,
polls the input driver and, in the menu, sets the video driver to blocking.  Both
return true in every context. -/
theorem reset_context_and_reinit (cfg : build_config) (ext : externals σ)
    (g : rarch_context σ) :
    rarch_main_command cfg ext rarch_cmd.RARCH_CMD_RESET_CONTEXT g
      = (true,
        (rarch_main_command cfg ext rarch_cmd.RARCH_CMD_DRIVERS_INIT
          (log_call (rarch_call.command rarch_cmd.RARCH_CMD_DRIVERS_INIT)
            (rarch_main_command cfg ext rarch_cmd.RARCH_CMD_DRIVERS_DEINIT
              (log_call (rarch_call.command rarch_cmd.RARCH_CMD_DRIVERS_DEINIT) g)).2)).2)
    ∧ commands_logged g (rarch_main_command cfg ext rarch_cmd.RARCH_CMD_RESET_CONTEXT g).2
      = [rarch_cmd.RARCH_CMD_DRIVERS_DEINIT, rarch_cmd.RARCH_CMD_DRIVERS_INIT]
    ∧ (rarch_main_command cfg ext rarch_cmd.RARCH_CMD_REINIT g).1 = true
    ∧ (rarch_main_command cfg ext rarch_cmd.RARCH_CMD_REINIT g).2
      = (if cfg.HAVE_MENU = true ∧ g.is_menu = true then
          fun x => (rarch_main_command cfg ext rarch_cmd.RARCH_CMD_VIDEO_SET_BLOCKING_STATE
            (log_call (rarch_call.command rarch_cmd.RARCH_CMD_VIDEO_SET_BLOCKING_STATE) x)).2
          else fun x => x)
        (extern_call ext extern_fn.input_poll []
          { (rarch_main_command cfg ext rarch_cmd.RARCH_CMD_RESET_CONTEXT
              (log_call (rarch_call.command rarch_cmd.RARCH_CMD_RESET_CONTEXT)
                { g with
                  video_cache_context := g.hw_render_callback_cache_context,
                  video_cache_context_ack := false })).2 with
            video_cache_context := false }).2
    ∧ (rarch_main_command cfg ext rarch_cmd.RARCH_CMD_RESET_CONTEXT
        (log_call (rarch_call.command rarch_cmd.RARCH_CMD_RESET_CONTEXT)
          { g with
            video_cache_context := g.hw_render_callback_cache_context,
            video_cache_context_ack := false })).2.video_cache_context
      = g.hw_render_callback_cache_context
    ∧ (rarch_main_command cfg ext rarch_cmd.RARCH_CMD_REINIT g).2.video_cache_context = false
    ∧ commands_logged g (rarch_main_command cfg ext rarch_cmd.RARCH_CMD_REINIT g).2
      = [rarch_cmd.RARCH_CMD_RESET_CONTEXT, rarch_cmd.RARCH_CMD_DRIVERS_DEINIT,
          rarch_cmd.RARCH_CMD_DRIVERS_INIT]
        ++ (if cfg.HAVE_MENU = true ∧ g.is_menu = true then
            [rarch_cmd.RARCH_CMD_VIDEO_SET_BLOCKING_STATE] else []) := by
  have hreinit : (rarch_main_command cfg ext rarch_cmd.RARCH_CMD_REINIT g).2
      = (if cfg.HAVE_MENU = true ∧ g.is_menu = true then
          fun x => (rarch_main_command cfg ext rarch_cmd.RARCH_CMD_VIDEO_SET_BLOCKING_STATE
            (log_call (rarch_call.command rarch_cmd.RARCH_CMD_VIDEO_SET_BLOCKING_STATE) x)).2
          else fun x => x)
        (extern_call ext extern_fn.input_poll []
          { (rarch_main_command cfg ext rarch_cmd.RARCH_CMD_RESET_CONTEXT
              (log_call (rarch_call.command rarch_cmd.RARCH_CMD_RESET_CONTEXT)
                { g with
                  video_cache_context := g.hw_render_callback_cache_context,
                  video_cache_context_ack := false })).2 with
            video_cache_context := false }).2 := by
    by_cases hm : cfg.HAVE_MENU = true <;> by_cases hi : g.is_menu = true <;>
      simp [rarch_main_command, cmd_reinit, cmd_reset_context, cmd_drivers_deinit,
        cmd_drivers_init, invoke, extern_call, log_call, hm, hi]
  refine ⟨rfl, executes_commands_logged (cmd_reset_context_executes ext g), ?_, hreinit, ?_,
    ?_, ?_⟩
  · simp only [rarch_main_command, cmd_reinit]
    split_ifs <;> rfl
  · simp [rarch_main_command, cmd_reset_context, cmd_drivers_deinit, cmd_drivers_init, invoke,
      extern_call, log_call]
  · rw [hreinit]
    by_cases hm : cfg.HAVE_MENU = true <;> by_cases hi : g.is_menu = true <;>
      simp [rarch_main_command, cmd_video_set_blocking_state, extern_call, log_call, hm, hi]
    split_ifs <;> rfl
  · refine executes_commands_logged ?_
    rw [hreinit]
    have h1 : executes [rarch_cmd.RARCH_CMD_RESET_CONTEXT, rarch_cmd.RARCH_CMD_DRIVERS_DEINIT,
        rarch_cmd.RARCH_CMD_DRIVERS_INIT] g
        (extern_call ext extern_fn.input_poll []
          { (rarch_main_command cfg ext rarch_cmd.RARCH_CMD_RESET_CONTEXT
              (log_call (rarch_call.command rarch_cmd.RARCH_CMD_RESET_CONTEXT)
                { g with
                  video_cache_context := g.hw_render_callback_cache_context,
                  video_cache_context_ack := false })).2 with
            video_cache_context := false }).2 :=
      executes_trans (b := { g with
                  video_cache_context := g.hw_render_callback_cache_context,
                  video_cache_context_ack := false }) ⟨[], by simp, rfl⟩
        (executes_trans
          (invoke_executes rarch_cmd.RARCH_CMD_RESET_CONTEXT (cmd_reset_context ext) _ _
            (fun x => cmd_reset_context_executes ext x))
          (extern_call_executes ext _ _ _).1)
    by_cases hc : cfg.HAVE_MENU = true ∧ g.is_menu = true
    · rw [if_pos hc, if_pos hc]
      exact executes_trans h1
        (invoke_executes rarch_cmd.RARCH_CMD_VIDEO_SET_BLOCKING_STATE
          (cmd_video_set_blocking_state ext false) [] _
          (fun x => cmd_video_set_blocking_state_executes ext false x))
    · rw [if_neg hc, if_neg hc]
      simpa using h1

end reinit

/-! ## Replacing the configuration file -/

section replace_config
variable {σ : Type}

theorem same_config_refl (g : rarch_context σ) : same_config g g := ⟨rfl, rfl, rfl⟩

theorem same_config_trans {a b c : rarch_context σ} (h1 : same_config a b)
    (h2 : same_config b c) : same_config a c :=
  ⟨h2.1.trans h1.1, h2.2.1.trans h1.2.1, h2.2.2.trans h1.2.2⟩

theorem same_config_ite (g a b : rarch_context σ) (c : Prop) [Decidable c]
    (ha : same_config g a) (hb : same_config g b) : same_config g (if c then a else b) := by
  split_ifs <;> assumption

theorem extern_call_same_config (ext : externals σ) (fn : extern_fn) (args : List cval)
    (g : rarch_context σ) : same_config g (extern_call ext fn args g).2 := ⟨rfl, rfl, rfl⟩

theorem log_call_same_config (c : rarch_call) (g : rarch_context σ) :
    same_config g (log_call c g) := ⟨rfl, rfl, rfl⟩

theorem foldl_same_config {α : Type} (f : rarch_context σ → α → rarch_context σ)
    (hf : ∀ g a, same_config g (f g a)) (l : List α) (g : rarch_context σ) :
    same_config g (l.foldl f g) := by
  induction l generalizing g with
  | nil => exact same_config_refl g
  | cons a l ih => exact same_config_trans (hf g a) (ih (f g a))

theorem invoke_same_config (c : rarch_cmd) (body : rarch_context σ → Bool × rarch_context σ)
    (hb : ∀ g, same_config g (body g).2) (g : rarch_context σ) :
    same_config g (invoke c body g).2 :=
  same_config_trans (log_call_same_config _ g) (hb _)

theorem cmd_video_set_blocking_state_same_config (ext : externals σ) (boolean : Bool)
    (g : rarch_context σ) : same_config g (cmd_video_set_blocking_state ext boolean g).2 := by
  unfold cmd_video_set_blocking_state
  split_ifs
  · exact extern_call_same_config ext _ _ g
  · exact same_config_refl g

theorem cmd_rumble_stop_same_config (cfg : build_config) (ext : externals σ)
    (g : rarch_context σ) : same_config g (cmd_rumble_stop cfg ext g).2 := by
  unfold cmd_rumble_stop
  apply foldl_same_config
  intro g a
  exact same_config_trans (extern_call_same_config ext _ _ g)
    (extern_call_same_config ext _ _ _)

theorem cmd_audio_stop_same_config (ext : externals σ) (g : rarch_context σ) :
    same_config g (cmd_audio_stop ext g).2 := by
  unfold cmd_audio_stop
  dsimp only
  split_ifs <;> exact ⟨rfl, rfl, rfl⟩

theorem state_menu_running_same_config (cfg : build_config) (ext : externals σ)
    (g : rarch_context σ) : same_config g (state_menu_running cfg ext g) := by
  unfold state_menu_running
  by_cases hm : (!cfg.HAVE_MENU) = true
  · rw [if_pos hm]
    exact same_config_refl g
  · rw [if_neg hm]
    cases hr : menu_driver_resolve cfg g with
    | none => exact same_config_refl g
    | some menu =>
      simp -zeta only []
      lift_lets
      intro g1 g2 g3 g4
      have e1 : same_config g g1 :=
        same_config_ite _ _ _ _ (extern_call_same_config ext _ _ _) (same_config_refl g)
      have e2 : same_config g1 g2 :=
        invoke_same_config _ _ (cmd_video_set_blocking_state_same_config ext false) g1
      have e3 : same_config g2 g3 :=
        invoke_same_config _ _ (cmd_rumble_stop_same_config cfg ext) g2
      have e4 : same_config g3 g4 :=
        same_config_ite _ _ _ _ (invoke_same_config _ _ (cmd_audio_stop_same_config ext) g3)
          (same_config_refl g3)
      exact same_config_trans
        (same_config_trans (same_config_trans (same_config_trans e1 e2) e3) e4) ⟨rfl, rfl, rfl⟩

theorem state_load_content_same_config (cfg : build_config) (ext : externals σ)
    (g : rarch_context σ) : same_config g (state_load_content cfg ext g) := by
  unfold state_load_content
  lift_lets
  intro loaded g1
  have e1 : same_config g g1 := by
    apply same_config_ite
    · apply same_config_ite
      · exact same_config_trans (extern_call_same_config ext _ _ g)
          (same_config_trans (log_call_same_config _ _)
            (state_menu_running_same_config cfg ext _))
      · exact extern_call_same_config ext _ _ g
    · exact same_config_refl g
  exact same_config_trans e1
    (same_config_ite _ _ _ _ (extern_call_same_config ext _ _ g1) (same_config_refl g1))

theorem cmd_prepare_dummy_same_config (cfg : build_config) (ext : externals σ)
    (g : rarch_context σ) : same_config g (cmd_prepare_dummy cfg ext g).2 := by
  unfold cmd_prepare_dummy
  lift_lets
  intro menu g1 g2 g3
  have e1 : same_config g g1 := ⟨rfl, rfl, rfl⟩
  have e2 : same_config g1 g2 := by
    apply same_config_ite
    · cases menu with
      | none => exact same_config_refl g1
      | some m => exact ⟨rfl, rfl, rfl⟩
    · exact same_config_refl g1
  have e3 : same_config g2 g3 :=
    same_config_trans (log_call_same_config _ g2) (state_load_content_same_config cfg ext _)
  exact same_config_trans (same_config_trans e1 e2) (same_config_trans e3 ⟨rfl, rfl, rfl⟩)

/-- C24: `rarch_replace_config(path)`, for a path that fits in the buffer, returns
false exactly when `path` is the current configuration path, and then leaves the
context as it was: nothing is saved, no command is executed.  Otherwise it returns
true and leaves `config_path` equal to `path`, `block_config_read` false and the
path of the core empty. -/
theorem replace_config_result (cfg : build_config) (ext : externals σ) (path : cstring)
    (g : rarch_context σ) (hfits : path.length < cfg.PATH_MAX_LENGTH) :
    ((rarch_replace_config cfg ext path g).1 = false ↔ path = g.config_path)
    ∧ (path = g.config_path → rarch_replace_config cfg ext path g = (false, g))
    ∧ (path ≠ g.config_path →
      (rarch_replace_config cfg ext path g).1 = true
      ∧ (rarch_replace_config cfg ext path g).2.config_path = path
      ∧ (rarch_replace_config cfg ext path g).2.block_config_read = false
      ∧ (rarch_replace_config cfg ext path g).2.libretro = []) := by
  by_cases h : path = g.config_path
  · have hr : rarch_replace_config cfg ext path g = (false, g) := by
      unfold rarch_replace_config
      rw [if_pos h]
    exact ⟨⟨fun _ => h, fun _ => by rw [hr]⟩, fun _ => hr, fun hne => absurd h hne⟩
  · have hr : rarch_replace_config cfg ext path g
        = (true, (invoke rarch_cmd.RARCH_CMD_PREPARE_DUMMY (cmd_prepare_dummy cfg ext)
          { (if g.config_save_on_exit = true ∧ g.config_path ≠ [] then
              (extern_call ext extern_fn.config_save_file [cval.str g.config_path] g).2
            else g) with
            config_path := strlcpy path cfg.PATH_MAX_LENGTH,
            block_config_read := false,
            libretro := [] }).2) := by
      unfold rarch_replace_config
      rw [if_neg h]
    have hs := invoke_same_config rarch_cmd.RARCH_CMD_PREPARE_DUMMY (cmd_prepare_dummy cfg ext)
      (cmd_prepare_dummy_same_config cfg ext)
      { (if g.config_save_on_exit = true ∧ g.config_path ≠ [] then
          (extern_call ext extern_fn.config_save_file [cval.str g.config_path] g).2
        else g) with
        config_path := strlcpy path cfg.PATH_MAX_LENGTH,
        block_config_read := false,
        libretro := [] }
    refine ⟨⟨fun hf => ?_, fun hp => absurd hp h⟩, fun hp => absurd hp h, fun _ => ?_⟩
    · rw [hr] at hf
      exact absurd hf (by simp)
    · rw [hr]
      exact ⟨rfl, hs.1.trans (strlcpy_of_fits _ _ hfits), hs.2.1, hs.2.2⟩

end replace_config

/-- C24 at an example: the example context, whose configuration file is
`/config/retroarch.cfg`, asked to switch to `/config/other.cfg`. -/
theorem replace_config_result_witness :
    "/config/other.cfg".toList.length < sample_config.PATH_MAX_LENGTH
    ∧ (rarch_replace_config sample_config sample_externals "/config/other.cfg".toList
        sample_context).1 = true
    ∧ (rarch_replace_config sample_config sample_externals "/config/other.cfg".toList
        sample_context).2.config_path = "/config/other.cfg".toList
    ∧ (rarch_replace_config sample_config sample_externals "/config/other.cfg".toList
        sample_context).2.libretro = []
    ∧ rarch_replace_config sample_config sample_externals "/config/retroarch.cfg".toList
        sample_context = (false, sample_context) :=
  ⟨by decide,
    ((replace_config_result sample_config sample_externals "/config/other.cfg".toList
      sample_context (by decide)).2.2 (by decide)).1,
    ((replace_config_result sample_config sample_externals "/config/other.cfg".toList
      sample_context (by decide)).2.2 (by decide)).2.1,
    ((replace_config_result sample_config sample_externals "/config/other.cfg".toList
      sample_context (by decide)).2.2 (by decide)).2.2.2,
    (replace_config_result sample_config sample_externals "/config/retroarch.cfg".toList
      sample_context (by decide)).2.1 (by decide)⟩

/-! ## The disk index saturates -/

section saturate
variable {σ : Type}

/-- C25: on a core with disk control and the tray open, with image count `n`
(at least 1, not `UINT_MAX`) and current index `c` at most `n - 1`,
`RARCH_CMD_DISK_NEXT` requests exactly one index, `min (c + 1) (n - 1)`, and
`RARCH_CMD_DISK_PREV` requests exactly one index, `c - 1` (0 when `c` is 0): next at
`n - 1` gives `n - 1` and prev at 0 gives 0.  With `n = 0` or `n = UINT_MAX` no
index is requested. -/
theorem disk_next_prev_saturate (cfg : build_config) (ext : externals σ)
    (g : rarch_context σ) (f : σ → Nat) (hcap : g.disk_control.get_num_images = some f)
    (htray : g.disk_control.get_eject_state g.world = true) :
    (1 ≤ to_unsigned (f g.world) → to_unsigned (f g.world) ≠ UINT_MAX →
      to_unsigned (g.disk_control.get_image_index g.world) ≤ to_unsigned (f g.world) - 1 →
      (calls_made g (rarch_main_command cfg ext rarch_cmd.RARCH_CMD_DISK_NEXT g).2).filter
          core_call.is_request
        = [core_call.set_image_index
            (min (to_unsigned (g.disk_control.get_image_index g.world) + 1)
              (to_unsigned (f g.world) - 1))]
      ∧ (calls_made g (rarch_main_command cfg ext rarch_cmd.RARCH_CMD_DISK_PREV g).2).filter
          core_call.is_request
        = [core_call.set_image_index
            (max (to_unsigned (g.disk_control.get_image_index g.world) - 1) 0)]
      ∧ (to_unsigned (g.disk_control.get_image_index g.world) = to_unsigned (f g.world) - 1 →
        (calls_made g (rarch_main_command cfg ext rarch_cmd.RARCH_CMD_DISK_NEXT g).2).filter
            core_call.is_request
          = [core_call.set_image_index (to_unsigned (f g.world) - 1)])
      ∧ (to_unsigned (g.disk_control.get_image_index g.world) = 0 →
        (calls_made g (rarch_main_command cfg ext rarch_cmd.RARCH_CMD_DISK_PREV g).2).filter
            core_call.is_request
          = [core_call.set_image_index 0]))
    ∧ (to_unsigned (f g.world) = 0 ∨ to_unsigned (f g.world) = UINT_MAX →
      (calls_made g (rarch_main_command cfg ext rarch_cmd.RARCH_CMD_DISK_NEXT g).2).filter
          core_call.is_request = []
      ∧ (calls_made g (rarch_main_command cfg ext rarch_cmd.RARCH_CMD_DISK_PREV g).2).filter
          core_call.is_request = []) := by
  rw [disk_next_calls cfg ext g f hcap, disk_prev_calls cfg ext g f hcap]
  constructor
  · intro h1 hmax hc
    have hen : to_unsigned (f g.world) ≠ 0 ∧ to_unsigned (f g.world) ≠ UINT_MAX :=
      ⟨by omega, hmax⟩
    have hnext : next_index (to_unsigned (f g.world))
        (to_unsigned (g.disk_control.get_image_index g.world))
        = min (to_unsigned (g.disk_control.get_image_index g.world) + 1)
          (to_unsigned (f g.world) - 1) := by
      unfold next_index
      split <;> omega
    have hprev : prev_index (to_unsigned (g.disk_control.get_image_index g.world))
        = max (to_unsigned (g.disk_control.get_image_index g.world) - 1) 0 := by
      unfold prev_index
      split <;> omega
    refine ⟨?_, ?_, ?_, ?_⟩
    · simp [htray, hen, hnext, core_call.is_request]
    · simp [htray, hen, hprev, core_call.is_request]
    · intro hlast
      have : next_index (to_unsigned (f g.world))
          (to_unsigned (g.disk_control.get_image_index g.world))
          = to_unsigned (f g.world) - 1 := by
        rw [hnext]; omega
      simp [htray, hen, this, core_call.is_request]
    · intro hzero
      have : prev_index (to_unsigned (g.disk_control.get_image_index g.world)) = 0 := by
        rw [hprev]; omega
      simp [htray, hen, this, core_call.is_request]
  · intro h0
    have hen : ¬ (to_unsigned (f g.world) ≠ 0 ∧ to_unsigned (f g.world) ≠ UINT_MAX) := by
      rcases h0 with h | h
      · exact fun hh => hh.1 h
      · exact fun hh => hh.2 h
    constructor
    · rw [if_pos htray, if_neg hen]
      simp [core_call.is_request]
    · rw [if_pos htray, if_neg hen]
      simp [core_call.is_request]

end saturate

/-- C25 at the example core with 2 images, the second one current, tray open:
next stays at index 1, prev goes to index 0. -/
theorem disk_next_prev_saturate_witness :
    sample_context.disk_control.get_eject_state
        ({ sample_context with
          world := { sample_core with ejected := true, image_index := 1 } }).world = true
    ∧ (calls_made
        { sample_context with world := { sample_core with ejected := true, image_index := 1 } }
        (rarch_main_command sample_config sample_externals rarch_cmd.RARCH_CMD_DISK_NEXT
          { sample_context with
            world := { sample_core with ejected := true, image_index := 1 } }).2).filter
        core_call.is_request
      = [core_call.set_image_index 1]
    ∧ (calls_made
        { sample_context with world := { sample_core with ejected := true, image_index := 1 } }
        (rarch_main_command sample_config sample_externals rarch_cmd.RARCH_CMD_DISK_PREV
          { sample_context with
            world := { sample_core with ejected := true, image_index := 1 } }).2).filter
        core_call.is_request
      = [core_call.set_image_index 0] :=
  ⟨rfl,
    ((disk_next_prev_saturate sample_config sample_externals
      { sample_context with world := { sample_core with ejected := true, image_index := 1 } }
      (fun w => w.num_images) rfl rfl).1 (by decide) (by decide) (by decide)).1,
    ((disk_next_prev_saturate sample_config sample_externals
      { sample_context with world := { sample_core with ejected := true, image_index := 1 } }
      (fun w => w.num_images) rfl rfl).1 (by decide) (by decide) (by decide)).2.1⟩

/-! ## Base name, cheat file and the first rewind snapshot -/

section basename
variable {σ : Type}

/-- Without compression support `set_basename` cuts the path at its last `.`,
wherever that is. -/
theorem set_basename_cut (cfg : build_config) (ext : externals σ) (path : cstring)
    (g : rarch_context σ) (hc : cfg.HAVE_COMPRESSION = false)
    (hfits : path.length < cfg.PATH_MAX_LENGTH) :
    (set_basename cfg ext path g).fullpath = path
    ∧ (set_basename cfg ext path g).basename
      = match strrchr path '.' with
        | some dst => path.take dst
        | none => path := by
  simp [set_basename, hc, strlcpy_of_fits _ _ hfits]

end basename

/-- C26, the failing input: the content `/roms.v2/game`, whose final component
has no extension and whose directory has a `.`.  `set_basename` stores `/roms` in
`basename`, not the path unchanged; removing the extension of the final component
only would leave `/roms.v2/game`.  On `/file/to/path/game.extension` the two
agree. -/
theorem set_basename_cuts_directory_name :
    (set_basename sample_config sample_externals "/roms.v2/game".toList sample_context).fullpath
      = "/roms.v2/game".toList
    ∧ (set_basename sample_config sample_externals "/roms.v2/game".toList
        sample_context).basename = "/roms".toList
    ∧ without_final_extension "/roms.v2/game".toList = "/roms.v2/game".toList
    ∧ (set_basename sample_config sample_externals "/file/to/path/game.extension".toList
        sample_context).basename = "/file/to/path/game".toList
    ∧ without_final_extension "/file/to/path/game.extension".toList
      = "/file/to/path/game".toList := by
  decide

section cheat
variable {σ : Type}

theorem set_paths_redirect_cheatfile (cfg : build_config) (ext : externals σ)
    (path : cstring) (g : rarch_context σ) :
    (set_paths_redirect cfg ext path g).cheatfile_name
      = if ext.path_is_directory g.cheatfile_name g.world = true then
          ext.fill_pathname_dir g.cheatfile_name g.basename ".state".toList cfg.PATH_MAX_LENGTH
        else g.cheatfile_name := by
  unfold set_paths_redirect
  lift_lets
  intro g1 g2
  have h1 : g1.cheatfile_name = g.cheatfile_name ∧ g1.basename = g.basename
      ∧ g1.world = g.world := by
    dsimp only [g1]
    split_ifs <;> exact ⟨rfl, rfl, rfl⟩
  have h2 : g2.cheatfile_name = g1.cheatfile_name ∧ g2.basename = g1.basename
      ∧ g2.world = g1.world := by
    dsimp only [g2]
    split_ifs <;> exact ⟨rfl, rfl, rfl⟩
  have e1 : g2.cheatfile_name = g.cheatfile_name := h2.1.trans h1.1
  have e2 : g2.basename = g.basename := h2.2.1.trans h1.2.1
  have e3 : g2.world = g.world := h2.2.2.trans h1.2.2
  rw [← e1, ← e2, ← e3]
  split_ifs <;> rfl

/-- What `set_paths` leaves in `cheatfile_name`: the base name with `.cht`, and,
when that is a directory, the file in it named after the content with the
extension `.state`. -/
theorem set_paths_cheatfile (cfg : build_config) (ext : externals σ) (path : cstring)
    (g : rarch_context σ) :
    (set_paths cfg ext path g).cheatfile_name
      = if ext.path_is_directory
            (ext.fill_pathname_noext (set_basename cfg ext path g).basename ".cht".toList
              cfg.PATH_MAX_LENGTH) g.world = true then
          ext.fill_pathname_dir
            (ext.fill_pathname_noext (set_basename cfg ext path g).basename ".cht".toList
              cfg.PATH_MAX_LENGTH)
            (set_basename cfg ext path g).basename ".state".toList cfg.PATH_MAX_LENGTH
        else
          ext.fill_pathname_noext (set_basename cfg ext path g).basename ".cht".toList
            cfg.PATH_MAX_LENGTH := by
  unfold set_paths
  lift_lets
  intro g1 g2 g3 g4 g5
  have h2 : g2.basename = g1.basename ∧ g2.world = g1.world := by
    dsimp only [g2]
    split_ifs <;> exact ⟨rfl, rfl⟩
  have h3 : g3.basename = g2.basename ∧ g3.world = g2.world := by
    dsimp only [g3]
    split_ifs <;> exact ⟨rfl, rfl⟩
  have hb : g3.basename = g1.basename := h3.1.trans h2.1
  have hw : g3.world = g.world := h3.2.trans h2.2
  have h4c : g4.cheatfile_name
      = ext.fill_pathname_noext g1.basename ".cht".toList cfg.PATH_MAX_LENGTH := by
    dsimp only [g4]
    rw [hb]
  have h4b : g4.basename = g1.basename := hb
  have h4w : g4.world = g.world := hw
  have h5 : g5.cheatfile_name
      = if ext.path_is_directory g4.cheatfile_name g4.world = true then
          ext.fill_pathname_dir g4.cheatfile_name g4.basename ".state".toList
            cfg.PATH_MAX_LENGTH
        else g4.cheatfile_name := set_paths_redirect_cheatfile cfg ext path g4
  rw [h4c, h4b, h4w] at h5
  have hfin : (if g5.system_directory ≠ [] then g5
      else { g5 with
        system_directory := ext.fill_pathname_basedir path cfg.PATH_MAX_LENGTH }).cheatfile_name
      = g5.cheatfile_name := by
    split_ifs <;> rfl
  rw [hfin, h5]

end cheat

/-- C30, the failing input: the example content `/roms/game.bin` when
`/roms/game.cht` is a directory.  `set_paths` leaves the cheat file name
`/roms/game.cht/game.state`: the redirection appends `.state`, not `.cht`. -/
theorem set_paths_redirects_cheat_to_state :
    (set_paths sample_config sample_externals "/roms/game.bin".toList
      { sample_context with
        world := { sample_core with directories := ["/roms/game.cht".toList] } }).cheatfile_name
      = "/roms/game.cht/game.state".toList
    ∧ (set_paths sample_config sample_externals "/roms/game.bin".toList
        sample_context).cheatfile_name = "/roms/game.cht".toList := by
  decide

section rewind
variable {σ : Type}

/-- When `init_rewind` gets as far as `state_manager_new`, it goes on to push the
initial snapshot with whatever handle came back, null included. -/
theorem init_rewind_pushes_with_any_handle (cfg : build_config) (ext : externals σ)
    (g : rarch_context σ)
    (hnet : (cfg.HAVE_NETPLAY && g.netplay_data.isSome) = false)
    (hen : g.rewind_enable = true) (hst : g.rewind_state = none)
    (hcb : g.system_audio_callback = false)
    (hsz : ext.pretro_serialize_size g.world ≠ 0) :
    ∃ made where_ serialized done,
      calls_logged g (init_rewind cfg ext g)
        = [rarch_call.external extern_fn.state_manager_new
            [cval.int (ext.pretro_serialize_size g.world), cval.int g.rewind_buffer_size] made,
          rarch_call.external extern_fn.state_manager_push_where
            [cval.of_handle made.to_handle] where_,
          rarch_call.external extern_fn.pretro_serialize
            [where_, cval.int (ext.pretro_serialize_size g.world)] serialized,
          rarch_call.external extern_fn.state_manager_push_do
            [cval.of_handle made.to_handle] done]
      ∧ (init_rewind cfg ext g).rewind_state = made.to_handle
      ∧ made = (ext.call extern_fn.state_manager_new
          [cval.int (ext.pretro_serialize_size g.world), cval.int g.rewind_buffer_size]
          g.world).1 := by
  refine ⟨(extern_call ext extern_fn.state_manager_new
      [cval.int (ext.pretro_serialize_size g.world), cval.int g.rewind_buffer_size] g).1,
    (ext.call extern_fn.state_manager_push_where
      [cval.of_handle (ext.call extern_fn.state_manager_new
        [cval.int (ext.pretro_serialize_size g.world), cval.int g.rewind_buffer_size]
        g.world).1.to_handle]
      (ext.call extern_fn.state_manager_new
        [cval.int (ext.pretro_serialize_size g.world), cval.int g.rewind_buffer_size]
        g.world).2).1,
    (ext.call extern_fn.pretro_serialize
      [(ext.call extern_fn.state_manager_push_where
        [cval.of_handle (ext.call extern_fn.state_manager_new
          [cval.int (ext.pretro_serialize_size g.world), cval.int g.rewind_buffer_size]
          g.world).1.to_handle]
        (ext.call extern_fn.state_manager_new
          [cval.int (ext.pretro_serialize_size g.world), cval.int g.rewind_buffer_size]
          g.world).2).1, cval.int (ext.pretro_serialize_size g.world)]
      (ext.call extern_fn.state_manager_push_where
        [cval.of_handle (ext.call extern_fn.state_manager_new
          [cval.int (ext.pretro_serialize_size g.world), cval.int g.rewind_buffer_size]
          g.world).1.to_handle]
        (ext.call extern_fn.state_manager_new
          [cval.int (ext.pretro_serialize_size g.world), cval.int g.rewind_buffer_size]
          g.world).2).2).1,
    (ext.call extern_fn.state_manager_push_do
      [cval.of_handle (ext.call extern_fn.state_manager_new
        [cval.int (ext.pretro_serialize_size g.world), cval.int g.rewind_buffer_size]
        g.world).1.to_handle]
      (ext.call extern_fn.pretro_serialize
        [(ext.call extern_fn.state_manager_push_where
          [cval.of_handle (ext.call extern_fn.state_manager_new
            [cval.int (ext.pretro_serialize_size g.world), cval.int g.rewind_buffer_size]
            g.world).1.to_handle]
          (ext.call extern_fn.state_manager_new
            [cval.int (ext.pretro_serialize_size g.world), cval.int g.rewind_buffer_size]
            g.world).2).1, cval.int (ext.pretro_serialize_size g.world)]
        (ext.call extern_fn.state_manager_push_where
          [cval.of_handle (ext.call extern_fn.state_manager_new
            [cval.int (ext.pretro_serialize_size g.world), cval.int g.rewind_buffer_size]
            g.world).1.to_handle]
          (ext.call extern_fn.state_manager_new
            [cval.int (ext.pretro_serialize_size g.world), cval.int g.rewind_buffer_size]
            g.world).2).2).2).1, ?_, ?_, rfl⟩
  · apply calls_logged_append
    simp [init_rewind, hnet, hen, hst, hcb, hsz, extern_call]
  · simp [init_rewind, hnet, hen, hst, hcb, hsz, extern_call]

end rewind

/-- C27, the failing input: rewind enabled on the example core when
`state_manager_new` returns null.  `init_rewind` leaves the handle null and calls
`state_manager_push_where`, `pretro_serialize` and `state_manager_push_do` all the
same, the first and the last with the null handle. -/
theorem init_rewind_pushes_to_null_handle :
    (init_rewind sample_config sample_externals_without_rewind_buffer
      { sample_context with rewind_enable := true }).rewind_state = none
    ∧ calls_logged { sample_context with rewind_enable := true }
        (init_rewind sample_config sample_externals_without_rewind_buffer
          { sample_context with rewind_enable := true })
      = [rarch_call.external extern_fn.state_manager_new
          [cval.int 1024, cval.int 20971520] cval.null,
        rarch_call.external extern_fn.state_manager_push_where [cval.null] (cval.ptr 10),
        rarch_call.external extern_fn.pretro_serialize [cval.ptr 10, cval.int 1024]
          (cval.bool true),
        rarch_call.external extern_fn.state_manager_push_do [cval.null] (cval.bool true)] := by
  decide

/-! ## Values that are no opcode -/

section dispatch
variable {σ : Type}

/-- Every opcode of `rarch_cmd` is a label of the switch. -/
theorem case_labels_complete (c : rarch_cmd) : c ∈ case_labels := by
  cases c <;> decide

/-- On the value of a case label the dispatcher runs that case, when the opcodes
have distinct values. -/
theorem main_command_of_label (cfg : build_config) (ext : externals σ)
    (basic_event_value : rarch_cmd → Nat) (hinj : Function.Injective basic_event_value)
    (c : rarch_cmd) (g : rarch_context σ) :
    rarch_main_command_unsigned cfg ext basic_event_value (basic_event_value c) g
      = rarch_main_command cfg ext c g := by
  unfold rarch_main_command_unsigned
  cases hfind : case_labels.find?
      (fun x => decide (basic_event_value x = basic_event_value c)) with
  | none =>
    have := List.find?_eq_none.mp hfind c (case_labels_complete c)
    simp at this
  | some x =>
    have hx := List.find?_some hfind
    simp only [decide_eq_true_eq] at hx
    rw [hinj hx]

/-- C28: `rarch_main_command` returns for every value of its `unsigned`
parameter, and for a value that is not the value of any opcode with a case in the
switch it returns true and leaves the context as it was. -/
theorem main_command_unknown_opcode (cfg : build_config) (ext : externals σ)
    (basic_event_value : rarch_cmd → Nat) (cmd : Nat) (g : rarch_context σ)
    (hunknown : ∀ c, basic_event_value c ≠ cmd) :
    rarch_main_command_unsigned cfg ext basic_event_value cmd g = (true, g) := by
  unfold rarch_main_command_unsigned
  have hfind : case_labels.find? (fun c => decide (basic_event_value c = cmd)) = none :=
    List.find?_eq_none.mpr (fun c _ => by simp [hunknown c])
  rw [hfind]

end dispatch

/-- C28 at an example: with the cases numbered from 1, the values 0 and 89 are
no opcode; the commands leave the example context as it is and return true. -/
theorem main_command_unknown_opcode_witness :
    (∀ c, sample_basic_event_value c ≠ 0)
    ∧ rarch_main_command_unsigned sample_config sample_externals sample_basic_event_value 0
        sample_context = (true, sample_context)
    ∧ rarch_main_command_unsigned sample_config sample_externals sample_basic_event_value 89
        sample_context = (true, sample_context) :=
  ⟨fun c => Nat.succ_ne_zero _,
    main_command_unknown_opcode sample_config sample_externals sample_basic_event_value 0
      sample_context (fun c => Nat.succ_ne_zero _),
    main_command_unknown_opcode sample_config sample_externals sample_basic_event_value 89
      sample_context (fun c => by
        have h := List.indexOf_lt_length.mpr (case_labels_complete c)
        have hl : case_labels.length = 88 := by decide
        unfold sample_basic_event_value
        omega)⟩

/-! ## Controllers -/

section controllers
variable {σ : Type}

theorem init_controllers_port_eq (ext : externals σ) (i : Nat) (g : rarch_context σ) :
    init_controllers_port ext i g
      = if controller_connected ext g i = true then
          (extern_call ext extern_fn.pretro_set_controller_port_device
            [cval.int i, cval.int (g.input_libretro_device i)] g).2
        else g := by
  unfold init_controllers_port controller_connected controller_described
  simp only [RETRO_DEVICE_NONE, RETRO_DEVICE_JOYPAD]
  by_cases hp : i < g.system_num_ports
  · cases hf : ext.libretro_find_controller_description (g.system_ports i)
        (g.input_libretro_device i) with
    | none =>
      by_cases h0 : g.input_libretro_device i = 0
      · simp [hp, hf, h0]
      · by_cases h1 : g.input_libretro_device i = 1
        · simp [hp, hf, h1]
        · simp [hp, hf, h0, h1]
    | some d =>
      cases hd : d.desc with
      | none =>
        by_cases h0 : g.input_libretro_device i = 0
        · simp [hp, hf, hd, h0]
        · by_cases h1 : g.input_libretro_device i = 1
          · simp [hp, hf, hd, h1]
          · simp [hp, hf, hd, h0, h1]
      | some name =>
        by_cases h0 : g.input_libretro_device i = 0
        · simp [hp, hf, hd, h0]
        · by_cases h1 : g.input_libretro_device i = 1
          · simp [hp, hf, hd, h1]
          · simp [hp, hf, hd, h0, h1]
  · by_cases h0 : g.input_libretro_device i = 0
    · simp [hp, h0]
    · by_cases h1 : g.input_libretro_device i = 1
      · simp [hp, h1]
      · simp [hp, h0, h1]

/-- The loop of `init_controllers` over a list of ports: the configuration of the
ports is left as it was, and the calls made are one
`pretro_set_controller_port_device(i, device)` for each port that is connected,
in order. -/
theorem init_controllers_loop (ext : externals σ) (ports : List Nat) (g : rarch_context σ) :
    (ports.foldl (fun g i => init_controllers_port ext i g) g).input_libretro_device
        = g.input_libretro_device
    ∧ (ports.foldl (fun g i => init_controllers_port ext i g) g).system_num_ports
        = g.system_num_ports
    ∧ (ports.foldl (fun g i => init_controllers_port ext i g) g).system_ports = g.system_ports
    ∧ ∃ l, (ports.foldl (fun g i => init_controllers_port ext i g) g).log = g.log ++ l
      ∧ l.filterMap rarch_call.request
        = (ports.filter (controller_connected ext g)).map fun (i : Nat) =>
            (extern_fn.pretro_set_controller_port_device,
              [cval.int i, cval.int (g.input_libretro_device i)]) := by
  induction ports generalizing g with
  | nil => exact ⟨rfl, rfl, rfl, [], by simp, rfl⟩
  | cons i rest ih =>
    rw [List.foldl_cons]
    have hstep : (init_controllers_port ext i g).input_libretro_device = g.input_libretro_device
        ∧ (init_controllers_port ext i g).system_num_ports = g.system_num_ports
        ∧ (init_controllers_port ext i g).system_ports = g.system_ports := by
      rw [init_controllers_port_eq]
      split_ifs <;> exact ⟨rfl, rfl, rfl⟩
    have hconn : controller_connected ext (init_controllers_port ext i g)
        = controller_connected ext g := by
      funext j
      unfold controller_connected controller_described
      rw [hstep.1, hstep.2.1, hstep.2.2]
    obtain ⟨h1, h2, h3, l, hl, hf⟩ := ih (init_controllers_port ext i g)
    refine ⟨h1.trans hstep.1, h2.trans hstep.2.1, h3.trans hstep.2.2, ?_⟩
    rw [hconn, hstep.1] at hf
    by_cases hc : controller_connected ext g i = true
    · refine ⟨rarch_call.external extern_fn.pretro_set_controller_port_device
        [cval.int i, cval.int (g.input_libretro_device i)]
        (ext.call extern_fn.pretro_set_controller_port_device
          [cval.int i, cval.int (g.input_libretro_device i)] g.world).1 :: l, ?_, ?_⟩
      · rw [hl, init_controllers_port_eq, if_pos hc]
        simp [extern_call]
      · simp [rarch_call.request, List.filter_cons, hc, hf]
    · refine ⟨l, ?_, ?_⟩
      · rw [hl, init_controllers_port_eq, if_neg hc]
      · simp [List.filter_cons, hc, hf]

/-- C29: `init_controllers` leaves the configured device ids as they are, and the
calls it makes are, port by port in increasing order, one call
`pretro_set_controller_port_device(i, d)` with the configured id `d` of port `i`,
for exactly those ports `i < MAX_USERS` whose device is `RETRO_DEVICE_NONE`, or is
not `RETRO_DEVICE_JOYPAD` and is described by the core for that port.  So each port
gets at most one call (no call is repeated, and the id passed is determined by the
port), and a device that the core does not describe, which falls back to the
joypad, gets none. -/
theorem init_controllers_calls (cfg : build_config) (ext : externals σ)
    (g : rarch_context σ) :
    (init_controllers cfg ext g).input_libretro_device = g.input_libretro_device
    ∧ (calls_logged g (init_controllers cfg ext g)).filterMap rarch_call.request
      = ((List.range cfg.MAX_USERS).filter (controller_connected ext g)).map
          (fun (i : Nat) => (extern_fn.pretro_set_controller_port_device,
            [cval.int i, cval.int (g.input_libretro_device i)]))
    ∧ (∀ (i x : Nat), (extern_fn.pretro_set_controller_port_device, [cval.int i, cval.int x])
          ∈ (calls_logged g (init_controllers cfg ext g)).filterMap rarch_call.request →
        i < cfg.MAX_USERS ∧ x = g.input_libretro_device i
        ∧ (g.input_libretro_device i = RETRO_DEVICE_NONE
          ∨ (g.input_libretro_device i ≠ RETRO_DEVICE_JOYPAD
            ∧ controller_described ext g i = true)))
    ∧ ((calls_logged g (init_controllers cfg ext g)).filterMap rarch_call.request).Nodup
    ∧ (∀ i : Nat, g.input_libretro_device i ≠ RETRO_DEVICE_NONE →
        controller_described ext g i = false →
        ∀ x : Nat, (extern_fn.pretro_set_controller_port_device, [cval.int i, cval.int x])
          ∉ (calls_logged g (init_controllers cfg ext g)).filterMap rarch_call.request) := by
  obtain ⟨h1, _, _, l, hl, hf⟩ := init_controllers_loop ext (List.range cfg.MAX_USERS) g
  have hreq : (calls_logged g (init_controllers cfg ext g)).filterMap rarch_call.request
      = ((List.range cfg.MAX_USERS).filter (controller_connected ext g)).map
          (fun (i : Nat) => (extern_fn.pretro_set_controller_port_device,
            [cval.int i, cval.int (g.input_libretro_device i)])) := by
    unfold init_controllers
    rw [calls_logged_append g _ l hl, hf]
  have hmem : ∀ (i x : Nat), (extern_fn.pretro_set_controller_port_device,
        [cval.int i, cval.int x])
        ∈ (calls_logged g (init_controllers cfg ext g)).filterMap rarch_call.request →
      i < cfg.MAX_USERS ∧ x = g.input_libretro_device i
        ∧ controller_connected ext g i = true := by
    intro i x hm
    rw [hreq, List.mem_map] at hm
    obtain ⟨j, hj, he⟩ := hm
    rw [List.mem_filter, List.mem_range] at hj
    simp only [Prod.mk.injEq, List.cons.injEq, cval.int.injEq, Nat.cast_inj, and_true,
      true_and] at he
    obtain ⟨e1, e2⟩ := he
    subst e1
    exact ⟨hj.1, e2.symm, hj.2⟩
  refine ⟨h1, hreq, ?_, ?_, ?_⟩
  · intro i x hm
    obtain ⟨a, b, c⟩ := hmem i x hm
    refine ⟨a, b, ?_⟩
    unfold controller_connected at c
    simp only [Bool.or_eq_true, Bool.and_eq_true, decide_eq_true_eq] at c
    exact c
  · rw [hreq]
    have hnd : (((List.range cfg.MAX_USERS).filter (controller_connected ext g)).map
        (fun (i : Nat) => (extern_fn.pretro_set_controller_port_device,
          [cval.int i, cval.int (g.input_libretro_device i)]))).Nodup := by
      refine List.Nodup.map ?_ ((List.nodup_range _).filter _)
      intro a b hab
      simp only [Prod.mk.injEq, List.cons.injEq, cval.int.injEq, Nat.cast_inj, and_true,
        true_and] at hab
      exact hab.1
    exact hnd
  · intro i h0 hd x hm
    obtain ⟨_, _, c⟩ := hmem i x hm
    unfold controller_connected at c
    simp [h0, hd] at c

end controllers

/-- C29 at an example, in a build with four users: the mouse of port 0 and the
empty port 1 get one call each; port 2, whose device the core does not know, and
port 3, a joypad, get none. -/
theorem init_controllers_calls_witness :
    (calls_logged sample_context_with_controllers
      (init_controllers { sample_config with MAX_USERS := 4 } sample_externals
        sample_context_with_controllers)).filterMap rarch_call.request
      = [(extern_fn.pretro_set_controller_port_device, [cval.int 0, cval.int 2]),
        (extern_fn.pretro_set_controller_port_device, [cval.int 1, cval.int 0])] :=
  (init_controllers_calls { sample_config with MAX_USERS := 4 } sample_externals
    sample_context_with_controllers).2.1.trans (by decide)

end RetroArch
